import Mathlib

/-! The Wolf Engine render graph (`Wolf::Scene`).

A shallow embedding of `Third Party/Wolf Engine/includes/Scene.cpp` and
`RenderPass.cpp`: the pass registry, the recorder and the frame submitter.

Conventions of the embedding.

* A member function that mutates the `Scene` is a function from the state to the
  new state; when it returns a value the result is a pair.
* Undefined behaviour of the C++ source (indexing a `std::vector` out of range,
  dereferencing an empty `std::unique_ptr` or a null pointer) is the result `none`.
* `int` indices are `Int`; converting a negative `int` to `size_t` gives an index no
  vector has, so indexing with it is `none`.
* `Debug::sendError`, `sendWarning` and `sendInfo` append to the `debug` log of the state.
* Vulkan objects created through the driver are recorded by the arguments they were
  created from; command buffers are the list of commands recorded into them.
-/

namespace Wolf

/-! ## Vulkan constants (values of `vulkan_core.h`) -/

def VK_NULL_HANDLE : Nat := 0

def VK_SAMPLE_COUNT_1_BIT : Nat := 1

def VK_IMAGE_LAYOUT_UNDEFINED : Nat := 0
def VK_IMAGE_LAYOUT_GENERAL : Nat := 1
def VK_IMAGE_LAYOUT_DEPTH_STENCIL_ATTACHMENT_OPTIMAL : Nat := 3
def VK_IMAGE_LAYOUT_TRANSFER_SRC_OPTIMAL : Nat := 6
def VK_IMAGE_LAYOUT_TRANSFER_DST_OPTIMAL : Nat := 7
def VK_IMAGE_LAYOUT_PRESENT_SRC_KHR : Nat := 1000001002

def VK_ATTACHMENT_LOAD_OP_CLEAR : Nat := 1
def VK_ATTACHMENT_STORE_OP_STORE : Nat := 0
def VK_ATTACHMENT_STORE_OP_DONT_CARE : Nat := 1

def VK_IMAGE_USAGE_COLOR_ATTACHMENT_BIT : Nat := 0x10
def VK_IMAGE_USAGE_DEPTH_STENCIL_ATTACHMENT_BIT : Nat := 0x20

def VK_DESCRIPTOR_TYPE_SAMPLER : Nat := 0
def VK_DESCRIPTOR_TYPE_COMBINED_IMAGE_SAMPLER : Nat := 1
def VK_DESCRIPTOR_TYPE_SAMPLED_IMAGE : Nat := 2
def VK_DESCRIPTOR_TYPE_STORAGE_IMAGE : Nat := 3
def VK_DESCRIPTOR_TYPE_UNIFORM_BUFFER : Nat := 6
def VK_DESCRIPTOR_TYPE_STORAGE_BUFFER : Nat := 7
def VK_DESCRIPTOR_TYPE_ACCELERATION_STRUCTURE_NV : Nat := 1000165000

def VK_SHADER_STAGE_COMPUTE_BIT : Nat := 0x20
def VK_SHADER_STAGE_RAYGEN_BIT_NV : Nat := 0x100

def VK_PIPELINE_STAGE_TOP_OF_PIPE_BIT : Nat := 0x1
def VK_PIPELINE_STAGE_COMPUTE_SHADER_BIT : Nat := 0x800
def VK_PIPELINE_STAGE_TRANSFER_BIT : Nat := 0x1000

def VK_FORMAT_R8G8B8A8_UNORM : Nat := 37

/-! ## Containers -/

/-- The element `v[i]` of a vector indexed by an `int`: `none` when the access is
out of range. -/
def at? {α : Type} (v : List α) (i : Int) : Option α :=
  if 0 ≤ i then v[i.toNat]? else none

/-- The assignment `v[i] = x` through an `int` index: `none` when out of range. -/
def setAt? {α : Type} (v : List α) (i : Int) (x : α) : Option (List α) :=
  if 0 ≤ i ∧ i.toNat < v.length then some (v.set i.toNat x) else none

/-- The call `v.resize(n)`: the first `n` elements are kept and the vector is padded
with value-initialised elements `d`. -/
def resize {α : Type} (v : List α) (n : Nat) (d : α) : List α :=
  v.take n ++ List.replicate (n - v.length) d

/-- The conversion of an `int` to the 64-bit `size_t`. -/
def toSizeT (i : Int) : Nat := (i % (2 ^ 64 : Int)).toNat

/-- The `size_t` expression `n - 1` (it wraps to `2^64 - 1` when `n = 0`). -/
def sizeMinusOne (n : Nat) : Nat := (n + (2 ^ 64 - 1)) % 2 ^ 64

/-! ## The diagnostic channel -/

inductive Severity where
  | info
  | warning
  | error
deriving DecidableEq, Repr

/-- One call of `Debug::sendInfo`, `sendWarning` or `sendError`: the text of the message
and the numbers printed in it. -/
structure DebugMessage where
  severity : Severity
  text : String
  values : List Int := []
deriving DecidableEq, Repr

/-- The two preprocessor symbols the source tests. -/
structure Build where
  _DEBUG : Bool
  NDEBUG : Bool
deriving DecidableEq, Repr

/-! ## Resources -/

structure VkExtent2D where
  width : Nat
  height : Nat
deriving DecidableEq, Repr, Inhabited

/-- A `Wolf::Image` as the scene sees it, through `getImage`, `getExtent`, `getFormat`. -/
structure Image where
  image : Nat
  extent : VkExtent2D
  format : Nat
deriving DecidableEq, Repr, Inhabited

/-- A `VkClearValue`, read as `color.float32[0..3]`. The source writes only the constants
`0.0f` and `1.0f` and tests the sign of component 0, so the components are integers. -/
structure VkClearValue where
  float32_0 : Int := 0
  float32_1 : Int := 0
  float32_2 : Int := 0
  float32_3 : Int := 0
deriving DecidableEq, Repr, Inhabited

/-- Modelled from the spec: the class `Attachment` (its header is not part of the
sources). "output attachment descriptions (format, sample count, load/store policy,
clear value)", with the extent, final layout and usage the source reads. -/
structure Attachment where
  extent : VkExtent2D
  format : Nat
  sampleCount : Nat
  finalLayout : Nat
  storeOperation : Nat
  usageType : Nat
  loadOperation : Nat := VK_ATTACHMENT_LOAD_OP_CLEAR
deriving DecidableEq, Repr, Inhabited

structure RenderPassOutput where
  clearValue : VkClearValue
  attachment : Attachment
deriving DecidableEq, Repr, Inhabited

/-- The physical device, through the one query the scene makes of it. -/
structure VkPhysicalDevice where
  depthFormat : Nat
deriving DecidableEq, Repr, Inhabited

def findDepthFormat (physicalDevice : VkPhysicalDevice) : Nat := physicalDevice.depthFormat

/-! ## Descriptor sets -/

structure DescriptorLayout where
  descriptorType : Nat
  accessibility : Nat
  count : Nat
  binding : Nat
deriving DecidableEq, Repr, Inhabited

/-- The member `DescriptorSetCreateInfo::ImageData`; `rest` stands for the members other
than `image` (zero in a value-initialised object). -/
structure ImageData where
  image : Option Image := none
  rest : Nat := 0
deriving DecidableEq, Repr, Inhabited

structure DescriptorSetCreateInfo where
  descriptorBuffers : List (List Nat × DescriptorLayout) := []
  descriptorImages : List (List ImageData × DescriptorLayout) := []
  descriptorDefault : List (Nat × DescriptorLayout) := []
deriving DecidableEq, Repr, Inhabited

/-- The seven counters of the pool-sizing accumulator. -/
structure DescriptorPoolSizes where
  uniformBuffer : Nat := 0
  storageBuffer : Nat := 0
  storageImage : Nat := 0
  combinedImageSampler : Nat := 0
  sampledImage : Nat := 0
  sampler : Nat := 0
  accelerationStructure : Nat := 0
deriving DecidableEq, Repr, Inhabited

/-- Modelled from the spec: the class `DescriptorPool` (its header is not part of the
sources). "Resource Pool Sizing Accumulator — tracks how many descriptor slots of each
kind will be needed, across every pass registered so far": the counters `sizes`. The
pool is "allocated exactly once, immediately before recording", "at its accumulated
size": `allocated` is the capacity of the pool once it is allocated. -/
structure DescriptorPool where
  sizes : DescriptorPoolSizes := {}
  allocated : Option DescriptorPoolSizes := none
deriving DecidableEq, Repr, Inhabited

namespace DescriptorPool

def addUniformBuffer (p : DescriptorPool) (count : Nat) : DescriptorPool :=
  { p with sizes := { p.sizes with uniformBuffer := p.sizes.uniformBuffer + count } }

def addStorageBuffer (p : DescriptorPool) (count : Nat) : DescriptorPool :=
  { p with sizes := { p.sizes with storageBuffer := p.sizes.storageBuffer + count } }

def addStorageImage (p : DescriptorPool) (count : Nat) : DescriptorPool :=
  { p with sizes := { p.sizes with storageImage := p.sizes.storageImage + count } }

def addCombinedImageSampler (p : DescriptorPool) (count : Nat) : DescriptorPool :=
  { p with sizes :=
      { p.sizes with combinedImageSampler := p.sizes.combinedImageSampler + count } }

def addSampledImage (p : DescriptorPool) (count : Nat) : DescriptorPool :=
  { p with sizes := { p.sizes with sampledImage := p.sizes.sampledImage + count } }

def addSampler (p : DescriptorPool) (count : Nat) : DescriptorPool :=
  { p with sizes := { p.sizes with sampler := p.sizes.sampler + count } }

def addAccelerationStructure (p : DescriptorPool) (count : Nat) : DescriptorPool :=
  { p with sizes :=
      { p.sizes with accelerationStructure := p.sizes.accelerationStructure + count } }

/-- Modelled from the spec: `allocate` creates the pool "at its accumulated size"; the
pool is "allocated exactly once", so the call on a pool that is allocated leaves it as
it is. -/
def allocate (p : DescriptorPool) : DescriptorPool :=
  match p.allocated with
  | none => { p with allocated := some p.sizes }
  | some _ => p

/-- The handle `getDescriptorPool()`: the pool, once it is allocated. -/
def getDescriptorPool (p : DescriptorPool) : Option DescriptorPoolSizes :=
  p.allocated

end DescriptorPool

/-! ## Passes and their parts -/

/-- A `std::function<void(void*, VkCommandBuffer)>` hook, known by its identity. -/
abbrev Callback := Nat

structure DispatchGroups where
  width : Nat
  height : Nat
  depth : Nat
deriving DecidableEq, Repr, Inhabited

/-- The handle returned by `vkCreateRenderPass`, recorded by the attachments it
was created from. -/
structure VkRenderPass where
  attachments : List Attachment
deriving DecidableEq, Repr, Inhabited

/-- Modelled from the spec: the class `Framebuffer` (its header is not part of the
sources); one "per presentable-image replica", recorded by the arguments of its
`initialize` call: a target image or a target extent. -/
inductive Framebuffer where
  | onImage (renderPass : VkRenderPass) (image : Image) (attachments : List Attachment)
  | onExtent (renderPass : VkRenderPass) (extent : VkExtent2D) (attachments : List Attachment)
  | uninitialized
deriving DecidableEq, Repr, Inhabited

def Framebuffer.getExtent : Framebuffer → VkExtent2D
  | .onImage _ image _ => image.extent
  | .onExtent _ extent _ => extent
  | .uninitialized => default

structure RenderPass where
  m_renderPass : VkRenderPass
  m_framebuffers : List Framebuffer
deriving DecidableEq, Repr, Inhabited

namespace RenderPass

/-- `RenderPass::createRenderPass`: the driver object made from the attachments. -/
def createRenderPass (attachments : List Attachment) : VkRenderPass := ⟨attachments⟩

/-- `RenderPass::initialize(..., attachments, std::vector<VkExtent2D> extents)`. -/
def initializeExtents (attachments : List Attachment) (extents : List VkExtent2D) :
    RenderPass :=
  let m_renderPass := createRenderPass attachments
  let m_framebuffers := resize ([] : List Framebuffer) extents.length .uninitialized
  { m_renderPass := m_renderPass
    m_framebuffers := extents.enum.foldl
      (fun fbs ie => fbs.set ie.1 (.onExtent m_renderPass ie.2 attachments)) m_framebuffers }

/-- `RenderPass::initialize(..., attachments, std::vector<Image*> images)`. -/
def initializeImages (attachments : List Attachment) (images : List Image) : RenderPass :=
  let m_renderPass := createRenderPass attachments
  let m_framebuffers := resize ([] : List Framebuffer) images.length .uninitialized
  { m_renderPass := m_renderPass
    m_framebuffers := images.enum.foldl
      (fun fbs ie => fbs.set ie.1 (.onImage m_renderPass ie.2 attachments)) m_framebuffers }

end RenderPass

structure VertexBuffer where
  vertexBuffer : Nat
  nbIndices : Nat
  indexBuffer : Nat
deriving DecidableEq, Repr, Inhabited

structure InstanceBuffer where
  nInstances : Nat := 0
  instanceBuffer : Nat := VK_NULL_HANDLE
deriving DecidableEq, Repr, Inhabited

inductive InputVertexTemplate where
  | POSITION_2D
  | POSITION_TEXTURECOORD_2D
  | POSITION_TEXTURECOORD_ID_2D
  | FULL_3D_MATERIAL
  | NO
  | other (value : Nat)
deriving DecidableEq, Repr, Inhabited

inductive InstanceTemplate where
  | SINGLE_ID
  | NO
  | other (value : Nat)
deriving DecidableEq, Repr, Inhabited

/-- The vertex and instance layouts of `InputVertexTemplate.h`, which is not part of
the sources. -/
inductive VertexLayout where
  | Vertex2D
  | Vertex2DTextured
  | Vertex2DTexturedWithMaterial
  | Vertex3D
  | InstanceSingleID
deriving DecidableEq, Repr, Inhabited

/-- The vertex-input descriptions a pipeline is created with, each known by the call
that produced it: `getBindingDescription` or `getAttributeDescriptions` of a layout with
its arguments, or a value supplied by the caller. -/
inductive VertexInput where
  | ofLayout (layout : VertexLayout) (arguments : List Nat)
  | caller (id : Nat)
deriving DecidableEq, Repr, Inhabited

/-- The members of the pipeline description the scene reads or writes; `rest` stands
for the shaders and the fixed-function state. -/
structure PipelineCreateInfo where
  extent : VkExtent2D := ⟨0, 0⟩
  renderPass : VkRenderPass := ⟨[]⟩
  vertexInputBindingDescriptions : List VertexInput := []
  vertexInputAttributeDescriptions : List VertexInput := []
  rest : Nat := 0
deriving DecidableEq, Repr, Inhabited

structure RendererCreateInfo where
  renderPassID : Int
  forceRendererID : Int := -1
  inputVerticesTemplate : InputVertexTemplate := .NO
  instanceTemplate : InstanceTemplate := .NO
  pipelineCreateInfo : PipelineCreateInfo := {}
  descriptorLayouts : List DescriptorLayout := []
deriving DecidableEq, Repr, Inhabited

/-- The structure `Renderer::AddMeshInfo`. -/
structure AddMeshInfo where
  renderPassID : Int := 0
  rendererID : Int := 0
  vertexBuffer : VertexBuffer
  instanceBuffer : InstanceBuffer := {}
  descriptorSetCreateInfo : DescriptorSetCreateInfo := {}
  descriptorSet : Nat := VK_NULL_HANDLE
deriving DecidableEq, Repr, Inhabited

/-- One mesh binding of a renderer: what `addMesh` was given and the descriptor set
bound to it. -/
structure MeshBinding where
  info : AddMeshInfo
  descriptorSet : Nat
deriving DecidableEq, Repr, Inhabited

/-- The draw record `std::tuple<VertexBuffer, InstanceBuffer, VkDescriptorSet>`. -/
abbrev Mesh := VertexBuffer × InstanceBuffer × Nat

/-- The driver calls made by `Renderer::create`, a class outside the sources: the
pipeline and layout made for a renderer, and the descriptor set bound to a mesh once
the pool exists. -/
structure Driver where
  createPipeline : RendererCreateInfo → Nat
  createPipelineLayout : RendererCreateInfo → Nat
  createDescriptorSet : Option DescriptorPoolSizes → AddMeshInfo → Nat

/-- Modelled from the spec: the class `Renderer` (its header is not part of the
sources). "Holds a pipeline object, pipeline layout, and an ordered list of Mesh
bindings (vertex buffer, optional instance buffer, optional descriptor set). Insertion
order is draw order." It keeps its creation parameters. -/
structure Renderer where
  createInfo : RendererCreateInfo
  bindings : List MeshBinding := []
  pipeline : Nat := VK_NULL_HANDLE
  pipelineLayout : Nat := VK_NULL_HANDLE
deriving DecidableEq, Repr, Inhabited

namespace Renderer

def addMesh (r : Renderer) (addMeshInfo : AddMeshInfo) : Renderer :=
  { r with bindings := r.bindings ++ [⟨addMeshInfo, addMeshInfo.descriptorSet⟩] }

/-- The call `create(descriptorPool)`: "instantiate every Renderer's pipeline against
the now-final pool"; descriptor sets "are pool-relative and must be rebuilt". -/
def create (driver : Driver) (descriptorPool : Option DescriptorPoolSizes) (r : Renderer) :
    Renderer :=
  { r with
    pipeline := driver.createPipeline r.createInfo
    pipelineLayout := driver.createPipelineLayout r.createInfo
    bindings := r.bindings.map
      (fun b => { b with descriptorSet := driver.createDescriptorSet descriptorPool b.info }) }

def getPipeline (r : Renderer) : Nat := r.pipeline

def getPipelineLayout (r : Renderer) : Nat := r.pipelineLayout

def getMeshes (r : Renderer) : List Mesh :=
  r.bindings.map (fun b => (b.info.vertexBuffer, b.info.instanceBuffer, b.descriptorSet))

def getMeshInfos (r : Renderer) : List AddMeshInfo := r.bindings.map (·.info)

def getRendererCreateInfoStructure (r : Renderer) : RendererCreateInfo := r.createInfo

end Renderer

/-- Modelled from the spec: the class `ComputePass` (its header is not part of the
sources), recorded by its constructor arguments and the pool `create` ran against. -/
structure ComputePass where
  commandPool : Nat
  computeShaderPath : String
  descriptorSetCreateInfo : DescriptorSetCreateInfo
  descriptorPool : Option DescriptorPoolSizes := none
deriving DecidableEq, Repr, Inhabited

def ComputePass.create (descriptorPool : Option DescriptorPoolSizes) (c : ComputePass) :
    ComputePass :=
  { c with descriptorPool := descriptorPool }

structure RayTracingPassCreateInfo where
  descriptorSetCreateInfo : DescriptorSetCreateInfo := {}
  rest : Nat := 0
deriving DecidableEq, Repr, Inhabited

/-- Modelled from the spec: the class `RayTracingPass` (its header is not part of the
sources), recorded by its constructor arguments and the pool `create` ran against. -/
structure RayTracingPass where
  commandPool : Nat
  rayTracingPassCreateInfo : RayTracingPassCreateInfo
  descriptorPool : Option DescriptorPoolSizes := none
deriving DecidableEq, Repr, Inhabited

def RayTracingPass.create (descriptorPool : Option DescriptorPoolSizes)
    (c : RayTracingPass) : RayTracingPass :=
  { c with descriptorPool := descriptorPool }

/-! ## Commands, command buffers and semaphores -/

inductive Command where
  | beginRenderPass (renderPass : VkRenderPass) (framebuffer : Framebuffer)
      (renderArea : VkExtent2D) (clearValues : List VkClearValue)
  | endRenderPass
  | bindPipeline (pipeline : Nat)
  | bindVertexBuffers (firstBinding : Nat) (buffer : Nat)
  | bindIndexBuffer (buffer : Nat)
  | bindDescriptorSets (pipelineLayout : Nat) (descriptorSet : Nat)
  | drawIndexed (indexCount : Nat) (instanceCount : Nat)
  | transitionImageLayout (image : Nat) (format : Nat) (oldLayout : Nat) (newLayout : Nat)
      (mipLevels : Nat) (sourceStage : Nat) (destinationStage : Nat) (baseArrayLayer : Nat)
  | copyImage (source : Nat) (sourceLayout : Nat) (destination : Nat)
      (destinationLayout : Nat) (extent : VkExtent2D)
  | blitImage (source : Nat) (sourceLayout : Nat) (destination : Nat)
      (destinationLayout : Nat) (sourceExtent : VkExtent2D) (destinationExtent : VkExtent2D)
  | computePassRecord (pass : ComputePass) (extent : VkExtent2D)
      (dispatchGroups : DispatchGroups)
  | rayTracingPassRecord (pass : RayTracingPass) (extent : VkExtent2D)
  | callback (hook : Callback) (data : Nat)
deriving DecidableEq, Repr, Inhabited

/-- Modelled from the spec: the class `CommandBuffer` (its header is not part of the
sources), "an independently submitted, ordered sequence of recorded GPU commands",
allocated from a command pool. `recording` holds between begin and end. -/
structure CommandBuffer where
  commandPool : Nat
  commands : List Command := []
  recording : Bool := false
deriving DecidableEq, Repr, Inhabited

namespace CommandBuffer

def beginCommandBuffer (c : CommandBuffer) : CommandBuffer :=
  { c with commands := [], recording := true }

def record (c : CommandBuffer) (commands : List Command) : CommandBuffer :=
  { c with commands := c.commands ++ commands }

def endCommandBuffer (c : CommandBuffer) : CommandBuffer :=
  { c with recording := false }

end CommandBuffer

/-- Modelled from the spec: the class `Semaphore` (its header is not part of the
sources), a "completion signal": the driver handle and the stage waiters block at. -/
structure Semaphore where
  semaphore : Nat
  pipelineStage : Nat := 0
deriving DecidableEq, Repr, Inhabited

def Semaphore.getSemaphore (s : Semaphore) : Nat := s.semaphore

def Semaphore.setPipelineStage (s : Semaphore) (stage : Nat) : Semaphore :=
  { s with pipelineStage := stage }

inductive CommandType where
  | GRAPHICS
  | COMPUTE
  | TRANSFER
  | RAY_TRACING
deriving DecidableEq, Repr, Inhabited

/-! ## The registry entries -/

structure SceneRenderPass where
  commandBufferID : Int
  outputs : List RenderPassOutput
  outputIsSwapChain : Bool
  name : String
  renderPass : Option RenderPass := none
  renderers : List (Option Renderer) := []
  beforeRecord : Option Callback := none
  dataForBeforeRecordCallback : Nat := 0
  afterRecord : Option Callback := none
  dataForAfterRecordCallback : Nat := 0
deriving DecidableEq, Repr, Inhabited

structure SceneComputePass where
  commandBufferID : Int
  outputIsSwapChain : Bool
  name : String
  computePasses : List (Option ComputePass) := []
  extent : VkExtent2D := ⟨0, 0⟩
  dispatchGroups : DispatchGroups := ⟨0, 0, 0⟩
  beforeRecord : Option Callback := none
  dataForBeforeRecordCallback : Nat := 0
  afterRecord : Option Callback := none
  dataForAfterRecordCallback : Nat := 0
deriving DecidableEq, Repr, Inhabited

structure SceneRayTracingPass where
  commandBufferID : Int
  outputIsSwapChain : Bool
  rayTracingPasses : List (Option RayTracingPass) := []
  extent : VkExtent2D := ⟨0, 0⟩
  beforeRecord : Option Callback := none
  dataForBeforeRecordCallback : Nat := 0
  afterRecord : Option Callback := none
  dataForAfterRecordCallback : Nat := 0
deriving DecidableEq, Repr, Inhabited

structure SceneTransfer where
  commandBufferID : Int := 0
  outputIsSwapChain : Bool := false
  origin : Option Image := none
  destination : Option Image := none
  beforeRecord : Option Callback := none
  dataForBeforeRecordCallback : Nat := 0
  afterRecord : Option Callback := none
  dataForAfterRecordCallback : Nat := 0
deriving DecidableEq, Repr, Inhabited

structure SceneCommandBuffer where
  type : CommandType
  commandBuffer : Option CommandBuffer := none
  semaphore : Option Semaphore := none
deriving DecidableEq, Repr, Inhabited

/-! ## Creation descriptors -/

structure SceneCreateInfo where
  swapChainCommandType : CommandType
deriving DecidableEq, Repr, Inhabited

structure RenderPassCreateInfo where
  name : String := ""
  commandBufferID : Int := 0
  outputIsSwapChain : Bool := false
  outputs : List RenderPassOutput := []
  extent : VkExtent2D := ⟨0, 0⟩
  beforeRecord : Option Callback := none
  dataForBeforeRecordCallback : Nat := 0
  afterRecord : Option Callback := none
  dataForAfterRecordCallback : Nat := 0
deriving DecidableEq, Repr, Inhabited

structure ComputePassCreateInfo where
  name : String := ""
  commandBufferID : Int := 0
  outputIsSwapChain : Bool := false
  computeShaderPath : String := ""
  descriptorSetCreateInfo : DescriptorSetCreateInfo := {}
  outputBinding : Nat := 0
  extent : VkExtent2D := ⟨0, 0⟩
  dispatchGroups : DispatchGroups := ⟨0, 0, 0⟩
  beforeRecord : Option Callback := none
  dataForBeforeRecordCallback : Nat := 0
  afterRecord : Option Callback := none
  dataForAfterRecordCallback : Nat := 0
deriving DecidableEq, Repr, Inhabited

structure RayTracingPassAddInfo where
  commandBufferID : Int := 0
  outputIsSwapChain : Bool := false
  rayTracingPassCreateInfo : RayTracingPassCreateInfo := {}
  outputBinding : Nat := 0
  extent : VkExtent2D := ⟨0, 0⟩
  beforeRecord : Option Callback := none
  dataForBeforeRecordCallback : Nat := 0
  afterRecord : Option Callback := none
  dataForAfterRecordCallback : Nat := 0
deriving DecidableEq, Repr, Inhabited

structure TransferAddInfo where
  commandBufferID : Int := 0
  outputIsSwapChain : Bool := false
  origin : Option Image := none
  destination : Option Image := none
  beforeRecord : Option Callback := none
  dataForBeforeRecordCallback : Nat := 0
  afterRecord : Option Callback := none
  dataForAfterRecordCallback : Nat := 0
deriving DecidableEq, Repr, Inhabited

structure CommandBufferCreateInfo where
  commandType : CommandType
  finalPipelineStage : Nat := 0
deriving DecidableEq, Repr, Inhabited

/-! ## The scene -/

/-- The members of `Wolf::Scene`, the diagnostic channel `debug` and the number of
semaphores the device has created for it (the next handle minus one). -/
structure Scene where
  m_physicalDevice : VkPhysicalDevice
  m_swapChainImages : List Image
  m_windowSwapChainImages : List Image := []
  m_useOVR : Bool := false
  m_swapChainCommandType : CommandType
  m_graphicsCommandPool : Nat
  m_computeCommandPool : Nat
  m_sceneRenderPasses : List SceneRenderPass := []
  m_sceneComputePasses : List SceneComputePass := []
  m_sceneRayTracingPasses : List SceneRayTracingPass := []
  m_sceneTransfers : List SceneTransfer := []
  m_sceneCommandBuffers : List SceneCommandBuffer := []
  m_swapChainCommandBuffers : List (Option CommandBuffer) := []
  m_swapChainCompleteSemaphore : Option Semaphore := none
  m_descriptorPool : DescriptorPool := {}
  debug : List DebugMessage := []
  semaphoresCreated : Nat := 0
deriving DecidableEq, Repr, Inhabited

namespace Scene

/-- The first constructor of `Wolf::Scene`. -/
def create (createInfo : SceneCreateInfo) (physicalDevice : VkPhysicalDevice)
    (swapChainImages : List Image) (graphicsCommandPool computeCommandPool : Nat) : Scene :=
  { m_physicalDevice := physicalDevice
    m_swapChainImages := swapChainImages
    m_swapChainCommandType := createInfo.swapChainCommandType
    m_graphicsCommandPool := graphicsCommandPool
    m_computeCommandPool := computeCommandPool }

/-- The second constructor of `Wolf::Scene`, with a mirror window. -/
def createOVR (createInfo : SceneCreateInfo) (physicalDevice : VkPhysicalDevice)
    (ovrSwapChainImages windowSwapChainImages : List Image)
    (graphicsCommandPool computeCommandPool : Nat) : Scene :=
  { m_useOVR := true
    m_physicalDevice := physicalDevice
    m_swapChainImages := ovrSwapChainImages
    m_swapChainCommandType := createInfo.swapChainCommandType
    m_graphicsCommandPool := graphicsCommandPool
    m_computeCommandPool := computeCommandPool
    m_windowSwapChainImages := windowSwapChainImages }

def sendError (s : Scene) (text : String) (values : List Int := []) : Scene :=
  { s with debug := s.debug ++ [⟨.error, text, values⟩] }

def sendWarning (s : Scene) (text : String) : Scene :=
  { s with debug := s.debug ++ [⟨.warning, text, []⟩] }

def sendInfo (s : Scene) (text : String) : Scene :=
  { s with debug := s.debug ++ [⟨.info, text, []⟩] }

/-- One step of the first loop of `updateDescriptorPool`. -/
def updateDescriptorPoolBuffer (s : Scene) (layout : DescriptorLayout) : Scene :=
  if layout.descriptorType = VK_DESCRIPTOR_TYPE_UNIFORM_BUFFER then
    { s with m_descriptorPool := s.m_descriptorPool.addUniformBuffer layout.count }
  else if layout.descriptorType = VK_DESCRIPTOR_TYPE_STORAGE_BUFFER then
    { s with m_descriptorPool := s.m_descriptorPool.addStorageBuffer layout.count }
  else s.sendWarning "Unsupported descriptor buffer type"

/-- One step of the second loop of `updateDescriptorPool`. -/
def updateDescriptorPoolImage (s : Scene) (layout : DescriptorLayout) : Scene :=
  if layout.descriptorType = VK_DESCRIPTOR_TYPE_STORAGE_IMAGE then
    { s with m_descriptorPool := s.m_descriptorPool.addStorageImage layout.count }
  else if layout.descriptorType = VK_DESCRIPTOR_TYPE_COMBINED_IMAGE_SAMPLER then
    { s with m_descriptorPool := s.m_descriptorPool.addCombinedImageSampler layout.count }
  else if layout.descriptorType = VK_DESCRIPTOR_TYPE_SAMPLED_IMAGE then
    { s with m_descriptorPool := s.m_descriptorPool.addSampledImage layout.count }
  else if layout.descriptorType = VK_DESCRIPTOR_TYPE_SAMPLER then
    { s with m_descriptorPool := s.m_descriptorPool.addSampler layout.count }
  else s.sendWarning "Unsupported descriptor image type"

/-- One step of the third loop of `updateDescriptorPool`. -/
def updateDescriptorPoolDefault (s : Scene) (layout : DescriptorLayout) : Scene :=
  if layout.descriptorType = VK_DESCRIPTOR_TYPE_ACCELERATION_STRUCTURE_NV then
    { s with m_descriptorPool := s.m_descriptorPool.addAccelerationStructure layout.count }
  else s.sendWarning "Unsupported descriptor default type"

/-- `Wolf::Scene::updateDescriptorPool`. -/
def updateDescriptorPool (s : Scene) (descriptorSetCreateInfo : DescriptorSetCreateInfo) :
    Scene :=
  let s := descriptorSetCreateInfo.descriptorBuffers.foldl
    (fun s descriptorBuffer => s.updateDescriptorPoolBuffer descriptorBuffer.2) s
  let s := descriptorSetCreateInfo.descriptorImages.foldl
    (fun s descriptorImage => s.updateDescriptorPoolImage descriptorImage.2) s
  descriptorSetCreateInfo.descriptorDefault.foldl
    (fun s descriptorDefault => s.updateDescriptorPoolDefault descriptorDefault.2) s

end Scene

/-- The update `v.back().member = ...` of the last element of a vector. -/
def modifyBack {α : Type} (f : α → α) : List α → List α
  | [] => []
  | [x] => [f x]
  | x :: y :: rest => x :: modifyBack f (y :: rest)

namespace Scene

/-- The update of `m_sceneComputePasses.back()`. -/
def backComputePass (s : Scene) (f : SceneComputePass → SceneComputePass) : Scene :=
  { s with m_sceneComputePasses := modifyBack f s.m_sceneComputePasses }

/-- The update of `m_sceneRayTracingPasses.back()`. -/
def backRayTracingPass (s : Scene) (f : SceneRayTracingPass → SceneRayTracingPass) : Scene :=
  { s with m_sceneRayTracingPasses := modifyBack f s.m_sceneRayTracingPasses }

/-- The update of `m_sceneTransfers.back()`. -/
def backTransfer (s : Scene) (f : SceneTransfer → SceneTransfer) : Scene :=
  { s with m_sceneTransfers := modifyBack f s.m_sceneTransfers }

/-- The update of `m_sceneCommandBuffers.back()`. -/
def backCommandBuffer (s : Scene) (f : SceneCommandBuffer → SceneCommandBuffer) : Scene :=
  { s with m_sceneCommandBuffers := modifyBack f s.m_sceneCommandBuffers }

/-- The two outputs `addRenderPass` derives for a pass bound to the swap chain
(lines 38-46): the vector is resized to two entries, whose clear value and attachment
are overwritten. -/
def swapChainOutputs (s : Scene) (image0 : Image) (outputs : List RenderPassOutput) :
    List RenderPassOutput :=
  let outputs := resize outputs 2 default
  let outputs := outputs.set 0
    { (outputs.getD 0 default) with
      clearValue := { float32_0 := 1 }
      attachment :=
        { extent := ⟨image0.extent.width, image0.extent.height⟩
          format := findDepthFormat s.m_physicalDevice
          sampleCount := VK_SAMPLE_COUNT_1_BIT
          finalLayout := VK_IMAGE_LAYOUT_DEPTH_STENCIL_ATTACHMENT_OPTIMAL
          storeOperation := VK_ATTACHMENT_STORE_OP_DONT_CARE
          usageType := VK_IMAGE_USAGE_DEPTH_STENCIL_ATTACHMENT_BIT } }
  outputs.set 1
    { (outputs.getD 1 default) with
      clearValue := { float32_0 := 0, float32_1 := 0, float32_2 := 0, float32_3 := 1 }
      attachment :=
        { extent := ⟨image0.extent.width, image0.extent.height⟩
          format := image0.format
          sampleCount := VK_SAMPLE_COUNT_1_BIT
          finalLayout :=
            if s.m_useOVR then VK_IMAGE_LAYOUT_TRANSFER_SRC_OPTIMAL
            else VK_IMAGE_LAYOUT_PRESENT_SRC_KHR
          storeOperation := VK_ATTACHMENT_STORE_OP_STORE
          usageType := VK_IMAGE_USAGE_COLOR_ATTACHMENT_BIT } }

/-- The loop of lines 59-67 over the outputs of an offscreen pass: an output without
an extent takes the extent of presentable image 0. -/
def offscreenOutputs (s : Scene) : List RenderPassOutput → Option (List RenderPassOutput)
  | [] => some []
  | output :: rest =>
    if output.attachment.extent.width = 0 ∨ output.attachment.extent.height = 0 then
      match s.m_swapChainImages[0]? with
      | none => none
      | some image0 =>
        (offscreenOutputs s rest).map fun rest' =>
          { output with attachment :=
              { output.attachment with
                extent := ⟨image0.extent.width, image0.extent.height⟩ } } :: rest'
    else (offscreenOutputs s rest).map fun rest' => output :: rest'

/-- Lines 36-68 of `addRenderPass`: the creation descriptor after its outputs and
extent are derived; `some none` is the error return. -/
def prepareRenderPass (s : Scene) (createInfo : RenderPassCreateInfo) :
    Option (Option RenderPassCreateInfo) :=
  if createInfo.outputIsSwapChain then
    match s.m_swapChainImages[0]? with
    | none => none
    | some image0 =>
      some (some { createInfo with outputs := s.swapChainOutputs image0 createInfo.outputs })
  else if createInfo.outputs.isEmpty ∧ createInfo.extent.width = 0 then
    some none
  else
    match
      (if createInfo.extent.width = 0 then
        createInfo.outputs[0]?.map (fun output => output.attachment.extent)
      else some createInfo.extent) with
    | none => none
    | some extent =>
      (s.offscreenOutputs createInfo.outputs).map fun outputs =>
        some { createInfo with extent := extent, outputs := outputs }

/-- `Wolf::Scene::addRenderPass`. The result is the new state and the returned handle. -/
def addRenderPass (s : Scene) (createInfo : RenderPassCreateInfo) (forceID : Int) :
    Option (Scene × Int) :=
  match s.prepareRenderPass createInfo with
  | none => none
  | some none => some (s.sendError "RenderPass creation must include output", -1)
  | some (some createInfo) =>
    let entry : SceneRenderPass :=
      { commandBufferID := createInfo.commandBufferID
        outputs := createInfo.outputs
        outputIsSwapChain := createInfo.outputIsSwapChain
        name := createInfo.name }
    match
      (if forceID < 0 then some (s.m_sceneRenderPasses ++ [entry])
      else setAt? s.m_sceneRenderPasses forceID entry) with
    | none => none
    | some passes =>
      match passes[passes.length - 1]? with
      | none => none
      | some last =>
        let attachments := last.outputs.map (fun output => output.attachment)
        let index : Int := if forceID < 0 then ((passes.length - 1 : Nat) : Int) else forceID
        match at? passes index with
        | none => none
        | some sceneRenderPass =>
          let renderPass :=
            if sceneRenderPass.outputIsSwapChain then
              RenderPass.initializeImages attachments s.m_swapChainImages
            else RenderPass.initializeExtents attachments [createInfo.extent]
          let sceneRenderPass :=
            { sceneRenderPass with
              renderPass := some renderPass
              beforeRecord := createInfo.beforeRecord
              dataForBeforeRecordCallback := createInfo.dataForBeforeRecordCallback
              afterRecord := createInfo.afterRecord
              dataForAfterRecordCallback := createInfo.dataForAfterRecordCallback }
          match setAt? passes index sceneRenderPass with
          | none => none
          | some passes =>
            some ({ s with m_sceneRenderPasses := passes }, index)

/-- The storage-image binding lines 119-128 add for presentable image `image`. -/
def swapChainImageBinding (accessibility : Nat) (outputBinding : Nat) (image : Image) :
    List ImageData × DescriptorLayout :=
  ([{ image := some image }],
    { descriptorType := VK_DESCRIPTOR_TYPE_STORAGE_IMAGE
      accessibility := accessibility
      count := 1
      binding := outputBinding })

/-- Lines 115-134: the replica of a compute pass for one presentable image; its
descriptor images are those of the caller followed by the binding of the image. -/
def computeReplica (commandPool : Nat) (createInfo : ComputePassCreateInfo) (image : Image) :
    ComputePass :=
  let images := createInfo.descriptorSetCreateInfo.descriptorImages ++
    [swapChainImageBinding VK_SHADER_STAGE_COMPUTE_BIT createInfo.outputBinding image]
  let tempDescriptorSetCreateInfo :=
    { createInfo.descriptorSetCreateInfo with descriptorImages := images }
  { commandPool := commandPool
    computeShaderPath := createInfo.computeShaderPath
    descriptorSetCreateInfo := tempDescriptorSetCreateInfo }

/-- The body of the loop of lines 113-137 for presentable image `i`. -/
def addComputePassReplica (createInfo : ComputePassCreateInfo) (s : Scene)
    (ie : Nat × Image) : Scene :=
  let replica := computeReplica s.m_computeCommandPool createInfo ie.2
  let s := s.backComputePass
    (fun pass => { pass with computePasses := pass.computePasses.set ie.1 (some replica) })
  s.updateDescriptorPool createInfo.descriptorSetCreateInfo

/-- Line 98: the new entry of the compute-pass registry. -/
def pushComputePass (s : Scene) (createInfo : ComputePassCreateInfo) : Scene :=
  { s with
    m_sceneComputePasses := s.m_sceneComputePasses ++
      [{ commandBufferID := createInfo.commandBufferID
         outputIsSwapChain := createInfo.outputIsSwapChain
         name := createInfo.name }] }

/-- Lines 102-106: the single replica of an offscreen compute pass. -/
def addComputePassOffscreen (s : Scene) (createInfo : ComputePassCreateInfo) : Scene :=
  let s := s.backComputePass
    (fun pass => { pass with computePasses := resize pass.computePasses 1 none })
  let replica : ComputePass :=
    { commandPool := s.m_computeCommandPool
      computeShaderPath := createInfo.computeShaderPath
      descriptorSetCreateInfo := createInfo.descriptorSetCreateInfo }
  let s := s.backComputePass
    (fun pass => { pass with computePasses := pass.computePasses.set 0 (some replica) })
  s.updateDescriptorPool createInfo.descriptorSetCreateInfo

/-- Lines 110-137: the replicas of a compute pass bound to the swap chain. -/
def addComputePassSwapChain (s : Scene) (createInfo : ComputePassCreateInfo) : Scene :=
  let s : Scene := { s with
    m_descriptorPool := s.m_descriptorPool.addStorageImage s.m_swapChainImages.length }
  let s := s.backComputePass
    (fun pass => { pass with
      computePasses := resize pass.computePasses s.m_swapChainImages.length none })
  s.m_swapChainImages.enum.foldl (addComputePassReplica createInfo) s

/-- Lines 142-150: the members set last and the handle returned. -/
def finishComputePass (s : Scene) (createInfo : ComputePassCreateInfo) (extent : VkExtent2D) :
    Scene × Int :=
  let s := s.backComputePass
    (fun pass => { pass with
      extent := extent
      dispatchGroups := createInfo.dispatchGroups
      beforeRecord := createInfo.beforeRecord
      dataForBeforeRecordCallback := createInfo.dataForBeforeRecordCallback
      afterRecord := createInfo.afterRecord
      dataForAfterRecordCallback := createInfo.dataForAfterRecordCallback })
  (s, ((s.m_sceneComputePasses.length - 1 : Nat) : Int))

/-- `Wolf::Scene::addComputePass`. -/
def addComputePass (s : Scene) (createInfo : ComputePassCreateInfo) : Option (Scene × Int) :=
  let s := s.pushComputePass createInfo
  if !createInfo.outputIsSwapChain then
    some ((s.addComputePassOffscreen createInfo).finishComputePass createInfo createInfo.extent)
  else
    let s := s.addComputePassSwapChain createInfo
    match s.m_swapChainImages[0]? with
    | none => none
    | some image0 =>
      some (s.finishComputePass createInfo ⟨image0.extent.width, image0.extent.height⟩)

/-- Lines 171-189: the replica of a ray-tracing pass for one presentable image. -/
def rayTracingReplica (commandPool : Nat) (rayTracingPassAddInfo : RayTracingPassAddInfo)
    (image : Image) : RayTracingPass :=
  let images :=
    rayTracingPassAddInfo.rayTracingPassCreateInfo.descriptorSetCreateInfo.descriptorImages ++
    [swapChainImageBinding VK_SHADER_STAGE_RAYGEN_BIT_NV rayTracingPassAddInfo.outputBinding
      image]
  let tempRayTracingCreateInfo :=
    { rayTracingPassAddInfo.rayTracingPassCreateInfo with
      descriptorSetCreateInfo :=
        { rayTracingPassAddInfo.rayTracingPassCreateInfo.descriptorSetCreateInfo with
          descriptorImages := images } }
  { commandPool := commandPool
    rayTracingPassCreateInfo := tempRayTracingCreateInfo }

/-- The body of the loop of lines 169-192 for presentable image `i`. -/
def addRayTracingPassReplica (rayTracingPassAddInfo : RayTracingPassAddInfo) (s : Scene)
    (ie : Nat × Image) : Scene :=
  let replica := rayTracingReplica s.m_computeCommandPool rayTracingPassAddInfo ie.2
  let s := s.backRayTracingPass
    (fun pass => { pass with rayTracingPasses := pass.rayTracingPasses.set ie.1 (some replica) })
  s.updateDescriptorPool
    rayTracingPassAddInfo.rayTracingPassCreateInfo.descriptorSetCreateInfo

/-- Line 155: the new entry of the ray-tracing-pass registry. -/
def pushRayTracingPass (s : Scene) (rayTracingPassAddInfo : RayTracingPassAddInfo) : Scene :=
  { s with
    m_sceneRayTracingPasses := s.m_sceneRayTracingPasses ++
      [{ commandBufferID := rayTracingPassAddInfo.commandBufferID
         outputIsSwapChain := rayTracingPassAddInfo.outputIsSwapChain }] }

/-- Lines 159-162: the single replica of an offscreen ray-tracing pass. -/
def addRayTracingPassOffscreen (s : Scene) (rayTracingPassAddInfo : RayTracingPassAddInfo) :
    Scene :=
  let s := s.backRayTracingPass
    (fun pass => { pass with rayTracingPasses := resize pass.rayTracingPasses 1 none })
  let replica : RayTracingPass :=
    { commandPool := s.m_computeCommandPool
      rayTracingPassCreateInfo := rayTracingPassAddInfo.rayTracingPassCreateInfo }
  let s := s.backRayTracingPass
    (fun pass => { pass with rayTracingPasses := pass.rayTracingPasses.set 0 (some replica) })
  s.updateDescriptorPool
    rayTracingPassAddInfo.rayTracingPassCreateInfo.descriptorSetCreateInfo

/-- Lines 166-192: the replicas of a ray-tracing pass bound to the swap chain. -/
def addRayTracingPassSwapChain (s : Scene) (rayTracingPassAddInfo : RayTracingPassAddInfo) :
    Scene :=
  let s : Scene := { s with
    m_descriptorPool := s.m_descriptorPool.addStorageImage s.m_swapChainImages.length }
  let s := s.backRayTracingPass
    (fun pass => { pass with
      rayTracingPasses := resize pass.rayTracingPasses s.m_swapChainImages.length none })
  s.m_swapChainImages.enum.foldl (addRayTracingPassReplica rayTracingPassAddInfo) s

/-- Lines 197-204: the members set last and the handle returned. -/
def finishRayTracingPass (s : Scene) (rayTracingPassAddInfo : RayTracingPassAddInfo)
    (extent : VkExtent2D) : Scene × Int :=
  let s := s.backRayTracingPass
    (fun pass => { pass with
      extent := extent
      beforeRecord := rayTracingPassAddInfo.beforeRecord
      dataForBeforeRecordCallback := rayTracingPassAddInfo.dataForBeforeRecordCallback
      afterRecord := rayTracingPassAddInfo.afterRecord
      dataForAfterRecordCallback := rayTracingPassAddInfo.dataForAfterRecordCallback })
  (s, ((s.m_sceneRayTracingPasses.length - 1 : Nat) : Int))

/-- `Wolf::Scene::addRayTracingPass`. -/
def addRayTracingPass (s : Scene) (rayTracingPassAddInfo : RayTracingPassAddInfo) :
    Option (Scene × Int) :=
  let s := s.pushRayTracingPass rayTracingPassAddInfo
  if !rayTracingPassAddInfo.outputIsSwapChain then
    some ((s.addRayTracingPassOffscreen rayTracingPassAddInfo).finishRayTracingPass
      rayTracingPassAddInfo rayTracingPassAddInfo.extent)
  else
    let s := s.addRayTracingPassSwapChain rayTracingPassAddInfo
    match s.m_swapChainImages[0]? with
    | none => none
    | some image0 =>
      some (s.finishRayTracingPass rayTracingPassAddInfo
        ⟨image0.extent.width, image0.extent.height⟩)

/-- `Wolf::Scene::addTransfer`. -/
def addTransfer (s : Scene) (transferAddInfo : TransferAddInfo) : Scene × Int :=
  let s : Scene := { s with m_sceneTransfers := s.m_sceneTransfers ++ [({} : SceneTransfer)] }
  let s := s.backTransfer
    (fun transfer => { transfer with
      commandBufferID := transferAddInfo.commandBufferID
      outputIsSwapChain := transferAddInfo.outputIsSwapChain
      origin := transferAddInfo.origin
      destination := transferAddInfo.destination
      beforeRecord := transferAddInfo.beforeRecord
      dataForBeforeRecordCallback := transferAddInfo.dataForBeforeRecordCallback
      afterRecord := transferAddInfo.afterRecord
      dataForAfterRecordCallback := transferAddInfo.dataForAfterRecordCallback })
  (s, ((s.m_sceneTransfers.length - 1 : Nat) : Int))

/-- `Wolf::Scene::addCommandBuffer`. -/
def addCommandBuffer (s : Scene) (createInfo : CommandBufferCreateInfo) : Scene × Int :=
  let s : Scene := { s with m_sceneCommandBuffers :=
    s.m_sceneCommandBuffers ++ [{ type := createInfo.commandType }] }
  let s :=
    if createInfo.commandType = .GRAPHICS ∨ createInfo.commandType = .RAY_TRACING then
      s.backCommandBuffer
        (fun stream => { stream with
          commandBuffer := some { commandPool := s.m_graphicsCommandPool } })
    else if createInfo.commandType = .COMPUTE then
      s.backCommandBuffer
        (fun stream => { stream with
          commandBuffer := some { commandPool := s.m_computeCommandPool } })
    else s.sendError "Invalid command type"
  let semaphore : Semaphore := { semaphore := s.semaphoresCreated + 1 }
  let s : Scene := { s with semaphoresCreated := s.semaphoresCreated + 1 }
  let s := s.backCommandBuffer
    (fun stream => { stream with
      semaphore := some (semaphore.setPipelineStage createInfo.finalPipelineStage) })
  (s, ((s.m_sceneCommandBuffers.length - 1 : Nat) : Int))

/-- The vertex-input descriptions lines 258-300 of `addRenderer` append for the input
and instance templates, and the diagnostic for an unknown template. -/
def applyTemplates (s : Scene) (createInfo : RendererCreateInfo) :
    Scene × RendererCreateInfo :=
  let fromVertices : Scene × List VertexInput × List VertexInput :=
    match createInfo.inputVerticesTemplate with
    | .POSITION_2D => (s, [.ofLayout .Vertex2D [0]], [.ofLayout .Vertex2D [0]])
    | .POSITION_TEXTURECOORD_2D =>
      (s, [.ofLayout .Vertex2DTextured [0]], [.ofLayout .Vertex2DTextured [0]])
    | .POSITION_TEXTURECOORD_ID_2D =>
      (s, [.ofLayout .Vertex2DTexturedWithMaterial [0]],
        [.ofLayout .Vertex2DTexturedWithMaterial [0]])
    | .FULL_3D_MATERIAL => (s, [.ofLayout .Vertex3D [0]], [.ofLayout .Vertex3D [0]])
    | .NO => (s, [], [])
    | .other _ => (s.sendError "Unknown inputVerticesTemplate while creating renderer", [], [])
  let fromInstances : List VertexInput × List VertexInput :=
    match createInfo.instanceTemplate with
    | .SINGLE_ID => ([.ofLayout .InstanceSingleID [1]], [.ofLayout .InstanceSingleID [1, 2]])
    | _ => ([], [])
  (fromVertices.1,
    { createInfo with
      pipelineCreateInfo :=
        { createInfo.pipelineCreateInfo with
          vertexInputBindingDescriptions :=
            createInfo.pipelineCreateInfo.vertexInputBindingDescriptions ++
              fromVertices.2.1 ++ fromInstances.1
          vertexInputAttributeDescriptions :=
            createInfo.pipelineCreateInfo.vertexInputAttributeDescriptions ++
              fromVertices.2.2 ++ fromInstances.2 } })

/-- The test of line 246, `renderPassID < 0 || renderPassID > size() - 1`, where the
right-hand side of the second comparison is a `size_t`. -/
def invalidRenderPassID (s : Scene) (renderPassID : Int) : Bool :=
  decide (renderPassID < 0) ||
    decide (toSizeT renderPassID > sizeMinusOne s.m_sceneRenderPasses.length)

/-- `Wolf::Scene::addRenderer`; the check of lines 245-251 is compiled only when
`_DEBUG` is defined. -/
def addRenderer (build : Build) (s : Scene) (createInfo : RendererCreateInfo) :
    Option (Scene × Int) :=
  if build._DEBUG && s.invalidRenderPassID createInfo.renderPassID then
    some (s.sendError "Invalid render pass ID. ID sent = , last render pass ID = "
      [createInfo.renderPassID, (sizeMinusOne s.m_sceneRenderPasses.length : Int)], -1)
  else
    let (s, createInfo) := s.applyTemplates createInfo
    match
      (if createInfo.pipelineCreateInfo.extent.width = 0 then
        s.m_swapChainImages[0]?.map
          (fun image0 => (⟨image0.extent.width, image0.extent.height⟩ : VkExtent2D))
      else some createInfo.pipelineCreateInfo.extent) with
    | none => none
    | some extent =>
      match at? s.m_sceneRenderPasses createInfo.renderPassID with
      | none => none
      | some pass =>
        match pass.renderPass with
        | none => none
        | some renderPass =>
          let createInfo : RendererCreateInfo :=
            { createInfo with
              pipelineCreateInfo :=
                { createInfo.pipelineCreateInfo with
                  extent := extent
                  renderPass := renderPass.m_renderPass } }
          let r : Renderer := { createInfo := createInfo }
          if createInfo.forceRendererID < 0 then
            let pass := { pass with renderers := pass.renderers ++ [some r] }
            (setAt? s.m_sceneRenderPasses createInfo.renderPassID pass).map fun passes =>
              ({ s with m_sceneRenderPasses := passes },
                ((pass.renderers.length - 1 : Nat) : Int))
          else
            match setAt? pass.renderers createInfo.forceRendererID (some r) with
            | none => none
            | some renderers =>
              (setAt? s.m_sceneRenderPasses createInfo.renderPassID
                { pass with renderers := renderers }).map fun passes =>
                ({ s with m_sceneRenderPasses := passes }, createInfo.forceRendererID)

/-- `Wolf::Scene::addMesh`. -/
def addMesh (s : Scene) (addMeshInfo : AddMeshInfo) : Option Scene :=
  let s := s.updateDescriptorPool addMeshInfo.descriptorSetCreateInfo
  match at? s.m_sceneRenderPasses addMeshInfo.renderPassID with
  | none => none
  | some pass =>
    match at? pass.renderers addMeshInfo.rendererID with
    | none => none
    | some none => none
    | some (some renderer) =>
      match setAt? pass.renderers addMeshInfo.rendererID
          (some (renderer.addMesh addMeshInfo)) with
      | none => none
      | some renderers =>
        (setAt? s.m_sceneRenderPasses addMeshInfo.renderPassID
          { pass with renderers := renderers }).map fun passes =>
          { s with m_sceneRenderPasses := passes }

end Scene

/-! ## The recorder -/

/-- A loop whose body records commands and has no early exit: the commands of the
iterations in order, `none` as soon as one iteration is undefined. -/
def forEachCommands {α : Type} (body : α → Option (List Command)) :
    List α → Option (List Command)
  | [] => some []
  | x :: rest =>
    match body x with
    | none => none
    | some commands =>
      match forEachCommands body rest with
      | none => none
      | some others => some (commands ++ others)

/-- A loop whose body records commands and may execute `return;`: the flag of the
result tells that the enclosing function returned, after the commands listed. -/
def forEachRecord {α : Type} (body : α → Option (List Command × Bool)) :
    List α → Option (List Command × Bool)
  | [] => some ([], false)
  | x :: rest =>
    match body x with
    | none => none
    | some (commands, true) => some (commands, true)
    | some (commands, false) =>
      match forEachRecord body rest with
      | none => none
      | some (others, returned) => some (commands ++ others, returned)

/-- The call of an optional hook, `if (hook) hook(data, commandBuffer)`. -/
def callHook (hook : Option Callback) (data : Nat) : List Command :=
  match hook with
  | none => []
  | some f => [.callback f data]

/-- `RenderPass::beginRenderPass`. -/
def RenderPass.beginRenderPass (renderPass : RenderPass) (framebufferID : Nat)
    (clearValues : List VkClearValue) : Option Command :=
  renderPass.m_framebuffers[framebufferID]?.map fun framebuffer =>
    .beginRenderPass renderPass.m_renderPass framebuffer framebuffer.getExtent clearValues

/-- The test `nInstances > 0 && instanceBuffer` of lines 447 and 671. -/
def isInstancied (mesh : Mesh) : Bool :=
  decide (mesh.2.1.nInstances > 0) && (mesh.2.1.instanceBuffer != VK_NULL_HANDLE)

namespace Scene

/-- Lines 447-462: the commands of one mesh in the swap-chain stream; `j` is the index
of the render pass being recorded, which the instanced draw uses as an index into the
meshes of the renderer. -/
def recordSwapChainMesh (j : Nat) (meshesToRender : List Mesh) (pipelineLayout : Nat)
    (mesh : Mesh) : Option (List Command) :=
  let bind : List Command :=
    [.bindVertexBuffers 0 mesh.1.vertexBuffer, .bindIndexBuffer mesh.1.indexBuffer] ++
    (if isInstancied mesh then [.bindVertexBuffers 1 mesh.2.1.instanceBuffer] else []) ++
    (if mesh.2.2 != VK_NULL_HANDLE then [.bindDescriptorSets pipelineLayout mesh.2.2] else [])
  if !isInstancied mesh then
    some (bind ++ [.drawIndexed mesh.1.nbIndices 1])
  else
    match meshesToRender[j]? with
    | none => none
    | some other => some (bind ++ [.drawIndexed mesh.1.nbIndices other.2.1.nInstances])

/-- Lines 427-464: one renderer of a swap-chain-hosted render pass; an empty slot
makes `record` return. -/
def recordSwapChainRenderer (j : Nat) : Option Renderer → Option (List Command × Bool)
  | none => some ([], true)
  | some renderer =>
    let meshesToRender := renderer.getMeshes
    (forEachCommands (recordSwapChainMesh j meshesToRender renderer.getPipelineLayout)
      meshesToRender).map fun commands =>
      (.bindPipeline renderer.getPipeline :: commands, false)

/-- The copy to the mirror window of lines 469-492 and 547-570. -/
def mirrorCommands (s : Scene) (i : Nat) (source : Nat)
    (sourceExtent : Option VkExtent2D) : Option (List Command) :=
  if s.m_useOVR then
    match sourceExtent, s.m_windowSwapChainImages[i]? with
    | some sourceExtent, some window =>
      some [.transitionImageLayout window.image VK_FORMAT_R8G8B8A8_UNORM
          VK_IMAGE_LAYOUT_PRESENT_SRC_KHR VK_IMAGE_LAYOUT_TRANSFER_DST_OPTIMAL 1
          VK_PIPELINE_STAGE_TOP_OF_PIPE_BIT VK_PIPELINE_STAGE_TRANSFER_BIT 0,
        .blitImage source VK_IMAGE_LAYOUT_TRANSFER_SRC_OPTIMAL window.image
          VK_IMAGE_LAYOUT_TRANSFER_DST_OPTIMAL sourceExtent window.extent,
        .transitionImageLayout window.image VK_FORMAT_R8G8B8A8_UNORM
          VK_IMAGE_LAYOUT_TRANSFER_DST_OPTIMAL VK_IMAGE_LAYOUT_PRESENT_SRC_KHR 1
          VK_PIPELINE_STAGE_TRANSFER_BIT VK_PIPELINE_STAGE_TOP_OF_PIPE_BIT 0]
    | _, _ => none
  else some []

/-- Lines 416-493: render pass `j` in the swap-chain stream of presentable image `i`. -/
def recordSwapChainRenderPass (s : Scene) (i : Nat) (image : Image) (j : Nat)
    (pass : SceneRenderPass) : Option (List Command × Bool) :=
  if pass.commandBufferID = -1 then
    let clearValues := pass.outputs.map (fun output => output.clearValue)
    match pass.renderPass with
    | none => none
    | some renderPass =>
      match renderPass.beginRenderPass (if pass.outputIsSwapChain then i else 0)
          clearValues with
      | none => none
      | some beginCommand =>
        match forEachRecord (recordSwapChainRenderer j) pass.renderers with
        | none => none
        | some (commands, true) => some (beginCommand :: commands, true)
        | some (commands, false) =>
          (s.mirrorCommands i image.image
            (s.m_swapChainImages[0]?.map fun image0 =>
              ⟨image0.extent.width, image0.extent.height⟩)).map fun mirror =>
            (beginCommand :: commands ++ [.endRenderPass] ++ mirror, false)
  else some ([], false)

/-- Lines 500-512: compute pass `pass` in the swap-chain stream of image `i`. -/
def recordSwapChainComputePass (i : Nat) (image : Image) (pass : SceneComputePass) :
    Option (List Command) :=
  if pass.commandBufferID = -1 then
    match pass.computePasses[i]? with
    | some (some replica) =>
      some
        [.transitionImageLayout image.image image.format VK_IMAGE_LAYOUT_PRESENT_SRC_KHR
            VK_IMAGE_LAYOUT_GENERAL 1 VK_PIPELINE_STAGE_TOP_OF_PIPE_BIT
            VK_PIPELINE_STAGE_COMPUTE_SHADER_BIT 0,
          .computePassRecord replica ⟨image.extent.width, image.extent.height⟩
            pass.dispatchGroups,
          .transitionImageLayout image.image image.format VK_IMAGE_LAYOUT_GENERAL
            VK_IMAGE_LAYOUT_PRESENT_SRC_KHR 1 VK_PIPELINE_STAGE_COMPUTE_SHADER_BIT
            VK_PIPELINE_STAGE_TOP_OF_PIPE_BIT 0]
    | _ => none
  else some []

/-- Lines 519-574: transfer `transfer` in the swap-chain stream of image `i`. -/
def recordSwapChainTransfer (s : Scene) (i : Nat) (image : Image) (transfer : SceneTransfer) :
    Option (List Command) :=
  if transfer.commandBufferID = -1 then
    match transfer.origin with
    | none => none
    | some origin =>
      (s.mirrorCommands i origin.image
        (some ⟨origin.extent.width, origin.extent.height⟩)).map fun mirror =>
        callHook transfer.beforeRecord transfer.dataForBeforeRecordCallback ++
        [.transitionImageLayout image.image image.format VK_IMAGE_LAYOUT_PRESENT_SRC_KHR
            VK_IMAGE_LAYOUT_TRANSFER_DST_OPTIMAL 1 VK_PIPELINE_STAGE_TOP_OF_PIPE_BIT
            VK_PIPELINE_STAGE_TRANSFER_BIT 0,
          .copyImage origin.image VK_IMAGE_LAYOUT_TRANSFER_SRC_OPTIMAL image.image
            VK_IMAGE_LAYOUT_TRANSFER_DST_OPTIMAL image.extent,
          .transitionImageLayout image.image image.format
            VK_IMAGE_LAYOUT_TRANSFER_DST_OPTIMAL VK_IMAGE_LAYOUT_PRESENT_SRC_KHR 1
            VK_PIPELINE_STAGE_TRANSFER_BIT VK_PIPELINE_STAGE_TOP_OF_PIPE_BIT 0] ++
        mirror ++
        callHook transfer.afterRecord transfer.dataForAfterRecordCallback
  else some []

/-- Lines 581-593: ray-tracing pass `pass` in the swap-chain stream of image `i`. -/
def recordSwapChainRayTracingPass (i : Nat) (image : Image) (pass : SceneRayTracingPass) :
    Option (List Command) :=
  if pass.commandBufferID = -1 then
    match pass.rayTracingPasses[i]? with
    | some (some replica) =>
      some
        [.transitionImageLayout image.image image.format VK_IMAGE_LAYOUT_PRESENT_SRC_KHR
            VK_IMAGE_LAYOUT_GENERAL 1 VK_PIPELINE_STAGE_TOP_OF_PIPE_BIT
            VK_PIPELINE_STAGE_COMPUTE_SHADER_BIT 0,
          .rayTracingPassRecord replica ⟨image.extent.width, image.extent.height⟩,
          .transitionImageLayout image.image image.format VK_IMAGE_LAYOUT_GENERAL
            VK_IMAGE_LAYOUT_PRESENT_SRC_KHR 1 VK_PIPELINE_STAGE_COMPUTE_SHADER_BIT
            VK_PIPELINE_STAGE_TOP_OF_PIPE_BIT 0]
    | _ => none
  else some []

/-- Lines 412-595: the commands recorded between the begin and the end of the
swap-chain command buffer of presentable image `i`, by the mode of the scene. -/
def recordSwapChainImage (s : Scene) (i : Nat) (image : Image) :
    Option (List Command × Bool) :=
  match s.m_swapChainCommandType with
  | .GRAPHICS =>
    forEachRecord (fun (jp : Nat × SceneRenderPass) =>
      s.recordSwapChainRenderPass i image jp.1 jp.2) s.m_sceneRenderPasses.enum
  | .COMPUTE =>
    (forEachCommands (recordSwapChainComputePass i image) s.m_sceneComputePasses).map
      fun commands => (commands, false)
  | .TRANSFER =>
    (forEachCommands (s.recordSwapChainTransfer i image) s.m_sceneTransfers).map
      fun commands => (commands, false)
  | .RAY_TRACING =>
    (forEachCommands (recordSwapChainRayTracingPass i image) s.m_sceneRayTracingPasses).map
      fun commands => (commands, false)

/-- The command pool of the swap-chain command buffers (lines 405-408). -/
def swapChainCommandPool (s : Scene) : Nat :=
  if s.m_swapChainCommandType = .GRAPHICS ∨ s.m_swapChainCommandType = .TRANSFER then
    s.m_graphicsCommandPool
  else s.m_computeCommandPool

/-- The loop of lines 403-598 over the presentable images still to record; the flag
of the result tells that `record` returned from inside it. -/
def recordSwapChainLoop (s : Scene) :
    List (Nat × Image) → List (Option CommandBuffer) →
      Option (List (Option CommandBuffer) × Bool)
  | [], buffers => some (buffers, false)
  | (i, image) :: rest, buffers =>
    let commandBuffer : CommandBuffer :=
      ({ commandPool := s.swapChainCommandPool } : CommandBuffer).beginCommandBuffer
    match s.recordSwapChainImage i image with
    | none => none
    | some (commands, true) =>
      some (buffers.set i (some (commandBuffer.record commands)), true)
    | some (commands, false) =>
      recordSwapChainLoop s rest
        (buffers.set i (some (commandBuffer.record commands).endCommandBuffer))

/-- The loop of lines 663-688 for one renderer of a render pass recorded by
`recordRenderPass`. -/
def recordRenderer : Option Renderer → Option (List Command)
  | none => none
  | some renderer =>
    some (.bindPipeline renderer.getPipeline ::
      renderer.getMeshes.flatMap fun mesh =>
        [.bindVertexBuffers 0 mesh.1.vertexBuffer, .bindIndexBuffer mesh.1.indexBuffer] ++
        (if isInstancied mesh then [.bindVertexBuffers 1 mesh.2.1.instanceBuffer] else []) ++
        (if mesh.2.2 != VK_NULL_HANDLE then
          [.bindDescriptorSets renderer.getPipelineLayout mesh.2.2] else []) ++
        [if !isInstancied mesh then .drawIndexed mesh.1.nbIndices 1
          else .drawIndexed mesh.1.nbIndices mesh.2.1.nInstances])

/-- `Wolf::Scene::recordRenderPass`: the commands recorded into the auxiliary command
buffer of the pass. -/
def recordRenderPass (sceneRenderPass : SceneRenderPass) : Option (List Command) :=
  let clearValues := (sceneRenderPass.outputs.filter
    (fun output => decide (output.clearValue.float32_0 ≥ 0))).map
    (fun output => output.clearValue)
  match sceneRenderPass.renderPass with
  | none => none
  | some renderPass =>
    match renderPass.beginRenderPass 0 clearValues with
    | none => none
    | some beginCommand =>
      (forEachCommands recordRenderer sceneRenderPass.renderers).map fun commands =>
        callHook sceneRenderPass.beforeRecord sceneRenderPass.dataForBeforeRecordCallback ++
        [beginCommand] ++ commands ++ [.endRenderPass] ++
        callHook sceneRenderPass.afterRecord sceneRenderPass.dataForAfterRecordCallback

/-- Lines 616-630: a compute pass in the auxiliary stream `i`. -/
def recordAuxComputePass (i : Nat) (sceneComputePass : SceneComputePass) :
    Option (List Command) :=
  if sceneComputePass.commandBufferID = (i : Int) then
    (forEachCommands
      (fun (replica : Option ComputePass) => replica.map fun computePass =>
        [Command.computePassRecord computePass sceneComputePass.extent
          sceneComputePass.dispatchGroups])
      sceneComputePass.computePasses).map fun commands =>
      callHook sceneComputePass.beforeRecord sceneComputePass.dataForBeforeRecordCallback ++
      commands ++
      callHook sceneComputePass.afterRecord sceneComputePass.dataForAfterRecordCallback
  else some []

/-- Lines 632-645: a ray-tracing pass in the auxiliary stream `i`. -/
def recordAuxRayTracingPass (i : Nat) (sceneRayTracingPass : SceneRayTracingPass) :
    Option (List Command) :=
  if sceneRayTracingPass.commandBufferID = (i : Int) then
    (forEachCommands
      (fun (replica : Option RayTracingPass) => replica.map fun rayTracingPass =>
        [Command.rayTracingPassRecord rayTracingPass sceneRayTracingPass.extent])
      sceneRayTracingPass.rayTracingPasses).map fun commands =>
      callHook sceneRayTracingPass.beforeRecord
        sceneRayTracingPass.dataForBeforeRecordCallback ++
      commands ++
      callHook sceneRayTracingPass.afterRecord sceneRayTracingPass.dataForAfterRecordCallback
  else some []

/-- Lines 608-645: the commands recorded between the begin and the end of the
auxiliary command buffer `i`. -/
def recordAuxCommands (s : Scene) (i : Nat) : Option (List Command) :=
  match forEachCommands
      (fun (sceneRenderPass : SceneRenderPass) =>
        if sceneRenderPass.commandBufferID = (i : Int) then recordRenderPass sceneRenderPass
        else some [])
      s.m_sceneRenderPasses with
  | none => none
  | some renderCommands =>
    match forEachCommands (recordAuxComputePass i) s.m_sceneComputePasses with
    | none => none
    | some computeCommands =>
      match forEachCommands (recordAuxRayTracingPass i) s.m_sceneRayTracingPasses with
      | none => none
      | some rayTracingCommands =>
        some (renderCommands ++ computeCommands ++ rayTracingCommands)

/-- The loop of lines 604-648 over the auxiliary streams still to record. -/
def recordAuxLoop (s : Scene) :
    List (Nat × SceneCommandBuffer) → Option (List SceneCommandBuffer)
  | [] => some []
  | (i, stream) :: rest =>
    match stream.commandBuffer with
    | none => none
    | some commandBuffer =>
      match s.recordAuxCommands i with
      | none => none
      | some commands =>
        match recordAuxLoop s rest with
        | none => none
        | some streams =>
          let recorded := (commandBuffer.beginCommandBuffer.record commands).endCommandBuffer
          some ({ stream with commandBuffer := some recorded } :: streams)

/-- Lines 374-383: the pipelines of the renderers of one render pass. -/
def createRenderers (build : Build) (driver : Driver) (s : Scene)
    (sceneRenderPass : SceneRenderPass) : Scene × SceneRenderPass :=
  let renderers := sceneRenderPass.renderers.map
    (fun renderer => renderer.map
      (Renderer.create driver s.m_descriptorPool.getDescriptorPool))
  ((if build.NDEBUG then s
    else s.sendInfo ("Creating renderer for render pass: " ++ sceneRenderPass.name)),
    { sceneRenderPass with renderers := renderers })

/-- The loop of lines 391-392 and 397-398: `create` on every replica of a pass. -/
def createReplicas {α : Type} (create : α → α) : List (Option α) → Option (List (Option α))
  | [] => some []
  | none :: _ => none
  | some replica :: rest => (createReplicas create rest).map fun rest' =>
      some (create replica) :: rest'

/-- Lines 385-393: the compute passes are created against the pool. -/
def createComputePasses (build : Build) (s : Scene) :
    List SceneComputePass → Option (Scene × List SceneComputePass)
  | [] => some (s, [])
  | sceneComputePass :: rest =>
    let s := if build.NDEBUG then s
      else s.sendInfo ("Creating compute pass: " ++ sceneComputePass.name)
    match createReplicas (ComputePass.create s.m_descriptorPool.getDescriptorPool)
        sceneComputePass.computePasses with
    | none => none
    | some replicas =>
      (createComputePasses build s rest).map fun (result : Scene × List SceneComputePass) =>
        (result.1, { sceneComputePass with computePasses := replicas } :: result.2)

/-- Lines 395-399: the ray-tracing passes are created against the pool. -/
def createRayTracingPasses (s : Scene) :
    List SceneRayTracingPass → Option (List SceneRayTracingPass)
  | [] => some []
  | sceneRayTracingPass :: rest =>
    match createReplicas (RayTracingPass.create s.m_descriptorPool.getDescriptorPool)
        sceneRayTracingPass.rayTracingPasses with
    | none => none
    | some replicas =>
      (createRayTracingPasses s rest).map fun result =>
        { sceneRayTracingPass with rayTracingPasses := replicas } :: result

/-- Lines 374-383: the renderers of every render pass are created against the pool. -/
def createAllRenderers (build : Build) (driver : Driver) (s : Scene) :
    List SceneRenderPass → Scene × List SceneRenderPass
  | [] => (s, [])
  | sceneRenderPass :: rest =>
    let step := createRenderers build driver s sceneRenderPass
    let result := createAllRenderers build driver step.1 rest
    (result.1, step.2 :: result.2)

/-- Lines 372-399 of `record`: the pool is allocated and every renderer, compute pass
and ray-tracing pass is created against it. -/
def createPipelines (build : Build) (driver : Driver) (s : Scene) : Option Scene :=
  let s : Scene := { s with m_descriptorPool := s.m_descriptorPool.allocate }
  let rendered := createAllRenderers build driver s s.m_sceneRenderPasses
  let s : Scene := { rendered.1 with m_sceneRenderPasses := rendered.2 }
  match createComputePasses build s s.m_sceneComputePasses with
  | none => none
  | some (s, computePasses) =>
    let s : Scene := { s with m_sceneComputePasses := computePasses }
    (createRayTracingPasses s s.m_sceneRayTracingPasses).map fun rayTracingPasses =>
      { s with m_sceneRayTracingPasses := rayTracingPasses }

/-- `Wolf::Scene::record`. -/
def record (build : Build) (driver : Driver) (s : Scene) : Option Scene :=
  match s.createPipelines build driver with
  | none => none
  | some s =>
    let buffers := resize s.m_swapChainCommandBuffers s.m_swapChainImages.length none
    match s.recordSwapChainLoop s.m_swapChainImages.enum buffers with
    | none => none
    | some (buffers, true) => some { s with m_swapChainCommandBuffers := buffers }
    | some (buffers, false) =>
      let s : Scene :=
        { s with
          m_swapChainCommandBuffers := buffers
          m_swapChainCompleteSemaphore := some { semaphore := s.semaphoresCreated + 1 }
          semaphoresCreated := s.semaphoresCreated + 1 }
      (s.recordAuxLoop s.m_sceneCommandBuffers.enum).map fun streams =>
        { s with m_sceneCommandBuffers := streams }

end Scene

/-! ## The frame submitter -/

/-- One call of `CommandBuffer::submit(device, queue, waitSemaphores, signalSemaphores)`:
the command buffer submitted, the queue, the `Semaphore*` waited on and the
`VkSemaphore` handles signalled. -/
structure Submission where
  commandBuffer : CommandBuffer
  queue : Nat
  waitSemaphores : List (Option Semaphore)
  signalSemaphores : List Nat
deriving DecidableEq, Repr, Inhabited

namespace Scene

/-- The loop of lines 705-711: the semaphores stream `commandBufferID` waits on. -/
def streamWaitSemaphores (s : Scene) (commandBufferID : Int) :
    List (Int × Int) → Option (List (Option Semaphore))
  | [] => some []
  | commandBufferWaiting :: rest =>
    if commandBufferWaiting.2 = commandBufferID then
      match at? s.m_sceneCommandBuffers commandBufferWaiting.1 with
      | none => none
      | some producer =>
        (streamWaitSemaphores s commandBufferID rest).map fun others =>
          producer.semaphore :: others
    else streamWaitSemaphores s commandBufferID rest

/-- The body of the loop of lines 699-719 for one entry of `commandBufferIDs`: the
state (its diagnostics) and the submission made, if any. -/
def submitStream (s : Scene) (graphicsQueue computeQueue : Nat)
    (commandBufferSynchronization : List (Int × Int)) (commandBufferID : Int) :
    Option (Scene × List Submission) :=
  if commandBufferID < 0 then some (s, [])
  else
    match s.streamWaitSemaphores commandBufferID commandBufferSynchronization with
    | none => none
    | some waitSemaphores =>
      match at? s.m_sceneCommandBuffers commandBufferID with
      | none => none
      | some stream =>
        if stream.type = .GRAPHICS ∨ stream.type = .RAY_TRACING then
          match stream.commandBuffer, stream.semaphore with
          | some commandBuffer, some semaphore =>
            some (s, [⟨commandBuffer, graphicsQueue, waitSemaphores, [semaphore.getSemaphore]⟩])
          | _, _ => none
        else if stream.type = .COMPUTE then
          match stream.commandBuffer, stream.semaphore with
          | some commandBuffer, some semaphore =>
            some (s, [⟨commandBuffer, computeQueue, waitSemaphores, [semaphore.getSemaphore]⟩])
          | _, _ => none
        else some (s.sendError "Invalid queue type at sumbit", [])

/-- The loop of lines 699-719 over `commandBufferIDs`. -/
def submitStreams (s : Scene) (graphicsQueue computeQueue : Nat)
    (commandBufferSynchronization : List (Int × Int)) :
    List Int → Option (Scene × List Submission)
  | [] => some (s, [])
  | commandBufferID :: rest =>
    match s.submitStream graphicsQueue computeQueue commandBufferSynchronization
        commandBufferID with
    | none => none
    | some (s, submitted) =>
      (submitStreams s graphicsQueue computeQueue commandBufferSynchronization rest).map
        fun (result : Scene × List Submission) => (result.1, submitted ++ result.2)

/-- The loop of lines 729-739: the semaphores of the producers the swap-chain stream
waits on, after those in `waitSemaphoreSwapChain`. -/
def swapChainWaitSemaphores (s : Scene) (waitSemaphoreSwapChain : List (Option Semaphore)) :
    List (Int × Int) → Option (Scene × List (Option Semaphore))
  | [] => some (s, waitSemaphoreSwapChain)
  | commandBufferWaiting :: rest =>
    if commandBufferWaiting.2 = -1 then
      let s :=
        if commandBufferWaiting.1 = -1 then
          s.sendError "No command buffer can't wait from swapchain command buffer"
        else if commandBufferWaiting.1 < 0 then s.sendError "Invalid command buffer ID"
        else s
      match at? s.m_sceneCommandBuffers commandBufferWaiting.1 with
      | none => none
      | some producer =>
        swapChainWaitSemaphores s (waitSemaphoreSwapChain ++ [producer.semaphore]) rest
    else swapChainWaitSemaphores s waitSemaphoreSwapChain rest

/-- The queue of the swap-chain submission (lines 741-744). -/
def swapChainQueue (s : Scene) (graphicsQueue computeQueue : Nat) : Nat :=
  if s.m_swapChainCommandType = .GRAPHICS ∨ s.m_swapChainCommandType = .TRANSFER then
    graphicsQueue
  else computeQueue

/-- Lines 721-745: the submission of the swap-chain command buffer. -/
def submitSwapChain (s : Scene) (graphicsQueue computeQueue : Nat) (swapChainImageIndex : Nat)
    (imageAvailableSemaphore : Option Semaphore)
    (commandBufferSynchronization : List (Int × Int)) : Option (Scene × Submission) :=
  match
    (match imageAvailableSemaphore with
    | some semaphore =>
      s.m_swapChainCompleteSemaphore.map fun complete =>
        ([some semaphore], [complete.getSemaphore])
    | none => some (([] : List (Option Semaphore)), ([] : List Nat))) with
  | none => none
  | some (waitSemaphoreSwapChain, signalSemaphoreSwapChain) =>
    match s.swapChainWaitSemaphores waitSemaphoreSwapChain commandBufferSynchronization with
    | none => none
    | some (s, waitSemaphoreSwapChain) =>
      match s.m_swapChainCommandBuffers[swapChainImageIndex]? with
      | some (some commandBuffer) =>
        some (s, ⟨commandBuffer, s.swapChainQueue graphicsQueue computeQueue,
          waitSemaphoreSwapChain, signalSemaphoreSwapChain⟩)
      | _ => none

/-- `Wolf::Scene::frame`: the state (only its diagnostics can change) and the
submissions made, in order. -/
def frame (s : Scene) (graphicsQueue computeQueue : Nat) (swapChainImageIndex : Nat)
    (imageAvailableSemaphore : Option Semaphore) (commandBufferIDs : List Int)
    (commandBufferSynchronization : List (Int × Int)) : Option (Scene × List Submission) :=
  match s.submitStreams graphicsQueue computeQueue commandBufferSynchronization
      commandBufferIDs with
  | none => none
  | some (s, submitted) =>
    (s.submitSwapChain graphicsQueue computeQueue swapChainImageIndex
      imageAvailableSemaphore commandBufferSynchronization).map
      fun (result : Scene × Submission) => (result.1, submitted ++ [result.2])

/-! ## The resize -/

end Scene

/-- A loop over a state whose body may be undefined: `none` as soon as one iteration
is. -/
def forEachState {σ α : Type} (body : σ → α → Option σ) : List α → σ → Option σ
  | [], state => some state
  | x :: rest, state =>
    match body state x with
    | none => none
    | some state' => forEachState body rest state'

namespace Scene

/-- The body of the loop of lines 762-767 for renderer `j` of render pass `i`: the
creation parameters of the renderer are stored at `j` with `renderPassID = i`, and the
extent of the entry at `i`, the index of the render pass, is zeroed. -/
def resizeRendererCreateInfo (i : Nat) (rendererCreateInfos : List RendererCreateInfo)
    (jr : Nat × Option Renderer) : Option (List RendererCreateInfo) :=
  match jr.2 with
  | none => none
  | some renderer =>
    let rendererCreateInfos := rendererCreateInfos.set jr.1
      { renderer.getRendererCreateInfoStructure with renderPassID := (i : Int) }
    match rendererCreateInfos[i]? with
    | none => none
    | some createInfo =>
      some (rendererCreateInfos.set i
        { createInfo with
          pipelineCreateInfo := { createInfo.pipelineCreateInfo with extent := ⟨0, 0⟩ } })

/-- Lines 761-767: the creation parameters kept for the renderers of render pass `i`. -/
def resizeRendererCreateInfos (i : Nat) (renderers : List (Option Renderer)) :
    Option (List RendererCreateInfo) :=
  forEachState (resizeRendererCreateInfo i) renderers.enum
    (List.replicate renderers.length default)

/-- Lines 770-776: the mesh infos kept for the renderers of a render pass, each with its
descriptor set cleared. -/
def resizeAddMeshInfos : List (Option Renderer) → Option (List (List AddMeshInfo))
  | [] => some []
  | none :: _ => none
  | some renderer :: rest =>
    (resizeAddMeshInfos rest).map fun others =>
      (renderer.getMeshInfos.map fun addMeshInfo =>
        { addMeshInfo with descriptorSet := VK_NULL_HANDLE }) :: others

/-- The body of the loop of lines 751-788 for render pass `i`: a pass bound to the swap
chain is registered again at its index, then its renderers, then their meshes. -/
def resizeRenderPass (build : Build) (s : Scene) (i : Nat) : Option Scene :=
  match s.m_sceneRenderPasses[i]? with
  | none => none
  | some sceneRenderPass =>
    if sceneRenderPass.outputIsSwapChain then
      let renderPassCreateInfo : RenderPassCreateInfo :=
        { outputIsSwapChain := true, commandBufferID := sceneRenderPass.commandBufferID }
      let s : Scene :=
        { s with
          m_sceneRenderPasses :=
            s.m_sceneRenderPasses.set i { sceneRenderPass with renderPass := none } }
      match resizeRendererCreateInfos i sceneRenderPass.renderers with
      | none => none
      | some rendererCreateInfos =>
        match resizeAddMeshInfos sceneRenderPass.renderers with
        | none => none
        | some addMeshInfos =>
          match s.addRenderPass renderPassCreateInfo (i : Int) with
          | none => none
          | some (s, _) =>
            match forEachState
                (fun (s : Scene) (renderer : RendererCreateInfo) =>
                  (s.addRenderer build renderer).map fun result => result.1)
                rendererCreateInfos s with
            | none => none
            | some s =>
              forEachState (fun (s : Scene) (addMeshInfo : AddMeshInfo) => s.addMesh addMeshInfo)
                addMeshInfos.flatten s
    else some s

/-- The loop of lines 751-788 over the render passes; its body keeps the number of
render passes, so the indices are those of the registry at entry. -/
def resizeRenderPasses (build : Build) (s : Scene) : Option Scene :=
  forEachState (resizeRenderPass build) (List.range s.m_sceneRenderPasses.length) s

/-- Lines 790-793: the command buffer of every auxiliary stream is reset. -/
def resetCommandBuffers (s : Scene) : Scene :=
  { s with
    m_sceneCommandBuffers :=
      s.m_sceneCommandBuffers.map fun stream => { stream with commandBuffer := none } }

/-- `Wolf::Scene::resize`. -/
def resize (build : Build) (driver : Driver) (s : Scene) (swapChainImages : List Image) :
    Option Scene :=
  let s : Scene := { s with m_swapChainImages := swapChainImages }
  match s.resizeRenderPasses build with
  | none => none
  | some s => s.resetCommandBuffers.record build driver

end Scene

/-! ## Definitions used to state the properties -/

namespace Scene

/-- The scene without its descriptor pool and its diagnostics. -/
@[simps]
def erasePool (s : Scene) : Scene := { s with m_descriptorPool := {}, debug := [] }

/-- The scene with another compute-pass registry. -/
@[simps]
def withComputePasses (s : Scene) (passes : List SceneComputePass) : Scene :=
  { s with m_sceneComputePasses := passes }

/-- The scene with another ray-tracing-pass registry. -/
@[simps]
def withRayTracingPasses (s : Scene) (passes : List SceneRayTracingPass) : Scene :=
  { s with m_sceneRayTracingPasses := passes }

/-- The registry entry of a compute pass bound to the swap chain: one replica per
presentable image, in order. -/
def computeEntrySwapChain (s : Scene) (createInfo : ComputePassCreateInfo) (image0 : Image) :
    SceneComputePass :=
  { commandBufferID := createInfo.commandBufferID
    outputIsSwapChain := createInfo.outputIsSwapChain
    name := createInfo.name
    computePasses := s.m_swapChainImages.map fun image =>
      some (computeReplica s.m_computeCommandPool createInfo image)
    extent := ⟨image0.extent.width, image0.extent.height⟩
    dispatchGroups := createInfo.dispatchGroups
    beforeRecord := createInfo.beforeRecord
    dataForBeforeRecordCallback := createInfo.dataForBeforeRecordCallback
    afterRecord := createInfo.afterRecord
    dataForAfterRecordCallback := createInfo.dataForAfterRecordCallback }

/-- The registry entry of an offscreen compute pass: a single replica. -/
def computeEntryOffscreen (s : Scene) (createInfo : ComputePassCreateInfo) : SceneComputePass :=
  { commandBufferID := createInfo.commandBufferID
    outputIsSwapChain := createInfo.outputIsSwapChain
    name := createInfo.name
    computePasses :=
      [some { commandPool := s.m_computeCommandPool
              computeShaderPath := createInfo.computeShaderPath
              descriptorSetCreateInfo := createInfo.descriptorSetCreateInfo }]
    extent := createInfo.extent
    dispatchGroups := createInfo.dispatchGroups
    beforeRecord := createInfo.beforeRecord
    dataForBeforeRecordCallback := createInfo.dataForBeforeRecordCallback
    afterRecord := createInfo.afterRecord
    dataForAfterRecordCallback := createInfo.dataForAfterRecordCallback }

/-- The registry entry of a ray-tracing pass bound to the swap chain. -/
def rayTracingEntrySwapChain (s : Scene) (rayTracingPassAddInfo : RayTracingPassAddInfo)
    (image0 : Image) : SceneRayTracingPass :=
  { commandBufferID := rayTracingPassAddInfo.commandBufferID
    outputIsSwapChain := rayTracingPassAddInfo.outputIsSwapChain
    rayTracingPasses := s.m_swapChainImages.map fun image =>
      some (rayTracingReplica s.m_computeCommandPool rayTracingPassAddInfo image)
    extent := ⟨image0.extent.width, image0.extent.height⟩
    beforeRecord := rayTracingPassAddInfo.beforeRecord
    dataForBeforeRecordCallback := rayTracingPassAddInfo.dataForBeforeRecordCallback
    afterRecord := rayTracingPassAddInfo.afterRecord
    dataForAfterRecordCallback := rayTracingPassAddInfo.dataForAfterRecordCallback }

/-- The registry entry of an offscreen ray-tracing pass: a single replica. -/
def rayTracingEntryOffscreen (s : Scene) (rayTracingPassAddInfo : RayTracingPassAddInfo) :
    SceneRayTracingPass :=
  { commandBufferID := rayTracingPassAddInfo.commandBufferID
    outputIsSwapChain := rayTracingPassAddInfo.outputIsSwapChain
    rayTracingPasses :=
      [some { commandPool := s.m_computeCommandPool
              rayTracingPassCreateInfo := rayTracingPassAddInfo.rayTracingPassCreateInfo }]
    extent := rayTracingPassAddInfo.extent
    beforeRecord := rayTracingPassAddInfo.beforeRecord
    dataForBeforeRecordCallback := rayTracingPassAddInfo.dataForBeforeRecordCallback
    afterRecord := rayTracingPassAddInfo.afterRecord
    dataForAfterRecordCallback := rayTracingPassAddInfo.dataForAfterRecordCallback }

/-- The effect of one step of the replica loop of `addComputePass` on the registry. -/
def setComputeReplica (createInfo : ComputePassCreateInfo) (t : Scene) (ie : Nat × Image) :
    Scene :=
  t.backComputePass (fun pass =>
    { pass with
      computePasses := pass.computePasses.set ie.1
        (some (computeReplica t.m_computeCommandPool createInfo ie.2)) })

/-- The effect of one step of the replica loop of `addRayTracingPass` on the registry. -/
def setRayTracingReplica (rayTracingPassAddInfo : RayTracingPassAddInfo) (t : Scene)
    (ie : Nat × Image) : Scene :=
  t.backRayTracingPass (fun pass =>
    { pass with
      rayTracingPasses := pass.rayTracingPasses.set ie.1
        (some (rayTracingReplica t.m_computeCommandPool rayTracingPassAddInfo ie.2)) })

end Scene

namespace Scene

/-- The scene with another render-pass registry. -/
@[simps]
def withRenderPasses (s : Scene) (passes : List SceneRenderPass) : Scene :=
  { s with m_sceneRenderPasses := passes }

/-- The registry entry `addRenderPass` stores for a creation descriptor whose outputs
and extent are derived: its pass object is built from the attachments of its own
outputs, on the presentable images or on the extent. -/
def renderEntry (s : Scene) (createInfo : RenderPassCreateInfo) : SceneRenderPass :=
  { commandBufferID := createInfo.commandBufferID
    outputs := createInfo.outputs
    outputIsSwapChain := createInfo.outputIsSwapChain
    name := createInfo.name
    renderPass := some
      (if createInfo.outputIsSwapChain then
        RenderPass.initializeImages (createInfo.outputs.map fun output => output.attachment)
          s.m_swapChainImages
      else
        RenderPass.initializeExtents (createInfo.outputs.map fun output => output.attachment)
          [createInfo.extent])
    beforeRecord := createInfo.beforeRecord
    dataForBeforeRecordCallback := createInfo.dataForBeforeRecordCallback
    afterRecord := createInfo.afterRecord
    dataForAfterRecordCallback := createInfo.dataForAfterRecordCallback }

end Scene


/-! ## The pool-sizing accumulator, kind by kind -/

/-- The seven kinds of descriptor the accumulator counts. -/
inductive DescriptorKind where
  | uniformBuffer
  | storageBuffer
  | storageImage
  | combinedImageSampler
  | sampledImage
  | sampler
  | accelerationStructure
deriving DecidableEq, Repr

namespace DescriptorKind

/-- The Vulkan descriptor type of a kind. -/
def descriptorType : DescriptorKind → Nat
  | uniformBuffer => VK_DESCRIPTOR_TYPE_UNIFORM_BUFFER
  | storageBuffer => VK_DESCRIPTOR_TYPE_STORAGE_BUFFER
  | storageImage => VK_DESCRIPTOR_TYPE_STORAGE_IMAGE
  | combinedImageSampler => VK_DESCRIPTOR_TYPE_COMBINED_IMAGE_SAMPLER
  | sampledImage => VK_DESCRIPTOR_TYPE_SAMPLED_IMAGE
  | sampler => VK_DESCRIPTOR_TYPE_SAMPLER
  | accelerationStructure => VK_DESCRIPTOR_TYPE_ACCELERATION_STRUCTURE_NV

/-- The descriptor entries of a binding among which a kind is looked for: the buffer
entries for the buffer kinds, the image entries for the image and sampler kinds, the
default entries for acceleration structures. -/
def entries (kind : DescriptorKind) (d : DescriptorSetCreateInfo) : List DescriptorLayout :=
  match kind with
  | uniformBuffer | storageBuffer => d.descriptorBuffers.map fun entry => entry.2
  | storageImage | combinedImageSampler | sampledImage | sampler =>
    d.descriptorImages.map fun entry => entry.2
  | accelerationStructure => d.descriptorDefault.map fun entry => entry.2

/-- The sum of the counts of the descriptor entries of a kind in a binding. -/
def count (kind : DescriptorKind) (d : DescriptorSetCreateInfo) : Nat :=
  (((kind.entries d).filter fun layout => layout.descriptorType = kind.descriptorType).map
    fun layout => layout.count).sum

/-- What one buffer entry adds to the counter of a kind. -/
def ofBuffer (kind : DescriptorKind) (layout : DescriptorLayout) : Nat :=
  match kind with
  | uniformBuffer | storageBuffer =>
    if layout.descriptorType = kind.descriptorType then layout.count else 0
  | _ => 0

/-- What one image entry adds to the counter of a kind. -/
def ofImage (kind : DescriptorKind) (layout : DescriptorLayout) : Nat :=
  match kind with
  | storageImage | combinedImageSampler | sampledImage | sampler =>
    if layout.descriptorType = kind.descriptorType then layout.count else 0
  | _ => 0

/-- What one default entry adds to the counter of a kind. -/
def ofDefault (kind : DescriptorKind) (layout : DescriptorLayout) : Nat :=
  match kind with
  | accelerationStructure =>
    if layout.descriptorType = kind.descriptorType then layout.count else 0
  | _ => 0

end DescriptorKind

/-- The counter of a kind. -/
def DescriptorPoolSizes.get (sizes : DescriptorPoolSizes) : DescriptorKind → Nat
  | .uniformBuffer => sizes.uniformBuffer
  | .storageBuffer => sizes.storageBuffer
  | .storageImage => sizes.storageImage
  | .combinedImageSampler => sizes.combinedImageSampler
  | .sampledImage => sizes.sampledImage
  | .sampler => sizes.sampler
  | .accelerationStructure => sizes.accelerationStructure

namespace Scene

/-- A sequence of `addMesh` calls, in order. -/
def addMeshes (s : Scene) : List AddMeshInfo → Option Scene
  | [] => some s
  | addMeshInfo :: rest =>
    match s.addMesh addMeshInfo with
    | none => none
    | some s' => addMeshes s' rest

/-- The counter of a kind in the accumulator of the scene. -/
def poolCount (s : Scene) (kind : DescriptorKind) : Nat := s.m_descriptorPool.sizes.get kind

/-- Which renderer slots exist, and which hold a renderer. -/
def rendererSlots (s : Scene) : List (List Bool) :=
  s.m_sceneRenderPasses.map fun pass => pass.renderers.map fun renderer => renderer.isSome

end Scene

namespace Scene

/-- Whether the slot a mesh is sent to exists and holds a renderer. -/
def meshTarget (slots : List (List Bool)) (addMeshInfo : AddMeshInfo) : Bool :=
  match at? slots addMeshInfo.renderPassID with
  | none => false
  | some row => at? row addMeshInfo.rendererID == some true

end Scene


/-! ## Concrete scenes -/

namespace Example

/-- A presentable image of 800 by 600 pixels. -/
def image (handle : Nat) : Image := ⟨handle, ⟨800, 600⟩, 44⟩

/-- A scene in graphics mode with three presentable images and nothing registered. -/
def emptyScene : Scene :=
  Scene.create ⟨.GRAPHICS⟩ ⟨126⟩ [image 10, image 11, image 12] 1 2

/-- The scene after one render pass bound to the swap chain is registered. -/
def onePassScene : Scene :=
  ((emptyScene.addRenderPass { commandBufferID := -1, outputIsSwapChain := true } (-1)).map
    fun result => result.1).getD emptyScene

end Example


/-- The image a replica writes to: the image of the last descriptor-image binding. -/
def lastBoundImage (descriptorSetCreateInfo : DescriptorSetCreateInfo) : Option Image :=
  match descriptorSetCreateInfo.descriptorImages.getLast? with
  | some ([imageData], _) => imageData.image
  | _ => none


namespace Scene

/-- Every renderer slot of every render pass holds a renderer. -/
def renderersPresent (s : Scene) : Bool :=
  s.m_sceneRenderPasses.all fun pass => pass.renderers.all fun renderer => renderer.isSome

/-- The swap-chain command buffer `record` leaves for a presentable image, given the
commands recorded between its begin and its end. -/
def swapChainCommandBuffer (s : Scene) (commands : List Command) : CommandBuffer :=
  ((({ commandPool := s.swapChainCommandPool } : CommandBuffer).beginCommandBuffer).record
    commands).endCommandBuffer

/-- The command buffer `record` leaves for an auxiliary stream, given the commands
recorded between its begin and its end. -/
def auxCommandBuffer (commandBuffer : CommandBuffer) (commands : List Command) :
    CommandBuffer :=
  (commandBuffer.beginCommandBuffer.record commands).endCommandBuffer

end Scene

/-- A render pass once `record` has created its renderers against the pool. -/
def SceneRenderPass.created (driver : Driver) (pool : Option DescriptorPoolSizes)
    (pass : SceneRenderPass) : SceneRenderPass :=
  { pass with
    renderers := pass.renderers.map fun renderer => renderer.map (Renderer.create driver pool) }

/-- A compute pass once `record` has created its replicas against the pool. -/
def SceneComputePass.created (pool : Option DescriptorPoolSizes) (pass : SceneComputePass) :
    SceneComputePass :=
  { pass with
    computePasses := pass.computePasses.map fun replica => replica.map (ComputePass.create pool) }

/-- A ray-tracing pass once `record` has created its replicas against the pool. -/
def SceneRayTracingPass.created (pool : Option DescriptorPoolSizes)
    (pass : SceneRayTracingPass) : SceneRayTracingPass :=
  { pass with
    rayTracingPasses := pass.rayTracingPasses.map fun replica =>
      replica.map (RayTracingPass.create pool) }

namespace Scene

/-- The messages `record` sends while it creates the pipelines (none with `NDEBUG`). -/
def createMessages (build : Build) (s : Scene) : List DebugMessage :=
  if build.NDEBUG then []
  else
    (s.m_sceneRenderPasses.map fun pass =>
      (⟨.info, "Creating renderer for render pass: " ++ pass.name, []⟩ : DebugMessage)) ++
    (s.m_sceneComputePasses.map fun pass =>
      (⟨.info, "Creating compute pass: " ++ pass.name, []⟩ : DebugMessage))

/-- The scene after lines 372-399 of `record`, when they are defined. -/
def created (build : Build) (driver : Driver) (s : Scene) : Scene :=
  let pool := s.m_descriptorPool.allocate.getDescriptorPool
  { s with
    m_descriptorPool := s.m_descriptorPool.allocate
    m_sceneRenderPasses := s.m_sceneRenderPasses.map (SceneRenderPass.created driver pool)
    m_sceneComputePasses := s.m_sceneComputePasses.map (SceneComputePass.created pool)
    m_sceneRayTracingPasses := s.m_sceneRayTracingPasses.map (SceneRayTracingPass.created pool)
    debug := s.debug ++ s.createMessages build }

/-- No replica of a compute or ray-tracing pass is null. -/
def replicasPresent (s : Scene) : Bool :=
  (s.m_sceneComputePasses.all fun pass => pass.computePasses.all fun replica => replica.isSome) &&
  (s.m_sceneRayTracingPasses.all fun pass =>
    pass.rayTracingPasses.all fun replica => replica.isSome)

end Scene

namespace Scene

/-- The stream `addCommandBuffer` appends: a command buffer from the pool of its type,
none for a type that is neither graphics, ray tracing nor compute, and a fresh
semaphore. -/
def newStream (s : Scene) (createInfo : CommandBufferCreateInfo) : SceneCommandBuffer :=
  { type := createInfo.commandType
    commandBuffer :=
      match createInfo.commandType with
      | .GRAPHICS | .RAY_TRACING => some { commandPool := s.m_graphicsCommandPool }
      | .COMPUTE => some { commandPool := s.m_computeCommandPool }
      | .TRANSFER => none
    semaphore := some
      { semaphore := s.semaphoresCreated + 1, pipelineStage := createInfo.finalPipelineStage } }

/-- The scene with another list of auxiliary streams. -/
@[simps]
def withCommandBuffers (s : Scene) (streams : List SceneCommandBuffer) : Scene :=
  { s with m_sceneCommandBuffers := streams }

/-- The scene without its diagnostics and its count of semaphores. -/
@[simps]
def eraseDebug (s : Scene) : Scene := { s with debug := [], semaphoresCreated := 0 }

end Scene

namespace Example

/-- A driver that numbers pipelines and layouts 7 and 8 and keeps the descriptor set a
mesh was given. -/
def driver : Driver := ⟨fun _ => 7, fun _ => 8, fun _ addMeshInfo => addMeshInfo.descriptorSet⟩

end Example

/-- A pass of one of the three registries the loops of lines 608-645 of `record` go
through. -/
inductive AuxPass where
  | renderPass (pass : SceneRenderPass)
  | computePass (pass : SceneComputePass)
  | rayTracingPass (pass : SceneRayTracingPass)
deriving DecidableEq, Repr

namespace AuxPass

def commandBufferID : AuxPass → Int
  | .renderPass pass => pass.commandBufferID
  | .computePass pass => pass.commandBufferID
  | .rayTracingPass pass => pass.commandBufferID

/-- The commands one iteration of the loops of lines 608-645 records for a pass while
the auxiliary stream `i` is recorded. -/
def record (i : Nat) : AuxPass → Option (List Command)
  | .renderPass pass =>
    if pass.commandBufferID = (i : Int) then Scene.recordRenderPass pass else some []
  | .computePass pass => Scene.recordAuxComputePass i pass
  | .rayTracingPass pass => Scene.recordAuxRayTracingPass i pass

end AuxPass

namespace Scene

/-- The passes whose test `commandBufferID == i` holds, in the order lines 608-645 reach
them: the render passes in the order of their registry, then the compute passes in the
order of theirs, then the ray-tracing passes in the order of theirs. -/
def auxPasses (s : Scene) (i : Nat) : List AuxPass :=
  (s.m_sceneRenderPasses.filter fun pass => decide (pass.commandBufferID = (i : Int))).map
      AuxPass.renderPass ++
    ((s.m_sceneComputePasses.filter fun pass => decide (pass.commandBufferID = (i : Int))).map
      AuxPass.computePass ++
    (s.m_sceneRayTracingPasses.filter fun pass => decide (pass.commandBufferID = (i : Int))).map
      AuxPass.rayTracingPass)

end Scene

namespace Example

/-- An offscreen colour output of 256 by 256 pixels. -/
def colourOutput : RenderPassOutput :=
  { clearValue := { float32_3 := 1 }
    attachment :=
      { extent := ⟨256, 256⟩
        format := VK_FORMAT_R8G8B8A8_UNORM
        sampleCount := VK_SAMPLE_COUNT_1_BIT
        finalLayout := VK_IMAGE_LAYOUT_GENERAL
        storeOperation := VK_ATTACHMENT_STORE_OP_STORE
        usageType := VK_IMAGE_USAGE_COLOR_ATTACHMENT_BIT } }

/-- One auxiliary graphics stream, handle 0. -/
def oneStreamScene : Scene :=
  (emptyScene.addCommandBuffer { commandType := .GRAPHICS }).1

/-- Then a compute pass is registered on stream 0. -/
def computeFirstScene : Scene :=
  ((oneStreamScene.addComputePass
    { name := "blur", commandBufferID := 0, extent := ⟨64, 64⟩,
      dispatchGroups := ⟨8, 8, 1⟩ }).map fun result => result.1).getD oneStreamScene

/-- Then a render pass is registered on stream 0. -/
def renderSecondScene : Scene :=
  ((computeFirstScene.addRenderPass
    { name := "shadow", commandBufferID := 0, outputs := [colourOutput] } (-1)).map
    fun result => result.1).getD computeFirstScene

/-- Then a transfer is registered on stream 0. -/
def transferThirdScene : Scene :=
  (renderSecondScene.addTransfer
    { commandBufferID := 0, origin := some (image 20), destination := some (image 21) }).1

end Example

/-- The index count and the instance count of an indexed draw. -/
def Command.draw? : Command → Option (Nat × Nat)
  | .drawIndexed indexCount instanceCount => some (indexCount, instanceCount)
  | _ => none

/-- The indexed draws of a command sequence, in order. -/
def drawsOf (commands : List Command) : List (Nat × Nat) := commands.filterMap Command.draw?

/-- The relation of a draw to the mesh it is recorded for: the index count is that of
the mesh, and the instance count is 1 when the mesh is not instanced. -/
def IsDrawOf (draw : Nat × Nat) (mesh : Mesh) : Prop :=
  draw.1 = mesh.1.nbIndices ∧ (isInstancied mesh = false → draw.2 = 1)

/-- The meshes of a renderer slot, in insertion order. -/
def meshesOf : Option Renderer → List Mesh
  | none => []
  | some renderer => renderer.getMeshes

/-- The commands of a mesh without instancing and without descriptor set. -/
def plainMeshCommands (mesh : Mesh) : List Command :=
  [.bindVertexBuffers 0 mesh.1.vertexBuffer, .bindIndexBuffer mesh.1.indexBuffer,
    .drawIndexed mesh.1.nbIndices 1]

namespace Scene

/-- The meshes of the renderers of the render passes hosted by the swap-chain stream
(`commandBufferID == -1`), in pass, renderer and insertion order. -/
def swapChainMeshes (s : Scene) : List Mesh :=
  (s.m_sceneRenderPasses.filter fun pass => decide (pass.commandBufferID = -1)).flatMap
    fun pass => pass.renderers.flatMap meshesOf

end Scene

namespace Example

/-- One renderer is added to the render pass of `onePassScene`. -/
def oneRendererScene : Scene :=
  ((onePassScene.addRenderer ⟨true, false⟩ { renderPassID := 0 }).map
    fun result => result.1).getD onePassScene

/-- One mesh of 6 indices, without instance buffer and without descriptor set, is added
to that renderer. -/
def quadScene : Scene :=
  (oneRendererScene.addMesh
    { renderPassID := 0, rendererID := 0, vertexBuffer := ⟨100, 6, 101⟩ }).getD
    oneRendererScene

end Example

/-- A command sequence draws the meshes of a list: its indexed draws are those of the
meshes, one each and in order, and the commands of every mesh without instancing and
without descriptor set stand in it as one block. -/
def DrawsMeshes (commands : List Command) (meshes : List Mesh) : Prop :=
  List.Forall₂ IsDrawOf (drawsOf commands) meshes ∧
  ∀ mesh ∈ meshes, isInstancied mesh = false → mesh.2.2 = VK_NULL_HANDLE →
    plainMeshCommands mesh <:+: commands

namespace Scene

/-- The completion signal of the auxiliary stream `p`: the pointer
`m_sceneCommandBuffers[p].semaphore.get()`, null when there is no such stream. -/
def completionSignal (s : Scene) (p : Int) : Option Semaphore :=
  (at? s.m_sceneCommandBuffers p).bind fun stream => stream.semaphore

/-- The completion signals of the producers of the wait edges whose consumer is `c`,
in edge order. -/
def producerSignals (s : Scene) (c : Int) (edges : List (Int × Int)) :
    List (Option Semaphore) :=
  (edges.filter fun edge => decide (edge.2 = c)).map fun edge => s.completionSignal edge.1

/-- The relation of a submitted stream index to its submission: the command buffer is
that of the stream, the wait set is the completion signals of the producers of the edges
into the stream, and the signal set is the completion signal of the stream. -/
def IsStreamSubmission (s : Scene) (edges : List (Int × Int)) (c : Int)
    (submission : Submission) : Prop :=
  (∃ stream, at? s.m_sceneCommandBuffers c = some stream ∧
    stream.commandBuffer = some submission.commandBuffer) ∧
  submission.waitSemaphores = s.producerSignals c edges ∧
  ∃ semaphore, s.completionSignal c = some semaphore ∧
    submission.signalSemaphores = [semaphore.getSemaphore]

/-- The auxiliary streams `frame` can submit and wait on: each has a queue type, a
command buffer and a semaphore. -/
def StreamReady (stream : SceneCommandBuffer) : Prop :=
  stream.type ≠ .TRANSFER ∧ (∃ commandBuffer, stream.commandBuffer = some commandBuffer) ∧
    ∃ semaphore, stream.semaphore = some semaphore

end Scene

namespace Example

/-- Two auxiliary streams, A with handle 0 and B with handle 1, recorded. -/
def twoStreamScene : Scene :=
  (((emptyScene.addCommandBuffer { commandType := .COMPUTE }).1.addCommandBuffer
    { commandType := .GRAPHICS }).1.record ⟨true, false⟩ driver).getD emptyScene

end Example

namespace Example

/-- A mesh with two uniform buffers and one combined image sampler in its binding. -/
def texturedMesh : AddMeshInfo :=
  { renderPassID := 0, rendererID := 0, vertexBuffer := ⟨100, 6, 101⟩
    descriptorSetCreateInfo :=
      { descriptorBuffers := [([30, 31], ⟨VK_DESCRIPTOR_TYPE_UNIFORM_BUFFER, 1, 2, 0⟩)]
        descriptorImages :=
          [([{}], ⟨VK_DESCRIPTOR_TYPE_COMBINED_IMAGE_SAMPLER, 16, 1, 1⟩)] } }

/-- A mesh with one storage buffer in its binding. -/
def storageMesh : AddMeshInfo :=
  { renderPassID := 0, rendererID := 0, vertexBuffer := ⟨102, 36, 103⟩
    descriptorSetCreateInfo :=
      { descriptorBuffers := [([32], ⟨VK_DESCRIPTOR_TYPE_STORAGE_BUFFER, 1, 1, 0⟩)] } }

end Example

namespace Scene

/-- The scene with another diagnostic log. -/
@[simps]
def withDebug (s : Scene) (debug : List DebugMessage) : Scene := { s with debug := debug }

/-- Whether `frame` submits the entry `c` of `commandBufferIDs`: it is not negative and
the stream it names has the type graphics, ray tracing or compute. -/
def submitsStream (streams : List SceneCommandBuffer) (c : Int) : Bool :=
  decide (0 ≤ c) &&
    match at? streams c with
    | some stream => decide (stream.type ≠ .TRANSFER)
    | none => false

/-- The relation of a submitted entry of `commandBufferIDs` to its submission: the
command buffer submitted is that of the stream named. -/
def IsSubmissionOf (streams : List SceneCommandBuffer) (c : Int) (submission : Submission) :
    Prop :=
  ∃ stream, at? streams c = some stream ∧ stream.type ≠ .TRANSFER ∧
    stream.commandBuffer = some submission.commandBuffer

end Scene

namespace Example

/-- Two recorded auxiliary streams of types compute and graphics and a third of type
`TRANSFER`, which has no command buffer. -/
def threeStreamScene : Scene :=
  (twoStreamScene.addCommandBuffer { commandType := .TRANSFER }).1

end Example

namespace Scene

/-- The scene without its render-pass registry, the counters of its pool-sizing
accumulator and its diagnostics. -/
@[simps]
def eraseRenderPasses (s : Scene) : Scene :=
  { s with
    m_sceneRenderPasses := []
    m_descriptorPool := { s.m_descriptorPool with sizes := {} }
    debug := [] }

/-- Every mesh info kept by a renderer of the pass names the render pass `i`. -/
def MeshInfosName (i : Int) (pass : SceneRenderPass) : Prop :=
  ∀ renderer, some renderer ∈ pass.renderers →
    ∀ info ∈ renderer.getMeshInfos, info.renderPassID = i

/-- Every mesh info kept by a renderer of a render pass bound to the swap chain names
the index of that render pass, as `addMesh` leaves it. -/
def meshInfosInPlace (s : Scene) : Bool :=
  s.m_sceneRenderPasses.enum.all fun entry =>
    !entry.2.outputIsSwapChain ||
      entry.2.renderers.all fun slot =>
        match slot with
        | none => true
        | some renderer =>
          renderer.getMeshInfos.all fun info => decide (info.renderPassID = (entry.1 : Int))

/-- A render pass bound to the swap chain keeps only mesh infos that name the render
pass `i`. -/
def InPlaceAt (i : Nat) (pass : SceneRenderPass) : Prop :=
  pass.outputIsSwapChain = true → MeshInfosName (i : Int) pass

/-- The property `meshInfosInPlace`, entry by entry. -/
def MeshInfosInPlace (s : Scene) : Prop :=
  ∀ (i : Nat) (pass : SceneRenderPass), s.m_sceneRenderPasses[i]? = some pass → InPlaceAt i pass

/-- The change a step of the rebuild of render pass `i` makes: only the entry `i` of
the registry, the counters of the accumulator and the diagnostics may differ, the entry
`i` gets no null renderer and no mesh info that names another render pass. -/
def Rebuilds (i : Nat) (s t : Scene) : Prop :=
  t.eraseRenderPasses = s.eraseRenderPasses ∧
  t.m_sceneRenderPasses.length = s.m_sceneRenderPasses.length ∧
  (∀ k, k ≠ i → t.m_sceneRenderPasses[k]? = s.m_sceneRenderPasses[k]?) ∧
  ∀ pass', t.m_sceneRenderPasses[i]? = some pass' →
    ∃ pass, s.m_sceneRenderPasses[i]? = some pass ∧
      (none ∉ pass.renderers → none ∉ pass'.renderers) ∧
      (InPlaceAt i pass → InPlaceAt i pass')

end Scene

namespace Scene

/-- What every step of `resize` before its `record` keeps: everything outside the
registry of render passes but the counters of the accumulator and the diagnostics, the
number of render passes, and the absence of null renderers. -/
def Keeps (s t : Scene) : Prop :=
  t.eraseRenderPasses = s.eraseRenderPasses ∧
  t.m_sceneRenderPasses.length = s.m_sceneRenderPasses.length ∧
  (s.renderersPresent = true → t.renderersPresent = true)

/-- The state of the loop of `resize` once the render passes before `j` are rebuilt:
the entries from `j` on and the entries that are not bound to the swap chain are as at
the start, the rebuilt entries have no null renderer, and outside the registry only the
counters of the accumulator and the diagnostics may differ. -/
def RebuiltBefore (j : Nat) (s t : Scene) : Prop :=
  t.eraseRenderPasses = s.eraseRenderPasses ∧
  t.m_sceneRenderPasses.length = s.m_sceneRenderPasses.length ∧
  (∀ k, j ≤ k → t.m_sceneRenderPasses[k]? = s.m_sceneRenderPasses[k]?) ∧
  (∀ (k : Nat) (pass : SceneRenderPass), s.m_sceneRenderPasses[k]? = some pass →
    pass.outputIsSwapChain = false →
    t.m_sceneRenderPasses[k]? = some pass) ∧
  (∀ k < j, ∀ pass pass' : SceneRenderPass, s.m_sceneRenderPasses[k]? = some pass →
    t.m_sceneRenderPasses[k]? = some pass' → pass.outputIsSwapChain = true →
    none ∉ pass.renderers ∧ none ∉ pass'.renderers) ∧
  t.MeshInfosInPlace

end Scene

namespace Example

/-- The scene `quadScene`, whose render pass 0 is bound to the swap chain and has one
renderer with one mesh, with a second render pass, offscreen and recorded with the swap
chain, that has one renderer with one mesh. -/
def offscreenSecondScene : Scene :=
  ((((quadScene.addRenderPass
    { name := "shadow", commandBufferID := -1, outputs := [colourOutput], beforeRecord := some 5,
      dataForBeforeRecordCallback := 6 } (-1)).bind
    fun result => result.1.addRenderer ⟨true, false⟩ { renderPassID := 1 }).bind
    fun result => result.1.addMesh
      { renderPassID := 1, rendererID := 0, vertexBuffer := ⟨102, 36, 103⟩ }).getD quadScene)

/-- The scene `onePassScene` with a second render pass bound to the swap chain, which
has one renderer. -/
def twoSwapChainPassScene : Scene :=
  (((onePassScene.addRenderPass { commandBufferID := -1, outputIsSwapChain := true } (-1)).bind
    fun result => result.1.addRenderer ⟨true, false⟩ { renderPassID := 1 }).map
    fun result => result.1).getD onePassScene

/-- Presentable images of 1024 by 768 pixels, as after a resize of the window. -/
def resizedImages : List Image := [⟨13, ⟨1024, 768⟩, 44⟩, ⟨14, ⟨1024, 768⟩, 44⟩]

end Example

namespace Scene

/-- A command-stream index that names a stream: the swap-chain sentinel `-1` or the
index of an auxiliary stream that exists. -/
def StreamIndexValid (s : Scene) (commandBufferID : Int) : Prop :=
  commandBufferID = -1 ∨
    (0 ≤ commandBufferID ∧ commandBufferID < (s.m_sceneCommandBuffers.length : Int))

/-- Every pass of the four registries has a command-stream index that names a stream. -/
def StreamIndicesValid (s : Scene) : Prop :=
  (∀ pass ∈ s.m_sceneRenderPasses, s.StreamIndexValid pass.commandBufferID) ∧
  (∀ pass ∈ s.m_sceneComputePasses, s.StreamIndexValid pass.commandBufferID) ∧
  (∀ pass ∈ s.m_sceneRayTracingPasses, s.StreamIndexValid pass.commandBufferID) ∧
  (∀ transfer ∈ s.m_sceneTransfers, s.StreamIndexValid transfer.commandBufferID)

end Scene

namespace Scene

/-- The registry entry `addRenderPass` stores for a creation descriptor whose outputs
and extent are derived, given the pass object built for it. It has no renderer. -/
def storedEntry (createInfo : RenderPassCreateInfo) (renderPass : RenderPass) :
    SceneRenderPass :=
  { commandBufferID := createInfo.commandBufferID
    outputs := createInfo.outputs
    outputIsSwapChain := createInfo.outputIsSwapChain
    name := createInfo.name
    renderPass := some renderPass
    beforeRecord := createInfo.beforeRecord
    dataForBeforeRecordCallback := createInfo.dataForBeforeRecordCallback
    afterRecord := createInfo.afterRecord
    dataForAfterRecordCallback := createInfo.dataForAfterRecordCallback }

end Scene

namespace Example

/-- A colour output supplied without an extent. -/
def unsizedOutput : RenderPassOutput :=
  { colourOutput with attachment := { colourOutput.attachment with extent := ⟨0, 0⟩ } }

end Example

namespace Example

/-- A scene in compute mode with three presentable images and nothing registered. -/
def computeScene : Scene :=
  Scene.create ⟨.COMPUTE⟩ ⟨126⟩ [image 10, image 11, image 12] 1 2

/-- A scene in ray-tracing mode with three presentable images and nothing registered. -/
def rayTracingScene : Scene :=
  Scene.create ⟨.RAY_TRACING⟩ ⟨126⟩ [image 10, image 11, image 12] 1 2

/-- A binding with two uniform buffers, one storage image and one sampler. -/
def blurBinding : DescriptorSetCreateInfo :=
  { descriptorBuffers := [([30, 31], ⟨VK_DESCRIPTOR_TYPE_UNIFORM_BUFFER, 1, 2, 0⟩)]
    descriptorImages :=
      [([{}], ⟨VK_DESCRIPTOR_TYPE_STORAGE_IMAGE, 32, 1, 1⟩),
       ([{}], ⟨VK_DESCRIPTOR_TYPE_SAMPLER, 32, 1, 2⟩)] }

end Example

namespace Scene

/-- Lines 77-82 of `addRenderPass`: the pass object made from a list of attachments, on
the presentable images for a pass bound to the swap chain, on the single extent of the
descriptor otherwise. -/
def passObject (s : Scene) (createInfo : RenderPassCreateInfo) (attachments : List Attachment) :
    RenderPass :=
  if createInfo.outputIsSwapChain then RenderPass.initializeImages attachments s.m_swapChainImages
  else RenderPass.initializeExtents attachments [createInfo.extent]

end Scene

namespace Example

/-- The scene `onePassScene`, whose render pass 0 is bound to the swap chain, with a
second render pass, offscreen, of one colour output of 256 by 256 pixels. -/
def twoPassScene : Scene :=
  ((onePassScene.addRenderPass
    { name := "shadow", commandBufferID := -1, outputs := [colourOutput] } (-1)).map
    fun result => result.1).getD onePassScene

end Example

namespace Scene

/-- The scenes reached from construction by defined calls of the registration
operations, of `record` and of `resize`. A forced renderer index names an existing slot
in every defined `addRenderer`. -/
inductive Reachable (build : Build) (driver : Driver) : Scene → Prop
  | create (createInfo : SceneCreateInfo) (physicalDevice : VkPhysicalDevice)
      (swapChainImages : List Image) (graphicsCommandPool computeCommandPool : Nat) :
      Reachable build driver
        (Scene.create createInfo physicalDevice swapChainImages graphicsCommandPool
          computeCommandPool)
  | createOVR (createInfo : SceneCreateInfo) (physicalDevice : VkPhysicalDevice)
      (ovrSwapChainImages windowSwapChainImages : List Image)
      (graphicsCommandPool computeCommandPool : Nat) :
      Reachable build driver
        (Scene.createOVR createInfo physicalDevice ovrSwapChainImages windowSwapChainImages
          graphicsCommandPool computeCommandPool)
  | addRenderPass (s s' : Scene) (createInfo : RenderPassCreateInfo) (forceID handle : Int) :
      Reachable build driver s → s.addRenderPass createInfo forceID = some (s', handle) →
      Reachable build driver s'
  | addRenderer (s s' : Scene) (createInfo : RendererCreateInfo) (handle : Int) :
      Reachable build driver s → s.addRenderer build createInfo = some (s', handle) →
      Reachable build driver s'
  | addMesh (s s' : Scene) (addMeshInfo : AddMeshInfo) :
      Reachable build driver s → s.addMesh addMeshInfo = some s' → Reachable build driver s'
  | addComputePass (s s' : Scene) (createInfo : ComputePassCreateInfo) (handle : Int) :
      Reachable build driver s → s.addComputePass createInfo = some (s', handle) →
      Reachable build driver s'
  | addRayTracingPass (s s' : Scene) (rayTracingPassAddInfo : RayTracingPassAddInfo)
      (handle : Int) :
      Reachable build driver s →
      s.addRayTracingPass rayTracingPassAddInfo = some (s', handle) →
      Reachable build driver s'
  | addTransfer (s : Scene) (transferAddInfo : TransferAddInfo) :
      Reachable build driver s → Reachable build driver (s.addTransfer transferAddInfo).1
  | addCommandBuffer (s : Scene) (createInfo : CommandBufferCreateInfo) :
      Reachable build driver s → Reachable build driver (s.addCommandBuffer createInfo).1
  | record (s s' : Scene) :
      Reachable build driver s → s.record build driver = some s' → Reachable build driver s'
  | resize (s s' : Scene) (swapChainImages : List Image) :
      Reachable build driver s → s.resize build driver swapChainImages = some s' →
      Reachable build driver s'

end Scene

namespace Scene

/-- What the loop of lines 762-767 leaves at the entry `j` of the snapshot of the render
pass `i` for the renderer of slot `j`: its creation parameters with `renderPassID = i`,
and with the extent zeroed only when `j` is the index of the render pass. -/
def snapshotEntry (i j : Nat) (renderer : Renderer) : RendererCreateInfo :=
  { renderer.getRendererCreateInfoStructure with
    renderPassID := (i : Int)
    pipelineCreateInfo :=
      { renderer.getRendererCreateInfoStructure.pipelineCreateInfo with
        extent :=
          if j = i then ⟨0, 0⟩
          else renderer.getRendererCreateInfoStructure.pipelineCreateInfo.extent } }

/-- The extents of the pipelines of the renderers, render pass by render pass. -/
def pipelineExtents (s : Scene) : List (List (Option VkExtent2D)) :=
  s.m_sceneRenderPasses.map fun pass =>
    pass.renderers.map fun slot =>
      slot.map fun renderer => renderer.getRendererCreateInfoStructure.pipelineCreateInfo.extent

end Scene

namespace Example

/-- The scene `oneRendererScene` with a second renderer in its render pass. -/
def twoRendererScene : Scene :=
  ((oneRendererScene.addRenderer ⟨true, false⟩ { renderPassID := 0 }).map
    fun result => result.1).getD oneRendererScene

end Example

namespace Scene

/-- Lines 669-686 of `recordRenderPass`: the commands of one mesh in an auxiliary
stream; the instanced draw uses the instance count of the mesh. -/
def recordMesh (pipelineLayout : Nat) (mesh : Mesh) : List Command :=
  [.bindVertexBuffers 0 mesh.1.vertexBuffer, .bindIndexBuffer mesh.1.indexBuffer] ++
  (if isInstancied mesh then [.bindVertexBuffers 1 mesh.2.1.instanceBuffer] else []) ++
  (if mesh.2.2 != VK_NULL_HANDLE then [.bindDescriptorSets pipelineLayout mesh.2.2] else []) ++
  [if !isInstancied mesh then .drawIndexed mesh.1.nbIndices 1
    else .drawIndexed mesh.1.nbIndices mesh.2.1.nInstances]

end Scene

namespace Example

/-- The scene `quadScene` with a second mesh in its renderer, of 36 indices and drawn
in 5 instances. -/
def instancedScene : Scene :=
  (quadScene.addMesh
    { renderPassID := 0, rendererID := 0, vertexBuffer := ⟨102, 36, 103⟩,
      instanceBuffer := ⟨5, 104⟩ }).getD quadScene

/-- The scene `twoSwapChainPassScene` with one mesh in the renderer of its render pass
1, of 36 indices and drawn in 5 instances. -/
def instancedSecondPassScene : Scene :=
  (twoSwapChainPassScene.addMesh
    { renderPassID := 1, rendererID := 0, vertexBuffer := ⟨102, 36, 103⟩,
      instanceBuffer := ⟨5, 104⟩ }).getD twoSwapChainPassScene

end Example

namespace AuxPass

end AuxPass

namespace Example

end Example

/-- The layout of an image after a command sequence that starts with the image in the
layout `layout`; there is none when a transition of the image names an old layout that
is not the layout the image is in. -/
def layoutAfter (image : Nat) : List Command → Nat → Option Nat
  | [], layout => some layout
  | .transitionImageLayout target _ oldLayout newLayout _ _ _ _ :: rest, layout =>
    if target = image then
      if oldLayout = layout then layoutAfter image rest newLayout else none
    else layoutAfter image rest layout
  | _ :: rest, layout => layoutAfter image rest layout

/-- The three commands of lines 502-511 for a replica of a compute pass and a
presentable image. -/
def computeBlock (image : Image) (replica : ComputePass) (dispatchGroups : DispatchGroups) :
    List Command :=
  [.transitionImageLayout image.image image.format VK_IMAGE_LAYOUT_PRESENT_SRC_KHR
      VK_IMAGE_LAYOUT_GENERAL 1 VK_PIPELINE_STAGE_TOP_OF_PIPE_BIT
      VK_PIPELINE_STAGE_COMPUTE_SHADER_BIT 0,
    .computePassRecord replica ⟨image.extent.width, image.extent.height⟩ dispatchGroups,
    .transitionImageLayout image.image image.format VK_IMAGE_LAYOUT_GENERAL
      VK_IMAGE_LAYOUT_PRESENT_SRC_KHR 1 VK_PIPELINE_STAGE_COMPUTE_SHADER_BIT
      VK_PIPELINE_STAGE_TOP_OF_PIPE_BIT 0]

/-- The three commands of lines 583-592 for a replica of a ray-tracing pass and a
presentable image. -/
def rayTracingBlock (image : Image) (replica : RayTracingPass) : List Command :=
  [.transitionImageLayout image.image image.format VK_IMAGE_LAYOUT_PRESENT_SRC_KHR
      VK_IMAGE_LAYOUT_GENERAL 1 VK_PIPELINE_STAGE_TOP_OF_PIPE_BIT
      VK_PIPELINE_STAGE_COMPUTE_SHADER_BIT 0,
    .rayTracingPassRecord replica ⟨image.extent.width, image.extent.height⟩,
    .transitionImageLayout image.image image.format VK_IMAGE_LAYOUT_GENERAL
      VK_IMAGE_LAYOUT_PRESENT_SRC_KHR 1 VK_PIPELINE_STAGE_COMPUTE_SHADER_BIT
      VK_PIPELINE_STAGE_TOP_OF_PIPE_BIT 0]

namespace Scene

/-- The compute passes recorded with the swap chain (`commandBufferID == -1`), in
registration order. -/
def swapChainComputePasses (s : Scene) : List SceneComputePass :=
  s.m_sceneComputePasses.filter fun pass => decide (pass.commandBufferID = -1)

/-- The ray-tracing passes recorded with the swap chain (`commandBufferID == -1`), in
registration order. -/
def swapChainRayTracingPasses (s : Scene) : List SceneRayTracingPass :=
  s.m_sceneRayTracingPasses.filter fun pass => decide (pass.commandBufferID = -1)

end Scene

namespace Example

/-- The scene `computeScene` with two compute passes bound to the swap chain and
recorded with it. -/
def twoComputePassScene : Scene :=
  (((computeScene.addComputePass
    { name := "blur", commandBufferID := -1, outputIsSwapChain := true,
      descriptorSetCreateInfo := blurBinding, dispatchGroups := ⟨16, 16, 1⟩ }).bind
    fun result => result.1.addComputePass
      { name := "tone", commandBufferID := -1, outputIsSwapChain := true,
        dispatchGroups := ⟨8, 8, 1⟩ }).map fun result => result.1).getD computeScene

/-- The scene `rayTracingScene` with one ray-tracing pass bound to the swap chain and
recorded with it. -/
def oneRayTracingPassScene : Scene :=
  ((rayTracingScene.addRayTracingPass
    { commandBufferID := -1, outputIsSwapChain := true }).map
    fun result => result.1).getD rayTracingScene

end Example

namespace Example

/-- The scene `computeScene`, with three presentable images, after a compute pass is
registered to be recorded with the swap chain without being bound to it. -/
def offscreenComputeScene : Scene :=
  ((computeScene.addComputePass
    { name := "blur", commandBufferID := -1, outputIsSwapChain := false,
      extent := ⟨64, 64⟩, dispatchGroups := ⟨8, 8, 1⟩ }).map
    fun result => result.1).getD computeScene

/-- The scene `rayTracingScene`, with three presentable images, after a ray-tracing pass
is registered to be recorded with the swap chain without being bound to it. -/
def offscreenRayTracingScene : Scene :=
  ((rayTracingScene.addRayTracingPass
    { commandBufferID := -1, outputIsSwapChain := false, extent := ⟨64, 64⟩ }).map
    fun result => result.1).getD rayTracingScene

end Example

namespace Scene

/-- The handles of the images the replicas of the compute passes write to, pass by pass
and replica by replica. -/
def computeTargets (s : Scene) : List (List (Option Nat)) :=
  s.m_sceneComputePasses.map fun pass =>
    pass.computePasses.map fun slot =>
      (slot.bind fun replica => lastBoundImage replica.descriptorSetCreateInfo).map
        fun image => image.image

/-- The handles of the images the replicas of the ray-tracing passes write to, pass by
pass and replica by replica. -/
def rayTracingTargets (s : Scene) : List (List (Option Nat)) :=
  s.m_sceneRayTracingPasses.map fun pass =>
    pass.rayTracingPasses.map fun slot =>
      (slot.bind fun replica =>
        lastBoundImage replica.rayTracingPassCreateInfo.descriptorSetCreateInfo).map
        fun image => image.image

end Scene

/-! ## `addText` -/

/-- The members of `Scene::AddTextInfo` that `addText` reads itself. Its members `text`,
`font` and `size` are read only through the classes `Text`, `Font` and
`DescriptorSetGenerator`, whose results are in `TextParts`. -/
structure AddTextInfo where
  renderPassID : Int
  rendererID : Int
  descriptorSetCreateInfo : DescriptorSetCreateInfo := {}
deriving DecidableEq, Repr, Inhabited

/-- What `addText` takes from declarations and classes that are not in the sources, as
parameters: `emptyMeshInfo` is the value of `Renderer::AddMeshInfo addMeshInfo{}` (line
360; the header of `Renderer` is missing), `generated` is the description
`DescriptorSetGenerator::getDescritorSetCreateInfo` returns for the uniform buffer of the
text and the images and the sampler of the font (lines 341-353), `vertexBuffer` is the
value of `Text::getVertexBuffer` once `Text::build` has run (lines 339 and 362). -/
structure TextParts where
  emptyMeshInfo : AddMeshInfo
  generated : DescriptorSetCreateInfo
  vertexBuffer : VertexBuffer
deriving DecidableEq, Repr, Inhabited

namespace Scene

/-- The description lines 353-358 of `addText` build: the generated one followed by the
buffers and the images of the caller. -/
def textDescriptorSetCreateInfo (parts : TextParts) (addTextInfo : AddTextInfo) :
    DescriptorSetCreateInfo :=
  { parts.generated with
    descriptorBuffers := parts.generated.descriptorBuffers ++
      addTextInfo.descriptorSetCreateInfo.descriptorBuffers
    descriptorImages := parts.generated.descriptorImages ++
      addTextInfo.descriptorSetCreateInfo.descriptorImages }

/-- The mesh info lines 360-362 of `addText` build: of the value-initialised mesh info
only the description and the vertex buffer are set. -/
def textMeshInfo (parts : TextParts) (addTextInfo : AddTextInfo) : AddMeshInfo :=
  { parts.emptyMeshInfo with
    descriptorSetCreateInfo := textDescriptorSetCreateInfo parts addTextInfo
    vertexBuffer := parts.vertexBuffer }

/-- `Wolf::Scene::addText`: line 338 reads output 0 of the render pass, line 364 adds
the mesh to the renderer, line 367 updates the accumulator. -/
def addText (parts : TextParts) (s : Scene) (addTextInfo : AddTextInfo) : Option Scene :=
  match at? s.m_sceneRenderPasses addTextInfo.renderPassID with
  | none => none
  | some pass =>
    match pass.outputs[0]? with
    | none => none
    | some _ =>
      match at? pass.renderers addTextInfo.rendererID with
      | none => none
      | some none => none
      | some (some renderer) =>
        match setAt? pass.renderers addTextInfo.rendererID
            (some (renderer.addMesh (textMeshInfo parts addTextInfo))) with
        | none => none
        | some renderers =>
          (setAt? s.m_sceneRenderPasses addTextInfo.renderPassID
            { pass with renderers := renderers }).map fun passes =>
            ({ s with m_sceneRenderPasses := passes } : Scene).updateDescriptorPool
              (textDescriptorSetCreateInfo parts addTextInfo)

/-- The render pass and the renderer named by the mesh infos the renderers keep, render
pass by render pass and renderer by renderer. -/
def meshInfoIDs (s : Scene) : List (List (List (Int × Int))) :=
  s.m_sceneRenderPasses.map fun pass =>
    pass.renderers.map fun slot =>
      match slot with
      | none => []
      | some renderer =>
        renderer.getMeshInfos.map fun info => (info.renderPassID, info.rendererID)

/-- The vertex buffers of the meshes of the renderers, render pass by render pass and
renderer by renderer. -/
def meshBuffers (s : Scene) : List (List (List Nat)) :=
  s.m_sceneRenderPasses.map fun pass =>
    pass.renderers.map fun slot =>
      match slot with
      | none => []
      | some renderer => renderer.getMeshInfos.map fun info => info.vertexBuffer.vertexBuffer

end Scene

namespace Example

/-- The parts of a text whose generated description has one uniform buffer, one sampled
image and one sampler, and whose vertex buffer has the handle 110; the two ids of the
value-initialised mesh info are `renderPassID` and `rendererID`. -/
def textPartsWith (renderPassID rendererID : Int) : TextParts :=
  { emptyMeshInfo :=
      { renderPassID := renderPassID, rendererID := rendererID, vertexBuffer := ⟨0, 0, 0⟩ }
    generated :=
      { descriptorBuffers := [([40], ⟨VK_DESCRIPTOR_TYPE_UNIFORM_BUFFER, 1, 1, 0⟩)]
        descriptorImages :=
          [([{}], ⟨VK_DESCRIPTOR_TYPE_SAMPLED_IMAGE, 16, 1, 2⟩),
            ([{}], ⟨VK_DESCRIPTOR_TYPE_SAMPLER, 16, 1, 1⟩)] }
    vertexBuffer := ⟨110, 24, 111⟩ }

/-- The parts of a text when the ids of a value-initialised mesh info are 0. -/
def textParts : TextParts := textPartsWith 0 0

/-- A scene with the offscreen render pass 0, which has one renderer, and the render
pass 1 bound to the swap chain, which has two renderers. -/
def offscreenFirstScene : Scene :=
  ((((((emptyScene.addRenderPass
    { name := "shadow", commandBufferID := -1, outputs := [colourOutput] } (-1)).bind
    fun result => result.1.addRenderer ⟨true, false⟩ { renderPassID := 0 }).bind
    fun result => result.1.addRenderPass
      { commandBufferID := -1, outputIsSwapChain := true } (-1)).bind
    fun result => result.1.addRenderer ⟨true, false⟩ { renderPassID := 1 }).bind
    fun result => result.1.addRenderer ⟨true, false⟩ { renderPassID := 1 }).map
    fun result => result.1).getD emptyScene

/-- The scene `offscreenFirstScene` after `addText` on the renderer 0 of the render pass
1, for given ids of the value-initialised mesh info. -/
def textSceneWith (renderPassID rendererID : Int) : Option Scene :=
  offscreenFirstScene.addText (textPartsWith renderPassID rendererID)
    { renderPassID := 1, rendererID := 0 }

/-- The scene `offscreenFirstScene` after `addText` on the renderer 0 of the render pass
1, when the ids of a value-initialised mesh info are 0. -/
def textScene : Scene := (textSceneWith 0 0).getD offscreenFirstScene

/-- A presentable image without extent. -/
def flatImage (handle : Nat) : Image := ⟨handle, ⟨0, 0⟩, 44⟩

/-- A scene in graphics mode whose presentable images have no extent. -/
def flatScene : Scene :=
  Scene.create ⟨.GRAPHICS⟩ ⟨126⟩ [flatImage 10, flatImage 11] 1 2

end Example

namespace Scene

/-- What a registration leaves of the pool and sends: the pool, allocated or not, is as
before, and the diagnostics added are warnings. -/
def Silent (s t : Scene) : Prop :=
  t.m_descriptorPool.allocated = s.m_descriptorPool.allocated ∧
  ∃ warnings, t.debug = s.debug ++ warnings ∧
    ∀ message ∈ warnings, message.severity = .warning

end Scene

/-! ## Properties of the containers -/

theorem modifyBack_append_singleton {α : Type} (f : α → α) (l : List α) (x : α) :
    modifyBack f (l ++ [x]) = l ++ [f x] := by
  induction l with
  | nil => rfl
  | cons y t ih =>
    cases t with
    | nil => rfl
    | cons z u =>
      simp only [List.cons_append] at ih ⊢
      rw [modifyBack, ih]

theorem foldl_invariant {σ α : Type} (P : σ → Prop) (f : σ → α → σ) (l : List α)
    (step : ∀ st x, P st → P (f st x)) (init : σ) (h : P init) : P (l.foldl f init) := by
  induction l generalizing init with
  | nil => exact h
  | cons x t ih => exact ih _ (step _ _ h)

theorem foldl_project {σ τ α : Type} (π : σ → τ) (f : σ → α → σ) (g : τ → α → τ)
    (h : ∀ st x, π (f st x) = g (π st) x) (l : List α) (init : σ) :
    π (l.foldl f init) = l.foldl g (π init) := by
  induction l generalizing init with
  | nil => rfl
  | cons x t ih => simp only [List.foldl_cons]; rw [ih, h]

/-- Filling the slots after `pre` of a vector one by one, in index order, gives the
vector whose slots hold the values in order. -/
theorem foldl_set_enumFrom {α β : Type} (f : α → β) (d : β) (l : List α) (pre : List β) :
    (l.enumFrom pre.length).foldl (fun acc (ie : Nat × α) => acc.set ie.1 (f ie.2))
      (pre ++ List.replicate l.length d) = pre ++ l.map f := by
  induction l generalizing pre with
  | nil => simp
  | cons x t ih =>
    simp only [List.enumFrom_cons, List.foldl_cons, List.length_cons, List.map_cons]
    have h1 : (pre ++ List.replicate (t.length + 1) d).set pre.length (f x) =
        (pre ++ [f x]) ++ List.replicate t.length d := by
      rw [List.replicate_succ, List.set_append_right _ _ (le_refl _)]
      simp
    rw [h1]
    have h2 := ih (pre ++ [f x])
    simp only [List.length_append, List.length_singleton] at h2
    rw [h2]; simp

theorem foldl_set_enum {α β : Type} (f : α → β) (d : β) (l : List α) :
    l.enum.foldl (fun acc (ie : Nat × α) => acc.set ie.1 (f ie.2))
      (Wolf.resize ([] : List β) l.length d) = l.map f := by
  have := foldl_set_enumFrom f d l []
  simpa [Wolf.resize, List.enum] using this

/-! ## The pool-sizing accumulator leaves the registries alone -/

namespace Scene

theorem erasePool_updateDescriptorPoolBuffer (s : Scene) (layout : DescriptorLayout) :
    (s.updateDescriptorPoolBuffer layout).erasePool = s.erasePool := by
  unfold updateDescriptorPoolBuffer
  split_ifs <;> rfl

theorem erasePool_updateDescriptorPoolImage (s : Scene) (layout : DescriptorLayout) :
    (s.updateDescriptorPoolImage layout).erasePool = s.erasePool := by
  unfold updateDescriptorPoolImage
  split_ifs <;> rfl

theorem erasePool_updateDescriptorPoolDefault (s : Scene) (layout : DescriptorLayout) :
    (s.updateDescriptorPoolDefault layout).erasePool = s.erasePool := by
  unfold updateDescriptorPoolDefault
  split_ifs <;> rfl

theorem erasePool_updateDescriptorPool (s : Scene) (d : DescriptorSetCreateInfo) :
    (s.updateDescriptorPool d).erasePool = s.erasePool := by
  unfold updateDescriptorPool
  simp only
  refine foldl_invariant (fun (st : Scene) => st.erasePool = s.erasePool) _ _ ?_ _ ?_
  · intro st x h; rw [erasePool_updateDescriptorPoolDefault]; exact h
  refine foldl_invariant (fun (st : Scene) => st.erasePool = s.erasePool) _ _ ?_ _ ?_
  · intro st x h; rw [erasePool_updateDescriptorPoolImage]; exact h
  refine foldl_invariant (fun (st : Scene) => st.erasePool = s.erasePool) _ _ ?_ _ rfl
  · intro st x h; rw [erasePool_updateDescriptorPoolBuffer]; exact h

/-! ## Compute and ray-tracing passes -/

theorem erasePool_addComputePassReplica (createInfo : ComputePassCreateInfo) (s : Scene)
    (ie : Nat × Image) :
    (addComputePassReplica createInfo s ie).erasePool =
      setComputeReplica createInfo s.erasePool ie := by
  unfold addComputePassReplica
  simp only [erasePool_updateDescriptorPool]
  rfl

theorem foldl_setComputeReplica (createInfo : ComputePassCreateInfo) (t : Scene)
    (passes : List SceneComputePass) (l : List (Nat × Image)) (e : SceneComputePass) :
    l.foldl (setComputeReplica createInfo) (t.withComputePasses (passes ++ [e])) =
    t.withComputePasses (passes ++
      [{ e with
         computePasses := l.foldl (fun acc (ie : Nat × Image) => acc.set ie.1
           (some (computeReplica t.m_computeCommandPool createInfo ie.2))) e.computePasses }]) := by
  induction l generalizing e with
  | nil => rfl
  | cons x rest ih =>
    simp only [List.foldl_cons, setComputeReplica, backComputePass, withComputePasses,
      modifyBack_append_singleton]
    exact ih _

theorem erasePool_addComputePassSwapChain (createInfo : ComputePassCreateInfo) (s : Scene)
    (passes : List SceneComputePass) (e : SceneComputePass)
    (h : s.m_sceneComputePasses = passes ++ [e]) (he : e.computePasses = []) :
    (s.addComputePassSwapChain createInfo).erasePool =
      s.erasePool.withComputePasses (passes ++
        [{ e with
           computePasses := s.m_swapChainImages.map fun image =>
             some (computeReplica s.m_computeCommandPool createInfo image) }]) := by
  unfold addComputePassSwapChain
  simp only
  rw [foldl_project erasePool _ _ (erasePool_addComputePassReplica createInfo)]
  have hs : ∀ p, (({ s with m_descriptorPool := p } : Scene).backComputePass
      (fun pass => { pass with
        computePasses := Wolf.resize pass.computePasses s.m_swapChainImages.length none })).erasePool =
      s.erasePool.withComputePasses (passes ++
        [{ e with computePasses := Wolf.resize [] s.m_swapChainImages.length none }]) := by
    intro p
    simp only [backComputePass, h, modifyBack_append_singleton, he]
    rfl
  rw [hs, foldl_setComputeReplica]
  have := foldl_set_enum
    (fun image => some (computeReplica s.m_computeCommandPool createInfo image)) none
    s.m_swapChainImages
  exact congrArg (fun l => s.erasePool.withComputePasses
    (passes ++ [{ e with computePasses := l }])) this

theorem addComputePass_swapChain (s : Scene) (createInfo : ComputePassCreateInfo)
    (hswap : createInfo.outputIsSwapChain = true) (image0 : Image)
    (h0 : s.m_swapChainImages[0]? = some image0) :
    ∃ s', s.addComputePass createInfo = some (s', (s.m_sceneComputePasses.length : Int)) ∧
      s'.erasePool = s.erasePool.withComputePasses
        (s.m_sceneComputePasses ++ [s.computeEntrySwapChain createInfo image0]) := by
  have hF := erasePool_addComputePassSwapChain createInfo (s.pushComputePass createInfo)
    s.m_sceneComputePasses _ rfl rfl
  unfold addComputePass
  simp only [hswap, Bool.not_true, Bool.false_eq_true, ↓reduceIte]
  generalize (s.pushComputePass createInfo).addComputePassSwapChain createInfo = sF at hF ⊢
  have himg : sF.m_swapChainImages = s.m_swapChainImages := by
    simpa [pushComputePass] using congrArg Scene.m_swapChainImages hF
  have hpasses := congrArg Scene.m_sceneComputePasses hF
  simp only [erasePool_m_sceneComputePasses, withComputePasses_m_sceneComputePasses] at hpasses
  rw [himg, h0]
  refine ⟨(sF.finishComputePass createInfo ⟨image0.extent.width, image0.extent.height⟩).1,
    ?_, ?_⟩
  · simp only [finishComputePass, backComputePass, hpasses, modifyBack_append_singleton]
    simp
  · show (sF.erasePool).backComputePass _ = _
    rw [hF]
    simp only [backComputePass, withComputePasses, modifyBack_append_singleton]
    rfl

theorem addComputePass_swapChain_noImage (s : Scene) (createInfo : ComputePassCreateInfo)
    (hswap : createInfo.outputIsSwapChain = true) (h0 : s.m_swapChainImages = []) :
    s.addComputePass createInfo = none := by
  have hF := erasePool_addComputePassSwapChain createInfo (s.pushComputePass createInfo)
    s.m_sceneComputePasses _ rfl rfl
  unfold addComputePass
  simp only [hswap, Bool.not_true, Bool.false_eq_true, ↓reduceIte]
  generalize (s.pushComputePass createInfo).addComputePassSwapChain createInfo = sF at hF ⊢
  have himg : sF.m_swapChainImages = s.m_swapChainImages := by
    simpa [pushComputePass] using congrArg Scene.m_swapChainImages hF
  rw [himg, h0]
  rfl

theorem erasePool_addComputePassOffscreen (createInfo : ComputePassCreateInfo) (s : Scene)
    (passes : List SceneComputePass) (e : SceneComputePass)
    (h : s.m_sceneComputePasses = passes ++ [e]) (he : e.computePasses = []) :
    (s.addComputePassOffscreen createInfo).erasePool =
      s.erasePool.withComputePasses (passes ++
        [{ e with
           computePasses :=
             [some { commandPool := s.m_computeCommandPool
                     computeShaderPath := createInfo.computeShaderPath
                     descriptorSetCreateInfo := createInfo.descriptorSetCreateInfo }] }]) := by
  unfold addComputePassOffscreen
  simp only [erasePool_updateDescriptorPool]
  simp only [backComputePass, h, modifyBack_append_singleton, he]
  rfl

theorem addComputePass_offscreen (s : Scene) (createInfo : ComputePassCreateInfo)
    (hswap : createInfo.outputIsSwapChain = false) :
    ∃ s', s.addComputePass createInfo = some (s', (s.m_sceneComputePasses.length : Int)) ∧
      s'.erasePool = s.erasePool.withComputePasses
        (s.m_sceneComputePasses ++ [s.computeEntryOffscreen createInfo]) := by
  have hF := erasePool_addComputePassOffscreen createInfo (s.pushComputePass createInfo)
    s.m_sceneComputePasses _ rfl rfl
  unfold addComputePass
  simp only [hswap, Bool.not_false, ↓reduceIte]
  generalize (s.pushComputePass createInfo).addComputePassOffscreen createInfo = sF at hF ⊢
  have hpasses := congrArg Scene.m_sceneComputePasses hF
  simp only [erasePool_m_sceneComputePasses, withComputePasses_m_sceneComputePasses] at hpasses
  refine ⟨(sF.finishComputePass createInfo createInfo.extent).1, ?_, ?_⟩
  · simp only [finishComputePass, backComputePass, hpasses, modifyBack_append_singleton]
    simp
  · show (sF.erasePool).backComputePass _ = _
    rw [hF]
    simp only [backComputePass, withComputePasses, modifyBack_append_singleton]
    rfl

theorem erasePool_addRayTracingPassReplica (rayTracingPassAddInfo : RayTracingPassAddInfo) (s : Scene)
    (ie : Nat × Image) :
    (addRayTracingPassReplica rayTracingPassAddInfo s ie).erasePool =
      setRayTracingReplica rayTracingPassAddInfo s.erasePool ie := by
  unfold addRayTracingPassReplica
  simp only [erasePool_updateDescriptorPool]
  rfl

theorem foldl_setRayTracingReplica (rayTracingPassAddInfo : RayTracingPassAddInfo) (t : Scene)
    (passes : List SceneRayTracingPass) (l : List (Nat × Image)) (e : SceneRayTracingPass) :
    l.foldl (setRayTracingReplica rayTracingPassAddInfo) (t.withRayTracingPasses (passes ++ [e])) =
    t.withRayTracingPasses (passes ++
      [{ e with
         rayTracingPasses := l.foldl (fun acc (ie : Nat × Image) => acc.set ie.1
           (some (rayTracingReplica t.m_computeCommandPool rayTracingPassAddInfo ie.2))) e.rayTracingPasses }]) := by
  induction l generalizing e with
  | nil => rfl
  | cons x rest ih =>
    simp only [List.foldl_cons, setRayTracingReplica, backRayTracingPass, withRayTracingPasses,
      modifyBack_append_singleton]
    exact ih _

theorem erasePool_addRayTracingPassSwapChain (rayTracingPassAddInfo : RayTracingPassAddInfo) (s : Scene)
    (passes : List SceneRayTracingPass) (e : SceneRayTracingPass)
    (h : s.m_sceneRayTracingPasses = passes ++ [e]) (he : e.rayTracingPasses = []) :
    (s.addRayTracingPassSwapChain rayTracingPassAddInfo).erasePool =
      s.erasePool.withRayTracingPasses (passes ++
        [{ e with
           rayTracingPasses := s.m_swapChainImages.map fun image =>
             some (rayTracingReplica s.m_computeCommandPool rayTracingPassAddInfo image) }]) := by
  unfold addRayTracingPassSwapChain
  simp only
  rw [foldl_project erasePool _ _ (erasePool_addRayTracingPassReplica rayTracingPassAddInfo)]
  have hs : ∀ p, (({ s with m_descriptorPool := p } : Scene).backRayTracingPass
      (fun pass => { pass with
        rayTracingPasses := Wolf.resize pass.rayTracingPasses s.m_swapChainImages.length none })).erasePool =
      s.erasePool.withRayTracingPasses (passes ++
        [{ e with rayTracingPasses := Wolf.resize [] s.m_swapChainImages.length none }]) := by
    intro p
    simp only [backRayTracingPass, h, modifyBack_append_singleton, he]
    rfl
  rw [hs, foldl_setRayTracingReplica]
  have := foldl_set_enum
    (fun image => some (rayTracingReplica s.m_computeCommandPool rayTracingPassAddInfo image)) none
    s.m_swapChainImages
  exact congrArg (fun l => s.erasePool.withRayTracingPasses
    (passes ++ [{ e with rayTracingPasses := l }])) this

theorem addRayTracingPass_swapChain (s : Scene) (rayTracingPassAddInfo : RayTracingPassAddInfo)
    (hswap : rayTracingPassAddInfo.outputIsSwapChain = true) (image0 : Image)
    (h0 : s.m_swapChainImages[0]? = some image0) :
    ∃ s', s.addRayTracingPass rayTracingPassAddInfo = some (s', (s.m_sceneRayTracingPasses.length : Int)) ∧
      s'.erasePool = s.erasePool.withRayTracingPasses
        (s.m_sceneRayTracingPasses ++ [s.rayTracingEntrySwapChain rayTracingPassAddInfo image0]) := by
  have hF := erasePool_addRayTracingPassSwapChain rayTracingPassAddInfo (s.pushRayTracingPass rayTracingPassAddInfo)
    s.m_sceneRayTracingPasses _ rfl rfl
  unfold addRayTracingPass
  simp only [hswap, Bool.not_true, Bool.false_eq_true, ↓reduceIte]
  generalize (s.pushRayTracingPass rayTracingPassAddInfo).addRayTracingPassSwapChain rayTracingPassAddInfo = sF at hF ⊢
  have himg : sF.m_swapChainImages = s.m_swapChainImages := by
    simpa [pushRayTracingPass] using congrArg Scene.m_swapChainImages hF
  have hpasses := congrArg Scene.m_sceneRayTracingPasses hF
  simp only [erasePool_m_sceneRayTracingPasses, withRayTracingPasses_m_sceneRayTracingPasses] at hpasses
  rw [himg, h0]
  refine ⟨(sF.finishRayTracingPass rayTracingPassAddInfo ⟨image0.extent.width, image0.extent.height⟩).1,
    ?_, ?_⟩
  · simp only [finishRayTracingPass, backRayTracingPass, hpasses, modifyBack_append_singleton]
    simp
  · show (sF.erasePool).backRayTracingPass _ = _
    rw [hF]
    simp only [backRayTracingPass, withRayTracingPasses, modifyBack_append_singleton]
    rfl

theorem addRayTracingPass_swapChain_noImage (s : Scene) (rayTracingPassAddInfo : RayTracingPassAddInfo)
    (hswap : rayTracingPassAddInfo.outputIsSwapChain = true) (h0 : s.m_swapChainImages = []) :
    s.addRayTracingPass rayTracingPassAddInfo = none := by
  have hF := erasePool_addRayTracingPassSwapChain rayTracingPassAddInfo (s.pushRayTracingPass rayTracingPassAddInfo)
    s.m_sceneRayTracingPasses _ rfl rfl
  unfold addRayTracingPass
  simp only [hswap, Bool.not_true, Bool.false_eq_true, ↓reduceIte]
  generalize (s.pushRayTracingPass rayTracingPassAddInfo).addRayTracingPassSwapChain rayTracingPassAddInfo = sF at hF ⊢
  have himg : sF.m_swapChainImages = s.m_swapChainImages := by
    simpa [pushRayTracingPass] using congrArg Scene.m_swapChainImages hF
  rw [himg, h0]
  rfl

theorem erasePool_addRayTracingPassOffscreen (rayTracingPassAddInfo : RayTracingPassAddInfo) (s : Scene)
    (passes : List SceneRayTracingPass) (e : SceneRayTracingPass)
    (h : s.m_sceneRayTracingPasses = passes ++ [e]) (he : e.rayTracingPasses = []) :
    (s.addRayTracingPassOffscreen rayTracingPassAddInfo).erasePool =
      s.erasePool.withRayTracingPasses (passes ++
        [{ e with
           rayTracingPasses :=
             [some { commandPool := s.m_computeCommandPool
                     rayTracingPassCreateInfo :=
                       rayTracingPassAddInfo.rayTracingPassCreateInfo }] }]) := by
  unfold addRayTracingPassOffscreen
  simp only [erasePool_updateDescriptorPool]
  simp only [backRayTracingPass, h, modifyBack_append_singleton, he]
  rfl

theorem addRayTracingPass_offscreen (s : Scene) (rayTracingPassAddInfo : RayTracingPassAddInfo)
    (hswap : rayTracingPassAddInfo.outputIsSwapChain = false) :
    ∃ s', s.addRayTracingPass rayTracingPassAddInfo = some (s', (s.m_sceneRayTracingPasses.length : Int)) ∧
      s'.erasePool = s.erasePool.withRayTracingPasses
        (s.m_sceneRayTracingPasses ++ [s.rayTracingEntryOffscreen rayTracingPassAddInfo]) := by
  have hF := erasePool_addRayTracingPassOffscreen rayTracingPassAddInfo (s.pushRayTracingPass rayTracingPassAddInfo)
    s.m_sceneRayTracingPasses _ rfl rfl
  unfold addRayTracingPass
  simp only [hswap, Bool.not_false, ↓reduceIte]
  generalize (s.pushRayTracingPass rayTracingPassAddInfo).addRayTracingPassOffscreen rayTracingPassAddInfo = sF at hF ⊢
  have hpasses := congrArg Scene.m_sceneRayTracingPasses hF
  simp only [erasePool_m_sceneRayTracingPasses, withRayTracingPasses_m_sceneRayTracingPasses] at hpasses
  refine ⟨(sF.finishRayTracingPass rayTracingPassAddInfo rayTracingPassAddInfo.extent).1, ?_, ?_⟩
  · simp only [finishRayTracingPass, backRayTracingPass, hpasses, modifyBack_append_singleton]
    simp
  · show (sF.erasePool).backRayTracingPass _ = _
    rw [hF]
    simp only [backRayTracingPass, withRayTracingPasses, modifyBack_append_singleton]
    rfl


end Scene

/-! ## Render passes -/

theorem at?_natCast {α : Type} (v : List α) (n : Nat) : at? v (n : Int) = v[n]? := by
  simp [at?]

theorem setAt?_natCast {α : Type} (v : List α) (n : Nat) (x : α) (h : n < v.length) :
    setAt? v (n : Int) x = some (v.set n x) := by
  simp [setAt?, h]

theorem getElem?_append_singleton_last {α : Type} (l : List α) (x : α) :
    (l ++ [x])[(l ++ [x]).length - 1]? = some x := by
  simp

theorem set_append_singleton_last {α : Type} (l : List α) (x y : α) :
    (l ++ [x]).set ((l ++ [x]).length - 1) y = l ++ [y] := by
  simp [List.set_append_right]

namespace Scene

theorem addRenderPass_append (s : Scene) (createInfo prepared : RenderPassCreateInfo)
    (forceID : Int) (hforce : forceID < 0)
    (hprep : s.prepareRenderPass createInfo = some (some prepared)) :
    s.addRenderPass createInfo forceID =
      some (s.withRenderPasses (s.m_sceneRenderPasses ++ [s.renderEntry prepared]),
        (s.m_sceneRenderPasses.length : Int)) := by
  unfold addRenderPass
  simp only [hprep, hforce, ↓reduceIte]
  simp only [getElem?_append_singleton_last, at?_natCast]
  rw [setAt?_natCast _ _ _ (by simp)]
  simp only [set_append_singleton_last]
  simp [withRenderPasses, renderEntry]

theorem addRenderPass_error (s : Scene) (createInfo : RenderPassCreateInfo) (forceID : Int)
    (hprep : s.prepareRenderPass createInfo = some none) :
    s.addRenderPass createInfo forceID =
      some (s.sendError "RenderPass creation must include output", -1) := by
  unfold addRenderPass
  simp only [hprep]

theorem addRenderPass_undefined (s : Scene) (createInfo : RenderPassCreateInfo) (forceID : Int)
    (hprep : s.prepareRenderPass createInfo = none) :
    s.addRenderPass createInfo forceID = none := by
  unfold addRenderPass
  simp only [hprep]

end Scene

/-! ## C1: handles -/

namespace Scene

theorem prepareRenderPass_cases (s : Scene) (createInfo : RenderPassCreateInfo) :
    s.prepareRenderPass createInfo = none ∨ s.prepareRenderPass createInfo = some none ∨
      ∃ prepared, s.prepareRenderPass createInfo = some (some prepared) := by
  rcases h : s.prepareRenderPass createInfo with _ | _ | prepared
  · exact Or.inl rfl
  · exact Or.inr (Or.inl rfl)
  · exact Or.inr (Or.inr ⟨prepared, rfl⟩)

theorem registries_of_withComputePasses {s t : Scene} {l : List SceneComputePass}
    (h : t.erasePool = s.erasePool.withComputePasses l) :
    t.m_sceneComputePasses = l ∧ t.m_sceneRenderPasses = s.m_sceneRenderPasses ∧
      t.m_sceneRayTracingPasses = s.m_sceneRayTracingPasses ∧
      t.m_sceneTransfers = s.m_sceneTransfers ∧
      t.m_sceneCommandBuffers = s.m_sceneCommandBuffers := by
  refine ⟨?_, ?_, ?_, ?_, ?_⟩
  · simpa using congrArg Scene.m_sceneComputePasses h
  · simpa using congrArg Scene.m_sceneRenderPasses h
  · simpa using congrArg Scene.m_sceneRayTracingPasses h
  · simpa using congrArg Scene.m_sceneTransfers h
  · simpa using congrArg Scene.m_sceneCommandBuffers h

theorem registries_of_withRayTracingPasses {s t : Scene} {l : List SceneRayTracingPass}
    (h : t.erasePool = s.erasePool.withRayTracingPasses l) :
    t.m_sceneRayTracingPasses = l ∧ t.m_sceneRenderPasses = s.m_sceneRenderPasses ∧
      t.m_sceneComputePasses = s.m_sceneComputePasses ∧
      t.m_sceneTransfers = s.m_sceneTransfers ∧
      t.m_sceneCommandBuffers = s.m_sceneCommandBuffers := by
  refine ⟨?_, ?_, ?_, ?_, ?_⟩
  · simpa using congrArg Scene.m_sceneRayTracingPasses h
  · simpa using congrArg Scene.m_sceneRenderPasses h
  · simpa using congrArg Scene.m_sceneComputePasses h
  · simpa using congrArg Scene.m_sceneTransfers h
  · simpa using congrArg Scene.m_sceneCommandBuffers h

end Scene

/-! ## C2: the renderer of a render pass one past the last -/

namespace Scene

theorem toSizeT_natCast (n : Nat) (h : n < 2 ^ 31) : toSizeT (n : Int) = n := by
  unfold toSizeT
  have h64 : ((2 : Int) ^ 64) = 18446744073709551616 := by norm_num
  have h31 : ((2 : Nat) ^ 31) = 2147483648 := by norm_num
  rw [h64]
  rw [h31] at h
  rw [Int.emod_eq_of_lt (by omega) (by omega)]
  simp

theorem sizeMinusOne_pos (n : Nat) (h1 : 1 ≤ n) (h : n < 2 ^ 31) : sizeMinusOne n = n - 1 := by
  unfold sizeMinusOne
  have h64 : ((2 : Nat) ^ 64) = 18446744073709551616 := by norm_num
  have h31 : ((2 : Nat) ^ 31) = 2147483648 := by norm_num
  rw [h64]
  rw [h31] at h
  omega

theorem sizeMinusOne_zero : sizeMinusOne 0 = 2 ^ 64 - 1 := by
  unfold sizeMinusOne
  norm_num

theorem invalidRenderPassID_length (s : Scene) (renderPassID : Int)
    (hn : 1 ≤ s.m_sceneRenderPasses.length)
    (hid : renderPassID = s.m_sceneRenderPasses.length) (hint : renderPassID < 2 ^ 31) :
    s.invalidRenderPassID renderPassID = true := by
  have h2 : s.m_sceneRenderPasses.length < 2 ^ 31 := by
    have h1 : (s.m_sceneRenderPasses.length : Int) < 2 ^ 31 := hid ▸ hint
    exact_mod_cast h1
  unfold invalidRenderPassID
  rw [hid, toSizeT_natCast _ h2, sizeMinusOne_pos _ hn h2]
  simp only [Bool.or_eq_true, decide_eq_true_eq]
  right
  omega

theorem applyTemplates_renderPass (s : Scene) (createInfo : RendererCreateInfo) :
    (s.applyTemplates createInfo).1.m_sceneRenderPasses = s.m_sceneRenderPasses ∧
    (s.applyTemplates createInfo).2.renderPassID = createInfo.renderPassID := by
  unfold applyTemplates
  refine ⟨?_, rfl⟩
  cases createInfo.inputVerticesTemplate <;> rfl

/-- Without `_DEBUG` the handle is not checked: `addRenderer` with the handle one past
the last indexes the registry with it. -/
theorem addRenderer_unchecked (build : Build) (s : Scene) (createInfo : RendererCreateInfo)
    (hdebug : build._DEBUG = false)
    (hid : createInfo.renderPassID = s.m_sceneRenderPasses.length) :
    s.addRenderer build createInfo = none := by
  obtain ⟨hpasses, hrp⟩ := applyTemplates_renderPass s createInfo
  have hat : at? (s.applyTemplates createInfo).1.m_sceneRenderPasses
      (s.applyTemplates createInfo).2.renderPassID = none := by
    rw [hpasses, hrp, hid]
    unfold at?
    simp
  unfold addRenderer
  rw [hdebug]
  simp only [Bool.false_and, Bool.false_eq_true, ↓reduceIte]
  split
  · rfl
  · rw [hat]

/-- C2, amended. In a build that defines `_DEBUG`, on a scene with `n ≥ 1` render
passes, `addRenderer` with `renderPassID = n` reports the error, returns `-1` and changes
nothing but the diagnostic log: the registry (with every renderer list) and the
descriptor-pool accumulator are as before, and the call is defined (no vector is
indexed out of range). In a build that does not define `_DEBUG` the handle is not
checked: the call reports nothing and indexes the registry with the handle, so it is
undefined. -/
theorem addRenderer_one_past_last (build : Build) (s : Scene) (createInfo : RendererCreateInfo)
    (hid : createInfo.renderPassID = s.m_sceneRenderPasses.length)
    (hint : createInfo.renderPassID < 2 ^ 31) :
    (build._DEBUG = true → 1 ≤ s.m_sceneRenderPasses.length →
      ∃ s', s.addRenderer build createInfo = some (s', -1) ∧
        s' = { s with debug := s.debug ++
          [⟨.error, "Invalid render pass ID. ID sent = , last render pass ID = ",
            [(s.m_sceneRenderPasses.length : Int),
              (s.m_sceneRenderPasses.length : Int) - 1]⟩] } ∧
        s'.m_sceneRenderPasses = s.m_sceneRenderPasses ∧
        s'.m_descriptorPool = s.m_descriptorPool) ∧
    (build._DEBUG = false → s.addRenderer build createInfo = none) := by
  refine ⟨?_, fun hdebug => addRenderer_unchecked build s createInfo hdebug hid⟩
  intro hdebug hn
  refine ⟨_, ?_, rfl, rfl, rfl⟩
  unfold addRenderer
  rw [hdebug, invalidRenderPassID_length s _ hn hid hint]
  simp only [Bool.and_self, ↓reduceIte, sendError, Option.some.injEq, Prod.mk.injEq, and_true]
  have h2 : s.m_sceneRenderPasses.length < 2 ^ 31 := by
    have h1 : (s.m_sceneRenderPasses.length : Int) < 2 ^ 31 := hid ▸ hint
    exact_mod_cast h1
  rw [sizeMinusOne_pos _ hn h2, hid]
  congr 3
  simp
  omega

end Scene

namespace Example

/-- C2, as stated, fails twice. With `_DEBUG` defined and an empty registry the test
`0 > size() - 1` is false (the right-hand side wraps to `2^64 - 1`), so `addRenderer`
with `renderPassID = 0` goes on to index the empty registry; without `_DEBUG` there is
no test, so with one pass registered `renderPassID = 1` indexes past the end. -/
theorem addRenderer_one_past_last_undefined :
    Scene.addRenderer ⟨true, false⟩ emptyScene { renderPassID := 0 } = none ∧
    onePassScene.m_sceneRenderPasses.length = 1 ∧
    Scene.addRenderer ⟨false, false⟩ onePassScene { renderPassID := 1 } = none := by
  refine ⟨?_, ?_, ?_⟩
  · rfl
  · rfl
  · rfl

end Example

/-! ## C3: the accumulator is the sum of the registered counts -/

namespace Scene

theorem poolCount_updateDescriptorPoolBuffer (s : Scene) (layout : DescriptorLayout)
    (kind : DescriptorKind) :
    (s.updateDescriptorPoolBuffer layout).poolCount kind =
      s.poolCount kind + kind.ofBuffer layout := by
  unfold updateDescriptorPoolBuffer
  cases kind <;> split_ifs <;>
    simp_all [poolCount, DescriptorPoolSizes.get, DescriptorKind.descriptorType,
      DescriptorKind.ofBuffer,
      DescriptorPool.addUniformBuffer, DescriptorPool.addStorageBuffer, sendWarning,
      VK_DESCRIPTOR_TYPE_UNIFORM_BUFFER, VK_DESCRIPTOR_TYPE_STORAGE_BUFFER]

theorem poolCount_updateDescriptorPoolImage (s : Scene) (layout : DescriptorLayout)
    (kind : DescriptorKind) :
    (s.updateDescriptorPoolImage layout).poolCount kind =
      s.poolCount kind + kind.ofImage layout := by
  unfold updateDescriptorPoolImage
  cases kind <;> split_ifs <;>
    simp_all [poolCount, DescriptorPoolSizes.get, DescriptorKind.descriptorType,
      DescriptorKind.ofImage,
      DescriptorPool.addStorageImage, DescriptorPool.addCombinedImageSampler,
      DescriptorPool.addSampledImage, DescriptorPool.addSampler, sendWarning,
      VK_DESCRIPTOR_TYPE_STORAGE_IMAGE, VK_DESCRIPTOR_TYPE_COMBINED_IMAGE_SAMPLER,
      VK_DESCRIPTOR_TYPE_SAMPLED_IMAGE, VK_DESCRIPTOR_TYPE_SAMPLER]

theorem poolCount_updateDescriptorPoolDefault (s : Scene) (layout : DescriptorLayout)
    (kind : DescriptorKind) :
    (s.updateDescriptorPoolDefault layout).poolCount kind =
      s.poolCount kind + kind.ofDefault layout := by
  unfold updateDescriptorPoolDefault
  cases kind <;> split_ifs <;>
    simp_all [poolCount, DescriptorPoolSizes.get, DescriptorKind.descriptorType,
      DescriptorKind.ofDefault,
      DescriptorPool.addAccelerationStructure, sendWarning,
      VK_DESCRIPTOR_TYPE_ACCELERATION_STRUCTURE_NV]

theorem poolCount_foldl {α : Type} (kind : DescriptorKind) (step : Scene → α → Scene)
    (added : α → Nat)
    (h : ∀ s x, (step s x).poolCount kind = s.poolCount kind + added x)
    (l : List α) (s : Scene) :
    (l.foldl step s).poolCount kind = s.poolCount kind + (l.map added).sum := by
  induction l generalizing s with
  | nil => simp
  | cons x rest ih =>
    simp only [List.foldl_cons, List.map_cons, List.sum_cons]
    rw [ih, h]
    omega

theorem sum_filter_count (p : DescriptorLayout → Prop) [DecidablePred p]
    (l : List DescriptorLayout) :
    ((l.filter fun layout => p layout).map fun layout => layout.count).sum =
      (l.map fun layout => if p layout then layout.count else 0).sum := by
  induction l with
  | nil => rfl
  | cons x rest ih =>
    by_cases hx : p x <;> simp [List.filter_cons, hx, ih]

/-- One call of `updateDescriptorPool` adds to each counter the counts of the entries of
its kind. -/
theorem poolCount_updateDescriptorPool (s : Scene) (d : DescriptorSetCreateInfo)
    (kind : DescriptorKind) :
    (s.updateDescriptorPool d).poolCount kind = s.poolCount kind + kind.count d := by
  unfold updateDescriptorPool
  simp only
  rw [poolCount_foldl kind
      (fun (s : Scene) (x : Nat × DescriptorLayout) => s.updateDescriptorPoolDefault x.2)
      (fun entry => kind.ofDefault entry.2)
      (fun s x => poolCount_updateDescriptorPoolDefault s x.2 kind),
    poolCount_foldl kind
      (fun (s : Scene) (x : List ImageData × DescriptorLayout) =>
        s.updateDescriptorPoolImage x.2)
      (fun entry => kind.ofImage entry.2)
      (fun s x => poolCount_updateDescriptorPoolImage s x.2 kind),
    poolCount_foldl kind
      (fun (s : Scene) (x : List Nat × DescriptorLayout) => s.updateDescriptorPoolBuffer x.2)
      (fun entry => kind.ofBuffer entry.2)
      (fun s x => poolCount_updateDescriptorPoolBuffer s x.2 kind)]
  unfold DescriptorKind.count
  rw [sum_filter_count]
  cases kind <;>
    simp [DescriptorKind.entries, DescriptorKind.ofBuffer, DescriptorKind.ofImage,
      DescriptorKind.ofDefault, List.map_map, Function.comp_def]

end Scene

theorem at?_map {α β : Type} (f : α → β) (l : List α) (i : Int) :
    at? (l.map f) i = (at? l i).map f := by
  unfold at?
  split_ifs <;> simp

theorem setAt?_of_at? {α : Type} (l : List α) (i : Int) (x y : α) (h : at? l i = some x) :
    setAt? l i y = some (l.set i.toNat y) := by
  unfold at? at h
  unfold setAt?
  split_ifs at h with h0
  have hlt : i.toNat < l.length := by
    by_contra hge
    rw [List.getElem?_eq_none (by omega)] at h
    exact absurd h (by simp)
  simp [h0, hlt]

theorem set_toNat_eq_self {α β : Type} (f : α → β) (l : List α) (i : Int) (x y : α)
    (h : at? l i = some x) (hf : f y = f x) : (l.set i.toNat y).map f = l.map f := by
  unfold at? at h
  split_ifs at h with h0
  rw [List.map_set, hf]
  apply List.ext_getElem?
  intro n
  by_cases hn : n = i.toNat
  · subst hn
    have hlt : i.toNat < l.length := by
      by_contra hge
      rw [List.getElem?_eq_none (by omega)] at h
      exact absurd h (by simp)
    rw [List.getElem?_set_self (by simpa using hlt)]
    simp [h]
  · rw [List.getElem?_set_ne (Ne.symm hn)]

namespace Scene

/-- What `addMesh` does when it is defined: the accumulator is updated and the mesh is
appended to the bindings of the renderer it names. -/
theorem addMesh_eq (s : Scene) (addMeshInfo : AddMeshInfo) :
    s.addMesh addMeshInfo =
      match at? s.m_sceneRenderPasses addMeshInfo.renderPassID with
      | none => none
      | some pass =>
        match at? pass.renderers addMeshInfo.rendererID with
        | some (some renderer) =>
          some { s.updateDescriptorPool addMeshInfo.descriptorSetCreateInfo with
            m_sceneRenderPasses := s.m_sceneRenderPasses.set addMeshInfo.renderPassID.toNat
              { pass with
                renderers := pass.renderers.set addMeshInfo.rendererID.toNat
                  (some (renderer.addMesh addMeshInfo)) } }
        | _ => none := by
  have hpasses : (s.updateDescriptorPool addMeshInfo.descriptorSetCreateInfo).m_sceneRenderPasses =
      s.m_sceneRenderPasses := by
    simpa using congrArg Scene.m_sceneRenderPasses
      (erasePool_updateDescriptorPool s addMeshInfo.descriptorSetCreateInfo)
  unfold addMesh
  simp only [hpasses]
  cases hpass : at? s.m_sceneRenderPasses addMeshInfo.renderPassID with
  | none => rfl
  | some pass =>
    simp only
    cases hslot : at? pass.renderers addMeshInfo.rendererID with
    | none => rfl
    | some slot =>
      cases slot with
      | none => rfl
      | some renderer =>
        simp only [setAt?_of_at? _ _ _ _ hslot, setAt?_of_at? _ _ _ _ hpass, Option.map_some']

theorem addMesh_poolCount (s s' : Scene) (addMeshInfo : AddMeshInfo) (kind : DescriptorKind)
    (h : s.addMesh addMeshInfo = some s') :
    s'.poolCount kind =
      s.poolCount kind + kind.count addMeshInfo.descriptorSetCreateInfo := by
  rw [addMesh_eq] at h
  split at h
  · exact absurd h (by simp)
  · split at h
    · simp only [Option.some.injEq] at h
      rw [← h, ← poolCount_updateDescriptorPool]
      rfl
    · exact absurd h (by simp)

theorem addMesh_rendererSlots (s s' : Scene) (addMeshInfo : AddMeshInfo)
    (h : s.addMesh addMeshInfo = some s') : s'.rendererSlots = s.rendererSlots := by
  rw [addMesh_eq] at h
  split at h
  · exact absurd h (by simp)
  · rename_i pass hpass
    split at h
    · rename_i renderer hslot
      simp only [Option.some.injEq] at h
      rw [← h]
      unfold rendererSlots
      simp only
      apply set_toNat_eq_self _ _ _ _ _ hpass
      simp only
      exact set_toNat_eq_self _ _ _ _ _ hslot rfl
    · exact absurd h (by simp)

theorem addMesh_isSome (s : Scene) (addMeshInfo : AddMeshInfo) :
    (s.addMesh addMeshInfo).isSome = meshTarget s.rendererSlots addMeshInfo := by
  rw [addMesh_eq]
  unfold meshTarget rendererSlots
  rw [at?_map]
  cases hpass : at? s.m_sceneRenderPasses addMeshInfo.renderPassID with
  | none => rfl
  | some pass =>
    simp only [Option.map_some', at?_map]
    cases hslot : at? pass.renderers addMeshInfo.rendererID with
    | none => rfl
    | some slot =>
      cases slot with
      | none => rfl
      | some renderer => rfl

end Scene

namespace Scene

theorem addMeshes_poolCount (s s' : Scene) (infos : List AddMeshInfo) (kind : DescriptorKind)
    (h : s.addMeshes infos = some s') :
    s'.poolCount kind = s.poolCount kind +
      (infos.map fun addMeshInfo => kind.count addMeshInfo.descriptorSetCreateInfo).sum := by
  induction infos generalizing s with
  | nil =>
    simp only [addMeshes, Option.some.injEq] at h
    simp [h]
  | cons x rest ih =>
    unfold addMeshes at h
    split at h
    · exact absurd h (by simp)
    · rename_i t ht
      rw [ih t h, addMesh_poolCount s t x kind ht]
      simp only [List.map_cons, List.sum_cons]
      omega

theorem addMeshes_isSome (s : Scene) (infos : List AddMeshInfo) :
    (s.addMeshes infos).isSome = infos.all (meshTarget s.rendererSlots) := by
  induction infos generalizing s with
  | nil => rfl
  | cons x rest ih =>
    unfold addMeshes
    have hx := addMesh_isSome s x
    split
    · rename_i hnone
      rw [hnone] at hx
      simp [← hx]
    · rename_i t ht
      rw [ht] at hx
      rw [ih t, addMesh_rendererSlots s t x ht]
      simp [← hx]

/-- C3: a sequence of `addMesh` calls, each sent to a renderer that exists, is defined,
and after it each counter of the accumulator is its initial value plus the sum, over the
meshes registered, of the counts of the descriptor entries of its kind; the same calls
made in any other order are defined too and leave the same totals. -/
theorem addMesh_accumulates (s : Scene) (infos : List AddMeshInfo)
    (htargets : ∀ addMeshInfo ∈ infos, meshTarget s.rendererSlots addMeshInfo = true) :
    ∃ s', s.addMeshes infos = some s' ∧
      (∀ kind : DescriptorKind, s'.poolCount kind = s.poolCount kind +
        (infos.map fun addMeshInfo => kind.count addMeshInfo.descriptorSetCreateInfo).sum) ∧
      (∀ infos' : List AddMeshInfo, infos'.Perm infos →
        ∃ s'', s.addMeshes infos' = some s'' ∧
          ∀ kind : DescriptorKind, s''.poolCount kind = s'.poolCount kind) := by
  have hsome' : (s.addMeshes infos).isSome = true := by
    rw [addMeshes_isSome, List.all_eq_true]
    exact htargets
  obtain ⟨s', h⟩ := Option.isSome_iff_exists.mp hsome'
  refine ⟨s', h, fun kind => addMeshes_poolCount s s' infos kind h, ?_⟩
  intro infos' hperm
  have hsome : (s.addMeshes infos').isSome = true := by
    rw [addMeshes_isSome, List.all_eq_true]
    intro x hx
    exact htargets x (hperm.subset hx)
  obtain ⟨s'', hs''⟩ := Option.isSome_iff_exists.mp hsome
  refine ⟨s'', hs'', fun kind => ?_⟩
  rw [addMeshes_poolCount s s'' infos' kind hs'', addMeshes_poolCount s s' infos kind h]
  congr 1
  exact (hperm.map _).sum_eq

end Scene

/-! ## C4: the framebuffers of a render pass -/

theorem RenderPass.initializeImages_eq (attachments : List Attachment) (images : List Image) :
    RenderPass.initializeImages attachments images =
      { m_renderPass := ⟨attachments⟩
        m_framebuffers := images.map fun image => .onImage ⟨attachments⟩ image attachments } := by
  unfold RenderPass.initializeImages RenderPass.createRenderPass
  simp only
  rw [foldl_set_enum (fun image => Framebuffer.onImage ⟨attachments⟩ image attachments)]

theorem RenderPass.initializeExtents_eq (attachments : List Attachment)
    (extents : List VkExtent2D) :
    RenderPass.initializeExtents attachments extents =
      { m_renderPass := ⟨attachments⟩
        m_framebuffers := extents.map fun extent =>
          .onExtent ⟨attachments⟩ extent attachments } := by
  unfold RenderPass.initializeExtents RenderPass.createRenderPass
  simp only
  rw [foldl_set_enum (fun extent => Framebuffer.onExtent ⟨attachments⟩ extent attachments)]

theorem at?_of_setAt? {α : Type} (l l' : List α) (i : Int) (x : α)
    (h : setAt? l i x = some l') : at? l' i = some x ∧ l'.length = l.length := by
  unfold setAt? at h
  split_ifs at h with h0
  simp only [Option.some.injEq] at h
  subst h
  unfold at?
  simp [h0.1, h0.2]

namespace Scene

/-- `prepareRenderPass` changes the outputs and the extent of the descriptor only. -/
theorem prepareRenderPass_some (s : Scene) (createInfo prepared : RenderPassCreateInfo)
    (h : s.prepareRenderPass createInfo = some (some prepared)) :
    ∃ outputs extent, prepared = { createInfo with outputs := outputs, extent := extent } := by
  unfold prepareRenderPass at h
  by_cases h1 : createInfo.outputIsSwapChain = true
  · rw [if_pos h1] at h
    cases h0 : s.m_swapChainImages[0]? with
    | none => simp only [h0] at h; exact absurd h (by simp)
    | some image0 =>
      simp only [h0, Option.some.injEq] at h
      exact ⟨_, _, h.symm⟩
  · rw [if_neg h1] at h
    by_cases h2 : createInfo.outputs.isEmpty = true ∧ createInfo.extent.width = 0
    · rw [if_pos h2] at h
      exact absurd h (by simp)
    · rw [if_neg h2] at h
      generalize (if createInfo.extent.width = 0 then
        createInfo.outputs[0]?.map (fun output => output.attachment.extent)
        else some createInfo.extent) = e at h
      cases e with
      | none => exact absurd h (by simp)
      | some extent =>
        cases ho : s.offscreenOutputs createInfo.outputs with
        | none => simp only [ho] at h; exact absurd h (by simp)
        | some outputs =>
          simp only [ho, Option.map_some', Option.some.injEq] at h
          exact ⟨_, _, h.symm⟩

theorem prepareRenderPass_outputIsSwapChain (s : Scene)
    (createInfo prepared : RenderPassCreateInfo)
    (h : s.prepareRenderPass createInfo = some (some prepared)) :
    prepared.outputIsSwapChain = createInfo.outputIsSwapChain := by
  obtain ⟨outputs, extent, rfl⟩ := prepareRenderPass_some s createInfo prepared h
  rfl

/-- The pass object of the entry a successful `addRenderPass` writes. -/
theorem addRenderPass_renderPass (s s' : Scene) (createInfo : RenderPassCreateInfo)
    (forceID handle : Int) (h : s.addRenderPass createInfo forceID = some (s', handle))
    (hok : handle ≠ -1) :
    ∃ (pass : SceneRenderPass) (attachments : List Attachment) (extent : VkExtent2D),
      at? s'.m_sceneRenderPasses handle = some pass ∧
      pass.outputIsSwapChain = createInfo.outputIsSwapChain ∧
      pass.renderPass = some
        (if createInfo.outputIsSwapChain then
          RenderPass.initializeImages attachments s.m_swapChainImages
        else RenderPass.initializeExtents attachments [extent]) := by
  unfold addRenderPass at h
  split at h
  · exact absurd h (by simp)
  · simp only [Option.some.injEq, Prod.mk.injEq] at h
    exact absurd h.2.symm hok
  · rename_i prepared hprep
    have hswap := prepareRenderPass_outputIsSwapChain s createInfo prepared hprep
    simp only at h
    split at h
    · exact absurd h (by simp)
    · rename_i passes hpasses
      split at h
      · exact absurd h (by simp)
      · rename_i last hlast
        split at h
        · exact absurd h (by simp)
        · rename_i entry hentry
          split at h
          · exact absurd h (by simp)
          · rename_i passes' hset
            simp only [Option.some.injEq, Prod.mk.injEq] at h
            obtain ⟨rfl, rfl⟩ := h
            have hentry' : entry.outputIsSwapChain = createInfo.outputIsSwapChain := by
              rw [← hswap]
              by_cases hf : forceID < 0
              · rw [if_pos hf] at hpasses hentry
                simp only [Option.some.injEq] at hpasses
                subst hpasses
                rw [at?_natCast, getElem?_append_singleton_last] at hentry
                simp only [Option.some.injEq] at hentry
                rw [← hentry]
              · rw [if_neg hf] at hpasses hentry
                rw [(at?_of_setAt? _ _ _ _ hpasses).1] at hentry
                simp only [Option.some.injEq] at hentry
                rw [← hentry]
            refine ⟨_, last.outputs.map (fun output => output.attachment), prepared.extent,
              (at?_of_setAt? _ _ _ _ hset).1, ?_, ?_⟩
            · exact hentry'
            · simp only [hentry']

theorem offscreenOutputs_defined (s : Scene) (image0 : Image)
    (h0 : s.m_swapChainImages[0]? = some image0) (outputs : List RenderPassOutput) :
    ∃ outputs', s.offscreenOutputs outputs = some outputs' := by
  induction outputs with
  | nil => exact ⟨[], rfl⟩
  | cons output rest ih =>
    obtain ⟨rest', hrest⟩ := ih
    unfold offscreenOutputs
    split_ifs
    · simp only [h0, hrest, Option.map_some']
      exact ⟨_, rfl⟩
    · simp only [hrest, Option.map_some']
      exact ⟨_, rfl⟩

/-- With a presentable image, `addRenderPass` without a forced index is defined. -/
theorem addRenderPass_defined (s : Scene) (createInfo : RenderPassCreateInfo) (forceID : Int)
    (hforce : forceID < 0) (hk : 1 ≤ s.m_swapChainImages.length) :
    ∃ s' handle, s.addRenderPass createInfo forceID = some (s', handle) := by
  have h0 : ∃ image0, s.m_swapChainImages[0]? = some image0 :=
    ⟨s.m_swapChainImages[0], List.getElem?_eq_getElem (by omega)⟩
  obtain ⟨image0, h0⟩ := h0
  rcases s.prepareRenderPass_cases createInfo with h | h | ⟨prepared, h⟩
  · exfalso
    unfold prepareRenderPass at h
    by_cases h1 : createInfo.outputIsSwapChain = true
    · rw [if_pos h1, h0] at h
      exact absurd h (by simp)
    · rw [if_neg h1] at h
      by_cases h2 : createInfo.outputs.isEmpty = true ∧ createInfo.extent.width = 0
      · rw [if_pos h2] at h
        exact absurd h (by simp)
      · rw [if_neg h2] at h
        obtain ⟨outputs', ho⟩ := offscreenOutputs_defined s image0 h0 createInfo.outputs
        rw [ho] at h
        by_cases h3 : createInfo.extent.width = 0
        · rw [if_pos h3] at h
          cases hout : createInfo.outputs with
          | nil => exact h2 ⟨by simp [hout], h3⟩
          | cons output rest =>
            rw [hout] at h
            simp at h
        · rw [if_neg h3] at h
          simp at h
  · exact ⟨_, _, addRenderPass_error s createInfo forceID h⟩
  · exact ⟨_, _, addRenderPass_append s createInfo prepared forceID hforce h⟩

/-- C4: on a scene with `k ≥ 1` presentable images, registering a render pass is
defined, and the pass object of a registered pass has, when the pass is bound to the
swap chain, exactly `k` framebuffers, the `i`-th built on presentable image `i`, and,
when the pass has an offscreen target, exactly one framebuffer, built on an extent. -/
theorem renderPass_replicas (s : Scene) (createInfo : RenderPassCreateInfo) (forceID : Int)
    (hk : 1 ≤ s.m_swapChainImages.length) :
    (forceID < 0 → ∃ s' handle, s.addRenderPass createInfo forceID = some (s', handle)) ∧
    (∀ (s' : Scene) (handle : Int),
      s.addRenderPass createInfo forceID = some (s', handle) → handle ≠ -1 →
      ∃ (pass : SceneRenderPass) (renderPass : RenderPass),
        at? s'.m_sceneRenderPasses handle = some pass ∧
        pass.renderPass = some renderPass ∧
        pass.outputIsSwapChain = createInfo.outputIsSwapChain ∧
        (createInfo.outputIsSwapChain = true →
          renderPass.m_framebuffers.length = s.m_swapChainImages.length ∧
          ∀ (i : Nat) (image : Image), s.m_swapChainImages[i]? = some image →
            renderPass.m_framebuffers[i]? = some
              (.onImage renderPass.m_renderPass image renderPass.m_renderPass.attachments)) ∧
        (createInfo.outputIsSwapChain = false →
          renderPass.m_framebuffers.length = 1 ∧
          ∃ extent, renderPass.m_framebuffers =
            [.onExtent renderPass.m_renderPass extent renderPass.m_renderPass.attachments])) := by
  refine ⟨fun hforce => addRenderPass_defined s createInfo forceID hforce hk, ?_⟩
  intro s' handle h hok
  obtain ⟨pass, attachments, extent, hpass, hswap, hrp⟩ :=
    addRenderPass_renderPass s s' createInfo forceID handle h hok
  refine ⟨pass, _, hpass, hrp, hswap, ?_, ?_⟩
  · intro htrue
    rw [if_pos htrue, RenderPass.initializeImages_eq]
    refine ⟨by simp, ?_⟩
    intro i image hi
    simp [hi]
  · intro hfalse
    rw [if_neg (by simp [hfalse]), RenderPass.initializeExtents_eq]
    exact ⟨rfl, extent, rfl⟩

end Scene

/-! ## C5: the replicas of compute and ray-tracing passes bound to the swap chain -/

namespace Scene

theorem at?_append_singleton_length {α : Type} (l : List α) (x : α) :
    at? (l ++ [x]) (l.length : Int) = some x := by
  rw [at?_natCast]
  simp

theorem addComputePass_swapChain_entry (s s' : Scene) (createInfo : ComputePassCreateInfo)
    (handle : Int) (hswap : createInfo.outputIsSwapChain = true)
    (h : s.addComputePass createInfo = some (s', handle)) :
    ∃ image0, s.m_swapChainImages[0]? = some image0 ∧
      at? s'.m_sceneComputePasses handle = some (s.computeEntrySwapChain createInfo image0) := by
  cases h0 : s.m_swapChainImages[0]? with
  | none =>
    rw [addComputePass_swapChain_noImage s createInfo hswap (by simpa using h0)] at h
    exact absurd h (by simp)
  | some image0 =>
    obtain ⟨t, ht, he⟩ := s.addComputePass_swapChain createInfo hswap image0 h0
    rw [ht] at h
    simp only [Option.some.injEq, Prod.mk.injEq] at h
    obtain ⟨rfl, rfl⟩ := h
    refine ⟨image0, rfl, ?_⟩
    rw [(registries_of_withComputePasses he).1]
    exact at?_append_singleton_length _ _

theorem addRayTracingPass_swapChain_entry (s s' : Scene)
    (rayTracingPassAddInfo : RayTracingPassAddInfo) (handle : Int)
    (hswap : rayTracingPassAddInfo.outputIsSwapChain = true)
    (h : s.addRayTracingPass rayTracingPassAddInfo = some (s', handle)) :
    ∃ image0, s.m_swapChainImages[0]? = some image0 ∧
      at? s'.m_sceneRayTracingPasses handle =
        some (s.rayTracingEntrySwapChain rayTracingPassAddInfo image0) := by
  cases h0 : s.m_swapChainImages[0]? with
  | none =>
    rw [addRayTracingPass_swapChain_noImage s rayTracingPassAddInfo hswap
      (by simpa using h0)] at h
    exact absurd h (by simp)
  | some image0 =>
    obtain ⟨t, ht, he⟩ := s.addRayTracingPass_swapChain rayTracingPassAddInfo hswap image0 h0
    rw [ht] at h
    simp only [Option.some.injEq, Prod.mk.injEq] at h
    obtain ⟨rfl, rfl⟩ := h
    refine ⟨image0, rfl, ?_⟩
    rw [(registries_of_withRayTracingPasses he).1]
    exact at?_append_singleton_length _ _

theorem lastBoundImage_append (images : List (List ImageData × DescriptorLayout))
    (accessibility outputBinding : Nat) (image : Image) (d : DescriptorSetCreateInfo) :
    lastBoundImage { d with
      descriptorImages := images ++
        [swapChainImageBinding accessibility outputBinding image] } = some image := by
  simp [lastBoundImage, swapChainImageBinding]

/-- C5: a compute pass, and likewise a ray-tracing pass, registered with
`outputIsSwapChain = true` on a scene with `k` presentable images has exactly `k`
replicas; the descriptor images of replica `i` are those of the caller, in order,
followed by one storage-image binding, of count 1 at the caller's `outputBinding`, whose
image is presentable image `i`; replicas of different indices write to different images
when the presentable images are pairwise distinct. The registration is defined as soon
as there is a presentable image. -/
theorem swapChain_replicas (s : Scene) :
    (∀ (createInfo : ComputePassCreateInfo), createInfo.outputIsSwapChain = true →
      (1 ≤ s.m_swapChainImages.length →
        ∃ s' handle, s.addComputePass createInfo = some (s', handle)) ∧
      ∀ (s' : Scene) (handle : Int), s.addComputePass createInfo = some (s', handle) →
        ∃ pass, at? s'.m_sceneComputePasses handle = some pass ∧
          pass.computePasses.length = s.m_swapChainImages.length ∧
          (∀ (i : Nat) (image : Image), s.m_swapChainImages[i]? = some image →
            ∃ replica, pass.computePasses[i]? = some (some replica) ∧
              replica.descriptorSetCreateInfo.descriptorImages =
                createInfo.descriptorSetCreateInfo.descriptorImages ++
                  [([{ image := some image }],
                    { descriptorType := VK_DESCRIPTOR_TYPE_STORAGE_IMAGE
                      accessibility := VK_SHADER_STAGE_COMPUTE_BIT
                      count := 1
                      binding := createInfo.outputBinding })] ∧
              lastBoundImage replica.descriptorSetCreateInfo = some image) ∧
          (s.m_swapChainImages.Nodup →
            ∀ (i j : Nat) (a b : ComputePass), i ≠ j →
              pass.computePasses[i]? = some (some a) → pass.computePasses[j]? = some (some b) →
              lastBoundImage a.descriptorSetCreateInfo ≠
                lastBoundImage b.descriptorSetCreateInfo)) ∧
    (∀ (rayTracingPassAddInfo : RayTracingPassAddInfo),
      rayTracingPassAddInfo.outputIsSwapChain = true →
      (1 ≤ s.m_swapChainImages.length →
        ∃ s' handle, s.addRayTracingPass rayTracingPassAddInfo = some (s', handle)) ∧
      ∀ (s' : Scene) (handle : Int),
        s.addRayTracingPass rayTracingPassAddInfo = some (s', handle) →
        ∃ pass, at? s'.m_sceneRayTracingPasses handle = some pass ∧
          pass.rayTracingPasses.length = s.m_swapChainImages.length ∧
          (∀ (i : Nat) (image : Image), s.m_swapChainImages[i]? = some image →
            ∃ replica, pass.rayTracingPasses[i]? = some (some replica) ∧
              replica.rayTracingPassCreateInfo.descriptorSetCreateInfo.descriptorImages =
                rayTracingPassAddInfo.rayTracingPassCreateInfo.descriptorSetCreateInfo.descriptorImages
                  ++ [([{ image := some image }],
                    { descriptorType := VK_DESCRIPTOR_TYPE_STORAGE_IMAGE
                      accessibility := VK_SHADER_STAGE_RAYGEN_BIT_NV
                      count := 1
                      binding := rayTracingPassAddInfo.outputBinding })] ∧
              lastBoundImage replica.rayTracingPassCreateInfo.descriptorSetCreateInfo =
                some image) ∧
          (s.m_swapChainImages.Nodup →
            ∀ (i j : Nat) (a b : RayTracingPass), i ≠ j →
              pass.rayTracingPasses[i]? = some (some a) →
              pass.rayTracingPasses[j]? = some (some b) →
              lastBoundImage a.rayTracingPassCreateInfo.descriptorSetCreateInfo ≠
                lastBoundImage b.rayTracingPassCreateInfo.descriptorSetCreateInfo)) := by
  constructor
  · intro createInfo hswap
    constructor
    · intro hk
      obtain ⟨t, ht, -⟩ := s.addComputePass_swapChain createInfo hswap s.m_swapChainImages[0]
        (List.getElem?_eq_getElem (by omega))
      exact ⟨_, _, ht⟩
    · intro s' handle h
      obtain ⟨image0, -, hentry⟩ := addComputePass_swapChain_entry s s' createInfo handle hswap h
      refine ⟨_, hentry, by simp [computeEntrySwapChain], ?_, ?_⟩
      · intro i image hi
        refine ⟨computeReplica s.m_computeCommandPool createInfo image, ?_, rfl, ?_⟩
        · simp [computeEntrySwapChain, hi]
        · exact lastBoundImage_append _ _ _ _ _
      · intro hnodup i j a b hij ha hb
        simp only [computeEntrySwapChain, List.getElem?_map, Option.map_eq_some'] at ha hb
        obtain ⟨imageA, hA, hA'⟩ := ha
        obtain ⟨imageB, hB, hB'⟩ := hb
        simp only [Option.some.injEq] at hA' hB'
        subst hA' hB'
        rw [show lastBoundImage (computeReplica s.m_computeCommandPool createInfo
            imageA).descriptorSetCreateInfo = some imageA from lastBoundImage_append _ _ _ _ _,
          show lastBoundImage (computeReplica s.m_computeCommandPool createInfo
            imageB).descriptorSetCreateInfo = some imageB from lastBoundImage_append _ _ _ _ _]
        intro heq
        simp only [Option.some.injEq] at heq
        subst heq
        exact hij (List.getElem?_inj (by
          rcases List.getElem?_eq_some_iff.mp hA with ⟨h1, -⟩; exact h1) hnodup (hA.trans hB.symm))
  · intro rayTracingPassAddInfo hswap
    constructor
    · intro hk
      obtain ⟨t, ht, -⟩ := s.addRayTracingPass_swapChain rayTracingPassAddInfo hswap s.m_swapChainImages[0]
        (List.getElem?_eq_getElem (by omega))
      exact ⟨_, _, ht⟩
    · intro s' handle h
      obtain ⟨image0, -, hentry⟩ := addRayTracingPass_swapChain_entry s s' rayTracingPassAddInfo handle hswap h
      refine ⟨_, hentry, by simp [rayTracingEntrySwapChain], ?_, ?_⟩
      · intro i image hi
        refine ⟨rayTracingReplica s.m_computeCommandPool rayTracingPassAddInfo image, ?_, rfl, ?_⟩
        · simp [rayTracingEntrySwapChain, hi]
        · exact lastBoundImage_append _ _ _ _ _
      · intro hnodup i j a b hij ha hb
        simp only [rayTracingEntrySwapChain, List.getElem?_map, Option.map_eq_some'] at ha hb
        obtain ⟨imageA, hA, hA'⟩ := ha
        obtain ⟨imageB, hB, hB'⟩ := hb
        simp only [Option.some.injEq] at hA' hB'
        subst hA' hB'
        rw [show lastBoundImage (rayTracingReplica s.m_computeCommandPool rayTracingPassAddInfo
            imageA).rayTracingPassCreateInfo.descriptorSetCreateInfo = some imageA from lastBoundImage_append _ _ _ _ _,
          show lastBoundImage (rayTracingReplica s.m_computeCommandPool rayTracingPassAddInfo
            imageB).rayTracingPassCreateInfo.descriptorSetCreateInfo = some imageB from lastBoundImage_append _ _ _ _ _]
        intro heq
        simp only [Option.some.injEq] at heq
        subst heq
        exact hij (List.getElem?_inj (by
          rcases List.getElem?_eq_some_iff.mp hA with ⟨h1, -⟩; exact h1) hnodup (hA.trans hB.symm))

end Scene

/-! ## The structure of `record` -/

namespace Scene

/-- The swap-chain loop, when it runs to its end: every image it visits gets the
command buffer of the commands recorded for it, and the slots before are untouched. -/
theorem recordSwapChainLoop_spec (s : Scene) (images : List Image) (a : Nat)
    (buffers buffers' : List (Option CommandBuffer))
    (h : s.recordSwapChainLoop (images.enumFrom a) buffers = some (buffers', false)) :
    buffers'.length = buffers.length ∧
    (∀ i, i < a → buffers'[i]? = buffers[i]?) ∧
    (∀ (n : Nat) (image : Image), images[n]? = some image →
      ∃ commands, s.recordSwapChainImage (a + n) image = some (commands, false) ∧
        (a + n < buffers.length →
          buffers'[a + n]? = some (some (s.swapChainCommandBuffer commands)))) := by
  induction images generalizing a buffers with
  | nil =>
    simp only [List.enumFrom_nil, recordSwapChainLoop, Option.some.injEq, Prod.mk.injEq,
      and_true] at h
    subst h
    exact ⟨rfl, fun _ _ => rfl, fun n image hn => absurd hn (by simp)⟩
  | cons image rest ih =>
    simp only [List.enumFrom_cons, recordSwapChainLoop] at h
    split at h
    · exact absurd h (by simp)
    · simp at h
    · rename_i commands hcommands
      obtain ⟨hlen, hframe, hrest⟩ := ih (a + 1) _ h
      refine ⟨by simpa using hlen, ?_, ?_⟩
      · intro i hi
        rw [hframe i (by omega), List.getElem?_set_ne (by omega)]
      · intro n image' hn
        cases n with
        | zero =>
          simp only [List.getElem?_cons_zero, Option.some.injEq] at hn
          subst hn
          refine ⟨commands, hcommands, fun hlt => ?_⟩
          rw [Nat.add_zero] at hlt ⊢
          rw [hframe a (by omega), List.getElem?_set_self hlt]
          rfl
        | succ n =>
          simp only [List.getElem?_cons_succ] at hn
          obtain ⟨commands', hc', hb'⟩ := hrest n image' hn
          have e : a + 1 + n = a + (n + 1) := by omega
          rw [e] at hc' hb'
          refine ⟨commands', hc', fun hlt => ?_⟩
          exact hb' (by simpa using hlt)

/-- The loop over the auxiliary streams, when it is defined: every stream had a command
buffer, which now holds the commands recorded for the stream. -/
theorem recordAuxLoop_spec (s : Scene) (streams : List SceneCommandBuffer) (a : Nat)
    (streams' : List SceneCommandBuffer)
    (h : s.recordAuxLoop (streams.enumFrom a) = some streams') :
    streams'.length = streams.length ∧
    (∀ (n : Nat) (stream : SceneCommandBuffer), streams[n]? = some stream →
      ∃ commandBuffer commands, stream.commandBuffer = some commandBuffer ∧
        s.recordAuxCommands (a + n) = some commands ∧
        streams'[n]? = some
          { stream with commandBuffer := some (auxCommandBuffer commandBuffer commands) }) := by
  induction streams generalizing a streams' with
  | nil =>
    simp only [List.enumFrom_nil, recordAuxLoop, Option.some.injEq] at h
    subst h
    exact ⟨rfl, fun n stream hn => absurd hn (by simp)⟩
  | cons stream rest ih =>
    simp only [List.enumFrom_cons, recordAuxLoop] at h
    split at h
    · exact absurd h (by simp)
    · rename_i commandBuffer hbuffer
      split at h
      · exact absurd h (by simp)
      · rename_i commands hcommands
        split at h
        · exact absurd h (by simp)
        · rename_i others hothers
          simp only [Option.some.injEq] at h
          subst h
          obtain ⟨hlen, hrest⟩ := ih (a + 1) others hothers
          refine ⟨by simp [hlen], ?_⟩
          intro n stream' hn
          cases n with
          | zero =>
            simp only [List.getElem?_cons_zero, Option.some.injEq] at hn
            subst hn
            exact ⟨commandBuffer, commands, hbuffer, hcommands, by simp [auxCommandBuffer]⟩
          | succ n =>
            simp only [List.getElem?_cons_succ] at hn
            obtain ⟨cb, cs, h1, h2, h3⟩ := hrest n stream' hn
            have e : a + 1 + n = a + (n + 1) := by omega
            rw [e] at h2
            exact ⟨cb, cs, h1, h2, by simpa using h3⟩

end Scene

namespace Scene

theorem createReplicas_eq {α : Type} (create : α → α) (replicas : List (Option α)) :
    createReplicas create replicas =
      if replicas.all (fun replica => replica.isSome) then
        some (replicas.map fun replica => replica.map create)
      else none := by
  induction replicas with
  | nil => rfl
  | cons replica rest ih =>
    cases replica with
    | none => simp [createReplicas]
    | some r =>
      simp only [createReplicas, ih, List.all_cons, Option.isSome_some, Bool.true_and,
        List.map_cons, Option.map_some']
      split_ifs <;> rfl

theorem createAllRenderers_eq (build : Build) (driver : Driver) (s : Scene)
    (passes : List SceneRenderPass) :
    createAllRenderers build driver s passes =
      ({ s with debug := s.debug ++
          (if build.NDEBUG then []
          else passes.map fun pass =>
            (⟨.info, "Creating renderer for render pass: " ++ pass.name, []⟩ : DebugMessage)) },
        passes.map (SceneRenderPass.created driver s.m_descriptorPool.getDescriptorPool)) := by
  induction passes generalizing s with
  | nil => cases hb : build.NDEBUG <;> simp [createAllRenderers]
  | cons pass rest ih =>
    simp only [createAllRenderers, ih, createRenderers]
    cases hb : build.NDEBUG <;>
      simp [sendInfo, SceneRenderPass.created]

theorem createComputePasses_eq (build : Build) (s : Scene) (passes : List SceneComputePass) :
    createComputePasses build s passes =
      if passes.all (fun pass => pass.computePasses.all fun replica => replica.isSome) then
        some ({ s with debug := s.debug ++
            (if build.NDEBUG then []
            else passes.map fun pass =>
              (⟨.info, "Creating compute pass: " ++ pass.name, []⟩ : DebugMessage)) },
          passes.map (SceneComputePass.created s.m_descriptorPool.getDescriptorPool))
      else none := by
  induction passes generalizing s with
  | nil => cases hb : build.NDEBUG <;> simp [createComputePasses]
  | cons pass rest ih =>
    simp only [createComputePasses, createReplicas_eq, ih]
    cases hb : build.NDEBUG <;>
      by_cases h1 : (pass.computePasses.all fun replica => replica.isSome) = true <;>
      by_cases h2 : (rest.all fun pass =>
        pass.computePasses.all fun replica => replica.isSome) = true <;>
      simp [sendInfo, SceneComputePass.created, h1, h2]

theorem createRayTracingPasses_eq (s : Scene) (passes : List SceneRayTracingPass) :
    createRayTracingPasses s passes =
      if passes.all (fun pass => pass.rayTracingPasses.all fun replica => replica.isSome) then
        some (passes.map (SceneRayTracingPass.created s.m_descriptorPool.getDescriptorPool))
      else none := by
  induction passes with
  | nil => simp [createRayTracingPasses]
  | cons pass rest ih =>
    simp only [createRayTracingPasses, createReplicas_eq, ih]
    by_cases h1 : (pass.rayTracingPasses.all fun replica => replica.isSome) = true <;>
      by_cases h2 : (rest.all fun pass =>
        pass.rayTracingPasses.all fun replica => replica.isSome) = true <;>
      simp [SceneRayTracingPass.created, h1, h2]

/-- Lines 372-399 of `record` are defined exactly when no replica is null, and then
allocate the pool and create every renderer and replica against it. -/
theorem createPipelines_eq (build : Build) (driver : Driver) (s : Scene) :
    s.createPipelines build driver =
      if s.replicasPresent then some (s.created build driver) else none := by
  unfold createPipelines
  simp only [createAllRenderers_eq, createComputePasses_eq, createRayTracingPasses_eq]
  unfold replicasPresent created createMessages
  by_cases h1 : (s.m_sceneComputePasses.all fun pass =>
      pass.computePasses.all fun replica => replica.isSome) = true <;>
    by_cases h2 : (s.m_sceneRayTracingPasses.all fun pass =>
      pass.rayTracingPasses.all fun replica => replica.isSome) = true <;>
    cases hb : build.NDEBUG <;>
    simp [h1, h2]

end Scene

namespace Scene

theorem forEachRecord_returned {α : Type} (body : α → Option (List Command × Bool))
    (l : List α) (commands : List Command)
    (h : forEachRecord body l = some (commands, true)) :
    ∃ x ∈ l, ∃ c, body x = some (c, true) := by
  induction l generalizing commands with
  | nil => simp [forEachRecord] at h
  | cons x rest ih =>
    unfold forEachRecord at h
    split at h
    · exact absurd h (by simp)
    · rename_i c hc
      exact ⟨x, List.mem_cons_self _ _, c, hc⟩
    · split at h
      · exact absurd h (by simp)
      · rename_i others returned hrest
        simp only [Option.some.injEq, Prod.mk.injEq] at h
        obtain ⟨-, rfl⟩ := h
        obtain ⟨y, hy, c', hc'⟩ := ih others hrest
        exact ⟨y, List.mem_cons_of_mem _ hy, c', hc'⟩

theorem recordSwapChainRenderer_returned (j : Nat) (renderer : Option Renderer)
    (commands : List Command)
    (h : recordSwapChainRenderer j renderer = some (commands, true)) : renderer = none := by
  cases renderer with
  | none => rfl
  | some r =>
    unfold recordSwapChainRenderer at h
    simp only [Option.map_eq_some', Prod.mk.injEq] at h
    obtain ⟨_, _, _, h⟩ := h
    exact absurd h (by simp)

theorem recordSwapChainRenderPass_returned (s : Scene) (i : Nat) (image : Image) (j : Nat)
    (pass : SceneRenderPass) (commands : List Command)
    (h : s.recordSwapChainRenderPass i image j pass = some (commands, true)) :
    none ∈ pass.renderers := by
  unfold recordSwapChainRenderPass at h
  by_cases hid : pass.commandBufferID = -1
  · rw [if_pos hid] at h
    simp only at h
    cases hrp : pass.renderPass with
    | none => simp [hrp] at h
    | some renderPass =>
      simp only [hrp] at h
      cases hb : renderPass.beginRenderPass (if pass.outputIsSwapChain then i else 0)
          (pass.outputs.map fun output => output.clearValue) with
      | none => simp [hb] at h
      | some beginCommand =>
        simp only [hb] at h
        cases hf : forEachRecord (recordSwapChainRenderer j) pass.renderers with
        | none => simp [hf] at h
        | some result =>
          obtain ⟨c, returned⟩ := result
          cases returned with
          | true =>
            obtain ⟨r, hr, c', hc'⟩ := forEachRecord_returned _ _ _ hf
            rw [recordSwapChainRenderer_returned j r c' hc'] at hr
            exact hr
          | false =>
            simp only [hf, Option.map_eq_some', Prod.mk.injEq] at h
            obtain ⟨_, _, _, h⟩ := h
            exact absurd h (by simp)
  · rw [if_neg hid] at h
    simp at h

theorem recordSwapChainImage_returned (s : Scene) (i : Nat) (image : Image)
    (commands : List Command)
    (h : s.recordSwapChainImage i image = some (commands, true)) :
    ∃ pass ∈ s.m_sceneRenderPasses, none ∈ pass.renderers := by
  unfold recordSwapChainImage at h
  split at h
  · obtain ⟨jp, hjp, c, hc⟩ := forEachRecord_returned _ _ _ h
    obtain ⟨hlt, heq⟩ := List.mem_enum hjp
    exact ⟨jp.2, heq ▸ List.getElem_mem _, recordSwapChainRenderPass_returned _ _ _ _ _ _ hc⟩
  all_goals
    simp only [Option.map_eq_some', Prod.mk.injEq] at h
    obtain ⟨_, _, _, h⟩ := h
    exact absurd h (by simp)

theorem recordSwapChainLoop_returned (s : Scene) (l : List (Nat × Image))
    (buffers buffers' : List (Option CommandBuffer))
    (h : s.recordSwapChainLoop l buffers = some (buffers', true)) :
    ∃ pass ∈ s.m_sceneRenderPasses, none ∈ pass.renderers := by
  induction l generalizing buffers with
  | nil => simp [recordSwapChainLoop] at h
  | cons x rest ih =>
    obtain ⟨i, image⟩ := x
    simp only [recordSwapChainLoop] at h
    split at h
    · exact absurd h (by simp)
    · rename_i c hc
      exact recordSwapChainImage_returned s i image c hc
    · exact ih _ h

theorem renderersPresent_created (build : Build) (driver : Driver) (s : Scene) :
    (s.created build driver).renderersPresent = s.renderersPresent := by
  unfold renderersPresent created SceneRenderPass.created
  simp [List.all_map, Function.comp_def, List.all_eq]

theorem not_mem_none_of_renderersPresent (s : Scene) (h : s.renderersPresent = true)
    (pass : SceneRenderPass) (hpass : pass ∈ s.m_sceneRenderPasses) :
    none ∉ pass.renderers := by
  unfold renderersPresent at h
  rw [List.all_eq_true] at h
  have h1 := h pass hpass
  rw [List.all_eq_true] at h1
  intro hnone
  exact absurd (h1 none hnone) (by simp)

end Scene

namespace Scene

theorem length_resize {α : Type} (l : List α) (n : Nat) (d : α) : (Wolf.resize l n d).length = n := by
  unfold Wolf.resize
  simp only [List.length_append, List.length_take, List.length_replicate]
  omega

/-- What `record` leaves when it is defined and no renderer slot is empty: one recorded
command buffer per presentable image and, in every auxiliary stream, which had a command
buffer, the commands recorded for it. `s.created` is the scene once the pipelines are
created. -/
theorem record_spec (build : Build) (driver : Driver) (s s' : Scene)
    (h : s.record build driver = some s') (hr : s.renderersPresent = true) :
    s.replicasPresent = true ∧
    s'.m_swapChainImages = s.m_swapChainImages ∧
    s'.m_swapChainCommandBuffers.length = s.m_swapChainImages.length ∧
    (∀ (i : Nat) (image : Image), s.m_swapChainImages[i]? = some image →
      ∃ commands, (s.created build driver).recordSwapChainImage i image = some (commands, false) ∧
        s'.m_swapChainCommandBuffers[i]? =
          some (some ((s.created build driver).swapChainCommandBuffer commands))) ∧
    s'.m_sceneCommandBuffers.length = s.m_sceneCommandBuffers.length ∧
    (∀ (n : Nat) (stream : SceneCommandBuffer), s.m_sceneCommandBuffers[n]? = some stream →
      ∃ commandBuffer commands, stream.commandBuffer = some commandBuffer ∧
        (s.created build driver).recordAuxCommands n = some commands ∧
        s'.m_sceneCommandBuffers[n]? = some
          { stream with commandBuffer := some (auxCommandBuffer commandBuffer commands) }) := by
  unfold record at h
  rw [createPipelines_eq] at h
  by_cases hrep : s.replicasPresent = true
  · rw [if_pos hrep] at h
    simp only at h
    cases hloop : (s.created build driver).recordSwapChainLoop
        (s.created build driver).m_swapChainImages.enum
        (Wolf.resize (s.created build driver).m_swapChainCommandBuffers
          (s.created build driver).m_swapChainImages.length none) with
    | none => simp [hloop] at h
    | some result =>
      obtain ⟨buffers, returned⟩ := result
      cases returned with
      | true =>
        exfalso
        obtain ⟨pass, hpass, hnone⟩ := recordSwapChainLoop_returned _ _ _ _ hloop
        exact not_mem_none_of_renderersPresent _
          ((renderersPresent_created build driver s).trans hr) pass hpass hnone
      | false =>
        simp only [hloop] at h
        obtain ⟨hlen, -, himages⟩ := recordSwapChainLoop_spec _ _ 0 _ _ hloop
        rw [length_resize] at hlen
        cases haux : Scene.recordAuxLoop
            { s.created build driver with
              m_swapChainCommandBuffers := buffers
              m_swapChainCompleteSemaphore :=
                some { semaphore := (s.created build driver).semaphoresCreated + 1 }
              semaphoresCreated := (s.created build driver).semaphoresCreated + 1 }
            (s.created build driver).m_sceneCommandBuffers.enum with
        | none =>
          exfalso
          have : (Option.map _ (none : Option (List SceneCommandBuffer))) = some s' :=
            haux ▸ h
          simp at this
        | some streams =>
          have hs' : some _ = some s' := (congrArg (Option.map _) haux).symm.trans h
          simp only [Option.map_some', Option.some.injEq] at hs'
          obtain ⟨hlen2, hstreams⟩ := recordAuxLoop_spec _ _ 0 _ haux
          subst hs'
          refine ⟨hrep, rfl, hlen, ?_, hlen2, ?_⟩
          · intro i image hi
            obtain ⟨commands, hc, hb⟩ := himages i image hi
            rw [Nat.zero_add] at hc hb
            refine ⟨commands, hc, hb ?_⟩
            rw [length_resize]
            exact (List.getElem?_eq_some_iff.mp hi).1
          · intro n stream hn
            obtain ⟨cb, cs, h1, h2, h3⟩ := hstreams n stream hn
            rw [Nat.zero_add] at h2
            exact ⟨cb, cs, h1, h2, h3⟩
  · rw [if_neg hrep] at h
    exact absurd h (by simp)

end Scene

namespace Scene

theorem recordSwapChainLoop_defined (s : Scene) (l : List (Nat × Image))
    (buffers : List (Option CommandBuffer))
    (h : ∀ x ∈ l, ∃ commands, s.recordSwapChainImage x.1 x.2 = some (commands, false)) :
    ∃ buffers', s.recordSwapChainLoop l buffers = some (buffers', false) := by
  induction l generalizing buffers with
  | nil => exact ⟨buffers, rfl⟩
  | cons x rest ih =>
    obtain ⟨i, image⟩ := x
    obtain ⟨commands, hc⟩ := h (i, image) (List.mem_cons_self _ _)
    simp only at hc
    simp only [recordSwapChainLoop, hc]
    exact ih _ (fun y hy => h y (List.mem_cons_of_mem _ hy))

theorem recordAuxLoop_defined (s : Scene) (l : List (Nat × SceneCommandBuffer))
    (hbuffer : ∀ x ∈ l, ∃ commandBuffer, x.2.commandBuffer = some commandBuffer)
    (hcommands : ∀ x ∈ l, ∃ commands, s.recordAuxCommands x.1 = some commands) :
    ∃ streams, s.recordAuxLoop l = some streams := by
  induction l with
  | nil => exact ⟨[], rfl⟩
  | cons x rest ih =>
    obtain ⟨i, stream⟩ := x
    obtain ⟨commandBuffer, hb⟩ := hbuffer (i, stream) (List.mem_cons_self _ _)
    obtain ⟨commands, hc⟩ := hcommands (i, stream) (List.mem_cons_self _ _)
    obtain ⟨streams, hs⟩ := ih (fun y hy => hbuffer y (List.mem_cons_of_mem _ hy))
      (fun y hy => hcommands y (List.mem_cons_of_mem _ hy))
    simp only at hb hc
    simp only [recordAuxLoop, hb, hc, hs]
    exact ⟨_, rfl⟩

/-- `record` is defined as soon as no replica is null, the recording of every
presentable image is defined and runs to its end, every auxiliary stream has a command
buffer and the recording of every auxiliary stream is defined. -/
theorem record_defined (build : Build) (driver : Driver) (s : Scene)
    (hrep : s.replicasPresent = true)
    (himages : ∀ (i : Nat) (image : Image), s.m_swapChainImages[i]? = some image →
      ∃ commands, (s.created build driver).recordSwapChainImage i image = some (commands, false))
    (hbuffer : ∀ stream ∈ s.m_sceneCommandBuffers,
      ∃ commandBuffer, stream.commandBuffer = some commandBuffer)
    (hstreams : ∀ n, n < s.m_sceneCommandBuffers.length →
      ∃ commands, (s.created build driver).recordAuxCommands n = some commands) :
    ∃ s', s.record build driver = some s' := by
  unfold record
  rw [createPipelines_eq, if_pos hrep]
  simp only
  obtain ⟨buffers, hloop⟩ := recordSwapChainLoop_defined (s.created build driver)
    (s.created build driver).m_swapChainImages.enum
    (Wolf.resize (s.created build driver).m_swapChainCommandBuffers
      (s.created build driver).m_swapChainImages.length none)
    (fun x hx => by
      obtain ⟨hlt, heq⟩ := List.mem_enum hx
      exact himages x.1 x.2 (by
        rw [heq]
        exact List.getElem?_eq_getElem hlt))
  rw [hloop]
  simp only
  obtain ⟨streams, haux⟩ := recordAuxLoop_defined
    { s.created build driver with
      m_swapChainCommandBuffers := buffers
      m_swapChainCompleteSemaphore :=
        some { semaphore := (s.created build driver).semaphoresCreated + 1 }
      semaphoresCreated := (s.created build driver).semaphoresCreated + 1 }
    (s.created build driver).m_sceneCommandBuffers.enum
    (fun x hx => by
      obtain ⟨hlt, heq⟩ := List.mem_enum hx
      exact hbuffer x.2 (heq ▸ List.getElem_mem _))
    (fun x hx => by
      obtain ⟨hlt, heq⟩ := List.mem_enum hx
      exact hstreams x.1 hlt)
  exact ⟨_, (congrArg (Option.map _) haux).trans rfl⟩

end Scene

/-! ## C6: the command-sequence objects after `record` -/

namespace Scene

theorem addCommandBuffer_eq (s : Scene) (createInfo : CommandBufferCreateInfo) :
    (s.addCommandBuffer createInfo).2 = s.m_sceneCommandBuffers.length ∧
    (s.addCommandBuffer createInfo).1.eraseDebug =
      s.eraseDebug.withCommandBuffers (s.m_sceneCommandBuffers ++ [s.newStream createInfo]) := by
  obtain ⟨type, stage⟩ := createInfo
  cases type <;>
    simp [addCommandBuffer, backCommandBuffer, modifyBack_append_singleton, sendError,
      newStream, eraseDebug, withCommandBuffers, Semaphore.setPipelineStage]

end Scene

namespace Scene

end Scene

namespace Example

end Example

theorem forEachCommands_append {α : Type} (body : α → Option (List Command))
    (l₁ l₂ : List α) :
    forEachCommands body (l₁ ++ l₂) =
      (forEachCommands body l₁).bind fun a => (forEachCommands body l₂).map fun b => a ++ b := by
  induction l₁ with
  | nil =>
    cases h : forEachCommands body l₂ <;> simp [forEachCommands, h]
  | cons x rest ih =>
    rw [List.cons_append]
    simp only [forEachCommands]
    cases hx : body x with
    | none => simp
    | some commands =>
      simp only [ih]
      cases h₁ : forEachCommands body rest with
      | none => simp
      | some a =>
        cases h₂ : forEachCommands body l₂ with
        | none => simp
        | some b => simp

theorem forEachCommands_map {α β : Type} (body : β → Option (List Command)) (g : α → β)
    (l : List α) :
    forEachCommands body (l.map g) = forEachCommands (fun x => body (g x)) l := by
  induction l with
  | nil => rfl
  | cons x rest ih => simp only [List.map_cons, forEachCommands, ih]

theorem forEachCommands_filter {α : Type} (body : α → Option (List Command))
    (p : α → Bool) (l : List α) (h : ∀ x, p x = false → body x = some []) :
    forEachCommands body (l.filter p) = forEachCommands body l := by
  induction l with
  | nil => rfl
  | cons x rest ih =>
    cases hp : p x with
    | true =>
      rw [List.filter_cons_of_pos hp]
      simp only [forEachCommands, ih]
    | false =>
      rw [List.filter_cons_of_neg (by simp [hp])]
      simp only [forEachCommands, h x hp, ih]
      cases forEachCommands body rest <;> simp

namespace Scene

/-- The commands recorded for the auxiliary stream `i` are those of the passes of
`auxPasses`, one after the other. -/
theorem recordAuxCommands_eq (s : Scene) (i : Nat) :
    s.recordAuxCommands i = forEachCommands (AuxPass.record i) (s.auxPasses i) := by
  unfold recordAuxCommands auxPasses
  rw [forEachCommands_append, forEachCommands_append, forEachCommands_map,
    forEachCommands_map, forEachCommands_map]
  rw [forEachCommands_filter (fun x => AuxPass.record i (.renderPass x)),
    forEachCommands_filter (fun x => AuxPass.record i (.computePass x)),
    forEachCommands_filter (fun x => AuxPass.record i (.rayTracingPass x))]
  · simp only [AuxPass.record]
    cases forEachCommands (fun (sceneRenderPass : SceneRenderPass) =>
        if sceneRenderPass.commandBufferID = (i : Int) then recordRenderPass sceneRenderPass
        else some []) s.m_sceneRenderPasses with
    | none => rfl
    | some a =>
      cases forEachCommands (recordAuxComputePass i) s.m_sceneComputePasses with
      | none => rfl
      | some b =>
        cases forEachCommands (recordAuxRayTracingPass i) s.m_sceneRayTracingPasses with
        | none => rfl
        | some c => simp
  · intro x hx
    simp only [decide_eq_false_iff_not] at hx
    simp [AuxPass.record, recordAuxRayTracingPass, hx]
  · intro x hx
    simp only [decide_eq_false_iff_not] at hx
    simp [AuxPass.record, recordAuxComputePass, hx]
  · intro x hx
    simp only [decide_eq_false_iff_not] at hx
    simp [AuxPass.record, hx]

/-- C7, amended: after a `record` that is defined on a scene whose renderer slots are
filled, the command buffer of every auxiliary stream `n` holds the commands of exactly
the render, compute and ray-tracing passes whose `commandBufferID` is `n`, grouped by
kind: the render passes in registration order, then the compute passes in registration
order, then the ray-tracing passes in registration order. The transfers are not recorded
into auxiliary streams: the commands do not depend on the transfer registry. -/
theorem auxStream_recorded_passes (build : Build) (driver : Driver) (s s' : Scene)
    (h : s.record build driver = some s') (hr : s.renderersPresent = true)
    (n : Nat) (stream : SceneCommandBuffer)
    (hn : s.m_sceneCommandBuffers[n]? = some stream) :
    (∃ commandBuffer commands,
      stream.commandBuffer = some commandBuffer ∧
      forEachCommands (AuxPass.record n) ((s.created build driver).auxPasses n) =
        some commands ∧
      s'.m_sceneCommandBuffers[n]? =
        some { stream with commandBuffer := some (auxCommandBuffer commandBuffer commands) }) ∧
    (∀ pass, pass ∈ (s.created build driver).auxPasses n ↔
      pass.commandBufferID = (n : Int) ∧
      ((∃ p ∈ s.m_sceneRenderPasses,
          pass = .renderPass (p.created driver s.m_descriptorPool.allocate.getDescriptorPool)) ∨
        (∃ p ∈ s.m_sceneComputePasses,
          pass = .computePass (p.created s.m_descriptorPool.allocate.getDescriptorPool)) ∨
        (∃ p ∈ s.m_sceneRayTracingPasses,
          pass = .rayTracingPass
            (p.created s.m_descriptorPool.allocate.getDescriptorPool)))) ∧
    (∀ transfers : List SceneTransfer,
      ({ s.created build driver with m_sceneTransfers := transfers }).recordAuxCommands n =
        (s.created build driver).recordAuxCommands n) := by
  obtain ⟨-, -, -, -, -, hstreams⟩ := record_spec build driver s s' h hr
  obtain ⟨commandBuffer, commands, h1, h2, h3⟩ := hstreams n stream hn
  refine ⟨⟨commandBuffer, commands, h1, ?_, h3⟩, ?_, fun _ => rfl⟩
  · rw [← recordAuxCommands_eq]
    exact h2
  · intro pass
    simp only [auxPasses, created, List.mem_append, List.mem_map, List.mem_filter,
      decide_eq_true_eq]
    constructor
    · rintro (⟨p, ⟨⟨q, hq, rfl⟩, hp⟩, rfl⟩ | ⟨p, ⟨⟨q, hq, rfl⟩, hp⟩, rfl⟩ |
        ⟨p, ⟨⟨q, hq, rfl⟩, hp⟩, rfl⟩)
      · exact ⟨hp, Or.inl ⟨q, hq, rfl⟩⟩
      · exact ⟨hp, Or.inr (Or.inl ⟨q, hq, rfl⟩)⟩
      · exact ⟨hp, Or.inr (Or.inr ⟨q, hq, rfl⟩)⟩
    · rintro ⟨hp, ⟨q, hq, rfl⟩ | ⟨q, hq, rfl⟩ | ⟨q, hq, rfl⟩⟩
      · exact Or.inl ⟨_, ⟨⟨q, hq, rfl⟩, hp⟩, rfl⟩
      · exact Or.inr (Or.inl ⟨_, ⟨⟨q, hq, rfl⟩, hp⟩, rfl⟩)
      · exact Or.inr (Or.inr ⟨_, ⟨⟨q, hq, rfl⟩, hp⟩, rfl⟩)

end Scene

namespace Example

/-- C7, as stated, fails: a compute pass, then a render pass, then a transfer are
registered on the auxiliary stream 0. `record` is defined and stream 0 holds the
commands of the render pass first and of the compute pass second, against the
registration order, and no command of the transfer. -/
theorem record_stream_groups_by_kind :
    transferThirdScene.m_sceneComputePasses.map (fun pass => pass.commandBufferID) = [0] ∧
    transferThirdScene.m_sceneRenderPasses.map (fun pass => pass.commandBufferID) = [0] ∧
    transferThirdScene.m_sceneTransfers.map (fun pass => pass.commandBufferID) = [0] ∧
    ∃ s' renderPass framebuffer clearValues replica,
      transferThirdScene.record ⟨true, false⟩ driver = some s' ∧
      s'.m_sceneCommandBuffers.map
          (fun stream => stream.commandBuffer.map fun buffer => buffer.commands) =
        [some [.beginRenderPass renderPass framebuffer ⟨256, 256⟩ clearValues,
          .endRenderPass,
          .computePassRecord replica ⟨64, 64⟩ ⟨8, 8, 1⟩]] :=
  ⟨rfl, rfl, rfl, _, _, _, _, _, rfl, rfl⟩

/-- C7, amended, on the scene with a compute pass, a render pass and a transfer on the
auxiliary stream 0. -/
theorem auxStream_recorded_passes_witness :
    ∃ s', transferThirdScene.record ⟨true, false⟩ driver = some s' ∧
      ∃ commandBuffer commands,
        (⟨.GRAPHICS, some ⟨1, [], false⟩, some ⟨1, 0⟩⟩ : SceneCommandBuffer).commandBuffer =
          some commandBuffer ∧
        forEachCommands (AuxPass.record 0)
          ((transferThirdScene.created ⟨true, false⟩ driver).auxPasses 0) = some commands ∧
        s'.m_sceneCommandBuffers[0]? =
          some { (⟨.GRAPHICS, some ⟨1, [], false⟩, some ⟨1, 0⟩⟩ : SceneCommandBuffer) with
            commandBuffer := some (Scene.auxCommandBuffer commandBuffer commands) } :=
  ⟨_, rfl, (Scene.auxStream_recorded_passes ⟨true, false⟩ driver transferThirdScene _ rfl rfl
    0 _ rfl).1⟩

end Example

theorem drawsMeshes_nil : DrawsMeshes [] [] :=
  ⟨List.Forall₂.nil, fun _ h => absurd h (List.not_mem_nil _)⟩

theorem drawsMeshes_append {a b : List Command} {l m : List Mesh}
    (h₁ : DrawsMeshes a l) (h₂ : DrawsMeshes b m) : DrawsMeshes (a ++ b) (l ++ m) := by
  refine ⟨?_, ?_⟩
  · unfold drawsOf
    rw [List.filterMap_append]
    exact List.rel_append h₁.1 h₂.1
  · intro mesh hmesh hi hd
    rcases List.mem_append.mp hmesh with h | h
    · exact (h₁.2 mesh h hi hd).trans (List.infix_append' [] a b)
    · exact (h₂.2 mesh h hi hd).trans (List.suffix_append a b).isInfix

theorem drawsMeshes_pad {c : List Command} {l : List Mesh} (h : DrawsMeshes c l)
    (before after : List Command) (hb : drawsOf before = []) (ha : drawsOf after = []) :
    DrawsMeshes (before ++ c ++ after) l := by
  refine ⟨?_, ?_⟩
  · have : drawsOf (before ++ c ++ after) = drawsOf c := by
      unfold drawsOf at hb ha ⊢
      rw [List.filterMap_append, List.filterMap_append, hb, ha]
      simp
    rw [this]
    exact h.1
  · intro mesh hmesh hi hd
    exact (h.2 mesh hmesh hi hd).trans (List.infix_append before c after)

namespace Scene

theorem recordSwapChainMesh_draws (j : Nat) (meshesToRender : List Mesh)
    (pipelineLayout : Nat) (mesh : Mesh) (commands : List Command)
    (h : recordSwapChainMesh j meshesToRender pipelineLayout mesh = some commands) :
    DrawsMeshes commands [mesh] := by
  unfold recordSwapChainMesh at h
  cases hi : isInstancied mesh with
  | false =>
    simp only [hi, Bool.not_false, if_true, Bool.false_eq_true, if_false,
      Option.some.injEq] at h
    subst h
    refine ⟨?_, ?_⟩
    · by_cases hd : (mesh.2.2 != VK_NULL_HANDLE) = true
      · simp [drawsOf, Command.draw?, hd, IsDrawOf]
      · simp [drawsOf, Command.draw?, hd, IsDrawOf]
    · intro m hm _ hd
      rw [List.mem_singleton] at hm
      subst hm
      have : (m.2.2 != VK_NULL_HANDLE) = false := by simp [hd]
      simp [this, plainMeshCommands]
  | true =>
    simp only [hi, Bool.not_true, Bool.false_eq_true, if_false, if_true] at h
    cases ho : meshesToRender[j]? with
    | none => simp [ho] at h
    | some other =>
      simp only [ho, Option.some.injEq] at h
      subst h
      refine ⟨?_, ?_⟩
      · by_cases hd : (mesh.2.2 != VK_NULL_HANDLE) = true
        · simp [drawsOf, Command.draw?, hd, IsDrawOf, hi]
        · simp [drawsOf, Command.draw?, hd, IsDrawOf, hi]
      · intro m hm hm' _
        rw [List.mem_singleton] at hm
        subst hm
        rw [hi] at hm'
        exact absurd hm' (by simp)

theorem forEachCommands_draws {α : Type} (body : α → Option (List Command))
    (meshes : α → List Mesh)
    (hbody : ∀ x commands, body x = some commands → DrawsMeshes commands (meshes x))
    (l : List α) (commands : List Command) (h : forEachCommands body l = some commands) :
    DrawsMeshes commands (l.flatMap meshes) := by
  induction l generalizing commands with
  | nil =>
    simp only [forEachCommands, Option.some.injEq] at h
    subst h
    exact drawsMeshes_nil
  | cons x rest ih =>
    simp only [forEachCommands] at h
    cases hx : body x with
    | none => simp [hx] at h
    | some c =>
      cases hrest : forEachCommands body rest with
      | none => simp [hx, hrest] at h
      | some others =>
        simp only [hx, hrest, Option.some.injEq] at h
        subst h
        rw [List.flatMap_cons]
        exact drawsMeshes_append (hbody x c hx) (ih others hrest)

theorem forEachRecord_draws {α : Type} (body : α → Option (List Command × Bool))
    (meshes : α → List Mesh)
    (hbody : ∀ x commands, body x = some (commands, false) → DrawsMeshes commands (meshes x))
    (l : List α) (commands : List Command)
    (h : forEachRecord body l = some (commands, false)) :
    DrawsMeshes commands (l.flatMap meshes) := by
  induction l generalizing commands with
  | nil =>
    simp only [forEachRecord, Option.some.injEq, Prod.mk.injEq] at h
    rw [← h.1]
    exact drawsMeshes_nil
  | cons x rest ih =>
    simp only [forEachRecord] at h
    cases hx : body x with
    | none => simp [hx] at h
    | some result =>
      obtain ⟨c, returned⟩ := result
      cases returned with
      | true => simp [hx] at h
      | false =>
        cases hrest : forEachRecord body rest with
        | none => simp [hx, hrest] at h
        | some result' =>
          obtain ⟨others, returned'⟩ := result'
          simp only [hx, hrest, Option.some.injEq, Prod.mk.injEq] at h
          obtain ⟨h1, h2⟩ := h
          subst h1 h2
          rw [List.flatMap_cons]
          exact drawsMeshes_append (hbody x c hx) (ih others hrest)

theorem recordSwapChainRenderer_draws (j : Nat) (renderer : Option Renderer)
    (commands : List Command)
    (h : recordSwapChainRenderer j renderer = some (commands, false)) :
    DrawsMeshes commands (meshesOf renderer) := by
  cases renderer with
  | none => simp [recordSwapChainRenderer] at h
  | some r =>
    simp only [recordSwapChainRenderer, Option.map_eq_some', Prod.mk.injEq, and_true] at h
    obtain ⟨c, hc, rfl⟩ := h
    have := forEachCommands_draws _ (fun mesh => [mesh])
      (fun mesh commands hm => recordSwapChainMesh_draws j _ _ mesh commands hm) _ c hc
    have hflat : ∀ meshes : List Mesh, meshes.flatMap (fun mesh => [mesh]) = meshes := by
      intro meshes
      induction meshes with
      | nil => rfl
      | cons mesh rest ih => rw [List.flatMap_cons, ih]; rfl
    rw [hflat] at this
    simpa [meshesOf] using drawsMeshes_pad this [.bindPipeline r.getPipeline] [] rfl rfl

theorem mirrorCommands_draws (s : Scene) (i source : Nat) (sourceExtent : Option VkExtent2D)
    (mirror : List Command) (h : s.mirrorCommands i source sourceExtent = some mirror) :
    drawsOf mirror = [] := by
  unfold mirrorCommands at h
  split at h
  · split at h
    · simp only [Option.some.injEq] at h
      subst h
      rfl
    · exact absurd h (by simp)
  · simp only [Option.some.injEq] at h
    subst h
    rfl

theorem recordSwapChainRenderPass_draws (s : Scene) (i : Nat) (image : Image) (j : Nat)
    (pass : SceneRenderPass) (commands : List Command)
    (h : s.recordSwapChainRenderPass i image j pass = some (commands, false)) :
    DrawsMeshes commands
      (if pass.commandBufferID = -1 then pass.renderers.flatMap meshesOf else []) := by
  unfold recordSwapChainRenderPass at h
  by_cases hid : pass.commandBufferID = -1
  · rw [if_pos hid] at h
    rw [if_pos hid]
    simp only at h
    cases hrp : pass.renderPass with
    | none => simp [hrp] at h
    | some renderPass =>
      simp only [hrp] at h
      cases hb : renderPass.beginRenderPass (if pass.outputIsSwapChain then i else 0)
          (pass.outputs.map fun output => output.clearValue) with
      | none => simp [hb] at h
      | some beginCommand =>
        simp only [hb] at h
        have hbegin : drawsOf [beginCommand] = [] := by
          unfold RenderPass.beginRenderPass at hb
          simp only [Option.map_eq_some'] at hb
          obtain ⟨_, _, rfl⟩ := hb
          rfl
        cases hf : forEachRecord (recordSwapChainRenderer j) pass.renderers with
        | none => simp [hf] at h
        | some result =>
          obtain ⟨c, returned⟩ := result
          cases returned with
          | true => simp [hf] at h
          | false =>
            simp only [hf, Option.map_eq_some', Prod.mk.injEq, and_true] at h
            obtain ⟨mirror, hm, rfl⟩ := h
            have hc := forEachRecord_draws _ meshesOf
              (fun r commands hr => recordSwapChainRenderer_draws j r commands hr) _ c hf
            have hend : drawsOf ([Command.endRenderPass] ++ mirror) = [] := by
              have := mirrorCommands_draws _ _ _ _ _ hm
              unfold drawsOf at this ⊢
              rw [List.filterMap_append, this]
              rfl
            have := drawsMeshes_pad hc [beginCommand] ([Command.endRenderPass] ++ mirror)
              hbegin hend
            simpa using this
  · rw [if_neg hid] at h
    rw [if_neg hid]
    simp only [Option.some.injEq, Prod.mk.injEq, and_true] at h
    rw [← h]
    exact drawsMeshes_nil

theorem flatMap_filter_eq {α β : Type} (p : α → Prop) [DecidablePred p] (f : α → List β)
    (l : List α) :
    (l.filter fun x => decide (p x)).flatMap f = l.flatMap fun x => if p x then f x else [] := by
  induction l with
  | nil => rfl
  | cons x rest ih =>
    by_cases hp : p x
    · rw [List.filter_cons_of_pos (by simpa using hp), List.flatMap_cons, List.flatMap_cons, ih,
        if_pos hp]
    · rw [List.filter_cons_of_neg (by simpa using hp), List.flatMap_cons, ih, if_neg hp]
      rfl

theorem recordSwapChainImage_draws (s : Scene) (hmode : s.m_swapChainCommandType = .GRAPHICS)
    (i : Nat) (image : Image) (commands : List Command)
    (h : s.recordSwapChainImage i image = some (commands, false)) :
    DrawsMeshes commands s.swapChainMeshes := by
  unfold recordSwapChainImage at h
  rw [hmode] at h
  simp only at h
  have := forEachRecord_draws _
    (fun (jp : Nat × SceneRenderPass) =>
      if jp.2.commandBufferID = -1 then jp.2.renderers.flatMap meshesOf else [])
    (fun jp commands hjp => recordSwapChainRenderPass_draws s i image jp.1 jp.2 commands hjp)
    _ commands h
  unfold swapChainMeshes
  rw [flatMap_filter_eq (fun (pass : SceneRenderPass) => pass.commandBufferID = -1)]
  have hmap : s.m_sceneRenderPasses.enum.flatMap
      (fun (jp : Nat × SceneRenderPass) =>
        if jp.2.commandBufferID = -1 then jp.2.renderers.flatMap meshesOf else []) =
      (s.m_sceneRenderPasses.enum.map Prod.snd).flatMap
        (fun (pass : SceneRenderPass) =>
          if pass.commandBufferID = -1 then pass.renderers.flatMap meshesOf else []) := by
    rw [List.flatMap_map]
  rw [hmap, List.enum_map_snd] at this
  exact this

end Scene

namespace Scene

theorem forEachCommands_defined {α : Type} (body : α → Option (List Command)) (l : List α)
    (h : ∀ x ∈ l, ∃ commands, body x = some commands) :
    ∃ commands, forEachCommands body l = some commands := by
  induction l with
  | nil => exact ⟨[], rfl⟩
  | cons x rest ih =>
    obtain ⟨c, hc⟩ := h x (List.mem_cons_self _ _)
    obtain ⟨others, ho⟩ := ih fun y hy => h y (List.mem_cons_of_mem _ hy)
    exact ⟨c ++ others, by simp only [forEachCommands, hc, ho]⟩

theorem forEachRecord_defined {α : Type} (body : α → Option (List Command × Bool))
    (l : List α) (h : ∀ x ∈ l, ∃ commands, body x = some (commands, false)) :
    ∃ commands, forEachRecord body l = some (commands, false) := by
  induction l with
  | nil => exact ⟨[], rfl⟩
  | cons x rest ih =>
    obtain ⟨c, hc⟩ := h x (List.mem_cons_self _ _)
    obtain ⟨others, ho⟩ := ih fun y hy => h y (List.mem_cons_of_mem _ hy)
    exact ⟨c ++ others, by simp only [forEachRecord, hc, ho]⟩

theorem recordSwapChainMesh_defined (j : Nat) (meshesToRender : List Mesh)
    (pipelineLayout : Nat) (mesh : Mesh)
    (h : isInstancied mesh = true → j < meshesToRender.length) :
    ∃ commands, recordSwapChainMesh j meshesToRender pipelineLayout mesh = some commands := by
  unfold recordSwapChainMesh
  cases hi : isInstancied mesh with
  | false =>
    simp only [Bool.not_false, if_true]
    exact ⟨_, rfl⟩
  | true =>
    rw [List.getElem?_eq_getElem (h hi)]
    simp only [Bool.not_true, Bool.false_eq_true, if_false]
    exact ⟨_, rfl⟩

theorem recordSwapChainRenderer_defined (j : Nat) (renderer : Renderer)
    (h : ∀ mesh ∈ renderer.getMeshes, isInstancied mesh = true → j < renderer.getMeshes.length) :
    ∃ commands, recordSwapChainRenderer j (some renderer) = some (commands, false) := by
  obtain ⟨c, hc⟩ := forEachCommands_defined
    (recordSwapChainMesh j renderer.getMeshes renderer.getPipelineLayout) renderer.getMeshes
    (fun mesh hmesh => recordSwapChainMesh_defined j _ _ mesh (h mesh hmesh))
  refine ⟨.bindPipeline renderer.getPipeline :: c, ?_⟩
  simp only [recordSwapChainRenderer, hc, Option.map_some']

theorem recordSwapChainRenderPass_defined (s : Scene) (hOVR : s.m_useOVR = false) (i : Nat)
    (image : Image) (j : Nat) (pass : SceneRenderPass)
    (h : pass.commandBufferID = -1 →
      ∃ renderPass, pass.renderPass = some renderPass ∧
        (if pass.outputIsSwapChain then i else 0) < renderPass.m_framebuffers.length ∧
        ∀ slot ∈ pass.renderers, ∃ renderer, slot = some renderer ∧
          ∀ mesh ∈ renderer.getMeshes,
            isInstancied mesh = true → j < renderer.getMeshes.length) :
    ∃ commands, s.recordSwapChainRenderPass i image j pass = some (commands, false) := by
  unfold recordSwapChainRenderPass
  by_cases hid : pass.commandBufferID = -1
  · obtain ⟨renderPass, hrp, hfb, hrenderers⟩ := h hid
    rw [if_pos hid]
    simp only [hrp]
    obtain ⟨c, hc⟩ := forEachRecord_defined (recordSwapChainRenderer j) pass.renderers
      (fun slot hslot => by
        obtain ⟨renderer, rfl, hmeshes⟩ := hrenderers slot hslot
        exact recordSwapChainRenderer_defined j renderer hmeshes)
    have hbegin : ∃ beginCommand, renderPass.beginRenderPass
        (if pass.outputIsSwapChain then i else 0)
        (pass.outputs.map fun output => output.clearValue) = some beginCommand := by
      unfold RenderPass.beginRenderPass
      rw [List.getElem?_eq_getElem hfb]
      exact ⟨_, rfl⟩
    obtain ⟨beginCommand, hb⟩ := hbegin
    simp only [hb, hc, mirrorCommands, hOVR, Bool.false_eq_true, if_false, Option.map_some']
    exact ⟨_, rfl⟩
  · rw [if_neg hid]
    exact ⟨[], rfl⟩

theorem getMeshes_create (driver : Driver) (pool : Option DescriptorPoolSizes) (r : Renderer) :
    (r.create driver pool).getMeshes.map (fun mesh => (mesh.1, mesh.2.1)) =
      r.getMeshes.map (fun mesh => (mesh.1, mesh.2.1)) := by
  simp [Renderer.create, Renderer.getMeshes, Function.comp_def]

theorem isInstancied_eq (mesh mesh' : Mesh) (h : mesh.2.1 = mesh'.2.1) :
    isInstancied mesh = isInstancied mesh' := by
  unfold isInstancied
  rw [h]

theorem instanced_create (driver : Driver) (pool : Option DescriptorPoolSizes) (j : Nat)
    (r : Renderer)
    (h : ∀ mesh ∈ r.getMeshes, isInstancied mesh = true → j < r.getMeshes.length) :
    ∀ mesh ∈ (r.create driver pool).getMeshes,
      isInstancied mesh = true → j < (r.create driver pool).getMeshes.length := by
  intro mesh hmesh hi
  simp only [Renderer.create, Renderer.getMeshes, List.map_map, List.mem_map,
    Function.comp_apply, List.length_map] at hmesh ⊢
  obtain ⟨b, hb, rfl⟩ := hmesh
  have := h (b.info.vertexBuffer, b.info.instanceBuffer, b.descriptorSet)
    (by simp only [Renderer.getMeshes, List.mem_map]; exact ⟨b, hb, rfl⟩)
    (by rw [← hi]; exact isInstancied_eq _ _ rfl)
  simpa [Renderer.getMeshes] using this

theorem swapChainMeshes_created (build : Build) (driver : Driver) (s : Scene) :
    (s.created build driver).swapChainMeshes.map (fun mesh => (mesh.1, mesh.2.1)) =
      s.swapChainMeshes.map (fun mesh => (mesh.1, mesh.2.1)) := by
  unfold swapChainMeshes created
  simp only
  generalize s.m_descriptorPool.allocate.getDescriptorPool = pool
  induction s.m_sceneRenderPasses with
  | nil => rfl
  | cons pass rest ih =>
    rw [List.map_cons]
    by_cases hid : pass.commandBufferID = -1
    · rw [List.filter_cons_of_pos (by simpa [SceneRenderPass.created] using hid),
        List.filter_cons_of_pos (by simpa using hid), List.flatMap_cons, List.flatMap_cons,
        List.map_append, List.map_append, ih]
      congr 1
      simp only [SceneRenderPass.created]
      induction pass.renderers with
      | nil => rfl
      | cons slot slots ih' =>
        rw [List.map_cons, List.flatMap_cons, List.flatMap_cons, List.map_append,
          List.map_append, ih']
        congr 1
        cases slot with
        | none => rfl
        | some r => exact getMeshes_create driver pool r
    · rw [List.filter_cons_of_neg (by simpa [SceneRenderPass.created] using hid),
        List.filter_cons_of_neg (by simpa using hid), ih]

theorem recordSwapChainImage_defined (build : Build) (driver : Driver) (s : Scene)
    (hmode : s.m_swapChainCommandType = .GRAPHICS) (hOVR : s.m_useOVR = false)
    (i : Nat) (image : Image)
    (h : ∀ (j : Nat) (pass : SceneRenderPass), s.m_sceneRenderPasses[j]? = some pass →
      pass.commandBufferID = -1 →
      ∃ renderPass, pass.renderPass = some renderPass ∧
        (if pass.outputIsSwapChain then i else 0) < renderPass.m_framebuffers.length ∧
        ∀ slot ∈ pass.renderers, ∃ renderer, slot = some renderer ∧
          ∀ mesh ∈ renderer.getMeshes,
            isInstancied mesh = true → j < renderer.getMeshes.length) :
    ∃ commands, (s.created build driver).recordSwapChainImage i image =
      some (commands, false) := by
  unfold recordSwapChainImage
  have hmode' : (s.created build driver).m_swapChainCommandType = .GRAPHICS := hmode
  rw [hmode']
  simp only
  apply forEachRecord_defined
  intro jp hjp
  obtain ⟨hlt, heq⟩ := List.mem_enum hjp
  have hcreated : (s.created build driver).m_sceneRenderPasses =
      s.m_sceneRenderPasses.map
        (SceneRenderPass.created driver s.m_descriptorPool.allocate.getDescriptorPool) := rfl
  have hlt' : jp.1 < s.m_sceneRenderPasses.length := by
    rw [hcreated, List.length_map] at hlt
    exact hlt
  have hjp2 : jp.2 = (s.m_sceneRenderPasses[jp.1]).created driver
      s.m_descriptorPool.allocate.getDescriptorPool := by
    rw [heq]
    simp [hcreated]
  apply recordSwapChainRenderPass_defined _ hOVR
  intro hid
  rw [hjp2] at hid ⊢
  obtain ⟨renderPass, hrp, hfb, hslots⟩ := h jp.1 _ (List.getElem?_eq_getElem hlt') hid
  refine ⟨renderPass, hrp, hfb, ?_⟩
  intro slot hslot
  simp only [SceneRenderPass.created, List.mem_map] at hslot
  obtain ⟨slot', hslot', rfl⟩ := hslot
  obtain ⟨renderer, rfl, hmeshes⟩ := hslots slot' hslot'
  exact ⟨_, rfl, instanced_create driver _ jp.1 renderer hmeshes⟩

/-- C8: in graphics mode, after `record` the swap-chain command buffer of every
presentable image holds exactly one indexed draw per mesh of every renderer of every
render pass with `commandBufferID = -1`, in pass, renderer and insertion order, each with
the index count of its mesh and, for a mesh that is not instanced, the instance count 1;
the commands of a mesh without instancing and without descriptor set are the block
bind-vertex-buffer, bind-index-buffer, `drawIndexed (nbIndices, 1)`. Creating the
pipelines changes only the descriptor sets of the meshes. `record` is defined when the
scene has no mirror window, every replica and every command buffer of a stream is
present, every swap-chain-hosted render pass has its framebuffers, the index of every
such pass that draws an instanced mesh is below the number of meshes of the renderer, and
the commands of the auxiliary streams are defined. -/
theorem swapChain_draws (build : Build) (driver : Driver) (s : Scene)
    (hmode : s.m_swapChainCommandType = .GRAPHICS) (hr : s.renderersPresent = true) :
    (∀ s', s.record build driver = some s' →
      ∀ i, i < s.m_swapChainImages.length →
        ∃ buffer, s'.m_swapChainCommandBuffers[i]? = some (some buffer) ∧
          List.Forall₂ IsDrawOf (drawsOf buffer.commands)
            (s.created build driver).swapChainMeshes ∧
          ∀ mesh ∈ (s.created build driver).swapChainMeshes,
            isInstancied mesh = false → mesh.2.2 = VK_NULL_HANDLE →
              plainMeshCommands mesh <:+: buffer.commands) ∧
    (s.created build driver).swapChainMeshes.map (fun mesh => (mesh.1, mesh.2.1)) =
      s.swapChainMeshes.map (fun mesh => (mesh.1, mesh.2.1)) ∧
    (s.m_useOVR = false → s.replicasPresent = true →
      (∀ (j : Nat) (pass : SceneRenderPass), s.m_sceneRenderPasses[j]? = some pass →
        pass.commandBufferID = -1 →
        ∃ renderPass, pass.renderPass = some renderPass ∧
          (if pass.outputIsSwapChain then s.m_swapChainImages.length else 1) ≤
            renderPass.m_framebuffers.length ∧
          ∀ renderer, some renderer ∈ pass.renderers → ∀ mesh ∈ renderer.getMeshes,
            isInstancied mesh = true → j < renderer.getMeshes.length) →
      (∀ stream ∈ s.m_sceneCommandBuffers,
        ∃ commandBuffer, stream.commandBuffer = some commandBuffer) →
      (∀ n, n < s.m_sceneCommandBuffers.length →
        ∃ commands, (s.created build driver).recordAuxCommands n = some commands) →
      ∃ s', s.record build driver = some s') := by
  refine ⟨?_, swapChainMeshes_created build driver s, ?_⟩
  · intro s' hs' i hi
    obtain ⟨-, -, -, himages, -, -⟩ := record_spec build driver s s' hs' hr
    obtain ⟨commands, hc, hb⟩ := himages i _ (List.getElem?_eq_getElem hi)
    refine ⟨_, hb, ?_⟩
    have hcommands : ((s.created build driver).swapChainCommandBuffer commands).commands =
        commands := by
      simp [swapChainCommandBuffer, CommandBuffer.beginCommandBuffer, CommandBuffer.record,
        CommandBuffer.endCommandBuffer]
    rw [hcommands]
    exact recordSwapChainImage_draws (s.created build driver) hmode i _ commands hc
  · intro hOVR hrep hpasses hbuffers hstreams
    apply record_defined build driver s hrep ?_ hbuffers hstreams
    intro i image hi
    have hlt : i < s.m_swapChainImages.length := (List.getElem?_eq_some_iff.mp hi).1
    apply recordSwapChainImage_defined build driver s hmode hOVR
    intro j pass hj hid
    obtain ⟨renderPass, hrp, hfb, hmeshes⟩ := hpasses j pass hj hid
    refine ⟨renderPass, hrp, ?_, ?_⟩
    · split at hfb <;> simp_all <;> omega
    · intro slot hslot
      have hpass : pass ∈ s.m_sceneRenderPasses := List.mem_iff_getElem?.mpr ⟨j, hj⟩
      cases slot with
      | none => exact absurd hslot (not_mem_none_of_renderersPresent s hr pass hpass)
      | some renderer => exact ⟨renderer, rfl, hmeshes renderer hslot⟩

end Scene

namespace Example

/-- C8 on one swap-chain render pass with one renderer and one mesh of 6 indices:
`record` is defined and the command buffer of image 0 holds exactly one draw, of 6
indices with instance count 1, in the block of three commands of the mesh. -/
theorem swapChain_draws_witness :
    quadScene.m_swapChainCommandType = .GRAPHICS ∧ quadScene.renderersPresent = true ∧
    ∃ s', quadScene.record ⟨true, false⟩ driver = some s' ∧
      ∃ buffer, s'.m_swapChainCommandBuffers[0]? = some (some buffer) ∧
        drawsOf buffer.commands = [(6, 1)] ∧
        [Command.bindVertexBuffers 0 100, .bindIndexBuffer 101, .drawIndexed 6 1] <:+:
          buffer.commands := by
  obtain ⟨s', hs'⟩ : ∃ s', quadScene.record ⟨true, false⟩ driver = some s' := ⟨_, rfl⟩
  refine ⟨rfl, rfl, s', hs', ?_⟩
  obtain ⟨buffer, hb, hdraws, hblock⟩ :=
    (Scene.swapChain_draws ⟨true, false⟩ driver quadScene rfl rfl).1 s' hs' 0 (by decide)
  have hmeshes : (quadScene.created ⟨true, false⟩ driver).swapChainMeshes =
      [(⟨100, 6, 101⟩, ⟨0, 0⟩, 0)] := rfl
  rw [hmeshes] at hdraws hblock
  refine ⟨buffer, hb, ?_, hblock _ (List.mem_singleton.mpr rfl) rfl rfl⟩
  generalize drawsOf buffer.commands = draws at hdraws
  cases hdraws with
  | cons hd htl =>
    cases htl
    rename_i draw
    obtain ⟨a, b⟩ := draw
    have ha : a = 6 := hd.1
    have hb' : b = 1 := hd.2 rfl
    rw [ha, hb']

end Example

namespace Scene

theorem nonneg_of_at? {α : Type} (v : List α) (i : Int) (x : α) (h : at? v i = some x) :
    0 ≤ i := by
  unfold at? at h
  by_contra hneg
  rw [if_neg hneg] at h
  exact absurd h (by simp)

theorem streamWaitSemaphores_eq (s : Scene) (c : Int) (edges : List (Int × Int))
    (hedges : ∀ edge ∈ edges, ∃ producer, at? s.m_sceneCommandBuffers edge.1 = some producer) :
    s.streamWaitSemaphores c edges = some (s.producerSignals c edges) := by
  induction edges with
  | nil => rfl
  | cons edge rest ih =>
    have ih := ih fun e he => hedges e (List.mem_cons_of_mem _ he)
    obtain ⟨producer, hp⟩ := hedges edge (List.mem_cons_self _ _)
    unfold streamWaitSemaphores
    by_cases hc : edge.2 = c
    · rw [if_pos hc, hp, ih]
      simp [producerSignals, completionSignal, List.filter_cons, hc, hp]
    · rw [if_neg hc, ih]
      simp [producerSignals, List.filter_cons, hc]

theorem submitStream_spec (s : Scene) (graphicsQueue computeQueue : Nat)
    (edges : List (Int × Int)) (c : Int) (hc : 0 ≤ c) (stream : SceneCommandBuffer)
    (hstream : at? s.m_sceneCommandBuffers c = some stream) (hready : StreamReady stream)
    (hedges : ∀ edge ∈ edges, ∃ producer, at? s.m_sceneCommandBuffers edge.1 = some producer) :
    ∃ submission, s.submitStream graphicsQueue computeQueue edges c = some (s, [submission]) ∧
      s.IsStreamSubmission edges c submission := by
  obtain ⟨htype, ⟨commandBuffer, hcb⟩, ⟨semaphore, hsem⟩⟩ := hready
  unfold submitStream
  rw [if_neg (not_lt.mpr hc), streamWaitSemaphores_eq s c edges hedges]
  simp only [hstream, hcb, hsem]
  by_cases hg : stream.type = .GRAPHICS ∨ stream.type = .RAY_TRACING
  · rw [if_pos hg]
    exact ⟨_, rfl, ⟨stream, hstream, hcb⟩, rfl, semaphore,
      by simp [completionSignal, hstream, hsem], rfl⟩
  · rw [if_neg hg]
    have hcompute : stream.type = .COMPUTE := by
      cases ht : stream.type <;> simp_all
    rw [if_pos hcompute]
    exact ⟨_, rfl, ⟨stream, hstream, hcb⟩, rfl, semaphore,
      by simp [completionSignal, hstream, hsem], rfl⟩

theorem submitStreams_spec (s : Scene) (graphicsQueue computeQueue : Nat)
    (edges : List (Int × Int)) (ids : List Int)
    (hids : ∀ c ∈ ids, 0 ≤ c →
      ∃ stream, at? s.m_sceneCommandBuffers c = some stream ∧ StreamReady stream)
    (hedges : ∀ edge ∈ edges, ∃ producer, at? s.m_sceneCommandBuffers edge.1 = some producer) :
    ∃ submissions, s.submitStreams graphicsQueue computeQueue edges ids =
        some (s, submissions) ∧
      List.Forall₂ (s.IsStreamSubmission edges) (ids.filter fun c => decide (0 ≤ c))
        submissions := by
  induction ids with
  | nil => exact ⟨[], rfl, List.Forall₂.nil⟩
  | cons c rest ih =>
    obtain ⟨others, ho, hrel⟩ := ih fun c hc => hids c (List.mem_cons_of_mem _ hc)
    unfold submitStreams
    by_cases hc : 0 ≤ c
    · obtain ⟨stream, hstream, hready⟩ := hids c (List.mem_cons_self _ _) hc
      obtain ⟨submission, hs, hsub⟩ := submitStream_spec s graphicsQueue computeQueue edges c hc
        stream hstream hready hedges
      rw [hs]
      simp only [ho, Option.map_some']
      refine ⟨submission :: others, rfl, ?_⟩
      rw [List.filter_cons_of_pos (by simpa using hc)]
      exact List.Forall₂.cons hsub hrel
    · have hs : s.submitStream graphicsQueue computeQueue edges c = some (s, []) := by
        unfold submitStream
        rw [if_pos (not_le.mp hc)]
      rw [hs]
      simp only [ho, Option.map_some']
      refine ⟨others, rfl, ?_⟩
      rw [List.filter_cons_of_neg (by simpa using hc)]
      exact hrel

theorem swapChainWaitSemaphores_eq (s : Scene) (waits : List (Option Semaphore))
    (edges : List (Int × Int))
    (hedges : ∀ edge ∈ edges, ∃ producer, at? s.m_sceneCommandBuffers edge.1 = some producer) :
    s.swapChainWaitSemaphores waits edges = some (s, waits ++ s.producerSignals (-1) edges) := by
  induction edges generalizing waits with
  | nil => simp [swapChainWaitSemaphores, producerSignals]
  | cons edge rest ih =>
    have ih := fun w => ih w fun e he => hedges e (List.mem_cons_of_mem _ he)
    obtain ⟨producer, hp⟩ := hedges edge (List.mem_cons_self _ _)
    have hnonneg := nonneg_of_at? _ _ _ hp
    unfold swapChainWaitSemaphores
    by_cases hc : edge.2 = -1
    · rw [if_pos hc]
      have h1 : ¬ edge.1 = -1 := by omega
      have h2 : ¬ edge.1 < 0 := by omega
      simp only [if_neg h1, if_neg h2, hp]
      rw [ih]
      simp [producerSignals, completionSignal, List.filter_cons, hc, hp]
    · rw [if_neg hc, ih]
      simp [producerSignals, List.filter_cons, hc]

/-- The submissions of a `frame` call whose streams and producers exist. -/
theorem frame_spec (s : Scene) (graphicsQueue computeQueue swapChainImageIndex : Nat)
    (imageAvailableSemaphore : Option Semaphore) (commandBufferIDs : List Int)
    (commandBufferSynchronization : List (Int × Int))
    (hids : ∀ c ∈ commandBufferIDs, 0 ≤ c →
      ∃ stream, at? s.m_sceneCommandBuffers c = some stream ∧ StreamReady stream)
    (hedges : ∀ edge ∈ commandBufferSynchronization,
      ∃ producer, at? s.m_sceneCommandBuffers edge.1 = some producer)
    (commandBuffer : CommandBuffer)
    (hbuffer : s.m_swapChainCommandBuffers[swapChainImageIndex]? = some (some commandBuffer))
    (hcomplete : imageAvailableSemaphore.isSome = true →
      s.m_swapChainCompleteSemaphore.isSome = true) :
    ∃ streamSubmissions,
      s.frame graphicsQueue computeQueue swapChainImageIndex imageAvailableSemaphore
          commandBufferIDs commandBufferSynchronization =
        some (s, streamSubmissions ++
          [⟨commandBuffer, s.swapChainQueue graphicsQueue computeQueue,
            imageAvailableSemaphore.toList.map some ++
              s.producerSignals (-1) commandBufferSynchronization,
            if imageAvailableSemaphore.isSome then
              s.m_swapChainCompleteSemaphore.toList.map Semaphore.getSemaphore
            else []⟩]) ∧
      List.Forall₂ (s.IsStreamSubmission commandBufferSynchronization)
        (commandBufferIDs.filter fun c => decide (0 ≤ c)) streamSubmissions := by
  obtain ⟨submissions, hs, hrel⟩ := submitStreams_spec s graphicsQueue computeQueue
    commandBufferSynchronization commandBufferIDs hids hedges
  refine ⟨submissions, ?_, hrel⟩
  unfold frame
  rw [hs]
  simp only
  unfold submitSwapChain
  cases imageAvailableSemaphore with
  | none =>
    simp only [swapChainWaitSemaphores_eq s _ commandBufferSynchronization hedges, hbuffer]
    simp
  | some semaphore =>
    obtain ⟨complete, hc⟩ := Option.isSome_iff_exists.mp (hcomplete rfl)
    simp only [hc, Option.map_some',
      swapChainWaitSemaphores_eq s _ commandBufferSynchronization hedges, hbuffer]
    simp

/-- C9: in a `frame` call whose submitted streams exist with a queue type, a command
buffer and a semaphore, whose wait edges all have an existing auxiliary stream as
producer, and whose swap-chain command buffer and, if an image-acquired signal is
supplied, swap-chain-complete semaphore exist, the submissions of the
streams are those of the non-negative entries of `commandBufferIDs`, one each and in
order, before the swap-chain submission; the submission of stream `c` waits on exactly
the completion signals of the producers of the edges `(p, c)`, in edge order, and signals
exactly the completion signal of `c`. -/
theorem frame_stream_submissions (s : Scene)
    (graphicsQueue computeQueue swapChainImageIndex : Nat)
    (imageAvailableSemaphore : Option Semaphore) (commandBufferIDs : List Int)
    (commandBufferSynchronization : List (Int × Int))
    (hids : ∀ c ∈ commandBufferIDs, 0 ≤ c →
      ∃ stream, at? s.m_sceneCommandBuffers c = some stream ∧ StreamReady stream)
    (hedges : ∀ edge ∈ commandBufferSynchronization,
      ∃ producer, at? s.m_sceneCommandBuffers edge.1 = some producer)
    (hbuffer : ∃ commandBuffer,
      s.m_swapChainCommandBuffers[swapChainImageIndex]? = some (some commandBuffer))
    (hcomplete : imageAvailableSemaphore.isSome = true →
      s.m_swapChainCompleteSemaphore.isSome = true) :
    ∃ s' streamSubmissions swapChainSubmission,
      s.frame graphicsQueue computeQueue swapChainImageIndex imageAvailableSemaphore
          commandBufferIDs commandBufferSynchronization =
        some (s', streamSubmissions ++ [swapChainSubmission]) ∧
      List.Forall₂
        (fun c submission =>
          (∃ stream, at? s.m_sceneCommandBuffers c = some stream ∧
            stream.commandBuffer = some submission.commandBuffer) ∧
          submission.waitSemaphores =
            (commandBufferSynchronization.filter fun edge => decide (edge.2 = c)).map
              (fun edge => s.completionSignal edge.1) ∧
          ∃ semaphore, s.completionSignal c = some semaphore ∧
            submission.signalSemaphores = [semaphore.getSemaphore])
        (commandBufferIDs.filter fun c => decide (0 ≤ c)) streamSubmissions := by
  obtain ⟨commandBuffer, hb⟩ := hbuffer
  obtain ⟨submissions, hframe, hrel⟩ := frame_spec s graphicsQueue computeQueue
    swapChainImageIndex imageAvailableSemaphore commandBufferIDs commandBufferSynchronization
    hids hedges commandBuffer hb hcomplete
  exact ⟨s, submissions, _, hframe, hrel⟩

/-- C10: in a `frame` call whose submitted streams exist with a queue type, a command
buffer and a semaphore, whose wait edges all have an existing auxiliary stream as
producer, and whose swap-chain command buffer and, if an image-acquired signal is
supplied, swap-chain-complete semaphore exist, the last submission is that of the swap
chain: it waits on the image-acquired signal, if one is supplied, followed by the
completion signals of the producers of the edges whose consumer is -1, in edge order;
it signals the swap-chain-complete signal if an image-acquired signal is supplied and
nothing otherwise; and its command buffer is the one recorded for the image index
given. -/
theorem frame_swapChain_submission (s : Scene)
    (graphicsQueue computeQueue swapChainImageIndex : Nat)
    (imageAvailableSemaphore : Option Semaphore) (commandBufferIDs : List Int)
    (commandBufferSynchronization : List (Int × Int))
    (hids : ∀ c ∈ commandBufferIDs, 0 ≤ c →
      ∃ stream, at? s.m_sceneCommandBuffers c = some stream ∧ StreamReady stream)
    (hedges : ∀ edge ∈ commandBufferSynchronization,
      ∃ producer, at? s.m_sceneCommandBuffers edge.1 = some producer)
    (commandBuffer : CommandBuffer)
    (hbuffer : s.m_swapChainCommandBuffers[swapChainImageIndex]? = some (some commandBuffer))
    (hcomplete : imageAvailableSemaphore.isSome = true →
      s.m_swapChainCompleteSemaphore.isSome = true) :
    ∃ s' streamSubmissions swapChainSubmission,
      s.frame graphicsQueue computeQueue swapChainImageIndex imageAvailableSemaphore
          commandBufferIDs commandBufferSynchronization =
        some (s', streamSubmissions ++ [swapChainSubmission]) ∧
      swapChainSubmission.waitSemaphores =
        imageAvailableSemaphore.toList.map some ++
          (commandBufferSynchronization.filter fun edge => decide (edge.2 = -1)).map
            (fun edge => s.completionSignal edge.1) ∧
      swapChainSubmission.signalSemaphores =
        (if imageAvailableSemaphore.isSome then
          s.m_swapChainCompleteSemaphore.toList.map Semaphore.getSemaphore
        else []) ∧
      swapChainSubmission.commandBuffer = commandBuffer := by
  obtain ⟨submissions, hframe, -⟩ := frame_spec s graphicsQueue computeQueue
    swapChainImageIndex imageAvailableSemaphore commandBufferIDs commandBufferSynchronization
    hids hedges commandBuffer hbuffer hcomplete
  exact ⟨s, submissions, _, hframe, rfl, rfl, rfl⟩

end Scene

namespace Example

/-- C2, amended, on the scene with one render pass: with `_DEBUG` the handle 1 is
refused with the error and `-1`; without `_DEBUG` the call is undefined. -/
theorem addRenderer_one_past_last_witness :
    (∃ s', onePassScene.addRenderer ⟨true, false⟩ { renderPassID := 1 } = some (s', -1) ∧
      s' = { onePassScene with debug := onePassScene.debug ++
        [⟨.error, "Invalid render pass ID. ID sent = , last render pass ID = ",
          [(onePassScene.m_sceneRenderPasses.length : Int),
            (onePassScene.m_sceneRenderPasses.length : Int) - 1]⟩] } ∧
      s'.m_sceneRenderPasses = onePassScene.m_sceneRenderPasses ∧
      s'.m_descriptorPool = onePassScene.m_descriptorPool) ∧
    onePassScene.addRenderer ⟨false, true⟩ { renderPassID := 1 } = none :=
  ⟨(Scene.addRenderer_one_past_last ⟨true, false⟩ onePassScene { renderPassID := 1 } rfl
      (by decide)).1 rfl (by decide),
    (Scene.addRenderer_one_past_last ⟨false, true⟩ onePassScene { renderPassID := 1 } rfl
      (by decide)).2 rfl⟩

/-- C3 on two meshes sent to the renderer of `oneRendererScene`: two uniform buffers,
one storage buffer and one combined image sampler are counted, in either order. -/
theorem addMesh_accumulates_witness :
    ∃ s', oneRendererScene.addMeshes [texturedMesh, storageMesh] = some s' ∧
      s'.poolCount .uniformBuffer = 2 ∧ s'.poolCount .storageBuffer = 1 ∧
      s'.poolCount .combinedImageSampler = 1 ∧ s'.poolCount .sampler = 0 ∧
      ∃ s'', oneRendererScene.addMeshes [storageMesh, texturedMesh] = some s'' ∧
        ∀ kind : DescriptorKind, s''.poolCount kind = s'.poolCount kind := by
  obtain ⟨s', h, hcount, hperm⟩ := Scene.addMesh_accumulates oneRendererScene
    [texturedMesh, storageMesh] (by decide)
  exact ⟨s', h, hcount .uniformBuffer, hcount .storageBuffer, hcount .combinedImageSampler,
    hcount .sampler, hperm [storageMesh, texturedMesh] (List.Perm.swap _ _ _)⟩

/-- C4 on the scene with three presentable images: a render pass bound to the swap chain
is registered and has three framebuffers. -/
theorem renderPass_replicas_witness :
    (∃ s' handle,
      emptyScene.addRenderPass { commandBufferID := -1, outputIsSwapChain := true } (-1) =
        some (s', handle)) ∧
    ∃ pass renderPass, at? onePassScene.m_sceneRenderPasses 0 = some pass ∧
      pass.renderPass = some renderPass ∧ renderPass.m_framebuffers.length = 3 := by
  have h := Scene.renderPass_replicas emptyScene
    { commandBufferID := -1, outputIsSwapChain := true } (-1) (by decide)
  refine ⟨h.1 (by decide), ?_⟩
  obtain ⟨pass, renderPass, h1, h2, -, h4, -⟩ := h.2 onePassScene 0 rfl (by decide)
  exact ⟨pass, renderPass, h1, h2, (h4 rfl).1⟩

/-- C5 on the scene with three presentable images: a compute pass bound to the swap
chain is registered. -/
theorem swapChain_replicas_witness :
    ∃ s' handle, emptyScene.addComputePass { outputIsSwapChain := true } = some (s', handle) :=
  ((Scene.swapChain_replicas emptyScene).1 { outputIsSwapChain := true } rfl).1 (by decide)

/-- C9 on two streams A = 0 and B = 1 with the single edge (A, B), both submitted: the
wait set of A is empty and B waits on the completion signal of A; each signals its own
semaphore. -/
theorem frame_stream_submissions_witness :
    ∃ s' a b swapChainSubmission,
      twoStreamScene.frame 50 51 0 (some ⟨99, 0⟩) [0, 1] [(0, 1)] =
        some (s', [a, b] ++ [swapChainSubmission]) ∧
      a.waitSemaphores = [] ∧ a.signalSemaphores = [1] ∧
      b.waitSemaphores = [some ⟨1, 0⟩] ∧ b.signalSemaphores = [2] := by
  obtain ⟨s', submissions, swapChainSubmission, hframe, hrel⟩ :=
    Scene.frame_stream_submissions twoStreamScene 50 51 0 (some ⟨99, 0⟩) [0, 1] [(0, 1)]
      (by
        intro c hc _
        simp only [List.mem_cons, List.mem_singleton, List.not_mem_nil, or_false] at hc
        rcases hc with rfl | rfl
        · exact ⟨_, rfl, by decide, ⟨_, rfl⟩, ⟨_, rfl⟩⟩
        · exact ⟨_, rfl, by decide, ⟨_, rfl⟩, ⟨_, rfl⟩⟩)
      (by
        intro edge hedge
        rw [List.mem_singleton] at hedge
        subst hedge
        exact ⟨_, rfl⟩)
      ⟨_, rfl⟩ (fun _ => rfl)
  have hfilter : ([0, 1] : List Int).filter (fun c => decide (0 ≤ c)) = [0, 1] := by decide
  rw [hfilter] at hrel
  cases hrel with
  | cons ha htl =>
    cases htl with
    | cons hb hnil =>
      cases hnil
      rename_i a b
      obtain ⟨-, hwa, sa, hsa, hsiga⟩ := ha
      obtain ⟨-, hwb, sb, hsb, hsigb⟩ := hb
      have hsa' : sa = ⟨1, 0⟩ := (Option.some.inj hsa).symm
      have hsb' : sb = ⟨2, 0⟩ := (Option.some.inj hsb).symm
      subst hsa' hsb'
      exact ⟨s', a, b, swapChainSubmission, hframe, hwa, hsiga, hwb, hsigb⟩

/-- C10 on two streams with the edges (0, 1) and (1, -1) and an image-acquired signal:
the swap-chain submission waits on that signal and then on the completion signal of
stream 1, signals the swap-chain-complete signal and submits the command buffer of
image 2. -/
theorem frame_swapChain_submission_witness :
    ∃ s' streamSubmissions swapChainSubmission,
      twoStreamScene.frame 50 51 2 (some ⟨99, 0⟩) [0, 1] [(0, 1), (1, -1)] =
        some (s', streamSubmissions ++ [swapChainSubmission]) ∧
      swapChainSubmission.waitSemaphores = [some ⟨99, 0⟩, some ⟨2, 0⟩] ∧
      swapChainSubmission.signalSemaphores = [3] ∧
      swapChainSubmission.commandBuffer = ⟨1, [], false⟩ :=
  Scene.frame_swapChain_submission twoStreamScene 50 51 2 (some ⟨99, 0⟩) [0, 1]
    [(0, 1), (1, -1)]
    (by
      intro c hc _
      simp only [List.mem_cons, List.mem_singleton, List.not_mem_nil, or_false] at hc
      rcases hc with rfl | rfl
      · exact ⟨_, rfl, by decide, ⟨_, rfl⟩, ⟨_, rfl⟩⟩
      · exact ⟨_, rfl, by decide, ⟨_, rfl⟩, ⟨_, rfl⟩⟩)
    (by
      intro edge hedge
      simp only [List.mem_cons, List.mem_singleton, List.not_mem_nil, or_false] at hedge
      rcases hedge with rfl | rfl
      · exact ⟨_, rfl⟩
      · exact ⟨_, rfl⟩)
    ⟨1, [], false⟩ rfl (fun _ => rfl)

end Example

/-! ## The entry `addRenderPass` writes -/

theorem setAt?_eq_some {α : Type} (l l' : List α) (i : Int) (x : α)
    (h : setAt? l i x = some l') : 0 ≤ i ∧ i.toNat < l.length ∧ l' = l.set i.toNat x := by
  unfold setAt? at h
  split_ifs at h with h0
  simp only [Option.some.injEq] at h
  exact ⟨h0.1, h0.2, h.symm⟩

namespace Scene

/-- What a successful `addRenderPass` leaves: the entry of the handle holds the derived
outputs, the index and the hooks of the descriptor and no renderer; every other entry,
and every member of the scene other than the registry, is as before. -/
theorem addRenderPass_entry (s s' : Scene) (createInfo prepared : RenderPassCreateInfo)
    (forceID handle : Int)
    (hprep : s.prepareRenderPass createInfo = some (some prepared))
    (h : s.addRenderPass createInfo forceID = some (s', handle)) :
    ∃ renderPass,
      0 ≤ handle ∧
      handle = (if forceID < 0 then (s.m_sceneRenderPasses.length : Int) else forceID) ∧
      s'.m_sceneRenderPasses =
        (if forceID < 0 then s.m_sceneRenderPasses ++ [storedEntry prepared renderPass]
          else s.m_sceneRenderPasses.set handle.toNat (storedEntry prepared renderPass)) ∧
      s'.m_sceneRenderPasses[handle.toNat]? = some (storedEntry prepared renderPass) ∧
      s' = s.withRenderPasses s'.m_sceneRenderPasses := by
  by_cases hforce : forceID < 0
  · rw [addRenderPass_append s createInfo prepared forceID hforce hprep] at h
    simp only [Option.some.injEq, Prod.mk.injEq] at h
    obtain ⟨rfl, rfl⟩ := h
    refine ⟨if prepared.outputIsSwapChain = true then
        RenderPass.initializeImages (prepared.outputs.map fun output => output.attachment)
          s.m_swapChainImages
      else
        RenderPass.initializeExtents (prepared.outputs.map fun output => output.attachment)
          [prepared.extent], by omega, by rw [if_pos hforce], ?_, ?_, rfl⟩
    · rw [if_pos hforce]
      rfl
    · simp [withRenderPasses, renderEntry, storedEntry]
  · unfold addRenderPass at h
    simp only [hprep] at h
    split at h
    · exact absurd h (by simp)
    · rename_i passes hpasses
      rw [if_neg hforce] at hpasses
      obtain ⟨h0, hlt, rfl⟩ := setAt?_eq_some _ _ _ _ hpasses
      split at h
      · exact absurd h (by simp)
      · rename_i last hlast
        split at h
        · exact absurd h (by simp)
        · rename_i entry hentry
          rw [if_neg hforce] at hentry
          have hat := (at?_of_setAt? _ _ _ _ hpasses).1
          rw [hat] at hentry
          simp only [Option.some.injEq] at hentry
          subst hentry
          split at h
          · exact absurd h (by simp)
          · rename_i passes' hset
            rw [if_neg hforce] at hset
            obtain ⟨-, -, rfl⟩ := setAt?_eq_some _ _ _ _ hset
            simp only [Option.some.injEq, Prod.mk.injEq] at h
            obtain ⟨rfl, hh⟩ := h
            rw [if_neg hforce] at hh
            subst hh
            refine ⟨if prepared.outputIsSwapChain = true then
                RenderPass.initializeImages (last.outputs.map fun output => output.attachment)
                  s.m_swapChainImages
              else
                RenderPass.initializeExtents (last.outputs.map fun output => output.attachment)
                  [prepared.extent], h0, by rw [if_neg hforce], ?_, ?_, rfl⟩
            · rw [if_neg hforce]
              simp only [List.set_set]
              rfl
            · simp [hlt, storedEntry]

end Scene

/-! ## The submissions of `frame` -/

namespace Scene

theorem withDebug_withDebug (s : Scene) (d d' : List DebugMessage) :
    (s.withDebug d).withDebug d' = s.withDebug d' := rfl

theorem withDebug_self (s : Scene) : s.withDebug s.debug = s := rfl

theorem streamWaitSemaphores_withDebug (s : Scene) (d : List DebugMessage) (c : Int)
    (edges : List (Int × Int)) :
    (s.withDebug d).streamWaitSemaphores c edges = s.streamWaitSemaphores c edges := by
  induction edges with
  | nil => rfl
  | cons edge rest ih =>
    unfold streamWaitSemaphores
    rw [ih]
    rfl

/-- One entry of `commandBufferIDs`: the state changes in its diagnostics only, the
submission made does not depend on them, and it is that of the stream if the entry is one
`frame` submits. -/
theorem submitStream_inv (s s' : Scene) (graphicsQueue computeQueue : Nat)
    (edges : List (Int × Int)) (c : Int) (submissions : List Submission)
    (h : s.submitStream graphicsQueue computeQueue edges c = some (s', submissions)) :
    s' = s.withDebug s'.debug ∧
    (∀ d, ∃ d', (s.withDebug d).submitStream graphicsQueue computeQueue edges c =
      some (s.withDebug d', submissions)) ∧
    (if submitsStream s.m_sceneCommandBuffers c then
      ∃ submission, submissions = [submission] ∧
        IsSubmissionOf s.m_sceneCommandBuffers c submission
    else submissions = []) := by
  unfold submitStream at h
  by_cases hneg : c < 0
  · rw [if_pos hneg] at h
    simp only [Option.some.injEq, Prod.mk.injEq] at h
    obtain ⟨rfl, rfl⟩ := h
    refine ⟨rfl, fun d => ⟨d, ?_⟩, ?_⟩
    · unfold submitStream
      rw [if_pos hneg]
    · have : submitsStream s.m_sceneCommandBuffers c = false := by
        unfold submitsStream
        simp [hneg]
      rw [this]
      simp
  · rw [if_neg hneg] at h
    rcases Option.eq_none_or_eq_some (s.streamWaitSemaphores c edges) with hw | ⟨waits, hw⟩
    · rw [hw] at h
      exact absurd h (by simp)
    · rw [hw] at h
      simp only at h
      rcases Option.eq_none_or_eq_some (at? s.m_sceneCommandBuffers c) with hs | ⟨stream, hs⟩
      · rw [hs] at h
        exact absurd h (by simp)
      · rw [hs] at h
        simp only at h
        have hunfold : ∀ d, (s.withDebug d).submitStream graphicsQueue computeQueue edges c =
            if stream.type = .GRAPHICS ∨ stream.type = .RAY_TRACING then
              match stream.commandBuffer, stream.semaphore with
              | some commandBuffer, some semaphore =>
                some (s.withDebug d,
                  [⟨commandBuffer, graphicsQueue, waits, [semaphore.getSemaphore]⟩])
              | _, _ => none
            else if stream.type = .COMPUTE then
              match stream.commandBuffer, stream.semaphore with
              | some commandBuffer, some semaphore =>
                some (s.withDebug d,
                  [⟨commandBuffer, computeQueue, waits, [semaphore.getSemaphore]⟩])
              | _, _ => none
            else some ((s.withDebug d).sendError "Invalid queue type at sumbit", []) := by
          intro d
          unfold submitStream
          rw [if_neg hneg, streamWaitSemaphores_withDebug, hw]
          simp only
          have : at? (s.withDebug d).m_sceneCommandBuffers c = some stream := hs
          rw [this]
        by_cases hg : stream.type = .GRAPHICS ∨ stream.type = .RAY_TRACING
        · rw [if_pos hg] at h
          have hvalid : stream.type ≠ .TRANSFER := by
            rcases hg with hg | hg <;> rw [hg] <;> decide
          rcases Option.eq_none_or_eq_some stream.commandBuffer with hcb | ⟨cb, hcb⟩
          · rw [hcb] at h
            exact absurd h (by simp)
          · rcases Option.eq_none_or_eq_some stream.semaphore with hsem | ⟨sem, hsem⟩
            · rw [hcb, hsem] at h
              exact absurd h (by simp)
            · rw [hcb, hsem] at h
              simp only [Option.some.injEq, Prod.mk.injEq] at h
              obtain ⟨rfl, rfl⟩ := h
              refine ⟨rfl, fun d => ⟨d, ?_⟩, ?_⟩
              · rw [hunfold, if_pos hg, hcb, hsem]
              · have : submitsStream s.m_sceneCommandBuffers c = true := by
                  unfold submitsStream
                  simp [not_lt.mp hneg, hs, hvalid]
                rw [this]
                exact ⟨_, rfl, stream, hs, hvalid, hcb⟩
        · rw [if_neg hg] at h
          by_cases hcomp : stream.type = .COMPUTE
          · rw [if_pos hcomp] at h
            have hvalid : stream.type ≠ .TRANSFER := by rw [hcomp]; decide
            rcases Option.eq_none_or_eq_some stream.commandBuffer with hcb | ⟨cb, hcb⟩
            · rw [hcb] at h
              exact absurd h (by simp)
            · rcases Option.eq_none_or_eq_some stream.semaphore with hsem | ⟨sem, hsem⟩
              · rw [hcb, hsem] at h
                exact absurd h (by simp)
              · rw [hcb, hsem] at h
                simp only [Option.some.injEq, Prod.mk.injEq] at h
                obtain ⟨rfl, rfl⟩ := h
                refine ⟨rfl, fun d => ⟨d, ?_⟩, ?_⟩
                · rw [hunfold, if_neg hg, if_pos hcomp, hcb, hsem]
                · have : submitsStream s.m_sceneCommandBuffers c = true := by
                    unfold submitsStream
                    simp [not_lt.mp hneg, hs, hvalid]
                  rw [this]
                  exact ⟨_, rfl, stream, hs, hvalid, hcb⟩
          · rw [if_neg hcomp] at h
            simp only [Option.some.injEq, Prod.mk.injEq] at h
            obtain ⟨rfl, rfl⟩ := h
            refine ⟨rfl, fun d => ⟨d ++ [⟨.error, "Invalid queue type at sumbit", []⟩], ?_⟩, ?_⟩
            · rw [hunfold, if_neg hg, if_neg hcomp]
              rfl
            · have htransfer : stream.type = .TRANSFER := by
                cases ht : stream.type <;> simp_all
              have : submitsStream s.m_sceneCommandBuffers c = false := by
                unfold submitsStream
                simp [hs, htransfer]
              rw [this]
              simp

theorem submitStreams_inv (graphicsQueue computeQueue : Nat) (edges : List (Int × Int))
    (ids : List Int) (s s' : Scene) (submissions : List Submission)
    (h : s.submitStreams graphicsQueue computeQueue edges ids = some (s', submissions)) :
    s' = s.withDebug s'.debug ∧
    (∀ d, ∃ d', (s.withDebug d).submitStreams graphicsQueue computeQueue edges ids =
      some (s.withDebug d', submissions)) ∧
    List.Forall₂ (IsSubmissionOf s.m_sceneCommandBuffers)
      (ids.filter fun c => submitsStream s.m_sceneCommandBuffers c) submissions := by
  induction ids generalizing s submissions with
  | nil =>
    simp only [submitStreams, Option.some.injEq, Prod.mk.injEq] at h
    obtain ⟨rfl, rfl⟩ := h
    exact ⟨rfl, fun d => ⟨d, rfl⟩, List.Forall₂.nil⟩
  | cons c rest ih =>
    unfold submitStreams at h
    rcases Option.eq_none_or_eq_some
      (s.submitStream graphicsQueue computeQueue edges c) with hc | ⟨⟨s1, first⟩, hc⟩
    · rw [hc] at h
      exact absurd h (by simp)
    · rw [hc] at h
      simp only [Option.map_eq_some'] at h
      obtain ⟨⟨s2, others⟩, hrest, heq⟩ := h
      simp only [Prod.mk.injEq] at heq
      obtain ⟨rfl, rfl⟩ := heq
      obtain ⟨hs1, hd1, hsub⟩ := submitStream_inv s s1 graphicsQueue computeQueue edges c first hc
      obtain ⟨hs2, hd2, hrel⟩ := ih s1 others hrest
      have hstreams : s1.m_sceneCommandBuffers = s.m_sceneCommandBuffers := by
        rw [hs1]
        rfl
      rw [hstreams] at hrel
      refine ⟨?_, ?_, ?_⟩
      · rw [hs2, hs1]
        rfl
      · intro d
        obtain ⟨d1, hstep⟩ := hd1 d
        obtain ⟨d2, hrest'⟩ := hd2 d1
        refine ⟨d2, ?_⟩
        unfold submitStreams
        rw [hstep]
        have : s.withDebug d1 = s1.withDebug d1 := by
          rw [hs1]
          rfl
        simp only
        rw [this, hrest']
        simp only [Option.map_some', Option.some.injEq, Prod.mk.injEq, and_true]
        rw [hs1]
        rfl
      · by_cases hsubmits : submitsStream s.m_sceneCommandBuffers c = true
        · rw [if_pos hsubmits] at hsub
          obtain ⟨submission, rfl, hsubmission⟩ := hsub
          rw [List.filter_cons_of_pos hsubmits]
          exact List.Forall₂.cons hsubmission hrel
        · rw [if_neg hsubmits] at hsub
          subst hsub
          rw [List.filter_cons_of_neg hsubmits]
          exact hrel

theorem swapChainWaitSemaphores_inv (edges : List (Int × Int)) (s s' : Scene)
    (waits waits' : List (Option Semaphore))
    (h : s.swapChainWaitSemaphores waits edges = some (s', waits')) :
    s' = s.withDebug s'.debug ∧
    ∀ d, ∃ d', (s.withDebug d).swapChainWaitSemaphores waits edges =
      some (s.withDebug d', waits') := by
  induction edges generalizing s waits with
  | nil =>
    simp only [swapChainWaitSemaphores, Option.some.injEq, Prod.mk.injEq] at h
    obtain ⟨rfl, rfl⟩ := h
    exact ⟨rfl, fun d => ⟨d, rfl⟩⟩
  | cons edge rest ih =>
    unfold swapChainWaitSemaphores at h
    by_cases hc : edge.2 = -1
    · rw [if_pos hc] at h
      simp only at h
      generalize hlog : (if edge.1 = -1 then
          s.sendError "No command buffer can't wait from swapchain command buffer"
        else if edge.1 < 0 then s.sendError "Invalid command buffer ID" else s) = s1 at h
      have hs1 : ∃ d1, s1 = s.withDebug d1 := by
        rw [← hlog]
        split_ifs
        · exact ⟨_, rfl⟩
        · exact ⟨_, rfl⟩
        · exact ⟨s.debug, rfl⟩
      obtain ⟨d1, rfl⟩ := hs1
      have hstreams : (s.withDebug d1).m_sceneCommandBuffers = s.m_sceneCommandBuffers := rfl
      rw [hstreams] at h
      rcases Option.eq_none_or_eq_some (at? s.m_sceneCommandBuffers edge.1) with
        hp | ⟨producer, hp⟩
      · rw [hp] at h
        exact absurd h (by simp)
      · rw [hp] at h
        simp only at h
        obtain ⟨hs', hd⟩ := ih (s.withDebug d1) (waits ++ [producer.semaphore]) h
        refine ⟨by rw [hs']; rfl, ?_⟩
        intro d
        have hlog' : ∃ d1', (if edge.1 = -1 then
            (s.withDebug d).sendError
              "No command buffer can't wait from swapchain command buffer"
          else if edge.1 < 0 then (s.withDebug d).sendError "Invalid command buffer ID"
          else s.withDebug d) = s.withDebug d1' := by
          split_ifs
          · exact ⟨_, rfl⟩
          · exact ⟨_, rfl⟩
          · exact ⟨d, rfl⟩
        obtain ⟨d1', hlog'⟩ := hlog'
        obtain ⟨d', hd'⟩ := hd d1'
        refine ⟨d', ?_⟩
        unfold swapChainWaitSemaphores
        rw [if_pos hc]
        simp only
        rw [hlog']
        have : at? (s.withDebug d1').m_sceneCommandBuffers edge.1 = some producer := hp
        rw [this]
        exact hd'
    · rw [if_neg hc] at h
      obtain ⟨hs', hd⟩ := ih s waits h
      refine ⟨hs', fun d => ?_⟩
      obtain ⟨d', hd'⟩ := hd d
      refine ⟨d', ?_⟩
      unfold swapChainWaitSemaphores
      rw [if_neg hc]
      exact hd'

theorem submitSwapChain_inv (s s' : Scene) (graphicsQueue computeQueue : Nat)
    (swapChainImageIndex : Nat) (imageAvailableSemaphore : Option Semaphore)
    (edges : List (Int × Int)) (submission : Submission)
    (h : s.submitSwapChain graphicsQueue computeQueue swapChainImageIndex
      imageAvailableSemaphore edges = some (s', submission)) :
    s' = s.withDebug s'.debug ∧
    (∀ d, ∃ d', (s.withDebug d).submitSwapChain graphicsQueue computeQueue swapChainImageIndex
      imageAvailableSemaphore edges = some (s.withDebug d', submission)) ∧
    s.m_swapChainCommandBuffers[swapChainImageIndex]? = some (some submission.commandBuffer) := by
  unfold submitSwapChain at h
  cases imageAvailableSemaphore with
  | none =>
    simp only at h
    rcases Option.eq_none_or_eq_some (s.swapChainWaitSemaphores [] edges) with
      hw | ⟨⟨s1, waits'⟩, hw⟩
    · rw [hw] at h
      exact absurd h (by simp)
    · rw [hw] at h
      simp only at h
      obtain ⟨hs1, hd1⟩ := swapChainWaitSemaphores_inv edges s s1 [] waits' hw
      have hbuffers : s1.m_swapChainCommandBuffers = s.m_swapChainCommandBuffers := by
        rw [hs1]
        rfl
      rcases Option.eq_none_or_eq_some (s1.m_swapChainCommandBuffers[swapChainImageIndex]?)
        with hb | ⟨slot, hb⟩
      · rw [hb] at h
        exact absurd h (by simp)
      · rw [hb] at h
        cases slot with
        | none => exact absurd h (by simp)
        | some commandBuffer =>
          simp only [Option.some.injEq, Prod.mk.injEq] at h
          obtain ⟨rfl, rfl⟩ := h
          refine ⟨hs1, ?_, by rw [← hbuffers, hb]⟩
          intro d
          obtain ⟨d', hd'⟩ := hd1 d
          refine ⟨d', ?_⟩
          unfold submitSwapChain
          simp only
          rw [hd']
          simp only
          have hb' : (s.withDebug d').m_swapChainCommandBuffers[swapChainImageIndex]? =
              some (some commandBuffer) := by
            rw [← hb, hbuffers]
            rfl
          rw [hb']
          simp only [Option.some.injEq, Prod.mk.injEq]
          refine ⟨trivial, ?_⟩
          rw [hs1]
          rfl
  | some semaphore =>
    rcases Option.eq_none_or_eq_some s.m_swapChainCompleteSemaphore with hc | ⟨complete, hc⟩
    · rw [hc] at h
      exact absurd h (by simp)
    · rw [hc] at h
      simp only [Option.map_some'] at h
      rcases Option.eq_none_or_eq_some (s.swapChainWaitSemaphores [some semaphore] edges) with
        hw | ⟨⟨s1, waits'⟩, hw⟩
      · rw [hw] at h
        exact absurd h (by simp)
      · rw [hw] at h
        simp only at h
        obtain ⟨hs1, hd1⟩ := swapChainWaitSemaphores_inv edges s s1 [some semaphore] waits' hw
        have hbuffers : s1.m_swapChainCommandBuffers = s.m_swapChainCommandBuffers := by
          rw [hs1]
          rfl
        rcases Option.eq_none_or_eq_some (s1.m_swapChainCommandBuffers[swapChainImageIndex]?)
          with hb | ⟨slot, hb⟩
        · rw [hb] at h
          exact absurd h (by simp)
        · rw [hb] at h
          cases slot with
          | none => exact absurd h (by simp)
          | some commandBuffer =>
            simp only [Option.some.injEq, Prod.mk.injEq] at h
            obtain ⟨rfl, rfl⟩ := h
            refine ⟨hs1, ?_, by rw [← hbuffers, hb]⟩
            intro d
            obtain ⟨d', hd'⟩ := hd1 d
            refine ⟨d', ?_⟩
            unfold submitSwapChain
            have hc' : (s.withDebug d).m_swapChainCompleteSemaphore = some complete := hc
            rw [hc']
            simp only [Option.map_some']
            rw [hd']
            simp only
            have hb' : (s.withDebug d').m_swapChainCommandBuffers[swapChainImageIndex]? =
                some (some commandBuffer) := by
              rw [← hb, hbuffers]
              rfl
            rw [hb']
            simp only [Option.some.injEq, Prod.mk.injEq]
            refine ⟨trivial, ?_⟩
            rw [hs1]
            rfl

theorem frame_inv (s s' : Scene) (graphicsQueue computeQueue swapChainImageIndex : Nat)
    (imageAvailableSemaphore : Option Semaphore) (ids : List Int) (edges : List (Int × Int))
    (submissions : List Submission)
    (h : s.frame graphicsQueue computeQueue swapChainImageIndex imageAvailableSemaphore ids
      edges = some (s', submissions)) :
    s' = s.withDebug s'.debug ∧
    (∀ d, ∃ d', (s.withDebug d).frame graphicsQueue computeQueue swapChainImageIndex
      imageAvailableSemaphore ids edges = some (s.withDebug d', submissions)) ∧
    ∃ streamSubmissions swapChainSubmission,
      submissions = streamSubmissions ++ [swapChainSubmission] ∧
      List.Forall₂ (IsSubmissionOf s.m_sceneCommandBuffers)
        (ids.filter fun c => submitsStream s.m_sceneCommandBuffers c) streamSubmissions ∧
      s.m_swapChainCommandBuffers[swapChainImageIndex]? =
        some (some swapChainSubmission.commandBuffer) := by
  unfold frame at h
  rcases Option.eq_none_or_eq_some (s.submitStreams graphicsQueue computeQueue edges ids) with
    hs | ⟨⟨s1, streamSubmissions⟩, hs⟩
  · rw [hs] at h
    exact absurd h (by simp)
  · rw [hs] at h
    simp only [Option.map_eq_some'] at h
    obtain ⟨⟨s2, swapChainSubmission⟩, hswap, heq⟩ := h
    simp only [Prod.mk.injEq] at heq
    obtain ⟨rfl, rfl⟩ := heq
    obtain ⟨hs1, hd1, hrel⟩ := submitStreams_inv graphicsQueue computeQueue edges ids s s1
      streamSubmissions hs
    obtain ⟨hs2, hd2, hbuffer⟩ := submitSwapChain_inv s1 s2 graphicsQueue computeQueue
      swapChainImageIndex imageAvailableSemaphore edges swapChainSubmission hswap
    have hbuffers : s1.m_swapChainCommandBuffers = s.m_swapChainCommandBuffers := by
      rw [hs1]
      rfl
    refine ⟨by rw [hs2, hs1]; rfl, ?_, streamSubmissions, swapChainSubmission, rfl, hrel,
      by rw [← hbuffers]; exact hbuffer⟩
    intro d
    obtain ⟨d1, hstep⟩ := hd1 d
    obtain ⟨d2, hstep2⟩ := hd2 d1
    refine ⟨d2, ?_⟩
    unfold frame
    rw [hstep]
    simp only
    have : s.withDebug d1 = s1.withDebug d1 := by
      rw [hs1]
      rfl
    rw [this, hstep2]
    simp only [Option.map_some', Option.some.injEq, Prod.mk.injEq, and_true]
    rw [hs1]
    rfl

end Scene

namespace Scene

theorem streamWaitSemaphores_defined (s : Scene) (c : Int) (edges : List (Int × Int))
    (h : ∀ edge ∈ edges, edge.2 = c → ∃ producer, at? s.m_sceneCommandBuffers edge.1 = some producer) :
    ∃ waits, s.streamWaitSemaphores c edges = some waits := by
  induction edges with
  | nil => exact ⟨[], rfl⟩
  | cons edge rest ih =>
    obtain ⟨waits, hw⟩ := ih fun e he => h e (List.mem_cons_of_mem _ he)
    unfold streamWaitSemaphores
    by_cases hc : edge.2 = c
    · obtain ⟨producer, hp⟩ := h edge (List.mem_cons_self _ _) hc
      rw [if_pos hc, hp, hw]
      exact ⟨_, rfl⟩
    · rw [if_neg hc, hw]
      exact ⟨_, rfl⟩

theorem submitStream_defined (s : Scene) (graphicsQueue computeQueue : Nat)
    (edges : List (Int × Int)) (c : Int)
    (hstream : 0 ≤ c → ∃ stream, at? s.m_sceneCommandBuffers c = some stream ∧
      (stream.type ≠ .TRANSFER →
        (∃ commandBuffer, stream.commandBuffer = some commandBuffer) ∧
        ∃ semaphore, stream.semaphore = some semaphore))
    (hedges : ∀ edge ∈ edges, 0 ≤ c → edge.2 = c →
      ∃ producer, at? s.m_sceneCommandBuffers edge.1 = some producer) :
    ∃ result, s.submitStream graphicsQueue computeQueue edges c = some result := by
  unfold submitStream
  by_cases hneg : c < 0
  · rw [if_pos hneg]
    exact ⟨_, rfl⟩
  · rw [if_neg hneg]
    obtain ⟨stream, hs, hready⟩ := hstream (not_lt.mp hneg)
    obtain ⟨waits, hw⟩ := streamWaitSemaphores_defined s c edges
      fun e he hc => hedges e he (not_lt.mp hneg) hc
    rw [hw]
    simp only [hs]
    by_cases hg : stream.type = .GRAPHICS ∨ stream.type = .RAY_TRACING
    · rw [if_pos hg]
      have hvalid : stream.type ≠ .TRANSFER := by
        rcases hg with hg | hg <;> rw [hg] <;> decide
      obtain ⟨⟨cb, hcb⟩, ⟨sem, hsem⟩⟩ := hready hvalid
      rw [hcb, hsem]
      exact ⟨_, rfl⟩
    · rw [if_neg hg]
      by_cases hcomp : stream.type = .COMPUTE
      · rw [if_pos hcomp]
        have hvalid : stream.type ≠ .TRANSFER := by rw [hcomp]; decide
        obtain ⟨⟨cb, hcb⟩, ⟨sem, hsem⟩⟩ := hready hvalid
        rw [hcb, hsem]
        exact ⟨_, rfl⟩
      · rw [if_neg hcomp]
        exact ⟨_, rfl⟩

theorem submitStreams_defined (graphicsQueue computeQueue : Nat) (edges : List (Int × Int))
    (streams : List SceneCommandBuffer) (ids : List Int)
    (hids : ∀ c ∈ ids, 0 ≤ c → ∃ stream, at? streams c = some stream ∧
      (stream.type ≠ .TRANSFER →
        (∃ commandBuffer, stream.commandBuffer = some commandBuffer) ∧
        ∃ semaphore, stream.semaphore = some semaphore))
    (hedges : ∀ edge ∈ edges, 0 ≤ edge.2 → edge.2 ∈ ids →
      ∃ producer, at? streams edge.1 = some producer)
    (s : Scene) (hs : s.m_sceneCommandBuffers = streams) :
    ∃ result, s.submitStreams graphicsQueue computeQueue edges ids = some result := by
  induction ids generalizing s with
  | nil => exact ⟨_, rfl⟩
  | cons c rest ih =>
    subst hs
    obtain ⟨⟨s1, first⟩, h1⟩ := submitStream_defined s graphicsQueue computeQueue edges c
      (fun hc => hids c (List.mem_cons_self _ _) hc)
      (fun e he hc hec => hedges e he (hec ▸ hc) (hec ▸ List.mem_cons_self _ _))
    obtain ⟨hs1, -, -⟩ := submitStream_inv s s1 graphicsQueue computeQueue edges c first h1
    obtain ⟨result, hrest⟩ := ih
      (fun c' hc' => hids c' (List.mem_cons_of_mem _ hc'))
      (fun e he h0 hmem => hedges e he h0 (List.mem_cons_of_mem _ hmem))
      s1 (by rw [hs1]; rfl)
    unfold submitStreams
    rw [h1]
    simp only
    rw [hrest]
    exact ⟨_, rfl⟩

theorem swapChainWaitSemaphores_defined (edges : List (Int × Int))
    (streams : List SceneCommandBuffer)
    (hedges : ∀ edge ∈ edges, edge.2 = -1 → ∃ producer, at? streams edge.1 = some producer)
    (s : Scene) (hs : s.m_sceneCommandBuffers = streams) (waits : List (Option Semaphore)) :
    ∃ result, s.swapChainWaitSemaphores waits edges = some result := by
  induction edges generalizing s waits with
  | nil => exact ⟨_, rfl⟩
  | cons edge rest ih =>
    have ih := ih fun e he => hedges e (List.mem_cons_of_mem _ he)
    unfold swapChainWaitSemaphores
    by_cases hc : edge.2 = -1
    · rw [if_pos hc]
      obtain ⟨producer, hp⟩ := hedges edge (List.mem_cons_self _ _) hc
      have hnonneg := nonneg_of_at? _ _ _ hp
      have h1 : ¬ edge.1 = -1 := by omega
      have h2 : ¬ edge.1 < 0 := by omega
      simp only [if_neg h1, if_neg h2, hs, hp]
      exact ih s hs _
    · rw [if_neg hc]
      exact ih s hs _

theorem frame_defined (s : Scene) (graphicsQueue computeQueue swapChainImageIndex : Nat)
    (imageAvailableSemaphore : Option Semaphore) (ids : List Int) (edges : List (Int × Int))
    (hids : ∀ c ∈ ids, 0 ≤ c → ∃ stream, at? s.m_sceneCommandBuffers c = some stream ∧
      (stream.type ≠ .TRANSFER →
        (∃ commandBuffer, stream.commandBuffer = some commandBuffer) ∧
        ∃ semaphore, stream.semaphore = some semaphore))
    (hedges : ∀ edge ∈ edges, edge.2 = -1 ∨ (0 ≤ edge.2 ∧ edge.2 ∈ ids) →
      ∃ producer, at? s.m_sceneCommandBuffers edge.1 = some producer)
    (hbuffer : ∃ commandBuffer,
      s.m_swapChainCommandBuffers[swapChainImageIndex]? = some (some commandBuffer))
    (hcomplete : imageAvailableSemaphore.isSome = true →
      s.m_swapChainCompleteSemaphore.isSome = true) :
    ∃ result, s.frame graphicsQueue computeQueue swapChainImageIndex imageAvailableSemaphore
      ids edges = some result := by
  obtain ⟨⟨s1, streamSubmissions⟩, h1⟩ := submitStreams_defined graphicsQueue computeQueue edges
    s.m_sceneCommandBuffers ids hids (fun e he h0 hmem => hedges e he (Or.inr ⟨h0, hmem⟩)) s rfl
  obtain ⟨hs1, -, -⟩ := submitStreams_inv graphicsQueue computeQueue edges ids s s1
    streamSubmissions h1
  obtain ⟨commandBuffer, hb⟩ := hbuffer
  unfold frame
  rw [h1]
  simp only
  have hwait : ∀ waits, ∃ result, s1.swapChainWaitSemaphores waits edges = some result :=
    swapChainWaitSemaphores_defined edges s.m_sceneCommandBuffers
      (fun e he hc => hedges e he (Or.inl hc)) s1 (by rw [hs1]; rfl)
  have hb2 : ∀ s2 : Scene, s2 = s1.withDebug s2.debug →
      s2.m_swapChainCommandBuffers[swapChainImageIndex]? = some (some commandBuffer) := by
    intro s2 hs2
    rw [hs2, hs1]
    exact hb
  unfold submitSwapChain
  cases imageAvailableSemaphore with
  | none =>
    simp only
    obtain ⟨⟨s2, waits'⟩, hw⟩ := hwait []
    obtain ⟨hs2, -⟩ := swapChainWaitSemaphores_inv edges s1 s2 [] waits' hw
    rw [hw]
    simp only [hb2 s2 hs2]
    exact ⟨_, rfl⟩
  | some semaphore =>
    obtain ⟨complete, hc⟩ := Option.isSome_iff_exists.mp (hcomplete rfl)
    have hc1 : s1.m_swapChainCompleteSemaphore = some complete := by
      rw [hs1]
      exact hc
    rw [hc1]
    simp only [Option.map_some']
    obtain ⟨⟨s2, waits'⟩, hw⟩ := hwait [some semaphore]
    obtain ⟨hs2, -⟩ := swapChainWaitSemaphores_inv edges s1 s2 [some semaphore] waits' hw
    rw [hw]
    simp only [hb2 s2 hs2]
    exact ⟨_, rfl⟩

/-- C11: when `frame` returns, the submissions it made are one for each entry of
`commandBufferIDs` that is not negative and names a stream of type graphics, ray tracing
or compute, in the order of the list, each of the command buffer of its stream, followed
by one submission of the swap-chain command buffer of the image index, which is last;
the state differs from the state before in its diagnostics only, and the same call made
again returns the same submissions. `frame` returns when every entry that is not negative
names a stream, which has a command buffer and a semaphore unless its type is
`TRANSFER`, every wait edge into `-1` or into such an entry has a producer that is a
stream, and the swap-chain command buffer and, with an image-acquired signal, the
swap-chain-complete semaphore exist. -/
theorem frame_submission_order (s : Scene)
    (graphicsQueue computeQueue swapChainImageIndex : Nat)
    (imageAvailableSemaphore : Option Semaphore) (commandBufferIDs : List Int)
    (commandBufferSynchronization : List (Int × Int)) :
    (∀ (s' : Scene) (submissions : List Submission),
      s.frame graphicsQueue computeQueue swapChainImageIndex imageAvailableSemaphore
        commandBufferIDs commandBufferSynchronization = some (s', submissions) →
      (∃ streamSubmissions swapChainSubmission,
        submissions = streamSubmissions ++ [swapChainSubmission] ∧
        List.Forall₂
          (fun c submission => ∃ stream, at? s.m_sceneCommandBuffers c = some stream ∧
            stream.type ≠ .TRANSFER ∧ stream.commandBuffer = some submission.commandBuffer)
          (commandBufferIDs.filter fun c => submitsStream s.m_sceneCommandBuffers c)
          streamSubmissions ∧
        s.m_swapChainCommandBuffers[swapChainImageIndex]? =
          some (some swapChainSubmission.commandBuffer)) ∧
      s' = { s with debug := s'.debug } ∧
      ∃ s'', s'.frame graphicsQueue computeQueue swapChainImageIndex imageAvailableSemaphore
        commandBufferIDs commandBufferSynchronization = some (s'', submissions)) ∧
    ((∀ c ∈ commandBufferIDs, 0 ≤ c →
        ∃ stream, at? s.m_sceneCommandBuffers c = some stream ∧
          (stream.type ≠ .TRANSFER →
            (∃ commandBuffer, stream.commandBuffer = some commandBuffer) ∧
            ∃ semaphore, stream.semaphore = some semaphore)) →
      (∀ edge ∈ commandBufferSynchronization,
        edge.2 = -1 ∨ (0 ≤ edge.2 ∧ edge.2 ∈ commandBufferIDs) →
        ∃ producer, at? s.m_sceneCommandBuffers edge.1 = some producer) →
      (∃ commandBuffer,
        s.m_swapChainCommandBuffers[swapChainImageIndex]? = some (some commandBuffer)) →
      (imageAvailableSemaphore.isSome = true →
        s.m_swapChainCompleteSemaphore.isSome = true) →
      ∃ result, s.frame graphicsQueue computeQueue swapChainImageIndex
        imageAvailableSemaphore commandBufferIDs commandBufferSynchronization =
          some result) := by
  refine ⟨?_, frame_defined s graphicsQueue computeQueue swapChainImageIndex
    imageAvailableSemaphore commandBufferIDs commandBufferSynchronization⟩
  intro s' submissions h
  obtain ⟨hs', hd, streamSubmissions, swapChainSubmission, hsub, hrel, hbuffer⟩ :=
    frame_inv s s' graphicsQueue computeQueue swapChainImageIndex imageAvailableSemaphore
      commandBufferIDs commandBufferSynchronization submissions h
  refine ⟨⟨streamSubmissions, swapChainSubmission, hsub, hrel, hbuffer⟩, hs', ?_⟩
  obtain ⟨d', hd'⟩ := hd s'.debug
  rw [← hs'] at hd'
  exact ⟨_, hd'⟩

/-! ## Wait edges whose producer is the sentinel -/

theorem at?_neg_one {α : Type} (v : List α) : at? v (-1) = none := by
  unfold at?
  rw [if_neg (by decide)]

theorem streamWaitSemaphores_sentinel (s : Scene) (c : Int) (edges : List (Int × Int))
    (edge : Int × Int) (hmem : edge ∈ edges) (hp : edge.1 = -1) (hc : edge.2 = c) :
    s.streamWaitSemaphores c edges = none := by
  induction edges with
  | nil => exact absurd hmem (List.not_mem_nil _)
  | cons e rest ih =>
    unfold streamWaitSemaphores
    rcases List.mem_cons.mp hmem with rfl | hrest
    · rw [if_pos hc, hp, at?_neg_one]
    · rw [ih hrest]
      by_cases he : e.2 = c
      · rw [if_pos he]
        cases at? s.m_sceneCommandBuffers e.1 <;> rfl
      · rw [if_neg he]

theorem submitStreams_sentinel (graphicsQueue computeQueue : Nat) (edges : List (Int × Int))
    (edge : Int × Int) (hmem : edge ∈ edges) (hp : edge.1 = -1) (h0 : 0 ≤ edge.2)
    (ids : List Int) (hid : edge.2 ∈ ids) (s : Scene) :
    s.submitStreams graphicsQueue computeQueue edges ids = none := by
  induction ids generalizing s with
  | nil => exact absurd hid (List.not_mem_nil _)
  | cons c rest ih =>
    unfold submitStreams
    rcases Option.eq_none_or_eq_some
      (s.submitStream graphicsQueue computeQueue edges c) with hc | ⟨⟨s1, first⟩, hc⟩
    · rw [hc]
    · rw [hc]
      simp only
      rcases List.mem_cons.mp hid with heq | hrest
      · exfalso
        unfold submitStream at hc
        rw [if_neg (by omega),
          streamWaitSemaphores_sentinel s c edges edge hmem hp heq] at hc
        exact absurd hc (by simp)
      · rw [ih hrest s1]
        rfl

theorem swapChainWaitSemaphores_sentinel (edges : List (Int × Int)) (edge : Int × Int)
    (hmem : edge ∈ edges) (hp : edge.1 = -1) (hc : edge.2 = -1) (s : Scene)
    (waits : List (Option Semaphore)) :
    s.swapChainWaitSemaphores waits edges = none := by
  induction edges generalizing s waits with
  | nil => exact absurd hmem (List.not_mem_nil _)
  | cons e rest ih =>
    unfold swapChainWaitSemaphores
    rcases List.mem_cons.mp hmem with rfl | hrest
    · rw [if_pos hc, if_pos hp]
      simp only
      have : at? (s.sendError
          "No command buffer can't wait from swapchain command buffer").m_sceneCommandBuffers
          edge.1 = none := by
        rw [hp]
        exact at?_neg_one _
      rw [this]
    · by_cases he : e.2 = -1
      · rw [if_pos he]
        simp only
        generalize (if e.1 = -1 then
            s.sendError "No command buffer can't wait from swapchain command buffer"
          else if e.1 < 0 then s.sendError "Invalid command buffer ID" else s) = s1
        cases at? s1.m_sceneCommandBuffers e.1 with
        | none => rfl
        | some producer => exact ih hrest _ _
      · rw [if_neg he]
        exact ih hrest _ _

/-- C12, as it is in the code: a wait edge whose producer is the sentinel `-1` is not
rejected. If its consumer is `-1`, or an entry of `commandBufferIDs` that is not
negative, `frame` indexes the vector of streams with `-1` (after the error message, for
the consumer `-1`; without any message, for a stream): the call is undefined. -/
theorem frame_sentinel_producer (s : Scene)
    (graphicsQueue computeQueue swapChainImageIndex : Nat)
    (imageAvailableSemaphore : Option Semaphore) (commandBufferIDs : List Int)
    (commandBufferSynchronization : List (Int × Int)) (edge : Int × Int)
    (hmem : edge ∈ commandBufferSynchronization) (hp : edge.1 = -1)
    (hc : edge.2 = -1 ∨ (0 ≤ edge.2 ∧ edge.2 ∈ commandBufferIDs)) :
    s.frame graphicsQueue computeQueue swapChainImageIndex imageAvailableSemaphore
      commandBufferIDs commandBufferSynchronization = none := by
  unfold frame
  rcases Option.eq_none_or_eq_some (s.submitStreams graphicsQueue computeQueue
    commandBufferSynchronization commandBufferIDs) with hs | ⟨⟨s1, streamSubmissions⟩, hs⟩
  · rw [hs]
  · rw [hs]
    simp only
    rcases hc with hc | ⟨h0, hid⟩
    · have hwait : ∀ waits, s1.swapChainWaitSemaphores waits commandBufferSynchronization =
          none := swapChainWaitSemaphores_sentinel _ edge hmem hp hc s1
      unfold submitSwapChain
      cases imageAvailableSemaphore with
      | none =>
        simp only [hwait]
        rfl
      | some semaphore =>
        cases s1.m_swapChainCompleteSemaphore with
        | none => rfl
        | some complete =>
          simp only [Option.map_some', hwait]
          rfl
    · rw [submitStreams_sentinel graphicsQueue computeQueue commandBufferSynchronization edge
        hmem hp h0 commandBufferIDs hid s] at hs
      exact absurd hs (by simp)

end Scene

namespace Example

/-- C11 on three streams of types compute, graphics and `TRANSFER`, with the entries
1, -1, 2, 0: the streams 1 and 0 are submitted in that order, then the swap chain; the
entry -1 and the stream of type `TRANSFER` have no submission. -/
theorem frame_submission_order_witness :
    ∃ s' a b swapChainSubmission,
      threeStreamScene.frame 50 51 0 none [1, -1, 2, 0] [] =
        some (s', [a, b, swapChainSubmission]) ∧
      a.queue = 50 ∧ a.signalSemaphores = [2] ∧ b.queue = 51 ∧ b.signalSemaphores = [1] ∧
      s' = { threeStreamScene with debug := s'.debug } ∧
      ∃ s'', s'.frame 50 51 0 none [1, -1, 2, 0] [] =
        some (s'', [a, b, swapChainSubmission]) := by
  obtain ⟨s', hs'⟩ : ∃ s', threeStreamScene.frame 50 51 0 none [1, -1, 2, 0] [] =
      some (s', [⟨⟨1, [], false⟩, 50, [], [2]⟩, ⟨⟨2, [], false⟩, 51, [], [1]⟩,
        ⟨⟨1, [], false⟩, 50, [], []⟩]) := ⟨_, rfl⟩
  obtain ⟨-, hsame, hagain⟩ :=
    (Scene.frame_submission_order threeStreamScene 50 51 0 none [1, -1, 2, 0] []).1 s' _ hs'
  exact ⟨s', _, _, _, hs', rfl, rfl, rfl, rfl, hsame, hagain⟩

/-- C12, as stated, fails: with the edge (-1, -1), and with the edge (-1, 1) when stream
1 is submitted, `frame` is undefined; with the edge (-1, 1) when stream 1 is not
submitted the edge is ignored and no error is reported. -/
theorem frame_sentinel_producer_not_rejected :
    twoStreamScene.frame 50 51 0 none [0, 1] [(-1, -1)] = none ∧
    twoStreamScene.frame 50 51 0 none [0, 1] [(-1, 1)] = none ∧
    (twoStreamScene.frame 50 51 0 none [0] [(-1, 1)]).map
      (fun result => (result.1.debug, result.2.map fun submission =>
        submission.waitSemaphores)) = some (twoStreamScene.debug, [[], []]) :=
  ⟨rfl, rfl, rfl⟩

/-- C12, as it is in the code, on two streams with the edge (-1, -1). -/
theorem frame_sentinel_producer_witness :
    twoStreamScene.frame 50 51 0 (some ⟨99, 0⟩) [0, 1] [(0, 1), (-1, -1)] = none :=
  Scene.frame_sentinel_producer twoStreamScene 50 51 0 (some ⟨99, 0⟩) [0, 1]
    [(0, 1), (-1, -1)] (-1, -1) (by simp) rfl (Or.inl rfl)

end Example

namespace Scene

theorem swapChainOutputs_eq (s : Scene) (image0 : Image) (outputs : List RenderPassOutput) :
    s.swapChainOutputs image0 outputs =
      [{ clearValue := { float32_0 := 1 }
         attachment :=
          { extent := image0.extent
            format := findDepthFormat s.m_physicalDevice
            sampleCount := VK_SAMPLE_COUNT_1_BIT
            finalLayout := VK_IMAGE_LAYOUT_DEPTH_STENCIL_ATTACHMENT_OPTIMAL
            storeOperation := VK_ATTACHMENT_STORE_OP_DONT_CARE
            usageType := VK_IMAGE_USAGE_DEPTH_STENCIL_ATTACHMENT_BIT } },
       { clearValue := { float32_0 := 0, float32_1 := 0, float32_2 := 0, float32_3 := 1 }
         attachment :=
          { extent := image0.extent
            format := image0.format
            sampleCount := VK_SAMPLE_COUNT_1_BIT
            finalLayout :=
              if s.m_useOVR then VK_IMAGE_LAYOUT_TRANSFER_SRC_OPTIMAL
              else VK_IMAGE_LAYOUT_PRESENT_SRC_KHR
            storeOperation := VK_ATTACHMENT_STORE_OP_STORE
            usageType := VK_IMAGE_USAGE_COLOR_ATTACHMENT_BIT } }] := by
  unfold swapChainOutputs
  rcases outputs with _ | ⟨a, _ | ⟨b, rest⟩⟩ <;> simp [Wolf.resize]

theorem prepareRenderPass_swapChain (s : Scene) (createInfo : RenderPassCreateInfo)
    (hswap : createInfo.outputIsSwapChain = true) :
    s.prepareRenderPass createInfo =
      s.m_swapChainImages[0]?.map fun image0 =>
        some { createInfo with outputs := s.swapChainOutputs image0 createInfo.outputs } := by
  unfold prepareRenderPass
  rw [if_pos hswap]
  cases s.m_swapChainImages[0]? <;> rfl

/-- C18: `addRenderPass` with `outputIsSwapChain = true` is defined as soon as there is a
presentable image, and whatever outputs the caller supplies the pass is stored with
exactly two: a depth attachment (depth-stencil usage, clear value 1, store operation
`DONT_CARE`) and a colour attachment (colour usage, the format of presentable image 0,
clear value (0, 0, 0, 1), store operation `STORE`, final layout `PRESENT_SRC` unless the
scene mirrors to a window), both with the extent of presentable image 0. -/
theorem swapChain_outputs_derived (s : Scene) (createInfo : RenderPassCreateInfo)
    (forceID : Int) (hswap : createInfo.outputIsSwapChain = true) :
    (forceID < 0 → 1 ≤ s.m_swapChainImages.length →
      ∃ s' handle, s.addRenderPass createInfo forceID = some (s', handle)) ∧
    ∀ (s' : Scene) (handle : Int), s.addRenderPass createInfo forceID = some (s', handle) →
      ∃ image0 pass, s.m_swapChainImages[0]? = some image0 ∧ 0 ≤ handle ∧
        s'.m_sceneRenderPasses[handle.toNat]? = some pass ∧
        pass.outputIsSwapChain = true ∧
        pass.outputs =
          [{ clearValue := { float32_0 := 1 }
             attachment :=
              { extent := image0.extent
                format := findDepthFormat s.m_physicalDevice
                sampleCount := VK_SAMPLE_COUNT_1_BIT
                finalLayout := VK_IMAGE_LAYOUT_DEPTH_STENCIL_ATTACHMENT_OPTIMAL
                storeOperation := VK_ATTACHMENT_STORE_OP_DONT_CARE
                usageType := VK_IMAGE_USAGE_DEPTH_STENCIL_ATTACHMENT_BIT } },
           { clearValue := { float32_0 := 0, float32_1 := 0, float32_2 := 0, float32_3 := 1 }
             attachment :=
              { extent := image0.extent
                format := image0.format
                sampleCount := VK_SAMPLE_COUNT_1_BIT
                finalLayout :=
                  if s.m_useOVR then VK_IMAGE_LAYOUT_TRANSFER_SRC_OPTIMAL
                  else VK_IMAGE_LAYOUT_PRESENT_SRC_KHR
                storeOperation := VK_ATTACHMENT_STORE_OP_STORE
                usageType := VK_IMAGE_USAGE_COLOR_ATTACHMENT_BIT } }] := by
  refine ⟨fun hforce hk => addRenderPass_defined s createInfo forceID hforce hk, ?_⟩
  intro s' handle h
  have hprep := prepareRenderPass_swapChain s createInfo hswap
  cases h0 : s.m_swapChainImages[0]? with
  | none =>
    rw [h0] at hprep
    rw [addRenderPass_undefined s createInfo forceID hprep] at h
    exact absurd h (by simp)
  | some image0 =>
    rw [h0] at hprep
    obtain ⟨renderPass, hnonneg, -, -, hentry, -⟩ :=
      addRenderPass_entry s s' createInfo _ forceID handle hprep h
    refine ⟨image0, _, rfl, hnonneg, hentry, hswap, ?_⟩
    exact swapChainOutputs_eq s image0 createInfo.outputs

/-- The outputs the loop of lines 59-67 leaves are the outputs supplied, each with the
extent of presentable image 0 if its own has a zero width or height. -/
theorem offscreenOutputs_spec (s : Scene) (outputs outputs' : List RenderPassOutput)
    (h : s.offscreenOutputs outputs = some outputs') :
    List.Forall₂
      (fun (supplied stored : RenderPassOutput) =>
        stored.clearValue = supplied.clearValue ∧
        stored.attachment = { supplied.attachment with extent := stored.attachment.extent } ∧
        if supplied.attachment.extent.width = 0 ∨ supplied.attachment.extent.height = 0 then
          ∃ image0, s.m_swapChainImages[0]? = some image0 ∧
            stored.attachment.extent = image0.extent
        else stored.attachment.extent = supplied.attachment.extent)
      outputs outputs' := by
  induction outputs generalizing outputs' with
  | nil =>
    simp only [offscreenOutputs, Option.some.injEq] at h
    subst h
    exact List.Forall₂.nil
  | cons output rest ih =>
    unfold offscreenOutputs at h
    by_cases hz : output.attachment.extent.width = 0 ∨ output.attachment.extent.height = 0
    · rw [if_pos hz] at h
      rcases Option.eq_none_or_eq_some (s.m_swapChainImages[0]?) with h0 | ⟨image0, h0⟩
      · simp [h0] at h
      · rw [h0] at h
        simp only [Option.map_eq_some'] at h
        obtain ⟨rest', hrest, rfl⟩ := h
        refine List.Forall₂.cons ⟨rfl, rfl, ?_⟩ (ih rest' hrest)
        rw [if_pos hz]
        exact ⟨image0, h0, rfl⟩
    · rw [if_neg hz] at h
      simp only [Option.map_eq_some'] at h
      obtain ⟨rest', hrest, rfl⟩ := h
      refine List.Forall₂.cons ⟨rfl, rfl, ?_⟩ (ih rest' hrest)
      rw [if_neg hz]

theorem offscreenOutputs_nonzero (s : Scene) (outputs outputs' : List RenderPassOutput)
    (hrel : List.Forall₂
      (fun (supplied stored : RenderPassOutput) =>
        stored.clearValue = supplied.clearValue ∧
        stored.attachment = { supplied.attachment with extent := stored.attachment.extent } ∧
        if supplied.attachment.extent.width = 0 ∨ supplied.attachment.extent.height = 0 then
          ∃ image0, s.m_swapChainImages[0]? = some image0 ∧
            stored.attachment.extent = image0.extent
        else stored.attachment.extent = supplied.attachment.extent)
      outputs outputs')
    (himage : ∀ image0, s.m_swapChainImages[0]? = some image0 →
      image0.extent.width ≠ 0 ∧ image0.extent.height ≠ 0) :
    ∀ stored ∈ outputs',
      stored.attachment.extent.width ≠ 0 ∧ stored.attachment.extent.height ≠ 0 := by
  induction hrel with
  | nil => exact fun _ h => absurd h (List.not_mem_nil _)
  | @cons supplied stored0 _ _ hd _ ih =>
    intro stored hstored
    rcases List.mem_cons.mp hstored with rfl | hmem
    · obtain ⟨-, -, hext⟩ := hd
      by_cases hz : supplied.attachment.extent.width = 0 ∨
          supplied.attachment.extent.height = 0
      · rw [if_pos hz] at hext
        obtain ⟨image0, h0, he⟩ := hext
        rw [he]
        exact himage image0 h0
      · rw [if_neg hz] at hext
        rw [hext]
        exact ⟨fun hw => hz (Or.inl hw), fun hh => hz (Or.inr hh)⟩
    · exact ih stored hmem

theorem prepareRenderPass_offscreen (s : Scene) (createInfo prepared : RenderPassCreateInfo)
    (hoff : createInfo.outputIsSwapChain = false)
    (h : s.prepareRenderPass createInfo = some (some prepared)) :
    s.offscreenOutputs createInfo.outputs = some prepared.outputs ∧
    prepared.outputIsSwapChain = false ∧
    ¬ (createInfo.outputs = [] ∧ createInfo.extent.width = 0) := by
  unfold prepareRenderPass at h
  rw [if_neg (by simp [hoff])] at h
  by_cases h2 : createInfo.outputs.isEmpty = true ∧ createInfo.extent.width = 0
  · rw [if_pos h2] at h
    exact absurd h (by simp)
  · rw [if_neg h2] at h
    generalize (if createInfo.extent.width = 0 then
      createInfo.outputs[0]?.map (fun output => output.attachment.extent)
      else some createInfo.extent) = e at h
    cases e with
    | none => exact absurd h (by simp)
    | some extent =>
      cases ho : s.offscreenOutputs createInfo.outputs with
      | none => simp only [ho] at h; exact absurd h (by simp)
      | some outputs =>
        simp only [ho, Option.map_some', Option.some.injEq] at h
        subst h
        refine ⟨rfl, hoff, ?_⟩
        intro hc
        exact h2 ⟨by simp [hc.1], hc.2⟩

/-- C19, amended: a successful `addRenderPass` with an offscreen target stores the outputs
supplied, in order, each with its clear value and its attachment unchanged but for the
extent: an attachment supplied with a zero width or height gets the extent of
presentable image 0, any other keeps its own. So every stored extent is non-zero when
that of presentable image 0 is. The call is defined as soon as there is a presentable
image. -/
theorem offscreen_output_extents (s : Scene) (createInfo : RenderPassCreateInfo)
    (forceID : Int) (hoff : createInfo.outputIsSwapChain = false) :
    (forceID < 0 → 1 ≤ s.m_swapChainImages.length →
      ∃ s' handle, s.addRenderPass createInfo forceID = some (s', handle)) ∧
    ∀ (s' : Scene) (handle : Int), s.addRenderPass createInfo forceID = some (s', handle) →
      handle ≠ -1 →
      ∃ pass, 0 ≤ handle ∧ s'.m_sceneRenderPasses[handle.toNat]? = some pass ∧
        List.Forall₂
          (fun (supplied stored : RenderPassOutput) =>
            stored.clearValue = supplied.clearValue ∧
            stored.attachment =
              { supplied.attachment with extent := stored.attachment.extent } ∧
            if supplied.attachment.extent.width = 0 ∨ supplied.attachment.extent.height = 0
            then
              ∃ image0, s.m_swapChainImages[0]? = some image0 ∧
                stored.attachment.extent = image0.extent
            else stored.attachment.extent = supplied.attachment.extent)
          createInfo.outputs pass.outputs ∧
        ((∀ image0, s.m_swapChainImages[0]? = some image0 →
            image0.extent.width ≠ 0 ∧ image0.extent.height ≠ 0) →
          ∀ stored ∈ pass.outputs,
            stored.attachment.extent.width ≠ 0 ∧ stored.attachment.extent.height ≠ 0) := by
  refine ⟨fun hforce hk => addRenderPass_defined s createInfo forceID hforce hk, ?_⟩
  intro s' handle h hok
  rcases s.prepareRenderPass_cases createInfo with hp | hp | ⟨prepared, hp⟩
  · rw [addRenderPass_undefined s createInfo forceID hp] at h
    exact absurd h (by simp)
  · rw [addRenderPass_error s createInfo forceID hp] at h
    simp only [Option.some.injEq, Prod.mk.injEq] at h
    exact absurd h.2.symm hok
  · obtain ⟨renderPass, hnonneg, -, -, hentry, -⟩ :=
      addRenderPass_entry s s' createInfo prepared forceID handle hp h
    obtain ⟨hout, -, -⟩ := prepareRenderPass_offscreen s createInfo prepared hoff hp
    have hrel := offscreenOutputs_spec s createInfo.outputs prepared.outputs hout
    refine ⟨_, hnonneg, hentry, hrel, ?_⟩
    exact fun himage => offscreenOutputs_nonzero s _ _ hrel himage

/-- C20: `addRenderPass` with an offscreen target, no output and a zero `extent.width`
returns normally with `-1` after sending the error "RenderPass creation must include
output"; the registry, the accumulator and every other member of the scene are as
before. An offscreen call with an output or a non-zero `extent.width` that returns sends
no message, returns a handle other than `-1` and stores the pass. -/
theorem offscreen_without_output_skipped (s : Scene) (createInfo : RenderPassCreateInfo)
    (forceID : Int) (hoff : createInfo.outputIsSwapChain = false) :
    (createInfo.outputs = [] → createInfo.extent.width = 0 →
      ∃ s', s.addRenderPass createInfo forceID = some (s', -1) ∧
        s' = { s with debug := s.debug ++
          [⟨.error, "RenderPass creation must include output", []⟩] } ∧
        s'.m_sceneRenderPasses = s.m_sceneRenderPasses ∧
        s'.m_descriptorPool = s.m_descriptorPool) ∧
    ((createInfo.outputs ≠ [] ∨ createInfo.extent.width ≠ 0) →
      (forceID < 0 → 1 ≤ s.m_swapChainImages.length →
        ∃ s' handle, s.addRenderPass createInfo forceID = some (s', handle)) ∧
      ∀ (s' : Scene) (handle : Int), s.addRenderPass createInfo forceID = some (s', handle) →
        handle ≠ -1 ∧ s'.debug = s.debug ∧
        ∃ pass, s'.m_sceneRenderPasses[handle.toNat]? = some pass ∧
          pass.commandBufferID = createInfo.commandBufferID) := by
  refine ⟨?_, ?_⟩
  · intro hout hw
    have hp : s.prepareRenderPass createInfo = some none := by
      unfold prepareRenderPass
      rw [if_neg (by simp [hoff]), if_pos ⟨by simp [hout], hw⟩]
    exact ⟨_, addRenderPass_error s createInfo forceID hp, rfl, rfl, rfl⟩
  · intro hsome
    refine ⟨fun hforce hk => addRenderPass_defined s createInfo forceID hforce hk, ?_⟩
    intro s' handle h
    rcases s.prepareRenderPass_cases createInfo with hp | hp | ⟨prepared, hp⟩
    · rw [addRenderPass_undefined s createInfo forceID hp] at h
      exact absurd h (by simp)
    · exfalso
      unfold prepareRenderPass at hp
      rw [if_neg (by simp [hoff])] at hp
      by_cases h2 : createInfo.outputs.isEmpty = true ∧ createInfo.extent.width = 0
      · rcases hsome with h3 | h3
        · exact h3 (by simpa using h2.1)
        · exact h3 h2.2
      · rw [if_neg h2] at hp
        generalize (if createInfo.extent.width = 0 then
          createInfo.outputs[0]?.map (fun output => output.attachment.extent)
          else some createInfo.extent) = e at hp
        cases e with
        | none => exact absurd hp (by simp)
        | some extent =>
          cases ho : s.offscreenOutputs createInfo.outputs with
          | none => simp only [ho] at hp; exact absurd hp (by simp)
          | some outputs => simp [ho] at hp
    · obtain ⟨renderPass, hnonneg, -, -, hentry, hs'⟩ :=
        addRenderPass_entry s s' createInfo prepared forceID handle hp h
      obtain ⟨outputs, extent, rfl⟩ := prepareRenderPass_some s createInfo prepared hp
      refine ⟨by omega, ?_, _, hentry, rfl⟩
      rw [hs']
      rfl

end Scene

namespace Example

/-- C18 on the scene with three presentable images of 800 by 600 and format 44, for a
caller who supplies three outputs: two are stored, the depth and the colour output. -/
theorem swapChain_outputs_derived_witness :
    ∃ s' handle pass,
      emptyScene.addRenderPass
        { commandBufferID := -1, outputIsSwapChain := true,
          outputs := [colourOutput, colourOutput, colourOutput] } (-1) = some (s', handle) ∧
      s'.m_sceneRenderPasses[handle.toNat]? = some pass ∧
      pass.outputs.map (fun output => (output.attachment.usageType, output.attachment.extent,
          output.attachment.format, output.attachment.storeOperation)) =
        [(VK_IMAGE_USAGE_DEPTH_STENCIL_ATTACHMENT_BIT, ⟨800, 600⟩, 126,
            VK_ATTACHMENT_STORE_OP_DONT_CARE),
          (VK_IMAGE_USAGE_COLOR_ATTACHMENT_BIT, ⟨800, 600⟩, 44,
            VK_ATTACHMENT_STORE_OP_STORE)] := by
  have h := Scene.swapChain_outputs_derived emptyScene
    { commandBufferID := -1, outputIsSwapChain := true,
      outputs := [colourOutput, colourOutput, colourOutput] } (-1) rfl
  obtain ⟨s', handle, hs'⟩ := h.1 (by decide) (by decide)
  obtain ⟨image0, pass, h0, -, hpass, -, hout⟩ := h.2 s' handle hs'
  have himage : image0 = image 10 := (Option.some.inj h0).symm
  subst himage
  exact ⟨s', handle, pass, hs', hpass, by rw [hout]; rfl⟩

/-- C19 on an offscreen pass with one output supplied without extent and one of 256 by
256: the first is stored with the extent 800 by 600 of presentable image 0, the second
with its own. -/
theorem offscreen_output_extents_witness :
    ∃ s' handle pass,
      emptyScene.addRenderPass { outputs := [unsizedOutput, colourOutput] } (-1) =
        some (s', handle) ∧
      s'.m_sceneRenderPasses[handle.toNat]? = some pass ∧
      (∀ stored ∈ pass.outputs,
        stored.attachment.extent.width ≠ 0 ∧ stored.attachment.extent.height ≠ 0) ∧
      pass.outputs.map (fun output => output.attachment.extent) =
        [⟨800, 600⟩, ⟨256, 256⟩] := by
  have h := Scene.offscreen_output_extents emptyScene
    { outputs := [unsizedOutput, colourOutput] } (-1) rfl
  obtain ⟨s', hs'⟩ : ∃ s', emptyScene.addRenderPass
      { outputs := [unsizedOutput, colourOutput] } (-1) = some (s', 0) := ⟨_, rfl⟩
  obtain ⟨pass, -, hpass, -, hnonzero⟩ := h.2 s' 0 hs' (by decide)
  refine ⟨s', 0, pass, hs', hpass, hnonzero ?_, ?_⟩
  · intro image0 h0
    have himage : image0 = image 10 := (Option.some.inj h0).symm
    subst himage
    exact ⟨by decide, by decide⟩
  · have hpass' : s'.m_sceneRenderPasses[(0 : Int).toNat]? = some pass := hpass
    have hs'' := (Option.some.inj hs').symm
    have := congrArg (fun r : Scene × Int => r.1.m_sceneRenderPasses[(0 : Int).toNat]?) hs''
    simp only at this
    rw [this] at hpass'
    have hp := (Option.some.inj hpass').symm
    rw [hp]
    rfl

/-- C20 on the scene with nothing registered: an offscreen pass without output and
extent is skipped with the error, and one with an extent of 64 by 64 is stored. -/
theorem offscreen_without_output_skipped_witness :
    (∃ s', emptyScene.addRenderPass {} (-1) = some (s', -1) ∧
      s'.debug = [⟨.error, "RenderPass creation must include output", []⟩] ∧
      s'.m_sceneRenderPasses = [] ∧ s'.m_descriptorPool = emptyScene.m_descriptorPool) ∧
    ∃ s' handle, emptyScene.addRenderPass { extent := ⟨64, 64⟩ } (-1) = some (s', handle) ∧
      handle ≠ -1 ∧ s'.debug = [] := by
  have h := Scene.offscreen_without_output_skipped emptyScene {} (-1) rfl
  have h' := Scene.offscreen_without_output_skipped emptyScene { extent := ⟨64, 64⟩ } (-1) rfl
  obtain ⟨s', h1, h2, h3, h4⟩ := h.1 rfl rfl
  refine ⟨⟨s', h1, by rw [h2]; rfl, h3, h4⟩, ?_⟩
  obtain ⟨hdef, hall⟩ := h'.2 (Or.inr (by decide))
  obtain ⟨s'', handle, hs''⟩ := hdef (by decide) (by decide)
  obtain ⟨hne, hdebug, -⟩ := hall s'' handle hs''
  exact ⟨s'', handle, hs'', hne, hdebug⟩

end Example

/-! ## The rebuild of the render passes by `resize` -/

theorem forEachState_append {σ α : Type} (body : σ → α → Option σ) (l₁ l₂ : List α)
    (state : σ) :
    forEachState body (l₁ ++ l₂) state =
      match forEachState body l₁ state with
      | none => none
      | some state' => forEachState body l₂ state' := by
  induction l₁ generalizing state with
  | nil => rfl
  | cons x rest ih =>
    rw [List.cons_append]
    simp only [forEachState]
    cases body state x with
    | none => rfl
    | some state' => exact ih state'

theorem forEachState_rel {σ α : Type} (body : σ → α → Option σ) (R : σ → σ → Prop)
    (hrefl : ∀ state, R state state)
    (htrans : ∀ a b c, R a b → R b c → R a c) (l : List α)
    (hstep : ∀ state x state', x ∈ l → body state x = some state' → R state state')
    (state state' : σ) (h : forEachState body l state = some state') : R state state' := by
  induction l generalizing state with
  | nil =>
    simp only [forEachState, Option.some.injEq] at h
    exact h ▸ hrefl state
  | cons x rest ih =>
    simp only [forEachState] at h
    rcases Option.eq_none_or_eq_some (body state x) with hx | ⟨state1, hx⟩
    · rw [hx] at h
      exact absurd h (by simp)
    · rw [hx] at h
      exact htrans _ _ _ (hstep state x state1 (List.mem_cons_self _ _) hx)
        (ih (fun a y b hy => hstep a y b (List.mem_cons_of_mem _ hy)) state1 h)

theorem set_getElem?_self {α : Type} (l : List α) (i : Nat) (x : α) (h : l[i]? = some x) :
    l.set i x = l := by
  apply List.ext_getElem?
  intro n
  by_cases hn : n = i
  · subst hn
    rw [List.getElem?_set_self (List.getElem?_eq_some_iff.mp h).1, h]
  · rw [List.getElem?_set_ne (Ne.symm hn)]

namespace Scene

theorem rebuilds_refl (i : Nat) (s : Scene) : Rebuilds i s s :=
  ⟨rfl, rfl, fun _ _ => rfl, fun pass' h => ⟨pass', h, fun hn => hn, fun hp => hp⟩⟩

theorem rebuilds_trans (i : Nat) (a b c : Scene) (hab : Rebuilds i a b)
    (hbc : Rebuilds i b c) : Rebuilds i a c := by
  obtain ⟨h1, h2, h3, h4⟩ := hab
  obtain ⟨g1, g2, g3, g4⟩ := hbc
  refine ⟨g1.trans h1, g2.trans h2, fun k hk => (g3 k hk).trans (h3 k hk), ?_⟩
  intro pass'' hc
  obtain ⟨pass', hb, hn', hp'⟩ := g4 pass'' hc
  obtain ⟨pass, ha, hn, hp⟩ := h4 pass' hb
  exact ⟨pass, ha, fun h => hn' (hn h), fun h => hp' (hp h)⟩

/-- A change of the diagnostics only is a step of the rebuild. -/
theorem rebuilds_of_withDebug (i : Nat) (s : Scene) (d : List DebugMessage) :
    Rebuilds i s (s.withDebug d) :=
  ⟨rfl, rfl, fun _ _ => rfl, fun pass' h => ⟨pass', h, fun hn => hn, fun hp => hp⟩⟩

/-- The replacement of the entry `i` is a step of the rebuild. -/
theorem rebuilds_of_set (i : Nat) (s t : Scene) (pass pass' : SceneRenderPass)
    (hpass : s.m_sceneRenderPasses[i]? = some pass)
    (herase : t.eraseRenderPasses = s.eraseRenderPasses)
    (hset : t.m_sceneRenderPasses = s.m_sceneRenderPasses.set i pass')
    (hnone : none ∉ pass.renderers → none ∉ pass'.renderers)
    (hplace : InPlaceAt i pass → InPlaceAt i pass') : Rebuilds i s t := by
  refine ⟨herase, by rw [hset, List.length_set], ?_, ?_⟩
  · intro k hk
    rw [hset, List.getElem?_set_ne (Ne.symm hk)]
  · intro p hp
    rw [hset, List.getElem?_set_self (List.getElem?_eq_some_iff.mp hpass).1] at hp
    simp only [Option.some.injEq] at hp
    exact ⟨pass, hpass, hp ▸ hnone, hp ▸ hplace⟩

theorem updateDescriptorPoolBuffer_allocated (s : Scene) (layout : DescriptorLayout) :
    (s.updateDescriptorPoolBuffer layout).m_descriptorPool.allocated =
      s.m_descriptorPool.allocated := by
  unfold updateDescriptorPoolBuffer
  split_ifs <;> rfl

theorem updateDescriptorPoolImage_allocated (s : Scene) (layout : DescriptorLayout) :
    (s.updateDescriptorPoolImage layout).m_descriptorPool.allocated =
      s.m_descriptorPool.allocated := by
  unfold updateDescriptorPoolImage
  split_ifs <;> rfl

theorem updateDescriptorPoolDefault_allocated (s : Scene) (layout : DescriptorLayout) :
    (s.updateDescriptorPoolDefault layout).m_descriptorPool.allocated =
      s.m_descriptorPool.allocated := by
  unfold updateDescriptorPoolDefault
  split_ifs <;> rfl

/-- `updateDescriptorPool` allocates nothing. -/
theorem updateDescriptorPool_allocated (s : Scene) (d : DescriptorSetCreateInfo) :
    (s.updateDescriptorPool d).m_descriptorPool.allocated = s.m_descriptorPool.allocated := by
  unfold updateDescriptorPool
  simp only
  apply foldl_invariant (fun t : Scene => t.m_descriptorPool.allocated =
    s.m_descriptorPool.allocated)
  · intro t x ht
    rw [updateDescriptorPoolDefault_allocated, ht]
  · apply foldl_invariant (fun t : Scene => t.m_descriptorPool.allocated =
      s.m_descriptorPool.allocated)
    · intro t x ht
      rw [updateDescriptorPoolImage_allocated, ht]
    · apply foldl_invariant (fun t : Scene => t.m_descriptorPool.allocated =
        s.m_descriptorPool.allocated)
      · intro t x ht
        rw [updateDescriptorPoolBuffer_allocated, ht]
      · rfl

/-- `updateDescriptorPool` changes the counters of the accumulator and the diagnostics
only. -/
theorem eraseRenderPasses_updateDescriptorPool (s : Scene) (d : DescriptorSetCreateInfo) :
    (s.updateDescriptorPool d).eraseRenderPasses = s.eraseRenderPasses := by
  have h1 := erasePool_updateDescriptorPool s d
  have h2 := updateDescriptorPool_allocated s d
  have key : ∀ t : Scene, t.eraseRenderPasses =
      { t.erasePool with
        m_sceneRenderPasses := []
        m_descriptorPool := { sizes := {}, allocated := t.m_descriptorPool.allocated } } :=
    fun _ => rfl
  rw [key, key, h1, h2]

end Scene

namespace Scene

theorem applyTemplates_eq (s : Scene) (createInfo : RendererCreateInfo) :
    (∃ d, (s.applyTemplates createInfo).1 = s.withDebug d) ∧
    (s.applyTemplates createInfo).2.renderPassID = createInfo.renderPassID ∧
    (s.applyTemplates createInfo).2.forceRendererID = createInfo.forceRendererID := by
  unfold applyTemplates
  refine ⟨?_, rfl, rfl⟩
  cases createInfo.inputVerticesTemplate <;> exact ⟨_, rfl⟩

theorem mem_of_mem_set {α : Type} (l : List α) (n : Nat) (x y : α) (h : y ∈ l.set n x) :
    y = x ∨ y ∈ l := by
  rcases List.mem_iff_getElem?.mp h with ⟨k, hk⟩
  by_cases hkn : n = k
  · subst hkn
    by_cases hlt : n < l.length
    · rw [List.getElem?_set_self hlt] at hk
      exact Or.inl (Option.some.inj hk).symm
    · rw [List.getElem?_eq_none (by rw [List.length_set]; omega)] at hk
      exact absurd hk (by simp)
  · rw [List.getElem?_set_ne hkn] at hk
    exact Or.inr (List.mem_iff_getElem?.mpr ⟨k, hk⟩)

theorem mem_of_at? {α : Type} (l : List α) (i : Int) (x : α) (h : at? l i = some x) :
    x ∈ l := by
  unfold at? at h
  split_ifs at h
  exact List.mem_iff_getElem?.mpr ⟨_, h⟩

/-- A defined `addRenderer` is a step of the rebuild of the render pass it names. -/
theorem addRenderer_rebuilds (build : Build) (s s' : Scene) (createInfo : RendererCreateInfo)
    (handle : Int) (i : Nat)
    (hid : 0 ≤ createInfo.renderPassID → createInfo.renderPassID = (i : Int))
    (h : s.addRenderer build createInfo = some (s', handle)) : Rebuilds i s s' := by
  unfold addRenderer at h
  split at h
  · simp only [Option.some.injEq, Prod.mk.injEq] at h
    rw [← h.1]
    exact rebuilds_of_withDebug i s _
  · obtain ⟨⟨d, hd⟩, hrp, hforce⟩ := applyTemplates_eq s createInfo
    generalize s.applyTemplates createInfo = applied at h hd hrp hforce
    obtain ⟨s1, createInfo1⟩ := applied
    simp only at h hd hrp hforce
    subst hd
    rw [hrp] at h
    simp only [withDebug_m_sceneRenderPasses] at h
    rcases Option.eq_none_or_eq_some (at? s.m_sceneRenderPasses createInfo.renderPassID)
      with hnone | ⟨pass0, hpass0⟩
    · rw [hnone] at h
      split at h <;> exact absurd h (by simp)
    rw [hid (nonneg_of_at? _ _ _ hpass0), at?_natCast] at h
    split at h
    · exact absurd h (by simp)
    · split at h
      · exact absurd h (by simp)
      · rename_i pass hpass
        split at h
        · exact absurd h (by simp)
        · rename_i renderPass hrenderPass
          have hlt : i < s.m_sceneRenderPasses.length := (List.getElem?_eq_some_iff.mp hpass).1
          split at h
          · rw [setAt?_natCast _ _ _ hlt] at h
            simp only [Option.map_some', Option.some.injEq, Prod.mk.injEq] at h
            obtain ⟨h, -⟩ := h
            subst h
            refine rebuilds_of_set i s _ pass _ hpass rfl rfl ?_ ?_
            · intro hnone hmem
              simp only [List.mem_append, List.mem_singleton] at hmem
              rcases hmem with hmem | hmem
              · exact hnone hmem
              · exact absurd hmem (by simp)
            · intro hplace hswap renderer hmem info hinfo
              simp only [List.mem_append, List.mem_singleton, Option.some.injEq] at hmem
              rcases hmem with hmem | hmem
              · exact hplace hswap renderer hmem info hinfo
              · subst hmem
                exact absurd hinfo (List.not_mem_nil _)
          · split at h
            · exact absurd h (by simp)
            · rename_i renderers hrenderers
              rw [setAt?_natCast _ _ _ hlt] at h
              simp only [Option.map_some', Option.some.injEq, Prod.mk.injEq] at h
              obtain ⟨h, -⟩ := h
              subst h
              obtain ⟨-, -, hr⟩ := setAt?_eq_some _ _ _ _ hrenderers
              refine rebuilds_of_set i s _ pass _ hpass rfl rfl ?_ ?_
              · intro hnone hmem
                simp only at hmem
                rw [hr] at hmem
                rcases mem_of_mem_set _ _ _ _ hmem with hmem | hmem
                · exact absurd hmem (by simp)
                · exact hnone hmem
              · intro hplace hswap renderer hmem info hinfo
                simp only at hmem
                rw [hr] at hmem
                rcases mem_of_mem_set _ _ _ _ hmem with hmem | hmem
                · simp only [Option.some.injEq] at hmem
                  subst hmem
                  exact absurd hinfo (List.not_mem_nil _)
                · exact hplace hswap renderer hmem info hinfo

/-- A defined `addMesh` is a step of the rebuild of the render pass it names. -/
theorem addMesh_rebuilds (s s' : Scene) (addMeshInfo : AddMeshInfo) (i : Nat)
    (hid : 0 ≤ addMeshInfo.renderPassID → addMeshInfo.renderPassID = (i : Int))
    (h : s.addMesh addMeshInfo = some s') : Rebuilds i s s' := by
  rw [addMesh_eq] at h
  rcases Option.eq_none_or_eq_some (at? s.m_sceneRenderPasses addMeshInfo.renderPassID)
    with hnone | ⟨pass0, hpass0⟩
  · rw [hnone] at h
    exact absurd h (by simp)
  have hidn := hid (nonneg_of_at? _ _ _ hpass0)
  rw [hidn, at?_natCast] at h
  split at h
  · exact absurd h (by simp)
  · rename_i pass hpass
    split at h
    · rename_i renderer hslot
      simp only [Option.some.injEq] at h
      subst h
      refine rebuilds_of_set i s _ pass
        { pass with
          renderers := pass.renderers.set addMeshInfo.rendererID.toNat
            (some (renderer.addMesh addMeshInfo)) } hpass ?_ (by simp) ?_ ?_
      · exact eraseRenderPasses_updateDescriptorPool s _
      · intro hnone hmem
        simp only at hmem
        rcases mem_of_mem_set _ _ _ _ hmem with hmem | hmem
        · exact absurd hmem (by simp)
        · exact hnone hmem
      · intro hplace hswap renderer' hmem info hinfo
        simp only at hmem
        rcases mem_of_mem_set _ _ _ _ hmem with hmem | hmem
        · simp only [Option.some.injEq] at hmem
          subst hmem
          simp only [Renderer.addMesh, Renderer.getMeshInfos, List.map_append, List.map_cons,
            List.map_nil, List.mem_append, List.mem_singleton] at hinfo
          rcases hinfo with hinfo | hinfo
          · exact hplace hswap renderer (mem_of_at? _ _ _ hslot) info hinfo
          · rw [hinfo]
            exact hidn
        · exact hplace hswap renderer' hmem info hinfo
    · exact absurd h (by simp)

/-- A step of the rebuild of a render pass keeps everything outside the registry of
render passes, and leaves no null renderer where there was none. -/
theorem rebuilds_keeps (i : Nat) (s t : Scene) (h : Rebuilds i s t) : Keeps s t := by
  obtain ⟨h1, h2, h3, h4⟩ := h
  refine ⟨h1, h2, ?_⟩
  intro hpresent
  unfold renderersPresent
  rw [List.all_eq_true]
  intro pass' hpass'
  obtain ⟨k, hk⟩ := List.mem_iff_getElem?.mp hpass'
  have hall : ∀ pass : SceneRenderPass, none ∉ pass.renderers →
      (pass.renderers.all fun renderer => renderer.isSome) = true := by
    intro pass hnone
    rw [List.all_eq_true]
    intro slot hslot
    cases slot with
    | none => exact absurd hslot hnone
    | some r => rfl
  by_cases hki : k = i
  · subst hki
    obtain ⟨pass, hpass, hkeep, -⟩ := h4 pass' hk
    exact hall pass' (hkeep (not_mem_none_of_renderersPresent s hpresent pass
      (List.mem_iff_getElem?.mpr ⟨k, hpass⟩)))
  · rw [h3 k hki] at hk
    exact hall pass' (not_mem_none_of_renderersPresent s hpresent pass'
      (List.mem_iff_getElem?.mpr ⟨k, hk⟩))

theorem keeps_refl (s : Scene) : Keeps s s := ⟨rfl, rfl, fun h => h⟩

theorem keeps_trans (a b c : Scene) (hab : Keeps a b) (hbc : Keeps b c) : Keeps a c :=
  ⟨hbc.1.trans hab.1, hbc.2.1.trans hab.2.1, fun h => hbc.2.2 (hab.2.2 h)⟩

theorem addRenderer_keeps (build : Build) (s s' : Scene) (createInfo : RendererCreateInfo)
    (handle : Int) (h : s.addRenderer build createInfo = some (s', handle)) : Keeps s s' :=
  rebuilds_keeps createInfo.renderPassID.toNat s s'
    (addRenderer_rebuilds build s s' createInfo handle _
      (fun h0 => (Int.toNat_of_nonneg h0).symm) h)

theorem addMesh_keeps (s s' : Scene) (addMeshInfo : AddMeshInfo)
    (h : s.addMesh addMeshInfo = some s') : Keeps s s' :=
  rebuilds_keeps addMeshInfo.renderPassID.toNat s s'
    (addMesh_rebuilds s s' addMeshInfo _ (fun h0 => (Int.toNat_of_nonneg h0).symm) h)

end Scene

namespace Scene

theorem resizeRendererCreateInfo_step (i : Nat) (acc acc' : List RendererCreateInfo)
    (j : Nat) (slot : Option Renderer)
    (h : resizeRendererCreateInfo i acc (j, slot) = some acc') :
    slot ≠ none ∧ acc'.length = acc.length ∧
    ∀ k ci', acc'[k]? = some ci' →
      (k = j ∧ ci'.renderPassID = (i : Int)) ∨
      (k ≠ j ∧ ∃ ci, acc[k]? = some ci ∧ ci'.renderPassID = ci.renderPassID) := by
  unfold resizeRendererCreateInfo at h
  cases slot with
  | none => exact absurd h (by simp)
  | some renderer =>
    simp only at h
    split at h
    · exact absurd h (by simp)
    · rename_i createInfo hcreateInfo
      simp only [Option.some.injEq] at h
      subst h
      refine ⟨by simp, by simp, ?_⟩
      intro k ci' hk
      rw [List.getElem?_set] at hk hcreateInfo
      rw [List.length_set] at hk
      by_cases hkj : k = j
      · left
        refine ⟨hkj, ?_⟩
        subst hkj
        by_cases hik : i = k
        · subst hik
          simp only [↓reduceIte] at hk hcreateInfo
          split_ifs at hk hcreateInfo with hlt
          simp only [Option.some.injEq] at hk hcreateInfo
          rw [← hk, ← hcreateInfo]
        · rw [if_neg hik, List.getElem?_set] at hk
          simp only [↓reduceIte] at hk
          split_ifs at hk with hlt
          simp only [Option.some.injEq] at hk
          rw [← hk]
      · right
        refine ⟨hkj, ?_⟩
        by_cases hik : i = k
        · subst hik
          simp only [↓reduceIte] at hk
          rw [if_neg (Ne.symm hkj)] at hcreateInfo
          split_ifs at hk with hlt
          simp only [Option.some.injEq] at hk
          exact ⟨createInfo, hcreateInfo, by rw [← hk]⟩
        · rw [if_neg hik, List.getElem?_set, if_neg (Ne.symm hkj)] at hk
          exact ⟨ci', hk, rfl⟩

theorem resizeRendererCreateInfos_enumFrom (i : Nat) (rest : List (Option Renderer)) (j : Nat)
    (acc infos : List RendererCreateInfo)
    (h : forEachState (resizeRendererCreateInfo i) (rest.enumFrom j) acc = some infos)
    (hacc : ∀ k < j, ∀ ci, acc[k]? = some ci → ci.renderPassID = (i : Int)) :
    none ∉ rest ∧ infos.length = acc.length ∧
    ∀ k < j + rest.length, ∀ ci, infos[k]? = some ci → ci.renderPassID = (i : Int) := by
  induction rest generalizing j acc with
  | nil =>
    simp only [List.enumFrom_nil, forEachState, Option.some.injEq] at h
    subst h
    exact ⟨List.not_mem_nil _, rfl, by simpa using hacc⟩
  | cons slot rest ih =>
    simp only [List.enumFrom_cons, forEachState] at h
    split at h
    · exact absurd h (by simp)
    · rename_i acc1 hstep
      obtain ⟨hslot, hlen, hentries⟩ := resizeRendererCreateInfo_step i acc acc1 j slot hstep
      obtain ⟨hnone, hlen', hall⟩ := ih (j + 1) acc1 h (by
        intro k hk ci hci
        rcases hentries k ci hci with ⟨-, hid⟩ | ⟨hkj, ci0, hci0, hid⟩
        · exact hid
        · rw [hid]
          exact hacc k (by omega) ci0 hci0)
      refine ⟨?_, hlen'.trans hlen, ?_⟩
      · intro hmem
        rcases List.mem_cons.mp hmem with hmem | hmem
        · exact hslot hmem.symm
        · exact hnone hmem
      · intro k hk ci hci
        exact hall k (by rw [List.length_cons] at hk; omega) ci hci

/-- The creation descriptors `resize` collects for the render pass `i` all name the
render pass `i`, and there is one for each renderer, none of which is null. -/
theorem resizeRendererCreateInfos_spec (i : Nat) (renderers : List (Option Renderer))
    (infos : List RendererCreateInfo)
    (h : resizeRendererCreateInfos i renderers = some infos) :
    none ∉ renderers ∧ infos.length = renderers.length ∧
    ∀ ci ∈ infos, ci.renderPassID = (i : Int) := by
  unfold resizeRendererCreateInfos at h
  obtain ⟨hnone, hlen, hall⟩ := resizeRendererCreateInfos_enumFrom i renderers 0 _ infos h
    (fun k hk => absurd hk (Nat.not_lt_zero k))
  rw [List.length_replicate] at hlen
  refine ⟨hnone, hlen, ?_⟩
  intro ci hci
  obtain ⟨k, hk⟩ := List.mem_iff_getElem?.mp hci
  have hlt : k < infos.length := (List.getElem?_eq_some_iff.mp hk).1
  exact hall k (by omega) ci hk

/-- The mesh infos `resize` collects are those the renderers keep, with the descriptor
set cleared. -/
theorem resizeAddMeshInfos_mem (renderers : List (Option Renderer))
    (infos : List (List AddMeshInfo)) (h : resizeAddMeshInfos renderers = some infos) :
    ∀ info ∈ infos.flatten, ∃ renderer, some renderer ∈ renderers ∧
      ∃ info0 ∈ renderer.getMeshInfos, info = { info0 with descriptorSet := VK_NULL_HANDLE } := by
  induction renderers generalizing infos with
  | nil =>
    simp only [resizeAddMeshInfos, Option.some.injEq] at h
    subst h
    intro info hinfo
    simp at hinfo
  | cons slot rest ih =>
    cases slot with
    | none => exact absurd h (by simp [resizeAddMeshInfos])
    | some renderer =>
      simp only [resizeAddMeshInfos, Option.map_eq_some'] at h
      obtain ⟨others, hothers, rfl⟩ := h
      intro info hinfo
      rw [List.flatten_cons, List.mem_append] at hinfo
      rcases hinfo with hinfo | hinfo
      · obtain ⟨info0, hinfo0, rfl⟩ := List.mem_map.mp hinfo
        exact ⟨renderer, List.mem_cons_self _ _, info0, hinfo0, rfl⟩
      · obtain ⟨r, hr, rest'⟩ := ih others hothers info hinfo
        exact ⟨r, List.mem_cons_of_mem _ hr, rest'⟩

end Scene

namespace Scene

/-- The forced `addRenderPass` run by `resize` for the render pass `i` replaces the
entry `i` by an entry without renderer and changes nothing else. -/
theorem addRenderPass_forced_swapChain (s s' : Scene) (createInfo : RenderPassCreateInfo)
    (i : Nat) (handle : Int) (hswap : createInfo.outputIsSwapChain = true)
    (h : s.addRenderPass createInfo (i : Int) = some (s', handle)) :
    ∃ stored : SceneRenderPass, stored.renderers = [] ∧ stored.outputIsSwapChain = true ∧
      i < s.m_sceneRenderPasses.length ∧
      s'.m_sceneRenderPasses = s.m_sceneRenderPasses.set i stored ∧
      s' = s.withRenderPasses s'.m_sceneRenderPasses := by
  have hprep := prepareRenderPass_swapChain s createInfo hswap
  rcases Option.eq_none_or_eq_some s.m_swapChainImages[0]? with h0 | ⟨image0, h0⟩
  · rw [h0] at hprep
    rw [addRenderPass_undefined s createInfo _ hprep] at h
    exact absurd h (by simp)
  · rw [h0] at hprep
    obtain ⟨renderPass, -, hhandle, hpasses, hentry, hs'⟩ :=
      addRenderPass_entry s s' createInfo _ (i : Int) handle hprep h
    rw [if_neg (by omega)] at hhandle hpasses
    subst hhandle
    simp only [Int.toNat_ofNat] at hpasses hentry
    refine ⟨_, rfl, hswap, ?_, hpasses, hs'⟩
    have hlt := (List.getElem?_eq_some_iff.mp hentry).1
    rw [hpasses, List.length_set] at hlt
    exact hlt

/-- One iteration of the loop of `resize`: a render pass that is not bound to the swap
chain is left as it is; for one that is, whose renderers keep mesh infos that name it,
only the entry `i`, the counters of the accumulator and the diagnostics change, and the
entry `i` has no null renderer and keeps mesh infos that name it. -/
theorem resizeRenderPass_rebuilds (build : Build) (t t' : Scene) (i : Nat)
    (h : t.resizeRenderPass build i = some t') :
    ∃ pass, t.m_sceneRenderPasses[i]? = some pass ∧
      (pass.outputIsSwapChain = false → t' = t) ∧
      (pass.outputIsSwapChain = true → MeshInfosName (i : Int) pass →
        Rebuilds i t t' ∧ none ∉ pass.renderers ∧
        ∀ pass', t'.m_sceneRenderPasses[i]? = some pass' →
          none ∉ pass'.renderers ∧ InPlaceAt i pass') := by
  unfold resizeRenderPass at h
  split at h
  · exact absurd h (by simp)
  · rename_i pass hpass
    refine ⟨pass, hpass, ?_, ?_⟩
    · intro hoff
      rw [hoff] at h
      simp only [Bool.false_eq_true, ↓reduceIte, Option.some.injEq] at h
      exact h.symm
    · intro hswap hname
      rw [if_pos hswap] at h
      simp only at h
      split at h
      · exact absurd h (by simp)
      · rename_i createInfos hcreateInfos
        split at h
        · exact absurd h (by simp)
        · rename_i meshInfos hmeshInfos
          split at h
          · exact absurd h (by simp)
          · rename_i u handle hadd
            split at h
            · exact absurd h (by simp)
            · rename_i v hrenderers
              obtain ⟨hnone, -, hids⟩ := resizeRendererCreateInfos_spec i _ _ hcreateInfos
              obtain ⟨stored, hstored, -, hlt, hpasses, hu⟩ :=
                addRenderPass_forced_swapChain _ u _ i handle rfl hadd
              simp only [List.set_set, List.length_set] at hpasses hlt
              have htu : Rebuilds i t u := by
                refine rebuilds_of_set i t u pass stored hpass ?_ hpasses ?_ ?_
                · rw [hu]
                  rfl
                · intro _
                  rw [hstored]
                  exact List.not_mem_nil _
                · intro _ _ renderer hmem
                  rw [hstored] at hmem
                  exact absurd hmem (List.not_mem_nil _)
              have huv : Rebuilds i u v :=
                forEachState_rel _ (Rebuilds i) (rebuilds_refl i) (rebuilds_trans i)
                  createInfos (fun a ci b hci hstep => by
                    simp only [Option.map_eq_some'] at hstep
                    obtain ⟨⟨b', handle'⟩, hb, rfl⟩ := hstep
                    exact addRenderer_rebuilds build a b' ci handle' i (fun _ => hids ci hci) hb)
                  u v hrenderers
              have hvt : Rebuilds i v t' :=
                forEachState_rel _ (Rebuilds i) (rebuilds_refl i) (rebuilds_trans i)
                  meshInfos.flatten (fun a info b hinfo hstep => by
                    obtain ⟨renderer, hr, info0, hinfo0, rfl⟩ :=
                      resizeAddMeshInfos_mem _ _ hmeshInfos info hinfo
                    exact addMesh_rebuilds a b { info0 with descriptorSet := VK_NULL_HANDLE } i
                      (fun _ => hname renderer hr info0 hinfo0) hstep)
                  v t' h
              refine ⟨rebuilds_trans i _ _ _ htu (rebuilds_trans i _ _ _ huv hvt), hnone, ?_⟩
              intro pass' hpass'
              obtain ⟨passu, hpassu, hkeep, hkeepPlace⟩ :=
                (rebuilds_trans i _ _ _ huv hvt).2.2.2 pass' hpass'
              rw [hpasses, List.getElem?_set_self hlt] at hpassu
              simp only [Option.some.injEq] at hpassu
              subst hpassu
              refine ⟨hkeep ?_, hkeepPlace ?_⟩
              · rw [hstored]
                exact List.not_mem_nil _
              · intro _ renderer hmem
                rw [hstored] at hmem
                exact absurd hmem (List.not_mem_nil _)

end Scene

namespace Scene

/-- The test `meshInfosInPlace` holds exactly when every render pass bound to the swap
chain keeps only mesh infos that name it. -/
theorem meshInfosInPlace_iff (s : Scene) : s.meshInfosInPlace = true ↔ s.MeshInfosInPlace := by
  unfold meshInfosInPlace MeshInfosInPlace InPlaceAt MeshInfosName
  rw [List.all_eq_true]
  constructor
  · intro h i pass hpass hswap renderer hr info hinfo
    have hentry := h (i, pass) (List.mk_mem_enum_iff_getElem?.mpr hpass)
    simp only [hswap, Bool.not_true, Bool.false_or, List.all_eq_true] at hentry
    have := hentry (some renderer) hr
    simp only [List.all_eq_true, decide_eq_true_eq] at this
    exact this info hinfo
  · rintro h ⟨i, pass⟩ hmem
    have hpass := List.mk_mem_enum_iff_getElem?.mp hmem
    cases hswap : pass.outputIsSwapChain with
    | false => rfl
    | true =>
      simp only [Bool.not_true, Bool.false_or, List.all_eq_true]
      intro slot hslot
      cases slot with
      | none => rfl
      | some renderer =>
        simp only [List.all_eq_true, decide_eq_true_eq]
        exact fun info hinfo => h i pass hpass hswap renderer hslot info hinfo

theorem forEachState_singleton {σ α : Type} (body : σ → α → Option σ) (x : α) (state : σ) :
    forEachState body [x] state = body state x := by
  simp only [forEachState]
  cases body state x <;> rfl

/-- The loop of `resize` over the render passes, stopped before the pass `j`. -/
theorem resizeRenderPasses_prefix (build : Build) (s : Scene)
    (hplace : s.MeshInfosInPlace) (j : Nat) (t : Scene)
    (h : forEachState (resizeRenderPass build) (List.range j) s = some t) :
    RebuiltBefore j s t := by
  induction j generalizing t with
  | zero =>
    simp only [List.range_zero, forEachState, Option.some.injEq] at h
    subst h
    exact ⟨rfl, rfl, fun _ _ => rfl, fun _ _ hk _ => hk, fun k hk => absurd hk (by omega),
      hplace⟩
  | succ j ih =>
    rw [List.range_succ, forEachState_append] at h
    split at h
    · exact absurd h (by simp)
    · rename_i u hu
      rw [forEachState_singleton] at h
      obtain ⟨herase, hlen, hfrom, hoff, hbefore, hin⟩ := ih u hu
      obtain ⟨pass, hpass, hkeep, hrebuild⟩ := resizeRenderPass_rebuilds build u t j h
      have hpass0 : s.m_sceneRenderPasses[j]? = some pass := by
        rw [← hfrom j (le_refl j)]
        exact hpass
      cases hswap : pass.outputIsSwapChain with
      | false =>
        rw [hkeep hswap]
        refine ⟨herase, hlen, fun k hk => hfrom k (by omega), hoff, ?_, hin⟩
        intro k hk p p' hp hp' hps
        by_cases hkj : k = j
        · subst hkj
          rw [hpass0] at hp
          rw [← Option.some.inj hp, hswap] at hps
          exact absurd hps (by simp)
        · exact hbefore k (by omega) p p' hp hp' hps
      | true =>
        obtain ⟨⟨gerase, glen, gothers, -⟩, hnone, hnew⟩ :=
          hrebuild hswap (hplace j pass hpass0 hswap)
        refine ⟨gerase.trans herase, glen.trans hlen, ?_, ?_, ?_, ?_⟩
        · intro k hk
          rw [gothers k (by omega)]
          exact hfrom k (by omega)
        · intro k p hp hpoff
          have hkj : k ≠ j := by
            rintro rfl
            rw [hpass0] at hp
            rw [← Option.some.inj hp, hswap] at hpoff
            exact absurd hpoff (by simp)
          rw [gothers k hkj]
          exact hoff k p hp hpoff
        · intro k hk p p' hp hp' hps
          by_cases hkj : k = j
          · subst hkj
            rw [hpass0] at hp
            rw [← Option.some.inj hp]
            exact ⟨hnone, (hnew p' hp').1⟩
          · rw [gothers k hkj] at hp'
            exact hbefore k (by omega) p p' hp hp' hps
        · intro k p' hp'
          by_cases hkj : k = j
          · subst hkj
            exact (hnew p' hp').2
          · rw [gothers k hkj] at hp'
            exact hin k p' hp'

/-- What the loop of `resize` over the render passes leaves, when it is defined, in a
scene whose mesh infos name the render pass that keeps them. -/
theorem resizeRenderPasses_spec (build : Build) (s t : Scene)
    (hplace : s.MeshInfosInPlace) (h : s.resizeRenderPasses build = some t) :
    RebuiltBefore s.m_sceneRenderPasses.length s t :=
  resizeRenderPasses_prefix build s hplace _ t h

end Scene

namespace Scene

/-- What every defined `record` does: `allocate` is called on the pool, the renderers are
created against it, and either the recording stopped at a null renderer, leaving the
auxiliary streams as they were, or every auxiliary stream had a command buffer. -/
theorem record_cases (build : Build) (driver : Driver) (s s' : Scene)
    (h : s.record build driver = some s') :
    s.replicasPresent = true ∧
    s'.m_descriptorPool = s.m_descriptorPool.allocate ∧
    s'.m_sceneRenderPasses = s.m_sceneRenderPasses.map
      (SceneRenderPass.created driver s.m_descriptorPool.allocate.getDescriptorPool) ∧
    s'.m_sceneCommandBuffers.length = s.m_sceneCommandBuffers.length ∧
    ((s.renderersPresent = false ∧ s'.m_sceneCommandBuffers = s.m_sceneCommandBuffers) ∨
      ∀ stream ∈ s.m_sceneCommandBuffers,
        ∃ commandBuffer, stream.commandBuffer = some commandBuffer) := by
  unfold record at h
  rw [createPipelines_eq] at h
  by_cases hrep : s.replicasPresent = true
  · rw [if_pos hrep] at h
    simp only at h
    split at h
    · exact absurd h (by simp)
    · rename_i buffers hloop
      simp only [Option.some.injEq] at h
      subst h
      refine ⟨hrep, rfl, rfl, rfl, Or.inl ⟨?_, rfl⟩⟩
      obtain ⟨pass, hpass, hnone⟩ := recordSwapChainLoop_returned _ _ _ _ hloop
      cases hr : s.renderersPresent with
      | false => rfl
      | true =>
        exact absurd hnone (not_mem_none_of_renderersPresent _
          ((renderersPresent_created build driver s).trans hr) pass hpass)
    · rename_i buffers hloop
      simp only [Option.map_eq_some'] at h
      obtain ⟨streams, haux, rfl⟩ := h
      obtain ⟨hlen, hstreams⟩ := recordAuxLoop_spec _ _ 0 _ haux
      refine ⟨hrep, rfl, rfl, hlen, Or.inr ?_⟩
      intro stream hstream
      obtain ⟨n, hn⟩ := List.mem_iff_getElem?.mp hstream
      obtain ⟨commandBuffer, -, hcb, -⟩ := hstreams n stream hn
      exact ⟨commandBuffer, hcb⟩
  · rw [if_neg hrep] at h
    exact absurd h (by simp)

end Scene

namespace Scene

theorem resizeRendererCreateInfos_index (i : Nat) (renderers : List (Option Renderer))
    (hne : renderers ≠ []) (hlen : renderers.length ≤ i) :
    resizeRendererCreateInfos i renderers = none := by
  unfold resizeRendererCreateInfos
  cases renderers with
  | nil => exact absurd rfl hne
  | cons slot rest =>
    simp only [List.enum_cons, forEachState]
    have hstep : resizeRendererCreateInfo i
        (List.replicate (slot :: rest).length default) (0, slot) = none := by
      unfold resizeRendererCreateInfo
      cases slot with
      | none => rfl
      | some renderer =>
        simp only
        rw [List.getElem?_eq_none (by simpa using hlen)]
    rw [hstep]

/-- The iteration `i` of the loop of `resize` is undefined when the render pass `i` is
bound to the swap chain and has renderers, but no more than `i`. -/
theorem resizeRenderPass_index (build : Build) (t : Scene) (i : Nat) (pass : SceneRenderPass)
    (hpass : t.m_sceneRenderPasses[i]? = some pass) (hswap : pass.outputIsSwapChain = true)
    (hne : pass.renderers ≠ []) (hlen : pass.renderers.length ≤ i) :
    t.resizeRenderPass build i = none := by
  unfold resizeRenderPass
  rw [hpass]
  simp only [hswap, ↓reduceIte, resizeRendererCreateInfos_index i pass.renderers hne hlen]

theorem forEachState_range_step {σ : Type} (body : σ → Nat → Option σ) (n : Nat)
    (state state' : σ) (h : forEachState body (List.range n) state = some state') (j : Nat)
    (hj : j < n) :
    ∃ u u', forEachState body (List.range j) state = some u ∧ body u j = some u' := by
  induction n generalizing state' with
  | zero => exact absurd hj (Nat.not_lt_zero j)
  | succ n ih =>
    rw [List.range_succ, forEachState_append] at h
    split at h
    · exact absurd h (by simp)
    · rename_i u hu
      rw [forEachState_singleton] at h
      by_cases hjn : j = n
      · subst hjn
        exact ⟨u, state', hu, h⟩
      · exact ih u hu (by omega)

/-- One iteration of the loop of `resize` keeps everything outside the registry of
render passes, the number of render passes and the absence of null renderers. -/
theorem resizeRenderPass_keeps (build : Build) (t t' : Scene) (i : Nat)
    (h : t.resizeRenderPass build i = some t') : Keeps t t' := by
  unfold resizeRenderPass at h
  split at h
  · exact absurd h (by simp)
  · rename_i pass hpass
    cases hswap : pass.outputIsSwapChain with
    | false =>
      rw [hswap] at h
      simp only [Bool.false_eq_true, ↓reduceIte, Option.some.injEq] at h
      exact h ▸ keeps_refl t
    | true =>
      rw [if_pos hswap] at h
      simp only at h
      split at h
      · exact absurd h (by simp)
      · rename_i createInfos hcreateInfos
        split at h
        · exact absurd h (by simp)
        · rename_i meshInfos hmeshInfos
          split at h
          · exact absurd h (by simp)
          · rename_i u handle hadd
            split at h
            · exact absurd h (by simp)
            · rename_i v hrenderers
              obtain ⟨stored, hstored, -, hlt, hpasses, hu⟩ :=
                addRenderPass_forced_swapChain _ u _ i handle rfl hadd
              simp only [List.set_set, List.length_set] at hpasses hlt
              have htu : Rebuilds i t u := by
                refine rebuilds_of_set i t u pass stored hpass ?_ hpasses ?_ ?_
                · rw [hu]
                  rfl
                · intro _
                  rw [hstored]
                  exact List.not_mem_nil _
                · intro _ _ renderer hmem
                  rw [hstored] at hmem
                  exact absurd hmem (List.not_mem_nil _)
              have huv : Keeps u v :=
                forEachState_rel _ Keeps keeps_refl keeps_trans
                  createInfos (fun a ci b _ hstep => by
                    simp only [Option.map_eq_some'] at hstep
                    obtain ⟨⟨b', handle'⟩, hb, rfl⟩ := hstep
                    exact addRenderer_keeps build a b' ci handle' hb)
                  u v hrenderers
              have hvt : Keeps v t' :=
                forEachState_rel _ Keeps keeps_refl keeps_trans
                  meshInfos.flatten (fun a info b _ hstep => addMesh_keeps a b info hstep)
                  v t' h
              exact keeps_trans _ _ _ (rebuilds_keeps i t u htu) (keeps_trans _ _ _ huv hvt)

/-- The loop of `resize` over the render passes keeps everything outside the registry of
render passes, the number of render passes and the absence of null renderers. -/
theorem resizeRenderPasses_keeps (build : Build) (s t : Scene)
    (h : s.resizeRenderPasses build = some t) : Keeps s t :=
  forEachState_rel _ Keeps keeps_refl keeps_trans _
    (fun a i b _ hstep => resizeRenderPass_keeps build a b i hstep) s t h

/-- The two phases of a defined `resize`: the loop over the render passes, started on
the scene with the new presentable images, then `record` on its result with every
auxiliary command buffer discarded. -/
theorem resize_eq_some (build : Build) (driver : Driver) (s s' : Scene)
    (swapChainImages : List Image) (h : s.resize build driver swapChainImages = some s') :
    ∃ t, Scene.resizeRenderPasses build { s with m_swapChainImages := swapChainImages } = some t ∧
      t.resetCommandBuffers.record build driver = some s' := by
  unfold resize at h
  simp only at h
  split at h
  · exact absurd h (by simp)
  · rename_i t ht
    exact ⟨t, ht, h⟩

/-- C13, as it is in the code: `resize` does not complete for every scene. When a render
pass bound to the swap chain has index `i` and has renderers, but no more than `i`, the
loop that collects the creation parameters writes `rendererCreateInfos[i]`, which is out
of range: `resize` is undefined. The mesh infos are assumed to name the render pass that
keeps them, as `addMesh` leaves them. -/
theorem resize_renderer_index_undefined (build : Build) (driver : Driver) (s : Scene)
    (swapChainImages : List Image) (i : Nat) (pass : SceneRenderPass)
    (hplace : s.meshInfosInPlace = true)
    (hpass : s.m_sceneRenderPasses[i]? = some pass) (hswap : pass.outputIsSwapChain = true)
    (hne : pass.renderers ≠ []) (hlen : pass.renderers.length ≤ i) :
    s.resize build driver swapChainImages = none := by
  rcases Option.eq_none_or_eq_some (s.resize build driver swapChainImages) with h | ⟨s', h⟩
  · exact h
  · exfalso
    obtain ⟨t, ht, -⟩ := resize_eq_some build driver s s' swapChainImages h
    have hlt : i < s.m_sceneRenderPasses.length := (List.getElem?_eq_some_iff.mp hpass).1
    obtain ⟨u, u', hu, hstep⟩ := forEachState_range_step _ _ _ _ ht i hlt
    obtain ⟨-, -, hfrom, -, -, -⟩ := resizeRenderPasses_prefix build
      { s with m_swapChainImages := swapChainImages } ((meshInfosInPlace_iff s).mp hplace) i u hu
    rw [resizeRenderPass_index build u i pass ((hfrom i (le_refl i)).trans hpass) hswap hne
      hlen] at hstep
    exact absurd hstep (by simp)

/-- C14, as it is in the code: when `resize` returns, in a scene whose mesh infos name
the render pass that keeps them (as `addMesh` leaves them, and `addText` does not), every
render pass that is not bound to the swap
chain is at its index with the same pass object, outputs, stream index, name and hooks,
and with the same renderers in the same order, on which the `record` run by `resize` has
called `create` again: their creation parameters and mesh infos are as before. -/
theorem resize_offscreen_untouched (build : Build) (driver : Driver) (s s' : Scene)
    (swapChainImages : List Image) (k : Nat) (pass : SceneRenderPass)
    (hplace : s.meshInfosInPlace = true)
    (h : s.resize build driver swapChainImages = some s')
    (hpass : s.m_sceneRenderPasses[k]? = some pass)
    (hoffscreen : pass.outputIsSwapChain = false) :
    s'.m_sceneRenderPasses.length = s.m_sceneRenderPasses.length ∧
    ∃ pass', s'.m_sceneRenderPasses[k]? = some pass' ∧
      pass' = { pass with
        renderers := pass.renderers.map fun renderer =>
          renderer.map (Renderer.create driver s'.m_descriptorPool.getDescriptorPool) } ∧
      pass'.renderers.length = pass.renderers.length ∧
      pass'.renderers.map (Option.map fun renderer =>
          (renderer.getRendererCreateInfoStructure, renderer.getMeshInfos)) =
        pass.renderers.map (Option.map fun renderer =>
          (renderer.getRendererCreateInfoStructure, renderer.getMeshInfos)) := by
  obtain ⟨t, ht, hrecord⟩ := resize_eq_some build driver s s' swapChainImages h
  obtain ⟨-, hlen, -, hoff, -, -⟩ := resizeRenderPasses_spec build
    { s with m_swapChainImages := swapChainImages } t ((meshInfosInPlace_iff s).mp hplace) ht
  obtain ⟨-, hpool, hpasses, -, -⟩ := record_cases build driver _ s' hrecord
  have hk : t.m_sceneRenderPasses[k]? = some pass := hoff k pass hpass hoffscreen
  refine ⟨?_, SceneRenderPass.created driver s'.m_descriptorPool.getDescriptorPool pass,
    ?_, ?_, ?_, ?_⟩
  · rw [hpasses, List.length_map]
    exact hlen
  · rw [hpasses, List.getElem?_map, hpool]
    change Option.map _ (t.m_sceneRenderPasses[k]?) = _
    rw [hk]
    rfl
  · rfl
  · simp [SceneRenderPass.created]
  · simp only [SceneRenderPass.created, List.map_map]
    apply List.map_congr_left
    intro slot _
    cases slot with
    | none => rfl
    | some renderer =>
      simp [Renderer.create, Renderer.getRendererCreateInfoStructure, Renderer.getMeshInfos,
        List.map_map, Function.comp_def]

/-- C15, as it is in the code: `resize` discards the command buffer of every auxiliary
stream and the `record` it runs does not make new ones. In a scene with at least one
auxiliary stream, `resize` is undefined when no renderer is null (`record` begins
recording on the discarded command buffer of stream 0); when it returns, the recording
stopped at a null renderer and no auxiliary stream has a command buffer. -/
theorem resize_streams_not_regenerated (build : Build) (driver : Driver) (s : Scene)
    (swapChainImages : List Image) (hstreams : s.m_sceneCommandBuffers ≠ []) :
    (s.renderersPresent = true → s.resize build driver swapChainImages = none) ∧
    ∀ s', s.resize build driver swapChainImages = some s' →
      s'.m_sceneCommandBuffers.length = s.m_sceneCommandBuffers.length ∧
      ∀ stream ∈ s'.m_sceneCommandBuffers, stream.commandBuffer = none := by
  have key : ∀ s', s.resize build driver swapChainImages = some s' →
      s.renderersPresent = false ∧
      s'.m_sceneCommandBuffers.length = s.m_sceneCommandBuffers.length ∧
      ∀ stream ∈ s'.m_sceneCommandBuffers, stream.commandBuffer = none := by
    intro s' h
    obtain ⟨t, ht, hrecord⟩ := resize_eq_some build driver s s' swapChainImages h
    obtain ⟨herase, -, hpresent⟩ := resizeRenderPasses_keeps build _ t ht
    have hsame : t.m_sceneCommandBuffers = s.m_sceneCommandBuffers := by
      have := congrArg Scene.m_sceneCommandBuffers herase
      exact this
    have hreset : t.resetCommandBuffers.m_sceneCommandBuffers =
        s.m_sceneCommandBuffers.map fun stream => { stream with commandBuffer := none } := by
      rw [← hsame]
      rfl
    obtain ⟨-, -, -, hlen, hcases⟩ := record_cases build driver _ s' hrecord
    rw [hreset, List.length_map] at hlen
    rcases hcases with ⟨hnull, hkept⟩ | hall
    · refine ⟨?_, hlen, ?_⟩
      · cases hp : s.renderersPresent with
        | false => rfl
        | true =>
          have : t.resetCommandBuffers.renderersPresent = true := hpresent hp
          rw [this] at hnull
          exact absurd hnull (by simp)
      · intro stream hstream
        rw [hkept, hreset] at hstream
        obtain ⟨stream0, -, rfl⟩ := List.mem_map.mp hstream
        rfl
    · exfalso
      obtain ⟨stream0, hstream0⟩ := List.exists_mem_of_ne_nil _ hstreams
      obtain ⟨commandBuffer, hcb⟩ := hall { stream0 with commandBuffer := none } (by
        rw [hreset]
        exact List.mem_map.mpr ⟨stream0, hstream0, rfl⟩)
      exact absurd hcb (by simp)
  refine ⟨?_, fun s' h => (key s' h).2⟩
  intro hpresent
  rcases Option.eq_none_or_eq_some (s.resize build driver swapChainImages) with h | ⟨s', h⟩
  · exact h
  · rw [(key s' h).1] at hpresent
    exact absurd hpresent (by simp)

end Scene

namespace Example

/-- C13 on `twoSwapChainPassScene`: the render pass 1 is bound to the swap chain and has
one renderer, so `resize` writes `rendererCreateInfos[1]` in a vector of one element. -/
theorem resize_renderer_index_undefined_witness :
    twoSwapChainPassScene.meshInfosInPlace = true ∧
    twoSwapChainPassScene.resize ⟨true, false⟩ driver resizedImages = none :=
  ⟨rfl, Scene.resize_renderer_index_undefined ⟨true, false⟩ driver twoSwapChainPassScene
    resizedImages 1 (twoSwapChainPassScene.m_sceneRenderPasses[1]?.getD default) rfl (by rfl)
    (by rfl) (by decide) (by decide)⟩

/-- C13, as stated, fails: the registrations that build `twoSwapChainPassScene` are
defined and leave two render passes bound to the swap chain, without renderer and with
one renderer; `record` is defined on it; `resize` is not. -/
theorem resize_second_pass_undefined :
    (twoSwapChainPassScene.m_sceneRenderPasses.map fun pass =>
      (pass.outputIsSwapChain, pass.renderers.length)) = [(true, 0), (true, 1)] ∧
    (twoSwapChainPassScene.record ⟨true, false⟩ driver).isSome = true ∧
    twoSwapChainPassScene.resize ⟨true, false⟩ driver resizedImages = none ∧
    twoSwapChainPassScene.resize ⟨false, true⟩ driver resizedImages = none :=
  ⟨rfl, rfl, rfl, rfl⟩

set_option maxRecDepth 100000 in
/-- C14 on `offscreenSecondScene`: after `resize` the offscreen render pass 1 has its
pass object, outputs, stream index, name and hooks, and its renderer with its mesh. -/
theorem resize_offscreen_untouched_witness :
    ∃ s' pass pass', offscreenSecondScene.resize ⟨true, false⟩ driver resizedImages = some s' ∧
      offscreenSecondScene.m_sceneRenderPasses[1]? = some pass ∧
      pass.outputIsSwapChain = false ∧ pass.name = "shadow" ∧ pass.renderers.length = 1 ∧
      s'.m_sceneRenderPasses[1]? = some pass' ∧
      pass' = { pass with
        renderers := pass.renderers.map fun renderer =>
          renderer.map (Renderer.create driver s'.m_descriptorPool.getDescriptorPool) } ∧
      pass'.renderers.map (Option.map fun renderer =>
          (renderer.getRendererCreateInfoStructure, renderer.getMeshInfos)) =
        pass.renderers.map (Option.map fun renderer =>
          (renderer.getRendererCreateInfoStructure, renderer.getMeshInfos)) := by
  obtain ⟨s', hs'⟩ : ∃ s', offscreenSecondScene.resize ⟨true, false⟩ driver resizedImages =
      some s' := ⟨_, rfl⟩
  obtain ⟨-, pass', hpass', heq, -, hsame⟩ :=
    Scene.resize_offscreen_untouched ⟨true, false⟩ driver offscreenSecondScene s' resizedImages 1
      (offscreenSecondScene.m_sceneRenderPasses[1]?.getD default) rfl hs' (by rfl) (by rfl)
  exact ⟨s', _, pass', hs', rfl, rfl, rfl, rfl, hpass', heq, hsame⟩

/-- C15 on `oneStreamScene`, which has one auxiliary graphics stream and no pass. -/
theorem resize_streams_not_regenerated_witness :
    oneStreamScene.m_sceneCommandBuffers.length = 1 ∧
    oneStreamScene.resize ⟨true, false⟩ driver resizedImages = none :=
  ⟨rfl, (Scene.resize_streams_not_regenerated ⟨true, false⟩ driver oneStreamScene resizedImages
    (by decide)).1 rfl⟩

/-- C15, as stated, fails: `twoStreamScene` has two auxiliary streams, each recorded with
a command buffer; `resize` on it is undefined, and so it is after `record` on the scene
`renderSecondScene`, whose stream 0 has a compute pass and a render pass. -/
theorem resize_recorded_streams_undefined :
    (twoStreamScene.m_sceneCommandBuffers.map fun stream => stream.commandBuffer.isSome) =
      [true, true] ∧
    twoStreamScene.resize ⟨true, false⟩ driver resizedImages = none ∧
    (renderSecondScene.record ⟨true, false⟩ driver).isSome = true ∧
    ((renderSecondScene.record ⟨true, false⟩ driver).bind fun s =>
      s.resize ⟨true, false⟩ driver resizedImages) = none :=
  ⟨rfl, rfl, rfl, rfl⟩

end Example

namespace Scene

theorem addComputePass_result (s s' : Scene) (createInfo : ComputePassCreateInfo)
    (handle : Int) (h : s.addComputePass createInfo = some (s', handle)) :
    ∃ pass, pass.commandBufferID = createInfo.commandBufferID ∧
      s'.m_sceneComputePasses = s.m_sceneComputePasses ++ [pass] ∧
      s'.m_sceneRenderPasses = s.m_sceneRenderPasses ∧
      s'.m_sceneRayTracingPasses = s.m_sceneRayTracingPasses ∧
      s'.m_sceneTransfers = s.m_sceneTransfers ∧
      s'.m_sceneCommandBuffers = s.m_sceneCommandBuffers := by
  cases hswap : createInfo.outputIsSwapChain with
  | false =>
    obtain ⟨t, ht, he⟩ := s.addComputePass_offscreen createInfo hswap
    rw [ht] at h
    simp only [Option.some.injEq, Prod.mk.injEq] at h
    obtain ⟨rfl, rfl⟩ := h
    obtain ⟨h1, h2, h3, h4, h5⟩ := registries_of_withComputePasses he
    exact ⟨_, rfl, h1, h2, h3, h4, h5⟩
  | true =>
    rcases Option.eq_none_or_eq_some (s.m_swapChainImages[0]?) with h0 | ⟨image0, h0⟩
    · rw [addComputePass_swapChain_noImage s createInfo hswap (by simpa using h0)] at h
      exact absurd h (by simp)
    · obtain ⟨t, ht, he⟩ := s.addComputePass_swapChain createInfo hswap image0 h0
      rw [ht] at h
      simp only [Option.some.injEq, Prod.mk.injEq] at h
      obtain ⟨rfl, rfl⟩ := h
      obtain ⟨h1, h2, h3, h4, h5⟩ := registries_of_withComputePasses he
      exact ⟨_, rfl, h1, h2, h3, h4, h5⟩

theorem addRayTracingPass_result (s s' : Scene) (rayTracingPassAddInfo : RayTracingPassAddInfo)
    (handle : Int) (h : s.addRayTracingPass rayTracingPassAddInfo = some (s', handle)) :
    ∃ pass, pass.commandBufferID = rayTracingPassAddInfo.commandBufferID ∧
      s'.m_sceneRayTracingPasses = s.m_sceneRayTracingPasses ++ [pass] ∧
      s'.m_sceneRenderPasses = s.m_sceneRenderPasses ∧
      s'.m_sceneComputePasses = s.m_sceneComputePasses ∧
      s'.m_sceneTransfers = s.m_sceneTransfers ∧
      s'.m_sceneCommandBuffers = s.m_sceneCommandBuffers := by
  cases hswap : rayTracingPassAddInfo.outputIsSwapChain with
  | false =>
    obtain ⟨t, ht, he⟩ := s.addRayTracingPass_offscreen rayTracingPassAddInfo hswap
    rw [ht] at h
    simp only [Option.some.injEq, Prod.mk.injEq] at h
    obtain ⟨rfl, rfl⟩ := h
    obtain ⟨h1, h2, h3, h4, h5⟩ := registries_of_withRayTracingPasses he
    exact ⟨_, rfl, h1, h2, h3, h4, h5⟩
  | true =>
    rcases Option.eq_none_or_eq_some (s.m_swapChainImages[0]?) with h0 | ⟨image0, h0⟩
    · rw [addRayTracingPass_swapChain_noImage s rayTracingPassAddInfo hswap
        (by simpa using h0)] at h
      exact absurd h (by simp)
    · obtain ⟨t, ht, he⟩ := s.addRayTracingPass_swapChain rayTracingPassAddInfo hswap image0 h0
      rw [ht] at h
      simp only [Option.some.injEq, Prod.mk.injEq] at h
      obtain ⟨rfl, rfl⟩ := h
      obtain ⟨h1, h2, h3, h4, h5⟩ := registries_of_withRayTracingPasses he
      exact ⟨_, rfl, h1, h2, h3, h4, h5⟩

theorem addTransfer_result (s : Scene) (transferAddInfo : TransferAddInfo) :
    ∃ transfer, transfer.commandBufferID = transferAddInfo.commandBufferID ∧
      (s.addTransfer transferAddInfo).1.m_sceneTransfers = s.m_sceneTransfers ++ [transfer] ∧
      (s.addTransfer transferAddInfo).1.m_sceneRenderPasses = s.m_sceneRenderPasses ∧
      (s.addTransfer transferAddInfo).1.m_sceneComputePasses = s.m_sceneComputePasses ∧
      (s.addTransfer transferAddInfo).1.m_sceneRayTracingPasses = s.m_sceneRayTracingPasses ∧
      (s.addTransfer transferAddInfo).1.m_sceneCommandBuffers = s.m_sceneCommandBuffers := by
  refine ⟨{ commandBufferID := transferAddInfo.commandBufferID
            outputIsSwapChain := transferAddInfo.outputIsSwapChain
            origin := transferAddInfo.origin
            destination := transferAddInfo.destination
            beforeRecord := transferAddInfo.beforeRecord
            dataForBeforeRecordCallback := transferAddInfo.dataForBeforeRecordCallback
            afterRecord := transferAddInfo.afterRecord
            dataForAfterRecordCallback := transferAddInfo.dataForAfterRecordCallback },
    rfl, ?_, rfl, rfl, rfl, rfl⟩
  simp only [addTransfer, backTransfer, modifyBack_append_singleton]

theorem streamIndexValid_congr {s t : Scene}
    (h : t.m_sceneCommandBuffers = s.m_sceneCommandBuffers) (commandBufferID : Int) :
    t.StreamIndexValid commandBufferID ↔ s.StreamIndexValid commandBufferID := by
  unfold StreamIndexValid
  rw [h]

/-- C17, amended: a registration stores the command-stream index of its descriptor as it
is, without a check, so any index is accepted into the registry. The indices stored all
name a stream (the sentinel `-1` or an auxiliary stream that exists) as long as every
registration is given such an index: each registration of a pass with such an index, and
each `addCommandBuffer`, keeps that property of the four registries. -/
theorem registration_stores_stream_index (s : Scene) :
    (∀ (createInfo : RenderPassCreateInfo) (forceID : Int) (s' : Scene) (handle : Int),
      s.addRenderPass createInfo forceID = some (s', handle) → handle ≠ -1 →
      (∃ pass, s'.m_sceneRenderPasses[handle.toNat]? = some pass ∧
        pass.commandBufferID = createInfo.commandBufferID) ∧
      (s.StreamIndicesValid → s.StreamIndexValid createInfo.commandBufferID →
        s'.StreamIndicesValid)) ∧
    (∀ (createInfo : ComputePassCreateInfo) (s' : Scene) (handle : Int),
      s.addComputePass createInfo = some (s', handle) →
      (∃ pass, s'.m_sceneComputePasses = s.m_sceneComputePasses ++ [pass] ∧
        pass.commandBufferID = createInfo.commandBufferID) ∧
      (s.StreamIndicesValid → s.StreamIndexValid createInfo.commandBufferID →
        s'.StreamIndicesValid)) ∧
    (∀ (rayTracingPassAddInfo : RayTracingPassAddInfo) (s' : Scene) (handle : Int),
      s.addRayTracingPass rayTracingPassAddInfo = some (s', handle) →
      (∃ pass, s'.m_sceneRayTracingPasses = s.m_sceneRayTracingPasses ++ [pass] ∧
        pass.commandBufferID = rayTracingPassAddInfo.commandBufferID) ∧
      (s.StreamIndicesValid → s.StreamIndexValid rayTracingPassAddInfo.commandBufferID →
        s'.StreamIndicesValid)) ∧
    (∀ (transferAddInfo : TransferAddInfo),
      (∃ transfer, (s.addTransfer transferAddInfo).1.m_sceneTransfers =
          s.m_sceneTransfers ++ [transfer] ∧
        transfer.commandBufferID = transferAddInfo.commandBufferID) ∧
      (s.StreamIndicesValid → s.StreamIndexValid transferAddInfo.commandBufferID →
        (s.addTransfer transferAddInfo).1.StreamIndicesValid)) ∧
    (∀ (createInfo : CommandBufferCreateInfo),
      s.StreamIndicesValid → (s.addCommandBuffer createInfo).1.StreamIndicesValid) := by
  refine ⟨?_, ?_, ?_, ?_, ?_⟩
  · intro createInfo forceID s' handle h hok
    rcases s.prepareRenderPass_cases createInfo with hp | hp | ⟨prepared, hp⟩
    · rw [addRenderPass_undefined s createInfo forceID hp] at h
      exact absurd h (by simp)
    · rw [addRenderPass_error s createInfo forceID hp] at h
      simp only [Option.some.injEq, Prod.mk.injEq] at h
      exact absurd h.2.symm hok
    · obtain ⟨renderPass, -, -, hpasses, hentry, hs'⟩ :=
        addRenderPass_entry s s' createInfo prepared forceID handle hp h
      obtain ⟨outputs, extent, rfl⟩ := prepareRenderPass_some s createInfo prepared hp
      refine ⟨⟨_, hentry, rfl⟩, ?_⟩
      intro hvalid hid
      have hstreams : s'.m_sceneCommandBuffers = s.m_sceneCommandBuffers := by
        rw [hs']
        rfl
      have h2 : s'.m_sceneComputePasses = s.m_sceneComputePasses := by rw [hs']; rfl
      have h3 : s'.m_sceneRayTracingPasses = s.m_sceneRayTracingPasses := by rw [hs']; rfl
      have h4 : s'.m_sceneTransfers = s.m_sceneTransfers := by rw [hs']; rfl
      obtain ⟨v1, v2, v3, v4⟩ := hvalid
      refine ⟨?_, ?_, ?_, ?_⟩
      · intro pass hpass
        rw [streamIndexValid_congr hstreams]
        rw [hpasses] at hpass
        by_cases hforce : forceID < 0
        · rw [if_pos hforce] at hpass
          rcases List.mem_append.mp hpass with hm | hm
          · exact v1 pass hm
          · rw [List.mem_singleton] at hm
            rw [hm]
            exact hid
        · rw [if_neg hforce] at hpass
          rcases List.mem_or_eq_of_mem_set hpass with hm | hm
          · exact v1 pass hm
          · rw [hm]
            exact hid
      · intro pass hpass
        rw [streamIndexValid_congr hstreams]
        exact v2 pass (h2 ▸ hpass)
      · intro pass hpass
        rw [streamIndexValid_congr hstreams]
        exact v3 pass (h3 ▸ hpass)
      · intro pass hpass
        rw [streamIndexValid_congr hstreams]
        exact v4 pass (h4 ▸ hpass)
  · intro createInfo s' handle h
    obtain ⟨entry, hid, h1, h2, h3, h4, h5⟩ := addComputePass_result s s' createInfo handle h
    refine ⟨⟨entry, h1, hid⟩, ?_⟩
    rintro ⟨v1, v2, v3, v4⟩ hvalid
    refine ⟨?_, ?_, ?_, ?_⟩
    · intro pass hpass
      rw [streamIndexValid_congr h5]
      exact v1 pass (h2 ▸ hpass)
    · intro pass hpass
      rw [streamIndexValid_congr h5]
      rw [h1] at hpass
      rcases List.mem_append.mp hpass with hm | hm
      · exact v2 pass hm
      · rw [List.mem_singleton] at hm
        rw [hm, hid]
        exact hvalid
    · intro pass hpass
      rw [streamIndexValid_congr h5]
      exact v3 pass (h3 ▸ hpass)
    · intro pass hpass
      rw [streamIndexValid_congr h5]
      exact v4 pass (h4 ▸ hpass)
  · intro rayTracingPassAddInfo s' handle h
    obtain ⟨entry, hid, h1, h2, h3, h4, h5⟩ :=
      addRayTracingPass_result s s' rayTracingPassAddInfo handle h
    refine ⟨⟨entry, h1, hid⟩, ?_⟩
    rintro ⟨v1, v2, v3, v4⟩ hvalid
    refine ⟨?_, ?_, ?_, ?_⟩
    · intro pass hpass
      rw [streamIndexValid_congr h5]
      exact v1 pass (h2 ▸ hpass)
    · intro pass hpass
      rw [streamIndexValid_congr h5]
      exact v2 pass (h3 ▸ hpass)
    · intro pass hpass
      rw [streamIndexValid_congr h5]
      rw [h1] at hpass
      rcases List.mem_append.mp hpass with hm | hm
      · exact v3 pass hm
      · rw [List.mem_singleton] at hm
        rw [hm, hid]
        exact hvalid
    · intro pass hpass
      rw [streamIndexValid_congr h5]
      exact v4 pass (h4 ▸ hpass)
  · intro transferAddInfo
    obtain ⟨entry, hid, h1, h2, h3, h4, h5⟩ := addTransfer_result s transferAddInfo
    refine ⟨⟨entry, h1, hid⟩, ?_⟩
    rintro ⟨v1, v2, v3, v4⟩ hvalid
    refine ⟨?_, ?_, ?_, ?_⟩
    · intro pass hpass
      rw [streamIndexValid_congr h5]
      exact v1 pass (h2 ▸ hpass)
    · intro pass hpass
      rw [streamIndexValid_congr h5]
      exact v2 pass (h3 ▸ hpass)
    · intro pass hpass
      rw [streamIndexValid_congr h5]
      exact v3 pass (h4 ▸ hpass)
    · intro pass hpass
      rw [streamIndexValid_congr h5]
      rw [h1] at hpass
      rcases List.mem_append.mp hpass with hm | hm
      · exact v4 pass hm
      · rw [List.mem_singleton] at hm
        rw [hm, hid]
        exact hvalid
  · intro createInfo
    obtain ⟨-, he⟩ := addCommandBuffer_eq s createInfo
    generalize (s.addCommandBuffer createInfo).1 = t at he
    have h1 : t.m_sceneRenderPasses = s.m_sceneRenderPasses := by
      simpa using congrArg Scene.m_sceneRenderPasses he
    have h2 : t.m_sceneComputePasses = s.m_sceneComputePasses := by
      simpa using congrArg Scene.m_sceneComputePasses he
    have h3 : t.m_sceneRayTracingPasses = s.m_sceneRayTracingPasses := by
      simpa using congrArg Scene.m_sceneRayTracingPasses he
    have h4 : t.m_sceneTransfers = s.m_sceneTransfers := by
      simpa using congrArg Scene.m_sceneTransfers he
    have h5 : t.m_sceneCommandBuffers =
        s.m_sceneCommandBuffers ++ [s.newStream createInfo] := by
      simpa using congrArg Scene.m_sceneCommandBuffers he
    have hmono : ∀ id, s.StreamIndexValid id → t.StreamIndexValid id := by
      intro id hid
      unfold StreamIndexValid at hid ⊢
      rw [h5, List.length_append, List.length_singleton]
      push_cast
      omega
    rintro ⟨v1, v2, v3, v4⟩
    exact ⟨fun p hp => hmono _ (v1 p (h1 ▸ hp)), fun p hp => hmono _ (v2 p (h2 ▸ hp)),
      fun p hp => hmono _ (v3 p (h3 ▸ hp)), fun p hp => hmono _ (v4 p (h4 ▸ hp))⟩

end Scene

namespace Example

/-- C17, as stated, fails: on the scene with no auxiliary stream a transfer and a compute
pass registered with the command-stream index 5 are accepted, and the index is stored. -/
theorem registration_accepts_any_stream_index :
    emptyScene.m_sceneCommandBuffers = [] ∧
    (emptyScene.addTransfer { commandBufferID := 5 }).1.m_sceneTransfers.map
      (fun transfer => transfer.commandBufferID) = [5] ∧
    (emptyScene.addComputePass { commandBufferID := 5 }).map
      (fun result => (result.1.m_sceneComputePasses.map fun pass => pass.commandBufferID,
        result.2)) = some ([5], 0) :=
  ⟨rfl, rfl, rfl⟩

/-- C17, amended, on the scene with one auxiliary stream: a compute pass registered on
stream 0 is stored with that index and the indices stored all name a stream. -/
theorem registration_stores_stream_index_witness :
    ∃ s' handle pass, oneStreamScene.addComputePass { commandBufferID := 0 } =
        some (s', handle) ∧
      s'.m_sceneComputePasses = oneStreamScene.m_sceneComputePasses ++ [pass] ∧
      pass.commandBufferID = 0 ∧ s'.StreamIndicesValid := by
  obtain ⟨s', hs'⟩ : ∃ s', oneStreamScene.addComputePass { commandBufferID := 0 } =
      some (s', 0) := ⟨_, rfl⟩
  obtain ⟨⟨pass, h1, h2⟩, hvalid⟩ :=
    (Scene.registration_stores_stream_index oneStreamScene).2.1 { commandBufferID := 0 } s' 0
      hs'
  refine ⟨s', 0, pass, hs', h1, h2, hvalid ?_ ?_⟩
  · exact ⟨fun _ h => absurd h (List.not_mem_nil _), fun _ h => absurd h (List.not_mem_nil _),
      fun _ h => absurd h (List.not_mem_nil _), fun _ h => absurd h (List.not_mem_nil _)⟩
  · exact Or.inr ⟨by decide, by decide⟩

end Example

/-! ## The mesh infos name the render pass that keeps them -/

namespace Scene

theorem meshInfosInPlace_of_passes (s t : Scene)
    (h : t.m_sceneRenderPasses = s.m_sceneRenderPasses) (hplace : s.MeshInfosInPlace) :
    t.MeshInfosInPlace := by
  intro i pass hpass
  rw [h] at hpass
  exact hplace i pass hpass

theorem rebuilds_inPlace (i : Nat) (s t : Scene) (h : Rebuilds i s t)
    (hplace : s.MeshInfosInPlace) : t.MeshInfosInPlace := by
  obtain ⟨-, -, hothers, hentry⟩ := h
  intro k pass' hpass'
  by_cases hki : k = i
  · subst hki
    obtain ⟨pass, hpass, -, hkeep⟩ := hentry pass' hpass'
    exact hkeep (hplace k pass hpass)
  · rw [hothers k hki] at hpass'
    exact hplace k pass' hpass'

/-- The mesh infos kept by the renderers of the render passes bound to the swap chain
name the render pass that keeps them in the scene with nothing registered, and every
registration, `record` and `resize` keep it so: `addMesh` puts a mesh info in the render
pass it names. -/
theorem meshInfosInPlace_kept (build : Build) (driver : Driver) (s : Scene)
    (hplace : s.MeshInfosInPlace) :
    (∀ createInfo forceID s' handle, s.addRenderPass createInfo forceID = some (s', handle) →
      s'.MeshInfosInPlace) ∧
    (∀ createInfo s' handle, s.addRenderer build createInfo = some (s', handle) →
      s'.MeshInfosInPlace) ∧
    (∀ addMeshInfo s', s.addMesh addMeshInfo = some s' → s'.MeshInfosInPlace) ∧
    (∀ createInfo s' handle, s.addComputePass createInfo = some (s', handle) →
      s'.MeshInfosInPlace) ∧
    (∀ rayTracingPassAddInfo s' handle,
      s.addRayTracingPass rayTracingPassAddInfo = some (s', handle) → s'.MeshInfosInPlace) ∧
    (∀ transferAddInfo, (s.addTransfer transferAddInfo).1.MeshInfosInPlace) ∧
    (∀ createInfo, (s.addCommandBuffer createInfo).1.MeshInfosInPlace) ∧
    (∀ s', s.record build driver = some s' → s'.MeshInfosInPlace) ∧
    (∀ swapChainImages s', s.resize build driver swapChainImages = some s' →
      s'.MeshInfosInPlace) := by
  have hrecord : ∀ t s' : Scene, t.MeshInfosInPlace → t.record build driver = some s' →
      s'.MeshInfosInPlace := by
    intro t s' ht h
    obtain ⟨-, -, hpasses, -, -⟩ := record_cases build driver t s' h
    intro k pass' hpass'
    rw [hpasses, List.getElem?_map] at hpass'
    rcases Option.eq_none_or_eq_some t.m_sceneRenderPasses[k]? with hk | ⟨pass, hk⟩
    · rw [hk] at hpass'
      exact absurd hpass' (by simp)
    · rw [hk] at hpass'
      simp only [Option.map_some', Option.some.injEq] at hpass'
      subst hpass'
      intro hswap renderer hmem info hinfo
      simp only [SceneRenderPass.created, List.mem_map] at hmem
      obtain ⟨slot, hslot, heq⟩ := hmem
      cases slot with
      | none => exact absurd heq (by simp)
      | some renderer0 =>
        simp only [Option.map_some', Option.some.injEq] at heq
        subst heq
        refine ht k pass hk hswap renderer0 hslot info ?_
        simpa [Renderer.create, Renderer.getMeshInfos, List.map_map, Function.comp_def]
          using hinfo
  refine ⟨?_, ?_, ?_, ?_, ?_, ?_, ?_, fun s' h => hrecord s s' hplace h, ?_⟩
  · intro createInfo forceID s' handle h
    rcases s.prepareRenderPass_cases createInfo with hp | hp | ⟨prepared, hp⟩
    · rw [addRenderPass_undefined s createInfo forceID hp] at h
      exact absurd h (by simp)
    · rw [addRenderPass_error s createInfo forceID hp] at h
      simp only [Option.some.injEq, Prod.mk.injEq] at h
      exact meshInfosInPlace_of_passes s s' (by rw [← h.1]; rfl) hplace
    · obtain ⟨renderPass, -, -, hpasses, -, -⟩ :=
        addRenderPass_entry s s' createInfo prepared forceID handle hp h
      have hstored : ∀ k, InPlaceAt k (storedEntry prepared renderPass) :=
        fun k _ renderer hmem => absurd hmem (List.not_mem_nil _)
      intro k pass hpass
      rw [hpasses] at hpass
      split_ifs at hpass with hforce
      · rcases Nat.lt_or_ge k s.m_sceneRenderPasses.length with hlt | hge
        · rw [List.getElem?_append_left hlt] at hpass
          exact hplace k pass hpass
        · rw [List.getElem?_append_right hge] at hpass
          have hmem : pass ∈ [storedEntry prepared renderPass] :=
            List.mem_iff_getElem?.mpr ⟨_, hpass⟩
          rw [List.mem_singleton.mp hmem]
          exact hstored k
      · rw [List.getElem?_set] at hpass
        split_ifs at hpass with hk hlt
        · rw [← Option.some.inj hpass]
          exact hstored k
        · exact hplace k pass hpass
  · intro createInfo s' handle h
    exact rebuilds_inPlace _ s s'
      (addRenderer_rebuilds build s s' createInfo handle createInfo.renderPassID.toNat
        (fun h0 => (Int.toNat_of_nonneg h0).symm) h) hplace
  · intro addMeshInfo s' h
    exact rebuilds_inPlace _ s s'
      (addMesh_rebuilds s s' addMeshInfo addMeshInfo.renderPassID.toNat
        (fun h0 => (Int.toNat_of_nonneg h0).symm) h) hplace
  · intro createInfo s' handle h
    obtain ⟨_, -, -, hpasses, -⟩ := addComputePass_result s s' createInfo handle h
    exact meshInfosInPlace_of_passes s s' hpasses hplace
  · intro rayTracingPassAddInfo s' handle h
    obtain ⟨_, -, -, hpasses, -⟩ := addRayTracingPass_result s s' rayTracingPassAddInfo handle h
    exact meshInfosInPlace_of_passes s s' hpasses hplace
  · intro transferAddInfo
    obtain ⟨_, -, -, hpasses, -⟩ := addTransfer_result s transferAddInfo
    exact meshInfosInPlace_of_passes s _ hpasses hplace
  · intro createInfo
    have h := congrArg Scene.m_sceneRenderPasses (addCommandBuffer_eq s createInfo).2
    exact meshInfosInPlace_of_passes s _ h hplace
  · intro swapChainImages s' h
    obtain ⟨t, ht, hrecord'⟩ := resize_eq_some build driver s s' swapChainImages h
    obtain ⟨-, -, -, -, -, hin⟩ := resizeRenderPasses_spec build
      { s with m_swapChainImages := swapChainImages } t hplace ht
    exact hrecord t.resetCommandBuffers s' (meshInfosInPlace_of_passes t _ rfl hin) hrecord'

/-- The scene with nothing registered has no mesh info out of place. -/
theorem meshInfosInPlace_create (createInfo : SceneCreateInfo) (physicalDevice : VkPhysicalDevice)
    (swapChainImages : List Image) (graphicsCommandPool computeCommandPool : Nat) :
    (Scene.create createInfo physicalDevice swapChainImages graphicsCommandPool
      computeCommandPool).MeshInfosInPlace := by
  intro i pass hpass
  exact absurd hpass (by simp [Scene.create])

end Scene

/-! ## The instance count of the draws of the swap-chain stream -/

theorem forEachCommands_eq_flatMap_iff {α : Type} (body : α → Option (List Command))
    (f : α → List Command) (l : List α)
    (hlen : ∀ x ∈ l, ∀ commands, body x = some commands → commands.length = (f x).length) :
    forEachCommands body l = some (l.flatMap f) ↔ ∀ x ∈ l, body x = some (f x) := by
  induction l with
  | nil => simp [forEachCommands]
  | cons x rest ih =>
    have ih' := ih (fun y hy => hlen y (List.mem_cons_of_mem _ hy))
    simp only [forEachCommands, List.flatMap_cons, List.mem_cons, forall_eq_or_imp]
    cases hx : body x with
    | none => simp
    | some commands =>
      have hl := hlen x (List.mem_cons_self _ _) commands hx
      cases hrest : forEachCommands body rest with
      | none =>
        constructor
        · intro h
          exact absurd h (by simp)
        · rintro ⟨-, hall⟩
          rw [ih'.mpr hall] at hrest
          exact absurd hrest (by simp)
      | some others =>
        simp only [Option.some.injEq]
        constructor
        · intro h
          obtain ⟨h1, h2⟩ := List.append_inj h hl
          exact ⟨h1, ih'.mp (by rw [hrest, h2])⟩
        · rintro ⟨h1, hall⟩
          have h2 := ih'.mpr hall
          rw [hrest] at h2
          rw [h1, Option.some.inj h2]

namespace Scene

theorem recordRenderer_eq (renderer : Renderer) :
    recordRenderer (some renderer) =
      some (.bindPipeline renderer.getPipeline ::
        renderer.getMeshes.flatMap (recordMesh renderer.getPipelineLayout)) :=
  rfl

/-- The commands of a mesh in the swap-chain stream are those of `recordRenderPass`
exactly when the mesh is not instanced, or the mesh at the index of the render pass
exists and has the same instance count. -/
theorem recordSwapChainMesh_eq_iff (j : Nat) (meshes : List Mesh) (pipelineLayout : Nat)
    (mesh : Mesh) :
    recordSwapChainMesh j meshes pipelineLayout mesh = some (recordMesh pipelineLayout mesh) ↔
      (isInstancied mesh = true →
        ∃ other, meshes[j]? = some other ∧ other.2.1.nInstances = mesh.2.1.nInstances) := by
  unfold recordSwapChainMesh recordMesh
  cases hi : isInstancied mesh with
  | false => simp
  | true =>
    simp only [Bool.not_true, Bool.false_eq_true, ↓reduceIte, true_implies]
    cases hj : meshes[j]? with
    | none => simp
    | some other => simp

theorem recordSwapChainMesh_length (j : Nat) (meshes : List Mesh) (pipelineLayout : Nat)
    (mesh : Mesh) (commands : List Command)
    (h : recordSwapChainMesh j meshes pipelineLayout mesh = some commands) :
    commands.length = (recordMesh pipelineLayout mesh).length := by
  unfold recordSwapChainMesh at h
  unfold recordMesh
  cases hi : isInstancied mesh with
  | false =>
    rw [hi] at h
    simp only [Bool.not_false, ↓reduceIte, Option.some.injEq] at h
    subst h
    simp
  | true =>
    rw [hi] at h
    simp only [Bool.not_true, Bool.false_eq_true, ↓reduceIte] at h
    split at h
    · exact absurd h (by simp)
    · simp only [Option.some.injEq] at h
      subst h
      simp

/-- C21, as it is in the code. For a renderer recorded in the render pass of index `j`
of the swap-chain stream: a mesh that is not instanced gets the commands
`recordRenderPass` emits for it; an instanced mesh gets the same binds and an indexed
draw with its own index count, but with the instance count of the mesh at position `j`
of the renderer, and its commands are undefined when the renderer has no mesh at
position `j`. So the renderer is recorded as by `recordRenderPass` exactly when every
instanced mesh has the instance count of the mesh at position `j`. -/
theorem swapChain_instance_count (j : Nat) (renderer : Renderer) :
    (∀ mesh, isInstancied mesh = false →
      recordSwapChainMesh j renderer.getMeshes renderer.getPipelineLayout mesh =
        some (recordMesh renderer.getPipelineLayout mesh)) ∧
    (∀ mesh, isInstancied mesh = true → renderer.getMeshes[j]? = none →
      recordSwapChainMesh j renderer.getMeshes renderer.getPipelineLayout mesh = none) ∧
    (∀ mesh other, isInstancied mesh = true → renderer.getMeshes[j]? = some other →
      ∃ binds,
        recordMesh renderer.getPipelineLayout mesh =
          binds ++ [.drawIndexed mesh.1.nbIndices mesh.2.1.nInstances] ∧
        recordSwapChainMesh j renderer.getMeshes renderer.getPipelineLayout mesh =
          some (binds ++ [.drawIndexed mesh.1.nbIndices other.2.1.nInstances])) ∧
    recordRenderer (some renderer) =
      some (.bindPipeline renderer.getPipeline ::
        renderer.getMeshes.flatMap (recordMesh renderer.getPipelineLayout)) ∧
    (recordSwapChainRenderer j (some renderer) =
        (recordRenderer (some renderer)).map (fun commands => (commands, false)) ↔
      ∀ mesh ∈ renderer.getMeshes, isInstancied mesh = true →
        ∃ other, renderer.getMeshes[j]? = some other ∧
          other.2.1.nInstances = mesh.2.1.nInstances) := by
  refine ⟨?_, ?_, ?_, rfl, ?_⟩
  · intro mesh hi
    exact (recordSwapChainMesh_eq_iff j _ _ mesh).mpr (fun h => absurd (hi ▸ h) (by simp))
  · intro mesh hi hj
    unfold recordSwapChainMesh
    rw [hi, hj]
    rfl
  · intro mesh other hi hj
    refine ⟨[.bindVertexBuffers 0 mesh.1.vertexBuffer, .bindIndexBuffer mesh.1.indexBuffer] ++
      [.bindVertexBuffers 1 mesh.2.1.instanceBuffer] ++
      (if mesh.2.2 != VK_NULL_HANDLE then
        [.bindDescriptorSets renderer.getPipelineLayout mesh.2.2] else []), ?_, ?_⟩
    · unfold recordMesh
      rw [hi]
      rfl
    · unfold recordSwapChainMesh
      rw [hi, hj]
      rfl
  · rw [recordRenderer_eq]
    simp only [recordSwapChainRenderer, Option.map_some']
    have hkey := forEachCommands_eq_flatMap_iff
      (recordSwapChainMesh j renderer.getMeshes renderer.getPipelineLayout)
      (recordMesh renderer.getPipelineLayout) renderer.getMeshes
      (fun x _ commands h => recordSwapChainMesh_length j _ _ x commands h)
    have hmesh : (∀ mesh ∈ renderer.getMeshes,
        recordSwapChainMesh j renderer.getMeshes renderer.getPipelineLayout mesh =
          some (recordMesh renderer.getPipelineLayout mesh)) ↔
        ∀ mesh ∈ renderer.getMeshes, isInstancied mesh = true →
          ∃ other, renderer.getMeshes[j]? = some other ∧
            other.2.1.nInstances = mesh.2.1.nInstances :=
      forall₂_congr fun mesh _ => recordSwapChainMesh_eq_iff j _ _ mesh
    rw [← hmesh, ← hkey]
    constructor
    · intro h
      cases hc : forEachCommands
          (recordSwapChainMesh j renderer.getMeshes renderer.getPipelineLayout)
          renderer.getMeshes with
      | none => rw [hc] at h; exact absurd h (by simp)
      | some commands =>
        rw [hc] at h
        simp only [Option.map_some', Option.some.injEq, Prod.mk.injEq, List.cons.injEq,
          true_and, and_true] at h
        rw [h]
    · intro h
      rw [h]
      rfl

end Scene

namespace Example

set_option maxRecDepth 100000 in
/-- C21, as stated, fails. The renderer of the render pass 0 of `instancedScene` has a
mesh of 6 indices that is not instanced and a mesh of 36 indices with 5 instances:
`record` draws the second mesh in the swap-chain stream with the instance count 0 of the
first mesh, where `recordRenderPass` draws it with 5. In `instancedSecondPassScene` the
instanced mesh is alone in a renderer of the render pass 1, and `record` is undefined. -/
theorem swapChain_draw_reads_other_mesh :
    ((instancedScene.record ⟨true, false⟩ driver).map fun s' =>
      s'.m_swapChainCommandBuffers.map fun buffer =>
        buffer.map fun commandBuffer => drawsOf commandBuffer.commands) =
      some [some [(6, 1), (36, 0)], some [(6, 1), (36, 0)], some [(6, 1), (36, 0)]] ∧
    (instancedScene.m_sceneRenderPasses.map fun pass =>
      (Scene.recordRenderPass pass).map drawsOf) = [some [(6, 1), (36, 5)]] ∧
    instancedSecondPassScene.renderersPresent = true ∧
    instancedSecondPassScene.record ⟨true, false⟩ driver = none := by
  refine ⟨by rfl, by rfl, by rfl, by rfl⟩

/-- C21, as it is in the code, on the renderer of `instancedScene` recorded in the
render pass 0: it is not recorded as by `recordRenderPass`, and it would be in a render
pass of index 1. -/
theorem swapChain_instance_count_witness :
    ∃ renderer, (instancedScene.m_sceneRenderPasses.map fun pass => pass.renderers) =
        [[some renderer]] ∧
      Scene.recordSwapChainRenderer 0 (some renderer) ≠
        (Scene.recordRenderer (some renderer)).map (fun commands => (commands, false)) ∧
      Scene.recordSwapChainRenderer 1 (some renderer) =
        (Scene.recordRenderer (some renderer)).map (fun commands => (commands, false)) := by
  obtain ⟨renderer, hr⟩ : ∃ renderer,
      (instancedScene.m_sceneRenderPasses.map fun pass => pass.renderers) =
        [[some renderer]] := ⟨_, rfl⟩
  refine ⟨renderer, hr, ?_, ?_⟩
  · intro hsame
    have hall := (Scene.swapChain_instance_count 0 renderer).2.2.2.2.mp hsame
    have hrenderer := hr
    have hmeshes : (instancedScene.m_sceneRenderPasses.map fun pass =>
        pass.renderers.map fun slot => slot.map Renderer.getMeshes) =
        [[some renderer.getMeshes]] := by
      have := congrArg (List.map (List.map (Option.map Renderer.getMeshes))) hrenderer
      simpa [List.map_map, Function.comp_def] using this
    have hconcrete : renderer.getMeshes =
        [(⟨100, 6, 101⟩, ⟨0, 0⟩, 0), (⟨102, 36, 103⟩, ⟨5, 104⟩, 0)] := by
      have h2 : (instancedScene.m_sceneRenderPasses.map fun pass =>
          pass.renderers.map fun slot => slot.map Renderer.getMeshes) =
          [[some [(⟨100, 6, 101⟩, ⟨0, 0⟩, 0), (⟨102, 36, 103⟩, ⟨5, 104⟩, 0)]]] := by rfl
      rw [h2] at hmeshes
      simp only [List.cons.injEq, Option.some.injEq, and_true] at hmeshes
      exact hmeshes.symm
    rw [hconcrete] at hall
    obtain ⟨other, hother, hcount⟩ := hall (⟨102, 36, 103⟩, ⟨5, 104⟩, 0) (by simp) (by rfl)
    simp only [List.getElem?_cons_zero, Option.some.injEq] at hother
    subst hother
    exact absurd hcount (by decide)
  · have hrenderer := hr
    have h2 : (instancedScene.m_sceneRenderPasses.map fun pass => pass.renderers) =
        [[(instancedScene.m_sceneRenderPasses.flatMap fun pass => pass.renderers)[0]?.getD
          none]] := by rfl
    rw [h2] at hrenderer
    simp only [List.cons.injEq, and_true] at hrenderer
    rw [← hrenderer]
    rfl

end Example

/-! ## The swap-chain command sequences in compute and ray-tracing mode -/

theorem forEachCommands_zipWith {α β : Type} (body : α → Option (List Command))
    (g : α → Option β) (wrap : α → β → List Command) (l : List α) (commands : List Command)
    (hbody : ∀ x ∈ l, body x = (g x).map (wrap x))
    (h : forEachCommands body l = some commands) :
    ∃ parts, List.Forall₂ (fun x b => g x = some b) l parts ∧
      commands = (List.zipWith wrap l parts).flatten := by
  induction l generalizing commands with
  | nil =>
    simp only [forEachCommands, Option.some.injEq] at h
    subst h
    exact ⟨[], List.Forall₂.nil, rfl⟩
  | cons x rest ih =>
    simp only [forEachCommands] at h
    split at h
    · exact absurd h (by simp)
    · rename_i cs hcs
      split at h
      · exact absurd h (by simp)
      · rename_i others hothers
        simp only [Option.some.injEq] at h
        subst h
        obtain ⟨parts, hall, heq⟩ :=
          ih others (fun y hy => hbody y (List.mem_cons_of_mem _ hy)) hothers
        rw [hbody x (List.mem_cons_self _ _)] at hcs
        simp only [Option.map_eq_some'] at hcs
        obtain ⟨b, hb, rfl⟩ := hcs
        exact ⟨b :: parts, List.Forall₂.cons hb hall, by
          rw [heq, List.zipWith_cons_cons, List.flatten_cons]⟩

theorem layoutAfter_append (image : Nat) (a b : List Command) (layout : Nat) :
    layoutAfter image (a ++ b) layout = (layoutAfter image a layout).bind (layoutAfter image b) := by
  induction a generalizing layout with
  | nil => rfl
  | cons c rest ih =>
    rw [List.cons_append]
    cases c with
    | transitionImageLayout target format oldLayout newLayout mipLevels source destination
        layer =>
      simp only [layoutAfter]
      split_ifs
      · exact ih newLayout
      · rfl
      · exact ih layout
    | _ =>
      simp only [layoutAfter]
      exact ih layout

theorem layoutAfter_blocks (image : Nat) (blocks : List (List Command))
    (h : ∀ block ∈ blocks, layoutAfter image block VK_IMAGE_LAYOUT_PRESENT_SRC_KHR =
      some VK_IMAGE_LAYOUT_PRESENT_SRC_KHR) :
    layoutAfter image blocks.flatten VK_IMAGE_LAYOUT_PRESENT_SRC_KHR =
      some VK_IMAGE_LAYOUT_PRESENT_SRC_KHR := by
  induction blocks with
  | nil => rfl
  | cons block rest ih =>
    rw [List.flatten_cons, layoutAfter_append, h block (List.mem_cons_self _ _)]
    exact ih (fun b hb => h b (List.mem_cons_of_mem _ hb))

theorem layoutAfter_computeBlock (image : Image) (replica : ComputePass)
    (dispatchGroups : DispatchGroups) :
    layoutAfter image.image (computeBlock image replica dispatchGroups)
      VK_IMAGE_LAYOUT_PRESENT_SRC_KHR = some VK_IMAGE_LAYOUT_PRESENT_SRC_KHR := by
  simp [layoutAfter, computeBlock]

theorem layoutAfter_rayTracingBlock (image : Image) (replica : RayTracingPass) :
    layoutAfter image.image (rayTracingBlock image replica)
      VK_IMAGE_LAYOUT_PRESENT_SRC_KHR = some VK_IMAGE_LAYOUT_PRESENT_SRC_KHR := by
  simp [layoutAfter, rayTracingBlock]

theorem mem_zipWith_of_forall2 {α β γ : Type} (R : α → β → Prop) (f : α → β → γ)
    (l : List α) (parts : List β) (h : List.Forall₂ R l parts) (P : γ → Prop)
    (hP : ∀ a b, P (f a b)) : ∀ c ∈ List.zipWith f l parts, P c := by
  induction h with
  | nil => exact fun c hc => absurd hc (List.not_mem_nil _)
  | @cons a b l parts _ _ ih =>
    intro c hc
    rw [List.zipWith_cons_cons] at hc
    rcases List.mem_cons.mp hc with rfl | hc
    · exact hP a b
    · exact ih c hc

namespace Scene

theorem recordSwapChainLoop_graphics (s : Scene) (l : List (Nat × Image))
    (buffers buffers' : List (Option CommandBuffer))
    (h : s.recordSwapChainLoop l buffers = some (buffers', true)) :
    s.m_swapChainCommandType = .GRAPHICS := by
  induction l generalizing buffers with
  | nil => simp [recordSwapChainLoop] at h
  | cons x rest ih =>
    obtain ⟨i, image⟩ := x
    simp only [recordSwapChainLoop] at h
    split at h
    · exact absurd h (by simp)
    · rename_i c hc
      unfold recordSwapChainImage at hc
      cases hmode : s.m_swapChainCommandType with
      | GRAPHICS => rfl
      | COMPUTE =>
        rw [hmode] at hc
        simp only [Option.map_eq_some', Prod.mk.injEq] at hc
        obtain ⟨_, -, -, hfalse⟩ := hc
        exact absurd hfalse (by simp)
      | TRANSFER =>
        rw [hmode] at hc
        simp only [Option.map_eq_some', Prod.mk.injEq] at hc
        obtain ⟨_, -, -, hfalse⟩ := hc
        exact absurd hfalse (by simp)
      | RAY_TRACING =>
        rw [hmode] at hc
        simp only [Option.map_eq_some', Prod.mk.injEq] at hc
        obtain ⟨_, -, -, hfalse⟩ := hc
        exact absurd hfalse (by simp)
    · exact ih _ h

/-- What `record` leaves for the presentable images when it is defined in a mode other
than the graphics mode, in which the loop over the images has no `return`. -/
theorem record_swapChain_spec (build : Build) (driver : Driver) (s s' : Scene)
    (h : s.record build driver = some s') (hmode : s.m_swapChainCommandType ≠ .GRAPHICS) :
    s.replicasPresent = true ∧
    s'.m_swapChainCommandBuffers.length = s.m_swapChainImages.length ∧
    ∀ (i : Nat) (image : Image), s.m_swapChainImages[i]? = some image →
      ∃ commands, (s.created build driver).recordSwapChainImage i image = some (commands, false) ∧
        s'.m_swapChainCommandBuffers[i]? =
          some (some ((s.created build driver).swapChainCommandBuffer commands)) := by
  unfold record at h
  rw [createPipelines_eq] at h
  by_cases hrep : s.replicasPresent = true
  · rw [if_pos hrep] at h
    simp only at h
    cases hloop : (s.created build driver).recordSwapChainLoop
        (s.created build driver).m_swapChainImages.enum
        (Wolf.resize (s.created build driver).m_swapChainCommandBuffers
          (s.created build driver).m_swapChainImages.length none) with
    | none => simp [hloop] at h
    | some result =>
      obtain ⟨buffers, returned⟩ := result
      cases returned with
      | true => exact absurd (recordSwapChainLoop_graphics _ _ _ _ hloop) hmode
      | false =>
        simp only [hloop] at h
        obtain ⟨hlen, -, himages⟩ := recordSwapChainLoop_spec _ _ 0 _ _ hloop
        rw [length_resize] at hlen
        cases haux : Scene.recordAuxLoop
            { s.created build driver with
              m_swapChainCommandBuffers := buffers
              m_swapChainCompleteSemaphore :=
                some { semaphore := (s.created build driver).semaphoresCreated + 1 }
              semaphoresCreated := (s.created build driver).semaphoresCreated + 1 }
            (s.created build driver).m_sceneCommandBuffers.enum with
        | none =>
          exfalso
          have : (Option.map _ (none : Option (List SceneCommandBuffer))) = some s' :=
            haux ▸ h
          simp at this
        | some streams =>
          have hs' : some _ = some s' := (congrArg (Option.map _) haux).symm.trans h
          simp only [Option.map_some', Option.some.injEq] at hs'
          subst hs'
          refine ⟨hrep, hlen, ?_⟩
          intro i image hi
          obtain ⟨commands, hc, hb⟩ := himages i image hi
          rw [Nat.zero_add] at hc hb
          refine ⟨commands, hc, hb ?_⟩
          rw [length_resize]
          exact (List.getElem?_eq_some_iff.mp hi).1
  · rw [if_neg hrep] at h
    exact absurd h (by simp)

theorem swapChainCommandBuffer_commands (s : Scene) (commands : List Command) :
    (s.swapChainCommandBuffer commands).commands = commands := by
  simp [swapChainCommandBuffer, CommandBuffer.beginCommandBuffer, CommandBuffer.record,
    CommandBuffer.endCommandBuffer]

theorem recordSwapChainComputePass_eq (i : Nat) (image : Image) (pass : SceneComputePass)
    (hid : pass.commandBufferID = -1) :
    recordSwapChainComputePass i image pass =
      (pass.computePasses[i]?.bind id).map fun replica =>
        computeBlock image replica pass.dispatchGroups := by
  unfold recordSwapChainComputePass
  rw [if_pos hid]
  rcases h : pass.computePasses[i]? with _ | _ | replica <;> rfl

theorem recordSwapChainRayTracingPass_eq (i : Nat) (image : Image)
    (pass : SceneRayTracingPass) (hid : pass.commandBufferID = -1) :
    recordSwapChainRayTracingPass i image pass =
      (pass.rayTracingPasses[i]?.bind id).map fun replica => rayTracingBlock image replica := by
  unfold recordSwapChainRayTracingPass
  rw [if_pos hid]
  rcases h : pass.rayTracingPasses[i]? with _ | _ | replica <;> rfl

theorem recordSwapChainComputePass_defined (pool : Option DescriptorPoolSizes) (i : Nat)
    (image : Image) (p : SceneComputePass)
    (hall : (p.computePasses.all fun replica => replica.isSome) = true)
    (hlen : p.commandBufferID = -1 → i < p.computePasses.length) :
    ∃ commands, recordSwapChainComputePass i image (p.created pool) = some commands := by
  by_cases hid : p.commandBufferID = -1
  · rw [recordSwapChainComputePass_eq i image _
      (show (p.created pool).commandBufferID = -1 from hid)]
    have hslot := List.all_eq_true.mp hall _ (List.getElem_mem (hlen hid))
    obtain ⟨replica, hreplica⟩ := Option.isSome_iff_exists.mp hslot
    refine ⟨computeBlock image (ComputePass.create pool replica) p.dispatchGroups, ?_⟩
    simp only [SceneComputePass.created, List.getElem?_map,
      List.getElem?_eq_getElem (hlen hid), hreplica, Option.map_some', Option.some_bind, id_eq]
  · exact ⟨[], by
      unfold recordSwapChainComputePass
      rw [if_neg (show ¬ (p.created pool).commandBufferID = -1 from hid)]⟩

theorem recordSwapChainRayTracingPass_defined (pool : Option DescriptorPoolSizes) (i : Nat)
    (image : Image) (p : SceneRayTracingPass)
    (hall : (p.rayTracingPasses.all fun replica => replica.isSome) = true)
    (hlen : p.commandBufferID = -1 → i < p.rayTracingPasses.length) :
    ∃ commands, recordSwapChainRayTracingPass i image (p.created pool) = some commands := by
  by_cases hid : p.commandBufferID = -1
  · rw [recordSwapChainRayTracingPass_eq i image _
      (show (p.created pool).commandBufferID = -1 from hid)]
    have hslot := List.all_eq_true.mp hall _ (List.getElem_mem (hlen hid))
    obtain ⟨replica, hreplica⟩ := Option.isSome_iff_exists.mp hslot
    refine ⟨rayTracingBlock image (RayTracingPass.create pool replica), ?_⟩
    simp only [SceneRayTracingPass.created, List.getElem?_map,
      List.getElem?_eq_getElem (hlen hid), hreplica, Option.map_some', Option.some_bind, id_eq]
  · exact ⟨[], by
      unfold recordSwapChainRayTracingPass
      rw [if_neg (show ¬ (p.created pool).commandBufferID = -1 from hid)]⟩

/-- C22: after a `record` that is defined in compute mode the swap-chain command buffer
of every presentable image `i` holds, for the compute passes with `commandBufferID = -1`
in registration order, the three commands of the pass: the transition of image `i` from
the presentable to the general layout, the dispatch of the replica `i` of the pass over
the extent of image `i`, the transition of image `i` back to the presentable layout. So
there are three commands per pass, every transition of image `i` starts from the layout
the image is in, and the image ends in the presentable layout. In ray-tracing mode the
same holds of the ray-tracing passes and their trace. `record` is defined when every
replica is present, every such pass has a replica for every presentable image, every
auxiliary stream has a command buffer and its commands are defined. -/
theorem nonGraphics_swapChain_sequence (build : Build) (driver : Driver) (s : Scene)
    (hkind : s.m_swapChainCommandType = .COMPUTE ∨ s.m_swapChainCommandType = .RAY_TRACING) :
    (∀ s', s.record build driver = some s' →
      ∀ (i : Nat) (image : Image), s.m_swapChainImages[i]? = some image →
        ∃ buffer, s'.m_swapChainCommandBuffers[i]? = some (some buffer) ∧
          (s.m_swapChainCommandType = .COMPUTE →
            ∃ replicas,
              List.Forall₂ (fun (pass : SceneComputePass) replica =>
                  pass.computePasses[i]? = some (some replica))
                (s.created build driver).swapChainComputePasses replicas ∧
              buffer.commands = (List.zipWith
                (fun (pass : SceneComputePass) replica =>
                  computeBlock image replica pass.dispatchGroups)
                (s.created build driver).swapChainComputePasses replicas).flatten ∧
              buffer.commands.length = 3 * s.swapChainComputePasses.length ∧
              layoutAfter image.image buffer.commands VK_IMAGE_LAYOUT_PRESENT_SRC_KHR =
                some VK_IMAGE_LAYOUT_PRESENT_SRC_KHR) ∧
          (s.m_swapChainCommandType = .RAY_TRACING →
            ∃ replicas,
              List.Forall₂ (fun (pass : SceneRayTracingPass) replica =>
                  pass.rayTracingPasses[i]? = some (some replica))
                (s.created build driver).swapChainRayTracingPasses replicas ∧
              buffer.commands = (List.zipWith
                (fun (_ : SceneRayTracingPass) replica => rayTracingBlock image replica)
                (s.created build driver).swapChainRayTracingPasses replicas).flatten ∧
              buffer.commands.length = 3 * s.swapChainRayTracingPasses.length ∧
              layoutAfter image.image buffer.commands VK_IMAGE_LAYOUT_PRESENT_SRC_KHR =
                some VK_IMAGE_LAYOUT_PRESENT_SRC_KHR)) ∧
    (s.replicasPresent = true →
      (s.m_swapChainCommandType = .COMPUTE →
        ∀ pass ∈ s.swapChainComputePasses,
          s.m_swapChainImages.length ≤ pass.computePasses.length) →
      (s.m_swapChainCommandType = .RAY_TRACING →
        ∀ pass ∈ s.swapChainRayTracingPasses,
          s.m_swapChainImages.length ≤ pass.rayTracingPasses.length) →
      (∀ stream ∈ s.m_sceneCommandBuffers,
        ∃ commandBuffer, stream.commandBuffer = some commandBuffer) →
      (∀ n, n < s.m_sceneCommandBuffers.length →
        ∃ commands, (s.created build driver).recordAuxCommands n = some commands) →
      ∃ s', s.record build driver = some s') := by
  have hcomputeLen : (s.created build driver).swapChainComputePasses.length =
      s.swapChainComputePasses.length := by
    simp [swapChainComputePasses, created, List.filter_map, Function.comp_def,
      SceneComputePass.created]
  have hrayLen : (s.created build driver).swapChainRayTracingPasses.length =
      s.swapChainRayTracingPasses.length := by
    simp [swapChainRayTracingPasses, created, List.filter_map, Function.comp_def,
      SceneRayTracingPass.created]
  refine ⟨?_, ?_⟩
  · intro s' h i image hi
    have hgraphics : s.m_swapChainCommandType ≠ .GRAPHICS := by
      rcases hkind with hk | hk <;> rw [hk] <;> decide
    · obtain ⟨-, -, himages⟩ := record_swapChain_spec build driver s s' h hgraphics
      obtain ⟨commands, hc, hb⟩ := himages i image hi
      refine ⟨_, hb, ?_, ?_⟩
      · intro hmode
        rw [swapChainCommandBuffer_commands]
        unfold recordSwapChainImage at hc
        have hmode' : (s.created build driver).m_swapChainCommandType = .COMPUTE := hmode
        rw [hmode'] at hc
        simp only [Option.map_eq_some', Prod.mk.injEq, and_true] at hc
        obtain ⟨commands', hc', rfl⟩ := hc
        rw [← forEachCommands_filter _ (fun pass => decide (pass.commandBufferID = -1)) _
          (fun pass hpass => by
            simp only [decide_eq_false_iff_not] at hpass
            simp [recordSwapChainComputePass, hpass])] at hc'
        obtain ⟨replicas, hall, heq⟩ := forEachCommands_zipWith _
          (fun (pass : SceneComputePass) => pass.computePasses[i]?.bind id)
          (fun (pass : SceneComputePass) replica =>
            computeBlock image replica pass.dispatchGroups) _ commands'
          (fun pass hpass => recordSwapChainComputePass_eq i image pass
            (by simpa using (List.mem_filter.mp hpass).2)) hc'
        have hall' : List.Forall₂ (fun (pass : SceneComputePass) replica =>
            pass.computePasses[i]? = some (some replica))
            (s.created build driver).swapChainComputePasses replicas :=
          List.Forall₂.imp (fun pass replica hb => by
            rcases hp : pass.computePasses[i]? with _ | _ | r
            · rw [hp] at hb; exact absurd hb (by simp)
            · rw [hp] at hb; exact absurd hb (by simp)
            · rw [hp] at hb
              simp only [Option.some_bind, id_eq, Option.some.injEq] at hb
              rw [hb]) hall
        refine ⟨replicas, hall', heq, ?_, ?_⟩
        · rw [heq, List.length_flatten, ← hcomputeLen]
          have hthree : ∀ (l : List SceneComputePass) (parts : List ComputePass),
              l.length = parts.length →
              ((List.zipWith (fun (pass : SceneComputePass) replica =>
                computeBlock image replica pass.dispatchGroups) l parts).map
                  List.length).sum = 3 * l.length := by
            intro l
            induction l with
            | nil => intro parts _; simp
            | cons x rest ih =>
              intro parts hlen
              cases parts with
              | nil => simp at hlen
              | cons p parts =>
                simp only [List.zipWith_cons_cons, List.map_cons, List.sum_cons,
                  List.length_cons]
                rw [ih parts (by simpa using hlen)]
                simp only [computeBlock, List.length_cons, List.length_nil]
                omega
          exact hthree _ _ hall.length_eq
        · rw [heq]
          apply layoutAfter_blocks
          exact mem_zipWith_of_forall2 _ _ _ _ hall _
            (fun pass replica => layoutAfter_computeBlock image replica pass.dispatchGroups)
      · intro hmode
        rw [swapChainCommandBuffer_commands]
        unfold recordSwapChainImage at hc
        have hmode' : (s.created build driver).m_swapChainCommandType = .RAY_TRACING := hmode
        rw [hmode'] at hc
        simp only [Option.map_eq_some', Prod.mk.injEq, and_true] at hc
        obtain ⟨commands', hc', rfl⟩ := hc
        rw [← forEachCommands_filter _ (fun pass => decide (pass.commandBufferID = -1)) _
          (fun pass hpass => by
            simp only [decide_eq_false_iff_not] at hpass
            simp [recordSwapChainRayTracingPass, hpass])] at hc'
        obtain ⟨replicas, hall, heq⟩ := forEachCommands_zipWith _
          (fun (pass : SceneRayTracingPass) => pass.rayTracingPasses[i]?.bind id)
          (fun (_ : SceneRayTracingPass) replica => rayTracingBlock image replica) _ commands'
          (fun pass hpass => recordSwapChainRayTracingPass_eq i image pass
            (by simpa using (List.mem_filter.mp hpass).2)) hc'
        have hall' : List.Forall₂ (fun (pass : SceneRayTracingPass) replica =>
            pass.rayTracingPasses[i]? = some (some replica))
            (s.created build driver).swapChainRayTracingPasses replicas :=
          List.Forall₂.imp (fun pass replica hb => by
            rcases hp : pass.rayTracingPasses[i]? with _ | _ | r
            · rw [hp] at hb; exact absurd hb (by simp)
            · rw [hp] at hb; exact absurd hb (by simp)
            · rw [hp] at hb
              simp only [Option.some_bind, id_eq, Option.some.injEq] at hb
              rw [hb]) hall
        refine ⟨replicas, hall', heq, ?_, ?_⟩
        · rw [heq, List.length_flatten, ← hrayLen]
          have hthree : ∀ (l : List SceneRayTracingPass) (parts : List RayTracingPass),
              l.length = parts.length →
              ((List.zipWith (fun (_ : SceneRayTracingPass) replica =>
                rayTracingBlock image replica) l parts).map List.length).sum =
                3 * l.length := by
            intro l
            induction l with
            | nil => intro parts _; simp
            | cons x rest ih =>
              intro parts hlen
              cases parts with
              | nil => simp at hlen
              | cons p parts =>
                simp only [List.zipWith_cons_cons, List.map_cons, List.sum_cons,
                  List.length_cons]
                rw [ih parts (by simpa using hlen)]
                simp only [rayTracingBlock, List.length_cons, List.length_nil]
                omega
          exact hthree _ _ hall.length_eq
        · rw [heq]
          apply layoutAfter_blocks
          exact mem_zipWith_of_forall2 _ _ _ _ hall _
            (fun _ replica => layoutAfter_rayTracingBlock image replica)
  · intro hrep hcompute hray hbuffers hstreams
    apply record_defined build driver s hrep ?_ hbuffers hstreams
    intro i image hi
    have hlt : i < s.m_swapChainImages.length := (List.getElem?_eq_some_iff.mp hi).1
    have hpresent := hrep
    unfold replicasPresent at hpresent
    rw [Bool.and_eq_true, List.all_eq_true, List.all_eq_true] at hpresent
    unfold recordSwapChainImage
    rcases hkind with hk | hk
    · have hk' : (s.created build driver).m_swapChainCommandType = .COMPUTE := hk
      rw [hk']
      obtain ⟨commands, hcommands⟩ := forEachCommands_defined
        (recordSwapChainComputePass i image) (s.created build driver).m_sceneComputePasses
        (by
          intro pass hpass
          simp only [created, List.mem_map] at hpass
          obtain ⟨p, hp, rfl⟩ := hpass
          exact recordSwapChainComputePass_defined _ i image p (hpresent.1 p hp)
            (fun hid => Nat.lt_of_lt_of_le hlt (hcompute hk p (by
              simp only [swapChainComputePasses, List.mem_filter, decide_eq_true_eq]
              exact ⟨hp, hid⟩))))
      exact ⟨commands, by rw [hcommands]; rfl⟩
    · have hk' : (s.created build driver).m_swapChainCommandType = .RAY_TRACING := hk
      rw [hk']
      obtain ⟨commands, hcommands⟩ := forEachCommands_defined
        (recordSwapChainRayTracingPass i image)
        (s.created build driver).m_sceneRayTracingPasses
        (by
          intro pass hpass
          simp only [created, List.mem_map] at hpass
          obtain ⟨p, hp, rfl⟩ := hpass
          exact recordSwapChainRayTracingPass_defined _ i image p (hpresent.2 p hp)
            (fun hid => Nat.lt_of_lt_of_le hlt (hray hk p (by
              simp only [swapChainRayTracingPasses, List.mem_filter, decide_eq_true_eq]
              exact ⟨hp, hid⟩))))
      exact ⟨commands, by rw [hcommands]; rfl⟩

end Scene

namespace Example

set_option maxRecDepth 100000 in
/-- C22 on `twoComputePassScene`, in compute mode with three presentable images of 800
by 600 pixels and two compute passes recorded with the swap chain: `record` is defined
and the command buffer of image 1 holds six commands, the three of the first pass on its
replica 1 and the three of the second pass on its replica 1, and leaves the image in the
presentable layout. -/
theorem nonGraphics_swapChain_sequence_witness :
    ∃ s' buffer blur tone,
      twoComputePassScene.record ⟨true, false⟩ driver = some s' ∧
      s'.m_swapChainCommandBuffers[1]? = some (some buffer) ∧
      buffer.commands =
        computeBlock (image 11) blur ⟨16, 16, 1⟩ ++ computeBlock (image 11) tone ⟨8, 8, 1⟩ ∧
      (twoComputePassScene.created ⟨true, false⟩ driver).m_sceneComputePasses.map
          (fun pass => pass.computePasses[1]?) = [some (some blur), some (some tone)] ∧
      buffer.commands.length = 6 ∧
      layoutAfter 11 buffer.commands VK_IMAGE_LAYOUT_PRESENT_SRC_KHR =
        some VK_IMAGE_LAYOUT_PRESENT_SRC_KHR := by
  obtain ⟨s', hs'⟩ : ∃ s', twoComputePassScene.record ⟨true, false⟩ driver = some s' :=
    ⟨_, rfl⟩
  obtain ⟨buffer, hbuffer, hcompute, -⟩ :=
    (Scene.nonGraphics_swapChain_sequence ⟨true, false⟩ driver twoComputePassScene
      (Or.inl rfl)).1 s' hs' 1 (image 11) (by rfl)
  obtain ⟨replicas, hall, hcommands, hlength, hlayout⟩ := hcompute rfl
  obtain ⟨blur, tone, hpasses⟩ : ∃ blur tone,
      (twoComputePassScene.created ⟨true, false⟩ driver).m_sceneComputePasses.map
          (fun pass => pass.computePasses[1]?) = [some (some blur), some (some tone)] :=
    ⟨_, _, by rfl⟩
  refine ⟨s', buffer, blur, tone, hs', hbuffer, ?_, hpasses, hlength, hlayout⟩
  rw [hcommands]
  obtain ⟨first, second, hfiltered, hd1, hd2⟩ : ∃ first second,
      (twoComputePassScene.created ⟨true, false⟩ driver).swapChainComputePasses =
        [first, second] ∧ first.dispatchGroups = ⟨16, 16, 1⟩ ∧
        second.dispatchGroups = ⟨8, 8, 1⟩ := ⟨_, _, rfl, rfl, rfl⟩
  have hfirst : [first.computePasses[1]?, second.computePasses[1]?] =
      [some (some blur), some (some tone)] := by
    rw [← hpasses]
    have : (twoComputePassScene.created ⟨true, false⟩ driver).m_sceneComputePasses =
        (twoComputePassScene.created ⟨true, false⟩ driver).swapChainComputePasses := by rfl
    rw [this, hfiltered]
    rfl
  simp only [List.cons.injEq, and_true] at hfirst
  rw [hfiltered] at hall ⊢
  cases hall with
  | cons h1 htail =>
    cases htail with
    | cons h2 hnil =>
      cases hnil
      rw [hfirst.1] at h1
      rw [hfirst.2] at h2
      simp only [Option.some.injEq] at h1 h2
      subst h1 h2
      simp [hd1, hd2]

end Example

/-! ## The hooks of the passes of an auxiliary stream -/

namespace AuxPass

end AuxPass

namespace Scene

end Scene

namespace Example

end Example

/-! ## `addRenderPass` with a forced index -/

namespace Scene

/-- What `addRenderPass` does with a forced index `k` that names an entry: the entry `k`
is replaced, and its pass object is made from the attachments of the outputs of the
entry that is last in the registry after the replacement. -/
theorem addRenderPass_forced (s : Scene) (createInfo prepared : RenderPassCreateInfo) (k : Nat)
    (last : SceneRenderPass)
    (hprep : s.prepareRenderPass createInfo = some (some prepared))
    (hk : k < s.m_sceneRenderPasses.length)
    (hlast : s.m_sceneRenderPasses[s.m_sceneRenderPasses.length - 1]? = some last) :
    s.addRenderPass createInfo (k : Int) =
      some (s.withRenderPasses (s.m_sceneRenderPasses.set k
        (storedEntry prepared (s.passObject prepared
          ((if k = s.m_sceneRenderPasses.length - 1 then prepared.outputs
            else last.outputs).map fun output => output.attachment)))), (k : Int)) := by
  have hforce : ¬ ((k : Int) < 0) := by omega
  unfold addRenderPass
  simp only [hprep, if_neg hforce]
  rw [setAt?_natCast _ _ _ hk]
  simp only [List.length_set, at?_natCast]
  rw [List.getElem?_set_self hk]
  have hlt : k < (s.m_sceneRenderPasses.set k
      ({ commandBufferID := prepared.commandBufferID, outputs := prepared.outputs,
         outputIsSwapChain := prepared.outputIsSwapChain, name := prepared.name } :
        SceneRenderPass)).length := by
    rw [List.length_set]
    exact hk
  by_cases hkl : k = s.m_sceneRenderPasses.length - 1
  · rw [if_pos hkl]
    have h1 : (s.m_sceneRenderPasses.set k
        ({ commandBufferID := prepared.commandBufferID, outputs := prepared.outputs,
           outputIsSwapChain := prepared.outputIsSwapChain, name := prepared.name } :
          SceneRenderPass))[s.m_sceneRenderPasses.length - 1]? =
        some { commandBufferID := prepared.commandBufferID, outputs := prepared.outputs,
               outputIsSwapChain := prepared.outputIsSwapChain, name := prepared.name } := by
      rw [← hkl]
      exact List.getElem?_set_self hk
    rw [h1]
    simp only
    rw [setAt?_natCast _ _ _ hlt]
    simp only [List.set_set]
    rfl
  · rw [if_neg hkl]
    have h1 : (s.m_sceneRenderPasses.set k
        ({ commandBufferID := prepared.commandBufferID, outputs := prepared.outputs,
           outputIsSwapChain := prepared.outputIsSwapChain, name := prepared.name } :
          SceneRenderPass))[s.m_sceneRenderPasses.length - 1]? = some last := by
      rw [List.getElem?_set_ne hkl]
      exact hlast
    rw [h1]
    simp only
    rw [setAt?_natCast _ _ _ hlt]
    simp only [List.set_set]
    rfl

end Scene

namespace Scene

/-- With a presentable image the derivation of the outputs reads no vector out of
range. -/
theorem prepareRenderPass_defined (s : Scene) (createInfo : RenderPassCreateInfo)
    (hk : 1 ≤ s.m_swapChainImages.length) : s.prepareRenderPass createInfo ≠ none := by
  obtain ⟨image0, h0⟩ : ∃ image0, s.m_swapChainImages[0]? = some image0 :=
    ⟨s.m_swapChainImages[0], List.getElem?_eq_getElem (by omega)⟩
  intro h
  unfold prepareRenderPass at h
  by_cases h1 : createInfo.outputIsSwapChain = true
  · rw [if_pos h1, h0] at h
    exact absurd h (by simp)
  · rw [if_neg h1] at h
    by_cases h2 : createInfo.outputs.isEmpty = true ∧ createInfo.extent.width = 0
    · rw [if_pos h2] at h
      exact absurd h (by simp)
    · rw [if_neg h2] at h
      obtain ⟨outputs', ho⟩ := offscreenOutputs_defined s image0 h0 createInfo.outputs
      rw [ho] at h
      by_cases h3 : createInfo.extent.width = 0
      · rw [if_pos h3] at h
        cases hout : createInfo.outputs with
        | nil => exact h2 ⟨by simp [hout], h3⟩
        | cons output rest =>
          rw [hout] at h
          simp at h
      · rw [if_neg h3] at h
        simp at h

/-- The entry a successful `addRenderPass` writes, with its pass object: the attachments
the pass object is made from are those of the outputs of the entry that is last in the
registry once the entry is written. -/
theorem addRenderPass_spec (s s' : Scene) (createInfo prepared : RenderPassCreateInfo)
    (forceID handle : Int)
    (hprep : s.prepareRenderPass createInfo = some (some prepared))
    (h : s.addRenderPass createInfo forceID = some (s', handle)) :
    ∃ last,
      0 ≤ handle ∧
      handle = (if forceID < 0 then (s.m_sceneRenderPasses.length : Int) else forceID) ∧
      s'.m_sceneRenderPasses.length =
        (if forceID < 0 then s.m_sceneRenderPasses.length + 1 else s.m_sceneRenderPasses.length) ∧
      (∀ j, j ≠ handle.toNat → j < s.m_sceneRenderPasses.length →
        s'.m_sceneRenderPasses[j]? = s.m_sceneRenderPasses[j]?) ∧
      s'.m_sceneRenderPasses[s'.m_sceneRenderPasses.length - 1]? = some last ∧
      s'.m_sceneRenderPasses[handle.toNat]? = some (storedEntry prepared
        (s.passObject prepared (last.outputs.map fun output => output.attachment))) := by
  by_cases hforce : forceID < 0
  · rw [addRenderPass_append s createInfo prepared forceID hforce hprep] at h
    simp only [Option.some.injEq, Prod.mk.injEq] at h
    obtain ⟨rfl, rfl⟩ := h
    refine ⟨s.renderEntry prepared, by omega, by rw [if_pos hforce], ?_, ?_, ?_, ?_⟩
    · rw [if_pos hforce]
      simp [withRenderPasses]
    · intro j _ hj
      simp only [withRenderPasses]
      rw [List.getElem?_append_left hj]
    · simp [withRenderPasses]
    · simp only [withRenderPasses, Int.toNat_ofNat]
      rw [List.getElem?_append_right (le_refl _)]
      simp only [Nat.sub_self, List.getElem?_cons_zero, Option.some.injEq]
      unfold renderEntry storedEntry passObject
      rfl
  · obtain ⟨renderPass, h0, hhandle, hpasses, hentry, -⟩ :=
      addRenderPass_entry s s' createInfo prepared forceID handle hprep h
    rw [if_neg hforce] at hhandle hpasses
    have hlt : handle.toNat < s.m_sceneRenderPasses.length := by
      have := (List.getElem?_eq_some_iff.mp hentry).1
      rw [hpasses, List.length_set] at this
      exact this
    obtain ⟨last0, hlast0⟩ : ∃ last0,
        s.m_sceneRenderPasses[s.m_sceneRenderPasses.length - 1]? = some last0 :=
      ⟨_, List.getElem?_eq_getElem (by omega)⟩
    have hcast : forceID = ((handle.toNat : Nat) : Int) := by
      rw [← hhandle]
      exact (Int.toNat_of_nonneg h0).symm
    have hspec := addRenderPass_forced s createInfo prepared handle.toNat last0 hprep hlt hlast0
    rw [← hcast, h] at hspec
    simp only [Option.some.injEq, Prod.mk.injEq] at hspec
    obtain ⟨hs', -⟩ := hspec
    subst hs'
    simp only [withRenderPasses, List.length_set]
    by_cases hkl : handle.toNat = s.m_sceneRenderPasses.length - 1
    · rw [if_pos hkl]
      refine ⟨storedEntry prepared
          (s.passObject prepared (prepared.outputs.map fun output => output.attachment)),
        h0, by rw [if_neg hforce]; exact hhandle, by rw [if_neg hforce], ?_, ?_, ?_⟩
      · intro j hj _
        rw [List.getElem?_set_ne (Ne.symm hj)]
      · rw [← hkl]
        exact List.getElem?_set_self hlt
      · rw [List.getElem?_set_self hlt]
        rfl
    · rw [if_neg hkl]
      refine ⟨last0, h0, by rw [if_neg hforce]; exact hhandle, by rw [if_neg hforce], ?_, ?_, ?_⟩
      · intro j hj _
        rw [List.getElem?_set_ne (Ne.symm hj)]
      · rw [List.getElem?_set_ne hkl]
        exact hlast0
      · rw [List.getElem?_set_self hlt]

theorem passObject_renderPass (s : Scene) (createInfo : RenderPassCreateInfo)
    (attachments : List Attachment) :
    (s.passObject createInfo attachments).m_renderPass = ⟨attachments⟩ := by
  unfold passObject
  split_ifs
  · rw [RenderPass.initializeImages_eq]
  · rw [RenderPass.initializeExtents_eq]

/-- C25, as it is in the code: `addRenderPass` with a forced index `k` that names an
entry of a registry of `n` render passes returns `k` (or `-1` from the error branch),
keeps the length `n` and every entry other than `k`, and makes the pass object of the
entry `k` from the attachments of the outputs of the entry `n - 1`, the last of the
registry: these are the outputs newly stored only when `k = n - 1`. With a presentable
image the call is defined. -/
theorem forced_renderPass_attachments (s : Scene) (createInfo : RenderPassCreateInfo) (k : Nat)
    (hk : k < s.m_sceneRenderPasses.length) :
    (1 ≤ s.m_swapChainImages.length →
      ∃ s' handle, s.addRenderPass createInfo (k : Int) = some (s', handle)) ∧
    ∀ (s' : Scene) (handle : Int), s.addRenderPass createInfo (k : Int) = some (s', handle) →
      handle ≠ -1 →
      handle = (k : Int) ∧
      s'.m_sceneRenderPasses.length = s.m_sceneRenderPasses.length ∧
      (∀ j, j ≠ k → s'.m_sceneRenderPasses[j]? = s.m_sceneRenderPasses[j]?) ∧
      ∃ entry renderPass last,
        s'.m_sceneRenderPasses[k]? = some entry ∧
        entry.renderPass = some renderPass ∧
        s'.m_sceneRenderPasses[s.m_sceneRenderPasses.length - 1]? = some last ∧
        renderPass.m_renderPass = ⟨last.outputs.map fun output => output.attachment⟩ ∧
        (k = s.m_sceneRenderPasses.length - 1 → last = entry) ∧
        (k ≠ s.m_sceneRenderPasses.length - 1 →
          s.m_sceneRenderPasses[s.m_sceneRenderPasses.length - 1]? = some last) := by
  have hforce : ¬ ((k : Int) < 0) := by omega
  obtain ⟨last0, hlast0⟩ : ∃ last0,
      s.m_sceneRenderPasses[s.m_sceneRenderPasses.length - 1]? = some last0 :=
    ⟨_, List.getElem?_eq_getElem (by omega)⟩
  constructor
  · intro himages
    rcases s.prepareRenderPass_cases createInfo with hp | hp | ⟨prepared, hp⟩
    · exact absurd hp (prepareRenderPass_defined s createInfo himages)
    · exact ⟨_, _, addRenderPass_error s createInfo _ hp⟩
    · exact ⟨_, _, addRenderPass_forced s createInfo prepared k last0 hp hk hlast0⟩
  · intro s' handle h hok
    rcases s.prepareRenderPass_cases createInfo with hp | hp | ⟨prepared, hp⟩
    · rw [addRenderPass_undefined s createInfo _ hp] at h
      exact absurd h (by simp)
    · rw [addRenderPass_error s createInfo _ hp] at h
      simp only [Option.some.injEq, Prod.mk.injEq] at h
      exact absurd h.2.symm hok
    · obtain ⟨last, -, hhandle, hlen, hothers, hlast, hentry⟩ :=
        addRenderPass_spec s s' createInfo prepared (k : Int) handle hp h
      rw [if_neg hforce] at hhandle hlen
      subst hhandle
      simp only [Int.toNat_ofNat] at hothers hentry
      rw [hlen] at hlast
      refine ⟨rfl, hlen, ?_, _, _, last, hentry, rfl, hlast, passObject_renderPass _ _ _, ?_, ?_⟩
      · intro j hj
        rcases Nat.lt_or_ge j s.m_sceneRenderPasses.length with hlt | hge
        · exact hothers j hj hlt
        · rw [List.getElem?_eq_none (by omega), List.getElem?_eq_none hge]
      · intro hkl
        rw [← hkl, hentry] at hlast
        exact (Option.some.inj hlast).symm
      · intro hkl
        rw [← hothers _ (Ne.symm hkl) (by omega)]
        exact hlast

end Scene

namespace Example

/-- C25, as stated, fails. In `twoPassScene` the render pass 0 is bound to the swap chain
and the render pass 1, the last, is offscreen with one colour output of 256 by 256
pixels. `addRenderPass` forced on index 0 with a pass bound to the swap chain stores the
two outputs derived from the presentable image at entry 0 and makes the pass object of
entry 0 from the single attachment of entry 1. -/
theorem forced_renderPass_reads_last_entry :
    (twoPassScene.m_sceneRenderPasses.map fun pass => pass.outputs.length) = [2, 1] ∧
    (twoPassScene.addRenderPass { commandBufferID := -1, outputIsSwapChain := true } 0).map
      (fun result => (result.2,
        result.1.m_sceneRenderPasses.map fun pass =>
          (pass.outputs.length,
            pass.renderPass.map fun renderPass => renderPass.m_renderPass.attachments))) =
      some (0,
        [(2, some [colourOutput.attachment]), (1, some [colourOutput.attachment])]) :=
  ⟨rfl, rfl⟩

/-- C25, as it is in the code, on `twoPassScene` and the forced index 0. -/
theorem forced_renderPass_attachments_witness :
    ∃ s' entry renderPass last,
      twoPassScene.addRenderPass { commandBufferID := -1, outputIsSwapChain := true } 0 =
        some (s', 0) ∧
      s'.m_sceneRenderPasses[0]? = some entry ∧ entry.renderPass = some renderPass ∧
      twoPassScene.m_sceneRenderPasses[1]? = some last ∧
      renderPass.m_renderPass = ⟨last.outputs.map fun output => output.attachment⟩ := by
  obtain ⟨s', hs'⟩ : ∃ s',
      twoPassScene.addRenderPass { commandBufferID := -1, outputIsSwapChain := true } 0 =
        some (s', 0) := ⟨_, rfl⟩
  obtain ⟨-, -, -, entry, renderPass, last, hentry, hrp, -, hatt, -, hlast⟩ :=
    (Scene.forced_renderPass_attachments twoPassScene
      { commandBufferID := -1, outputIsSwapChain := true } 0 (by decide)).2 s' 0 hs' (by decide)
  exact ⟨s', entry, renderPass, last, hs', hentry, hrp, hlast (by decide), hatt⟩

end Example

/-! ## The snapshot of the renderers taken by `resize` -/

namespace Scene

/-- One iteration of the loop of lines 762-767, when it is defined: the entry `j` is the
snapshot of the renderer, and of the other entries only the entry `i` may change, to
itself with its extent zeroed. -/
theorem resizeRendererCreateInfo_entries (i : Nat) (acc acc' : List RendererCreateInfo)
    (j : Nat) (slot : Option Renderer) (hj : j < acc.length)
    (h : resizeRendererCreateInfo i acc (j, slot) = some acc') :
    ∃ renderer, slot = some renderer ∧ i < acc.length ∧ acc'.length = acc.length ∧
      acc'[j]? = some (snapshotEntry i j renderer) ∧
      ∀ k, k ≠ j → ∀ ci, acc[k]? = some ci →
        acc'[k]? = some (if k = i then
          { ci with pipelineCreateInfo := { ci.pipelineCreateInfo with extent := ⟨0, 0⟩ } }
          else ci) := by
  unfold resizeRendererCreateInfo at h
  cases slot with
  | none => exact absurd h (by simp)
  | some renderer =>
    simp only at h
    split at h
    · exact absurd h (by simp)
    · rename_i createInfo hcreateInfo
      simp only [Option.some.injEq] at h
      subst h
      have hi : i < acc.length := by
        have := (List.getElem?_eq_some_iff.mp hcreateInfo).1
        simpa using this
      refine ⟨renderer, rfl, hi, by simp, ?_, ?_⟩
      · by_cases hij : i = j
        · subst hij
          rw [List.getElem?_set_self (by simpa using hj)] at hcreateInfo ⊢
          simp only [Option.some.injEq] at hcreateInfo
          subst hcreateInfo
          simp [snapshotEntry]
        · rw [List.getElem?_set_ne hij, List.getElem?_set_self hj]
          simp [snapshotEntry, Ne.symm hij]
      · intro k hkj ci hci
        by_cases hki : k = i
        · subst hki
          rw [List.getElem?_set_ne (Ne.symm hkj), hci] at hcreateInfo
          simp only [Option.some.injEq] at hcreateInfo
          subst hcreateInfo
          rw [List.getElem?_set_self (by simpa using hi), if_pos rfl]
        · rw [List.getElem?_set_ne (Ne.symm hki), List.getElem?_set_ne (Ne.symm hkj), hci,
            if_neg hki]

theorem resizeRendererCreateInfos_entries (i : Nat) (renderers rest : List (Option Renderer))
    (j : Nat) (acc infos : List RendererCreateInfo)
    (hrest : ∀ k, rest[k]? = renderers[j + k]?) (hlen : j + rest.length ≤ acc.length)
    (h : forEachState (resizeRendererCreateInfo i) (rest.enumFrom j) acc = some infos)
    (hacc : ∀ k < j, ∀ renderer, renderers[k]? = some (some renderer) →
      acc[k]? = some (snapshotEntry i k renderer)) :
    infos.length = acc.length ∧
    ∀ k < j + rest.length, ∀ renderer, renderers[k]? = some (some renderer) →
      infos[k]? = some (snapshotEntry i k renderer) := by
  induction rest generalizing j acc with
  | nil =>
    simp only [List.enumFrom_nil, forEachState, Option.some.injEq] at h
    subst h
    exact ⟨rfl, by simpa using hacc⟩
  | cons slot rest ih =>
    simp only [List.enumFrom_cons, forEachState] at h
    rw [List.length_cons] at hlen
    split at h
    · exact absurd h (by simp)
    · rename_i acc1 hstep
      obtain ⟨renderer, hslot, -, hlen1, hentry, hothers⟩ :=
        resizeRendererCreateInfo_entries i acc acc1 j slot (by omega) hstep
      have hj : renderers[j]? = some (some renderer) := by
        have := hrest 0
        simp only [List.getElem?_cons_zero, Nat.add_zero] at this
        rw [← this, hslot]
      obtain ⟨hlen', hall⟩ := ih (j + 1) acc1
        (fun k => by
          have := hrest (k + 1)
          rw [List.getElem?_cons_succ] at this
          rw [this]
          congr 1
          omega)
        (by omega) h (by
          intro k hk r hr
          by_cases hkj : k = j
          · subst hkj
            rw [hj] at hr
            simp only [Option.some.injEq] at hr
            subst hr
            exact hentry
          · rw [hothers k hkj _ (hacc k (by omega) r hr)]
            by_cases hki : k = i
            · subst hki
              simp [snapshotEntry]
            · rw [if_neg hki])
      refine ⟨hlen'.trans hlen1, ?_⟩
      intro k hk r hr
      exact hall k (by rw [List.length_cons] at hk; omega) r hr

theorem resizeRendererCreateInfos_isSome (i : Nat) (rest : List (Option Renderer)) (j : Nat)
    (acc : List RendererCreateInfo) (hnone : none ∉ rest) (hi : i < acc.length) :
    ∃ infos, forEachState (resizeRendererCreateInfo i) (rest.enumFrom j) acc = some infos := by
  induction rest generalizing j acc with
  | nil => exact ⟨acc, rfl⟩
  | cons slot rest ih =>
    cases slot with
    | none => exact absurd (List.mem_cons_self _ _) hnone
    | some renderer =>
      simp only [List.enumFrom_cons, forEachState]
      have hstep : ∃ acc1, resizeRendererCreateInfo i acc (j, some renderer) = some acc1 ∧
          acc1.length = acc.length := by
        unfold resizeRendererCreateInfo
        simp only
        rw [List.getElem?_eq_getElem (by simpa using hi)]
        exact ⟨_, rfl, by simp⟩
      obtain ⟨acc1, hacc1, hlen1⟩ := hstep
      rw [hacc1]
      exact ih (j + 1) acc1 (fun hmem => hnone (List.mem_cons_of_mem _ hmem)) (by omega)

/-- C26, as it is in the code: for the render pass of index `i` with `m` renderers, the
loop of lines 762-767 writes the entry `j` of the snapshot and the entry `i`, the index
of the render pass. With `1 ≤ m ≤ i` the entry `i` is outside the snapshot and the loop
is undefined. With `i < m` and no null renderer the loop is defined, and whenever it is
defined the entry `j` holds the creation parameters of renderer `j` with
`renderPassID = i`, with the extent (0, 0) at `j = i` and the extent of the renderer at
every other `j`. -/
theorem snapshot_entries (i : Nat) (renderers : List (Option Renderer)) :
    (renderers ≠ [] → renderers.length ≤ i → resizeRendererCreateInfos i renderers = none) ∧
    (none ∉ renderers → i < renderers.length →
      ∃ infos, resizeRendererCreateInfos i renderers = some infos) ∧
    (renderers = [] → resizeRendererCreateInfos i renderers = some []) ∧
    ∀ infos, resizeRendererCreateInfos i renderers = some infos →
      infos.length = renderers.length ∧
      ∀ j renderer, renderers[j]? = some (some renderer) →
        ∃ createInfo, infos[j]? = some createInfo ∧
          createInfo = snapshotEntry i j renderer ∧
          createInfo.renderPassID = (i : Int) ∧
          createInfo.pipelineCreateInfo.extent =
            (if j = i then ⟨0, 0⟩
              else renderer.getRendererCreateInfoStructure.pipelineCreateInfo.extent) := by
  refine ⟨resizeRendererCreateInfos_index i renderers, ?_, ?_, ?_⟩
  · intro hnone hi
    unfold resizeRendererCreateInfos
    exact resizeRendererCreateInfos_isSome i renderers 0 _ hnone (by simpa using hi)
  · intro hnil
    subst hnil
    rfl
  · intro infos h
    unfold resizeRendererCreateInfos at h
    obtain ⟨hlen, hall⟩ := resizeRendererCreateInfos_entries i renderers renderers 0 _ infos
      (fun k => by rw [Nat.zero_add]) (by simp) h
      (fun k hk => absurd hk (Nat.not_lt_zero k))
    rw [List.length_replicate] at hlen
    refine ⟨hlen, ?_⟩
    intro j renderer hj
    have hlt : j < renderers.length := (List.getElem?_eq_some_iff.mp hj).1
    exact ⟨_, hall j (by omega) renderer hj, rfl, rfl, rfl⟩

end Scene

namespace Example

set_option maxRecDepth 100000 in
/-- C26, as stated, fails on both counts. The render pass 0 of `twoRendererScene` is
bound to the swap chain and has two renderers with pipelines of 800 by 600 pixels: the
snapshot keeps the extent of renderer 1, and after `resize` to images of 1024 by 768
pixels the pipeline of renderer 1 still has 800 by 600. The render pass 1 of
`twoSwapChainPassScene` has one renderer: the loop writes the entry 1 of a snapshot of
one entry. -/
theorem snapshot_keeps_other_extents :
    twoRendererScene.pipelineExtents = [[some ⟨800, 600⟩, some ⟨800, 600⟩]] ∧
    ((twoRendererScene.m_sceneRenderPasses[0]?.bind fun pass =>
      Scene.resizeRendererCreateInfos 0 pass.renderers).map fun infos =>
        infos.map fun createInfo => createInfo.pipelineCreateInfo.extent) =
      some [⟨0, 0⟩, ⟨800, 600⟩] ∧
    (twoRendererScene.resize ⟨true, false⟩ driver resizedImages).map Scene.pipelineExtents =
      some [[some ⟨1024, 768⟩, some ⟨800, 600⟩]] ∧
    (twoSwapChainPassScene.m_sceneRenderPasses[1]?.map fun pass =>
      (pass.renderers.length, Scene.resizeRendererCreateInfos 1 pass.renderers)) =
      some (1, none) := by
  refine ⟨by rfl, by rfl, by rfl, by rfl⟩

/-- C26, as it is in the code, on the two renderers of `twoRendererScene`: the snapshot
of the render pass 0 has two entries that name the render pass 0, the first with the
extent (0, 0) and the second with the extent of its renderer. -/
theorem snapshot_entries_witness :
    ∃ pass infos, twoRendererScene.m_sceneRenderPasses[0]? = some pass ∧
      Scene.resizeRendererCreateInfos 0 pass.renderers = some infos ∧
      infos.length = 2 ∧
      (infos.map fun createInfo => createInfo.renderPassID) = [0, 0] := by
  obtain ⟨pass, hpass⟩ : ∃ pass, twoRendererScene.m_sceneRenderPasses[0]? = some pass :=
    ⟨_, rfl⟩
  have hrenderers : pass.renderers.length = 2 := by
    have := congrArg (Option.map fun pass : SceneRenderPass => pass.renderers.length) hpass
    exact (Option.some.inj this).symm
  obtain ⟨infos, hinfos⟩ :=
    (Scene.snapshot_entries 0 pass.renderers).2.1
      (by
        have := congrArg (Option.map fun pass : SceneRenderPass =>
          decide (none ∈ pass.renderers)) hpass
        have h2 := (Option.some.inj this).symm
        exact of_decide_eq_false h2)
      (by omega)
  obtain ⟨hlen, hall⟩ := (Scene.snapshot_entries 0 pass.renderers).2.2.2 infos hinfos
  refine ⟨pass, infos, hpass, hinfos, hlen.trans hrenderers, ?_⟩
  have hinfos' := hinfos
  have heval := congrArg (Option.bind · fun pass : SceneRenderPass =>
    (Scene.resizeRendererCreateInfos 0 pass.renderers).map fun infos =>
      infos.map fun createInfo => createInfo.renderPassID) hpass
  simp only [Option.some_bind, hinfos, Option.map_some'] at heval
  exact (Option.some.inj heval).symm

end Example

/-! ## The accumulator after a compute or ray-tracing registration -/

namespace Scene

theorem poolCount_addStorageImage (s : Scene) (n : Nat) (kind : DescriptorKind) :
    ({ s with m_descriptorPool := s.m_descriptorPool.addStorageImage n } : Scene).poolCount kind =
      s.poolCount kind + if kind = .storageImage then n else 0 := by
  cases kind <;> simp [poolCount, DescriptorPoolSizes.get, DescriptorPool.addStorageImage]

theorem sum_map_const {α : Type} (l : List α) (c : Nat) :
    (l.map fun _ => c).sum = l.length * c := by
  induction l with
  | nil => simp
  | cons x rest ih =>
    simp only [List.map_cons, List.sum_cons, ih, List.length_cons]
    rw [Nat.succ_mul]
    omega

theorem poolCount_addComputePassReplica (createInfo : ComputePassCreateInfo) (s : Scene)
    (ie : Nat × Image) (kind : DescriptorKind) :
    (addComputePassReplica createInfo s ie).poolCount kind =
      s.poolCount kind + kind.count createInfo.descriptorSetCreateInfo := by
  unfold addComputePassReplica
  simp only
  rw [poolCount_updateDescriptorPool]
  rfl

theorem poolCount_addComputePassSwapChain (s : Scene) (createInfo : ComputePassCreateInfo)
    (kind : DescriptorKind) :
    (s.addComputePassSwapChain createInfo).poolCount kind =
      s.poolCount kind + s.m_swapChainImages.length * kind.count createInfo.descriptorSetCreateInfo +
        if kind = .storageImage then s.m_swapChainImages.length else 0 := by
  unfold addComputePassSwapChain
  simp only
  rw [poolCount_foldl kind _ (fun _ => kind.count createInfo.descriptorSetCreateInfo)
    (fun t x => poolCount_addComputePassReplica createInfo t x kind), sum_map_const,
    List.enum_length]
  have : ∀ (t : Scene) f, (t.backComputePass f).poolCount kind = t.poolCount kind :=
    fun _ _ => rfl
  rw [this, poolCount_addStorageImage]
  simp only [backComputePass, backRayTracingPass]
  omega

theorem poolCount_addRayTracingPassReplica (rayTracingPassAddInfo : RayTracingPassAddInfo)
    (s : Scene) (ie : Nat × Image) (kind : DescriptorKind) :
    (addRayTracingPassReplica rayTracingPassAddInfo s ie).poolCount kind =
      s.poolCount kind +
        kind.count rayTracingPassAddInfo.rayTracingPassCreateInfo.descriptorSetCreateInfo := by
  unfold addRayTracingPassReplica
  simp only
  rw [poolCount_updateDescriptorPool]
  rfl

theorem poolCount_addRayTracingPassSwapChain (s : Scene)
    (rayTracingPassAddInfo : RayTracingPassAddInfo) (kind : DescriptorKind) :
    (s.addRayTracingPassSwapChain rayTracingPassAddInfo).poolCount kind =
      s.poolCount kind + s.m_swapChainImages.length *
          kind.count rayTracingPassAddInfo.rayTracingPassCreateInfo.descriptorSetCreateInfo +
        if kind = .storageImage then s.m_swapChainImages.length else 0 := by
  unfold addRayTracingPassSwapChain
  simp only
  rw [poolCount_foldl kind _
    (fun _ => kind.count rayTracingPassAddInfo.rayTracingPassCreateInfo.descriptorSetCreateInfo)
    (fun t x => poolCount_addRayTracingPassReplica rayTracingPassAddInfo t x kind),
    sum_map_const, List.enum_length]
  have : ∀ (t : Scene) f, (t.backRayTracingPass f).poolCount kind = t.poolCount kind :=
    fun _ _ => rfl
  rw [this, poolCount_addStorageImage]
  simp only [backComputePass, backRayTracingPass]
  omega

/-- C27: on a scene with `k` presentable images, a defined `addComputePass`, and likewise
a defined `addRayTracingPass`, with `outputIsSwapChain = true` adds to each counter of
the accumulator `k` times the count of its kind in the caller's description, and `k`
more to the counter of storage images; with `outputIsSwapChain = false` it adds the count
once and no storage image. The calls are defined, but for the pass bound to the swap
chain on a scene without presentable image. -/
theorem computePass_accumulates (s : Scene) (kind : DescriptorKind) :
    (∀ (createInfo : ComputePassCreateInfo),
      (createInfo.outputIsSwapChain = false ∨ 1 ≤ s.m_swapChainImages.length →
        ∃ s' handle, s.addComputePass createInfo = some (s', handle)) ∧
      ∀ (s' : Scene) (handle : Int), s.addComputePass createInfo = some (s', handle) →
        s'.poolCount kind = s.poolCount kind +
          if createInfo.outputIsSwapChain then
            s.m_swapChainImages.length * kind.count createInfo.descriptorSetCreateInfo +
              if kind = .storageImage then s.m_swapChainImages.length else 0
          else kind.count createInfo.descriptorSetCreateInfo) ∧
    (∀ (rayTracingPassAddInfo : RayTracingPassAddInfo),
      (rayTracingPassAddInfo.outputIsSwapChain = false ∨ 1 ≤ s.m_swapChainImages.length →
        ∃ s' handle, s.addRayTracingPass rayTracingPassAddInfo = some (s', handle)) ∧
      ∀ (s' : Scene) (handle : Int),
        s.addRayTracingPass rayTracingPassAddInfo = some (s', handle) →
        s'.poolCount kind = s.poolCount kind +
          if rayTracingPassAddInfo.outputIsSwapChain then
            s.m_swapChainImages.length *
                kind.count
                  rayTracingPassAddInfo.rayTracingPassCreateInfo.descriptorSetCreateInfo +
              if kind = .storageImage then s.m_swapChainImages.length else 0
          else
            kind.count
              rayTracingPassAddInfo.rayTracingPassCreateInfo.descriptorSetCreateInfo) := by
  have hback : ∀ (t : Scene) f, (t.backComputePass f).poolCount kind = t.poolCount kind :=
    fun _ _ => rfl
  have hbackR : ∀ (t : Scene) f, (t.backRayTracingPass f).poolCount kind = t.poolCount kind :=
    fun _ _ => rfl
  constructor
  · intro createInfo
    constructor
    · intro hdef
      cases hswap : createInfo.outputIsSwapChain with
      | false =>
        obtain ⟨t, ht, -⟩ := s.addComputePass_offscreen createInfo hswap
        exact ⟨_, _, ht⟩
      | true =>
        have hk : 1 ≤ s.m_swapChainImages.length := by
          rcases hdef with hd | hd
          · rw [hswap] at hd
            exact absurd hd (by simp)
          · exact hd
        obtain ⟨t, ht, -⟩ := s.addComputePass_swapChain createInfo hswap s.m_swapChainImages[0]
          (List.getElem?_eq_getElem (by omega))
        exact ⟨_, _, ht⟩
    · intro s' handle h
      unfold addComputePass at h
      cases hswap : createInfo.outputIsSwapChain with
      | false =>
        simp only [hswap, Bool.not_false, ↓reduceIte, Option.some.injEq] at h
        have h1 : Prod.fst _ = s' := congrArg Prod.fst h
        rw [← h1]
        simp only [finishComputePass, Bool.false_eq_true, ↓reduceIte]
        rw [hback]
        unfold addComputePassOffscreen
        simp only
        rw [poolCount_updateDescriptorPool, hback, hback]
        rfl
      | true =>
        simp only [hswap, Bool.not_true, Bool.false_eq_true, ↓reduceIte] at h
        split at h
        · exact absurd h (by simp)
        · simp only [Option.some.injEq] at h
          have h1 : Prod.fst _ = s' := congrArg Prod.fst h
          rw [← h1]
          simp only [finishComputePass, ↓reduceIte]
          rw [hback, poolCount_addComputePassSwapChain, Nat.add_assoc]
          rfl
  · intro rayTracingPassAddInfo
    constructor
    · intro hdef
      cases hswap : rayTracingPassAddInfo.outputIsSwapChain with
      | false =>
        obtain ⟨t, ht, -⟩ := s.addRayTracingPass_offscreen rayTracingPassAddInfo hswap
        exact ⟨_, _, ht⟩
      | true =>
        have hk : 1 ≤ s.m_swapChainImages.length := by
          rcases hdef with hd | hd
          · rw [hswap] at hd
            exact absurd hd (by simp)
          · exact hd
        obtain ⟨t, ht, -⟩ := s.addRayTracingPass_swapChain rayTracingPassAddInfo hswap
          s.m_swapChainImages[0] (List.getElem?_eq_getElem (by omega))
        exact ⟨_, _, ht⟩
    · intro s' handle h
      unfold addRayTracingPass at h
      cases hswap : rayTracingPassAddInfo.outputIsSwapChain with
      | false =>
        simp only [hswap, Bool.not_false, ↓reduceIte, Option.some.injEq] at h
        have h1 : Prod.fst _ = s' := congrArg Prod.fst h
        rw [← h1]
        simp only [finishRayTracingPass, Bool.false_eq_true, ↓reduceIte]
        rw [hbackR]
        unfold addRayTracingPassOffscreen
        simp only
        rw [poolCount_updateDescriptorPool, hbackR, hbackR]
        rfl
      | true =>
        simp only [hswap, Bool.not_true, Bool.false_eq_true, ↓reduceIte] at h
        split at h
        · exact absurd h (by simp)
        · simp only [Option.some.injEq] at h
          have h1 : Prod.fst _ = s' := congrArg Prod.fst h
          rw [← h1]
          simp only [finishRayTracingPass, ↓reduceIte]
          rw [hbackR, poolCount_addRayTracingPassSwapChain, Nat.add_assoc]
          rfl

end Scene

namespace Example

/-- C27 on three presentable images and a binding with two uniform buffers, one storage
image and one sampler: bound to the swap chain the compute pass counts 6 uniform
buffers, 3 + 3 storage images and 3 samplers; offscreen it counts 2, 1 and 1. -/
theorem computePass_accumulates_witness :
    (∃ s' handle, computeScene.addComputePass
        { outputIsSwapChain := true, descriptorSetCreateInfo := blurBinding } =
          some (s', handle) ∧
      s'.poolCount .uniformBuffer = 6 ∧ s'.poolCount .storageImage = 6 ∧
      s'.poolCount .sampler = 3) ∧
    ∃ s' handle, computeScene.addComputePass
        { outputIsSwapChain := false, descriptorSetCreateInfo := blurBinding } =
          some (s', handle) ∧
      s'.poolCount .uniformBuffer = 2 ∧ s'.poolCount .storageImage = 1 ∧
      s'.poolCount .sampler = 1 := by
  constructor
  · obtain ⟨s', handle, h⟩ := ((Scene.computePass_accumulates computeScene .uniformBuffer).1
      { outputIsSwapChain := true, descriptorSetCreateInfo := blurBinding }).1
      (Or.inr (by decide))
    refine ⟨s', handle, h, ?_, ?_, ?_⟩
    · exact ((Scene.computePass_accumulates computeScene .uniformBuffer).1 _).2 s' handle h
    · exact ((Scene.computePass_accumulates computeScene .storageImage).1 _).2 s' handle h
    · exact ((Scene.computePass_accumulates computeScene .sampler).1 _).2 s' handle h
  · obtain ⟨s', handle, h⟩ := ((Scene.computePass_accumulates computeScene .uniformBuffer).1
      { outputIsSwapChain := false, descriptorSetCreateInfo := blurBinding }).1
      (Or.inl rfl)
    refine ⟨s', handle, h, ?_, ?_, ?_⟩
    · exact ((Scene.computePass_accumulates computeScene .uniformBuffer).1 _).2 s' handle h
    · exact ((Scene.computePass_accumulates computeScene .storageImage).1 _).2 s' handle h
    · exact ((Scene.computePass_accumulates computeScene .sampler).1 _).2 s' handle h

end Example

/-! ## The extent of the framebuffer of an offscreen render pass -/

namespace Scene

/-- Lines 50-67 for an offscreen pass registered without an extent: the extent is read
from output 0 as the caller supplied it, before the loop that gives the outputs without
extent the extent of presentable image 0. -/
theorem prepareRenderPass_extent (s : Scene) (createInfo prepared : RenderPassCreateInfo)
    (output0 : RenderPassOutput) (rest : List RenderPassOutput)
    (hoff : createInfo.outputIsSwapChain = false) (hw : createInfo.extent.width = 0)
    (hout : createInfo.outputs = output0 :: rest)
    (h : s.prepareRenderPass createInfo = some (some prepared)) :
    prepared.extent = output0.attachment.extent ∧ prepared.outputIsSwapChain = false ∧
    s.offscreenOutputs (output0 :: rest) = some prepared.outputs := by
  unfold prepareRenderPass at h
  rw [if_neg (by simp [hoff]), if_neg (by simp [hout]), if_pos hw, hout] at h
  simp only [List.getElem?_cons_zero, Option.map_some'] at h
  rcases Option.eq_none_or_eq_some (s.offscreenOutputs (output0 :: rest)) with ho | ⟨outputs, ho⟩
  · rw [ho] at h
    exact absurd h (by simp)
  · rw [ho] at h
    simp only [Option.map_some', Option.some.injEq] at h
    subst h
    exact ⟨rfl, hoff, ho⟩

/-- C28, as it is in the code: for an offscreen `addRenderPass` with `extent.width = 0`
and a first output `output0`, the single framebuffer of the pass is built on the extent
of `output0` as the caller supplied it, while the extent stored for output 0 is that of
presentable image 0 when `output0` was supplied with a zero width or height. The two
are equal when `output0` was supplied with an extent, and differ otherwise unless
presentable image 0 has the supplied extent. -/
theorem offscreen_framebuffer_extent (s s' : Scene) (createInfo : RenderPassCreateInfo)
    (forceID handle : Int) (output0 : RenderPassOutput) (rest : List RenderPassOutput)
    (hoff : createInfo.outputIsSwapChain = false) (hw : createInfo.extent.width = 0)
    (hout : createInfo.outputs = output0 :: rest)
    (h : s.addRenderPass createInfo forceID = some (s', handle)) :
    ∃ entry renderPass stored0,
      0 ≤ handle ∧
      s'.m_sceneRenderPasses[handle.toNat]? = some entry ∧
      entry.renderPass = some renderPass ∧
      renderPass.m_framebuffers.map Framebuffer.getExtent = [output0.attachment.extent] ∧
      entry.outputs[0]? = some stored0 ∧
      (if output0.attachment.extent.width = 0 ∨ output0.attachment.extent.height = 0 then
        ∃ image0, s.m_swapChainImages[0]? = some image0 ∧
          stored0.attachment.extent = image0.extent
      else stored0.attachment.extent = output0.attachment.extent) := by
  rcases s.prepareRenderPass_cases createInfo with hp | hp | ⟨prepared, hp⟩
  · rw [addRenderPass_undefined s createInfo forceID hp] at h
    exact absurd h (by simp)
  · exfalso
    unfold prepareRenderPass at hp
    rw [if_neg (by simp [hoff]), if_neg (by simp [hout]), if_pos hw, hout] at hp
    simp only [List.getElem?_cons_zero, Option.map_some'] at hp
    cases hq : s.offscreenOutputs (output0 :: rest) with
    | none => simp [hq] at hp
    | some outputs => simp [hq] at hp
  · obtain ⟨hextent, hflag, houtputs⟩ :=
      prepareRenderPass_extent s createInfo prepared output0 rest hoff hw hout hp
    obtain ⟨last, h0, -, -, -, -, hentry⟩ :=
      addRenderPass_spec s s' createInfo prepared forceID handle hp h
    have hfb : (s.passObject prepared
        (last.outputs.map fun output => output.attachment)).m_framebuffers.map
          Framebuffer.getExtent = [output0.attachment.extent] := by
      unfold passObject
      rw [if_neg (by simp [hflag]), RenderPass.initializeExtents_eq, hextent]
      rfl
    unfold offscreenOutputs at houtputs
    by_cases hzero : output0.attachment.extent.width = 0 ∨ output0.attachment.extent.height = 0
    · rw [if_pos hzero] at houtputs
      rcases Option.eq_none_or_eq_some s.m_swapChainImages[0]? with hi | ⟨image0, hi⟩
      · rw [hi] at houtputs
        exact absurd houtputs (by simp)
      · rw [hi] at houtputs
        simp only [Option.map_eq_some'] at houtputs
        obtain ⟨rest', -, hstored⟩ := houtputs
        obtain ⟨stored0, hst, hext⟩ : ∃ stored0, prepared.outputs[0]? = some stored0 ∧
            stored0.attachment.extent = image0.extent := by
          rw [← hstored]
          exact ⟨_, List.getElem?_cons_zero, rfl⟩
        refine ⟨_, _, stored0, h0, hentry, rfl, hfb, hst, ?_⟩
        rw [if_pos hzero]
        exact ⟨image0, hi, hext⟩
    · rw [if_neg hzero] at houtputs
      simp only [Option.map_eq_some'] at houtputs
      obtain ⟨rest', -, hstored⟩ := houtputs
      obtain ⟨stored0, hst, hext⟩ : ∃ stored0, prepared.outputs[0]? = some stored0 ∧
          stored0.attachment.extent = output0.attachment.extent := by
        rw [← hstored]
        exact ⟨_, List.getElem?_cons_zero, rfl⟩
      refine ⟨_, _, stored0, h0, hentry, rfl, hfb, hst, ?_⟩
      rw [if_neg hzero]
      exact hext

end Scene

namespace Example

/-- C28, as stated, fails: an offscreen render pass registered with one output supplied
without an extent, on presentable images of 800 by 600 pixels, stores output 0 with the
extent 800 by 600 and builds its framebuffer on the extent 0 by 0. -/
theorem offscreen_framebuffer_zero_extent :
    (emptyScene.addRenderPass { outputs := [unsizedOutput] } (-1)).map
      (fun result => result.1.m_sceneRenderPasses.map fun pass =>
        (pass.outputs.map fun output => output.attachment.extent,
          pass.renderPass.map fun renderPass =>
            renderPass.m_framebuffers.map Framebuffer.getExtent)) =
      some [([⟨800, 600⟩], some [⟨0, 0⟩])] :=
  rfl

/-- C28, as it is in the code, on an offscreen pass with one output of 256 by 256
pixels: the framebuffer and the stored output have that extent. -/
theorem offscreen_framebuffer_extent_witness :
    ∃ s' entry renderPass stored0,
      emptyScene.addRenderPass { outputs := [colourOutput] } (-1) = some (s', 0) ∧
      s'.m_sceneRenderPasses[0]? = some entry ∧ entry.renderPass = some renderPass ∧
      renderPass.m_framebuffers.map Framebuffer.getExtent = [⟨256, 256⟩] ∧
      entry.outputs[0]? = some stored0 ∧ stored0.attachment.extent = ⟨256, 256⟩ := by
  obtain ⟨s', hs'⟩ : ∃ s', emptyScene.addRenderPass { outputs := [colourOutput] } (-1) =
      some (s', 0) := ⟨_, rfl⟩
  obtain ⟨entry, renderPass, stored0, -, hentry, hrp, hfb, hstored, hextent⟩ :=
    Scene.offscreen_framebuffer_extent emptyScene s' { outputs := [colourOutput] } (-1) 0
      colourOutput [] rfl rfl rfl hs'
  exact ⟨s', entry, renderPass, stored0, hs', hentry, hrp, hfb, hstored, hextent⟩

end Example

/-! ## No renderer slot is empty in a reachable scene -/

namespace Scene

theorem renderersPresent_of_passes (s t : Scene)
    (h : t.m_sceneRenderPasses = s.m_sceneRenderPasses) (hpresent : s.renderersPresent = true) :
    t.renderersPresent = true := by
  unfold renderersPresent at hpresent ⊢
  rw [h]
  exact hpresent

theorem renderersPresent_iff (s : Scene) :
    s.renderersPresent = true ↔ ∀ pass ∈ s.m_sceneRenderPasses, none ∉ pass.renderers := by
  constructor
  · exact fun h pass hpass => not_mem_none_of_renderersPresent s h pass hpass
  · intro h
    unfold renderersPresent
    rw [List.all_eq_true]
    intro pass hpass
    rw [List.all_eq_true]
    intro slot hslot
    cases slot with
    | none => exact absurd hslot (h pass hpass)
    | some r => rfl

theorem addRenderPass_renderersPresent (s s' : Scene) (createInfo : RenderPassCreateInfo)
    (forceID handle : Int) (h : s.addRenderPass createInfo forceID = some (s', handle))
    (hpresent : s.renderersPresent = true) : s'.renderersPresent = true := by
  rcases s.prepareRenderPass_cases createInfo with hp | hp | ⟨prepared, hp⟩
  · rw [addRenderPass_undefined s createInfo forceID hp] at h
    exact absurd h (by simp)
  · rw [addRenderPass_error s createInfo forceID hp] at h
    simp only [Option.some.injEq, Prod.mk.injEq] at h
    exact renderersPresent_of_passes s s' (by rw [← h.1]; rfl) hpresent
  · obtain ⟨renderPass, -, -, hpasses, -, -⟩ :=
      addRenderPass_entry s s' createInfo prepared forceID handle hp h
    rw [renderersPresent_iff] at hpresent ⊢
    intro pass hpass
    rw [hpasses] at hpass
    have hstored : none ∉ (storedEntry prepared renderPass).renderers :=
      fun hmem => absurd hmem (List.not_mem_nil _)
    split_ifs at hpass with hforce
    · rcases List.mem_append.mp hpass with hold | hnew
      · exact hpresent pass hold
      · rw [List.mem_singleton.mp hnew]
        exact hstored
    · rcases List.mem_or_eq_of_mem_set hpass with hold | hnew
      · exact hpresent pass hold
      · rw [hnew]
        exact hstored

theorem record_renderersPresent (build : Build) (driver : Driver) (s s' : Scene)
    (h : s.record build driver = some s') (hpresent : s.renderersPresent = true) :
    s'.renderersPresent = true := by
  obtain ⟨-, -, hpasses, -, -⟩ := record_cases build driver s s' h
  have hcreated := (renderersPresent_created build driver s).trans hpresent
  unfold renderersPresent at hcreated ⊢
  rw [hpasses]
  exact hcreated

theorem resize_renderersPresent (build : Build) (driver : Driver) (s s' : Scene)
    (swapChainImages : List Image) (h : s.resize build driver swapChainImages = some s')
    (hpresent : s.renderersPresent = true) : s'.renderersPresent = true := by
  obtain ⟨t, ht, hrecord⟩ := resize_eq_some build driver s s' swapChainImages h
  exact record_renderersPresent build driver _ s' hrecord
    (renderersPresent_of_passes t _ rfl
      ((resizeRenderPasses_keeps build _ t ht).2.2
        (renderersPresent_of_passes s _ rfl hpresent)))

/-- C29: in every scene reached from construction by defined calls of `addRenderPass`,
`addRenderer`, `addMesh`, `resize` (and of the other registrations and `record`), every
renderer slot of every render pass holds a renderer; so the loop of `record` over the
presentable images never takes the early return, whatever images and buffers it is run
on, neither in a `record` called on the scene nor in the `record` that a `resize` of
the scene runs after its loop over the render passes. -/
theorem reachable_renderers_present (build : Build) (driver : Driver) (s : Scene)
    (h : Reachable build driver s) :
    s.renderersPresent = true ∧
    (∀ pass ∈ s.m_sceneRenderPasses, ∀ slot ∈ pass.renderers, ∃ renderer, slot = some renderer) ∧
    (∀ l buffers buffers',
      (s.created build driver).recordSwapChainLoop l buffers ≠ some (buffers', true)) ∧
    (∀ swapChainImages t,
      Scene.resizeRenderPasses build { s with m_swapChainImages := swapChainImages } = some t →
      ∀ l buffers buffers',
        (t.resetCommandBuffers.created build driver).recordSwapChainLoop l buffers ≠
          some (buffers', true)) := by
  have hpresent : s.renderersPresent = true := by
    induction h with
    | create => rfl
    | createOVR => rfl
    | addRenderPass s s' createInfo forceID handle _ hstep ih =>
      exact addRenderPass_renderersPresent s s' createInfo forceID handle hstep ih
    | addRenderer s s' createInfo handle _ hstep ih =>
      exact (addRenderer_keeps build s s' createInfo handle hstep).2.2 ih
    | addMesh s s' addMeshInfo _ hstep ih =>
      exact (addMesh_keeps s s' addMeshInfo hstep).2.2 ih
    | addComputePass s s' createInfo handle _ hstep ih =>
      obtain ⟨_, -, -, hpasses, -⟩ := addComputePass_result s s' createInfo handle hstep
      exact renderersPresent_of_passes s s' hpasses ih
    | addRayTracingPass s s' rayTracingPassAddInfo handle _ hstep ih =>
      obtain ⟨_, -, -, hpasses, -⟩ :=
        addRayTracingPass_result s s' rayTracingPassAddInfo handle hstep
      exact renderersPresent_of_passes s s' hpasses ih
    | addTransfer s transferAddInfo _ ih =>
      obtain ⟨_, -, -, hpasses, -⟩ := addTransfer_result s transferAddInfo
      exact renderersPresent_of_passes s _ hpasses ih
    | addCommandBuffer s createInfo _ ih =>
      have hpasses := congrArg Scene.m_sceneRenderPasses (addCommandBuffer_eq s createInfo).2
      exact renderersPresent_of_passes s _ hpasses ih
    | record s s' _ hstep ih => exact record_renderersPresent build driver s s' hstep ih
    | resize s s' swapChainImages _ hstep ih =>
      exact resize_renderersPresent build driver s s' swapChainImages hstep ih
  have hloop : ∀ t : Scene, t.renderersPresent = true → ∀ l buffers buffers',
      (t.created build driver).recordSwapChainLoop l buffers ≠ some (buffers', true) := by
    intro t ht l buffers buffers' hreturned
    obtain ⟨pass, hpass, hnone⟩ := recordSwapChainLoop_returned _ l buffers buffers' hreturned
    exact not_mem_none_of_renderersPresent _
      ((renderersPresent_created build driver t).trans ht) pass hpass hnone
  refine ⟨hpresent, ?_, hloop s hpresent, ?_⟩
  · intro pass hpass slot hslot
    cases slot with
    | none => exact absurd hslot (not_mem_none_of_renderersPresent s hpresent pass hpass)
    | some renderer => exact ⟨renderer, rfl⟩
  · intro swapChainImages t ht
    exact hloop _ (renderersPresent_of_passes t _ rfl
      ((resizeRenderPasses_keeps build _ t ht).2.2
        (renderersPresent_of_passes s _ rfl hpresent)))

end Scene

namespace Example

/-- The scene `quadScene`, with one render pass, one renderer and one mesh, is reachable.
It is used to illustrate C29. -/
theorem reachable_quadScene : Scene.Reachable ⟨true, false⟩ driver quadScene :=
  .addMesh oneRendererScene quadScene
    { renderPassID := 0, rendererID := 0, vertexBuffer := ⟨100, 6, 101⟩ }
    (.addRenderer onePassScene oneRendererScene { renderPassID := 0 } 0
      (.addRenderPass emptyScene onePassScene
        { commandBufferID := -1, outputIsSwapChain := true } (-1) 0
        (.create ⟨.GRAPHICS⟩ ⟨126⟩ [image 10, image 11, image 12] 1 2) (by rfl))
      (by rfl))
    (by rfl)

/-- C29 on `quadScene`, and on the scene a `resize` to two presentable images makes of
it: no renderer slot is empty. -/
theorem reachable_renderers_present_witness :
    Scene.Reachable ⟨true, false⟩ driver quadScene ∧ quadScene.renderersPresent = true ∧
    ∃ s', quadScene.resize ⟨true, false⟩ driver [image 20, image 21] = some s' ∧
      s'.renderersPresent = true := by
  obtain ⟨s', hs'⟩ : ∃ s', quadScene.resize ⟨true, false⟩ driver [image 20, image 21] =
      some s' := ⟨_, rfl⟩
  exact ⟨reachable_quadScene,
    (Scene.reachable_renderers_present ⟨true, false⟩ driver quadScene reachable_quadScene).1,
    s', hs',
    (Scene.reachable_renderers_present ⟨true, false⟩ driver s'
      (.resize quadScene s' [image 20, image 21] reachable_quadScene hs')).1⟩

end Example

/-! ## The replicas `record` reads in compute and ray-tracing mode -/

theorem forEachCommands_mem {α : Type} (body : α → Option (List Command)) (l : List α)
    (commands : List Command) (h : forEachCommands body l = some commands) :
    ∀ x ∈ l, ∃ cs, body x = some cs := by
  induction l generalizing commands with
  | nil => exact fun x hx => absurd hx (List.not_mem_nil _)
  | cons y rest ih =>
    simp only [forEachCommands] at h
    split at h
    · exact absurd h (by simp)
    · rename_i cs hcs
      split at h
      · exact absurd h (by simp)
      · rename_i others hothers
        intro x hx
        rcases List.mem_cons.mp hx with rfl | hx
        · exact ⟨cs, hcs⟩
        · exact ih others hothers x hx

namespace Scene

/-- In compute mode `record` reads the replica `i` of every compute pass with
`commandBufferID = -1` for every presentable image `i`: it is undefined when such a pass
has fewer replicas than there are presentable images. -/
theorem record_computeReplica_missing (build : Build) (driver : Driver) (s : Scene)
    (hmode : s.m_swapChainCommandType = .COMPUTE) (pass : SceneComputePass)
    (hpass : pass ∈ s.m_sceneComputePasses) (hid : pass.commandBufferID = -1)
    (hlen : pass.computePasses.length < s.m_swapChainImages.length) :
    s.record build driver = none := by
  rcases Option.eq_none_or_eq_some (s.record build driver) with h | ⟨s', h⟩
  · exact h
  · exfalso
    obtain ⟨-, -, himages⟩ := record_swapChain_spec build driver s s' h
      (by rw [hmode]; decide)
    obtain ⟨commands, hc, -⟩ := himages pass.computePasses.length
      (s.m_swapChainImages[pass.computePasses.length]) (List.getElem?_eq_getElem hlen)
    unfold recordSwapChainImage at hc
    have hmode' : (s.created build driver).m_swapChainCommandType = .COMPUTE := hmode
    rw [hmode'] at hc
    simp only [Option.map_eq_some', Prod.mk.injEq, and_true] at hc
    obtain ⟨commands', hc', -⟩ := hc
    obtain ⟨cs, hcs⟩ := forEachCommands_mem _ _ _ hc'
      (pass.created s.m_descriptorPool.allocate.getDescriptorPool)
      (List.mem_map.mpr ⟨pass, hpass, rfl⟩)
    rw [recordSwapChainComputePass_eq _ _ _
      (show (pass.created _).commandBufferID = -1 from hid)] at hcs
    simp [SceneComputePass.created] at hcs

/-- The same in ray-tracing mode, for the ray-tracing passes. -/
theorem record_rayTracingReplica_missing (build : Build) (driver : Driver) (s : Scene)
    (hmode : s.m_swapChainCommandType = .RAY_TRACING) (pass : SceneRayTracingPass)
    (hpass : pass ∈ s.m_sceneRayTracingPasses) (hid : pass.commandBufferID = -1)
    (hlen : pass.rayTracingPasses.length < s.m_swapChainImages.length) :
    s.record build driver = none := by
  rcases Option.eq_none_or_eq_some (s.record build driver) with h | ⟨s', h⟩
  · exact h
  · exfalso
    obtain ⟨-, -, himages⟩ := record_swapChain_spec build driver s s' h
      (by rw [hmode]; decide)
    obtain ⟨commands, hc, -⟩ := himages pass.rayTracingPasses.length
      (s.m_swapChainImages[pass.rayTracingPasses.length]) (List.getElem?_eq_getElem hlen)
    unfold recordSwapChainImage at hc
    have hmode' : (s.created build driver).m_swapChainCommandType = .RAY_TRACING := hmode
    rw [hmode'] at hc
    simp only [Option.map_eq_some', Prod.mk.injEq, and_true] at hc
    obtain ⟨commands', hc', -⟩ := hc
    obtain ⟨cs, hcs⟩ := forEachCommands_mem _ _ _ hc'
      (pass.created s.m_descriptorPool.allocate.getDescriptorPool)
      (List.mem_map.mpr ⟨pass, hpass, rfl⟩)
    rw [recordSwapChainRayTracingPass_eq _ _ _
      (show (pass.created _).commandBufferID = -1 from hid)] at hcs
    simp [SceneRayTracingPass.created] at hcs

/-- The entry a defined `addComputePass` appends: one replica per presentable image when
the pass is bound to the swap chain, a single replica otherwise, none of them null; the
presentable images and the mode of the scene are unchanged. -/
theorem addComputePass_replicas (s s' : Scene) (createInfo : ComputePassCreateInfo)
    (handle : Int) (h : s.addComputePass createInfo = some (s', handle)) :
    ∃ pass, s'.m_sceneComputePasses = s.m_sceneComputePasses ++ [pass] ∧
      pass.commandBufferID = createInfo.commandBufferID ∧
      pass.computePasses.length =
        (if createInfo.outputIsSwapChain then s.m_swapChainImages.length else 1) ∧
      none ∉ pass.computePasses ∧
      s'.m_swapChainImages = s.m_swapChainImages ∧
      s'.m_swapChainCommandType = s.m_swapChainCommandType := by
  cases hswap : createInfo.outputIsSwapChain with
  | false =>
    obtain ⟨t, ht, he⟩ := s.addComputePass_offscreen createInfo hswap
    rw [ht] at h
    simp only [Option.some.injEq, Prod.mk.injEq] at h
    obtain ⟨rfl, rfl⟩ := h
    have himages := congrArg Scene.m_swapChainImages he
    have hmode := congrArg Scene.m_swapChainCommandType he
    exact ⟨_, (registries_of_withComputePasses he).1, rfl, rfl, by simp [computeEntryOffscreen],
      himages, hmode⟩
  | true =>
    rcases Option.eq_none_or_eq_some (s.m_swapChainImages[0]?) with h0 | ⟨image0, h0⟩
    · rw [addComputePass_swapChain_noImage s createInfo hswap (by simpa using h0)] at h
      exact absurd h (by simp)
    · obtain ⟨t, ht, he⟩ := s.addComputePass_swapChain createInfo hswap image0 h0
      rw [ht] at h
      simp only [Option.some.injEq, Prod.mk.injEq] at h
      obtain ⟨rfl, rfl⟩ := h
      have himages := congrArg Scene.m_swapChainImages he
      have hmode := congrArg Scene.m_swapChainCommandType he
      exact ⟨_, (registries_of_withComputePasses he).1, rfl,
        by simp [computeEntrySwapChain], by simp [computeEntrySwapChain], himages, hmode⟩

/-- The entry a defined `addRayTracingPass` appends, as for `addComputePass`. -/
theorem addRayTracingPass_replicas (s s' : Scene)
    (rayTracingPassAddInfo : RayTracingPassAddInfo) (handle : Int)
    (h : s.addRayTracingPass rayTracingPassAddInfo = some (s', handle)) :
    ∃ pass, s'.m_sceneRayTracingPasses = s.m_sceneRayTracingPasses ++ [pass] ∧
      pass.commandBufferID = rayTracingPassAddInfo.commandBufferID ∧
      pass.rayTracingPasses.length =
        (if rayTracingPassAddInfo.outputIsSwapChain then s.m_swapChainImages.length else 1) ∧
      none ∉ pass.rayTracingPasses ∧
      s'.m_swapChainImages = s.m_swapChainImages ∧
      s'.m_swapChainCommandType = s.m_swapChainCommandType := by
  cases hswap : rayTracingPassAddInfo.outputIsSwapChain with
  | false =>
    obtain ⟨t, ht, he⟩ := s.addRayTracingPass_offscreen rayTracingPassAddInfo hswap
    rw [ht] at h
    simp only [Option.some.injEq, Prod.mk.injEq] at h
    obtain ⟨rfl, rfl⟩ := h
    have himages := congrArg Scene.m_swapChainImages he
    have hmode := congrArg Scene.m_swapChainCommandType he
    exact ⟨_, (registries_of_withRayTracingPasses he).1, rfl, rfl,
      by simp [rayTracingEntryOffscreen], himages, hmode⟩
  | true =>
    rcases Option.eq_none_or_eq_some (s.m_swapChainImages[0]?) with h0 | ⟨image0, h0⟩
    · rw [addRayTracingPass_swapChain_noImage s rayTracingPassAddInfo hswap
        (by simpa using h0)] at h
      exact absurd h (by simp)
    · obtain ⟨t, ht, he⟩ := s.addRayTracingPass_swapChain rayTracingPassAddInfo hswap image0 h0
      rw [ht] at h
      simp only [Option.some.injEq, Prod.mk.injEq] at h
      obtain ⟨rfl, rfl⟩ := h
      have himages := congrArg Scene.m_swapChainImages he
      have hmode := congrArg Scene.m_swapChainCommandType he
      exact ⟨_, (registries_of_withRayTracingPasses he).1, rfl,
        by simp [rayTracingEntrySwapChain], by simp [rayTracingEntrySwapChain], himages, hmode⟩

/-- C30, as it is in the code. A compute pass registered with `outputIsSwapChain = true`
gets one replica per presentable image, so the replica `i` exists for every image index
`i`; a compute pass registered with `outputIsSwapChain = false` gets a single replica.
In compute mode `record` reads the replica `i` of every compute pass with
`commandBufferID = -1` for every image index `i`, whatever its `outputIsSwapChain`: with
two presentable images or more, `record` is undefined right after such a pass is
registered with `outputIsSwapChain = false`. The same holds of the ray-tracing passes in
ray-tracing mode. -/
theorem swapChain_replica_access (build : Build) (driver : Driver) (s : Scene) :
    (∀ createInfo s' handle, s.addComputePass createInfo = some (s', handle) →
      ∃ pass, s'.m_sceneComputePasses = s.m_sceneComputePasses ++ [pass] ∧
        (createInfo.outputIsSwapChain = true →
          ∀ i, i < s'.m_swapChainImages.length →
            ∃ replica, pass.computePasses[i]? = some (some replica)) ∧
        (createInfo.outputIsSwapChain = false →
          pass.computePasses.length = 1 ∧
          (s.m_swapChainCommandType = .COMPUTE → createInfo.commandBufferID = -1 →
            2 ≤ s.m_swapChainImages.length → s'.record build driver = none))) ∧
    (∀ rayTracingPassAddInfo s' handle,
      s.addRayTracingPass rayTracingPassAddInfo = some (s', handle) →
      ∃ pass, s'.m_sceneRayTracingPasses = s.m_sceneRayTracingPasses ++ [pass] ∧
        (rayTracingPassAddInfo.outputIsSwapChain = true →
          ∀ i, i < s'.m_swapChainImages.length →
            ∃ replica, pass.rayTracingPasses[i]? = some (some replica)) ∧
        (rayTracingPassAddInfo.outputIsSwapChain = false →
          pass.rayTracingPasses.length = 1 ∧
          (s.m_swapChainCommandType = .RAY_TRACING →
            rayTracingPassAddInfo.commandBufferID = -1 →
            2 ≤ s.m_swapChainImages.length → s'.record build driver = none))) ∧
    (s.m_swapChainCommandType = .COMPUTE →
      ∀ pass ∈ s.m_sceneComputePasses, pass.commandBufferID = -1 →
        pass.computePasses.length < s.m_swapChainImages.length →
        s.record build driver = none) ∧
    (s.m_swapChainCommandType = .RAY_TRACING →
      ∀ pass ∈ s.m_sceneRayTracingPasses, pass.commandBufferID = -1 →
        pass.rayTracingPasses.length < s.m_swapChainImages.length →
        s.record build driver = none) := by
  refine ⟨?_, ?_, fun hmode pass hpass hid hlen =>
      record_computeReplica_missing build driver s hmode pass hpass hid hlen,
    fun hmode pass hpass hid hlen =>
      record_rayTracingReplica_missing build driver s hmode pass hpass hid hlen⟩
  · intro createInfo s' handle h
    obtain ⟨pass, hpasses, hid, hlen, hnone, himages, hmode⟩ :=
      addComputePass_replicas s s' createInfo handle h
    refine ⟨pass, hpasses, ?_, ?_⟩
    · intro hswap i hi
      rw [hswap, if_pos rfl] at hlen
      rw [himages, ← hlen] at hi
      rw [List.getElem?_eq_getElem hi]
      cases hslot : pass.computePasses[i] with
      | none => exact absurd (hslot ▸ List.getElem_mem hi) hnone
      | some replica => exact ⟨replica, rfl⟩
    · intro hswap
      rw [hswap] at hlen
      refine ⟨hlen, fun hcompute hminus hk => ?_⟩
      exact record_computeReplica_missing build driver s' (hmode.trans hcompute) pass
        (by rw [hpasses]; exact List.mem_append_right _ (List.mem_singleton.mpr rfl))
        (hid.trans hminus) (by rw [himages]; simp only [Bool.false_eq_true, ↓reduceIte] at hlen; omega)
  · intro rayTracingPassAddInfo s' handle h
    obtain ⟨pass, hpasses, hid, hlen, hnone, himages, hmode⟩ :=
      addRayTracingPass_replicas s s' rayTracingPassAddInfo handle h
    refine ⟨pass, hpasses, ?_, ?_⟩
    · intro hswap i hi
      rw [hswap, if_pos rfl] at hlen
      rw [himages, ← hlen] at hi
      rw [List.getElem?_eq_getElem hi]
      cases hslot : pass.rayTracingPasses[i] with
      | none => exact absurd (hslot ▸ List.getElem_mem hi) hnone
      | some replica => exact ⟨replica, rfl⟩
    · intro hswap
      rw [hswap] at hlen
      refine ⟨hlen, fun hray hminus hk => ?_⟩
      exact record_rayTracingReplica_missing build driver s' (hmode.trans hray) pass
        (by rw [hpasses]; exact List.mem_append_right _ (List.mem_singleton.mpr rfl))
        (hid.trans hminus) (by rw [himages]; simp only [Bool.false_eq_true, ↓reduceIte] at hlen; omega)

end Scene

namespace Example

/-- C30, as stated, fails: in compute mode with three presentable images, a compute pass
registered with `commandBufferID = -1` and `outputIsSwapChain = false` has one replica,
and `record` is undefined; likewise for a ray-tracing pass in ray-tracing mode. The same
passes registered with `outputIsSwapChain = true` have three replicas and `record` is
defined. -/
theorem record_offscreen_replica_undefined :
    (offscreenComputeScene.m_sceneComputePasses.map fun pass =>
      (pass.commandBufferID, pass.outputIsSwapChain, pass.computePasses.length)) =
      [(-1, false, 1)] ∧
    offscreenComputeScene.m_swapChainImages.length = 3 ∧
    offscreenComputeScene.record ⟨true, false⟩ driver = none ∧
    (offscreenRayTracingScene.m_sceneRayTracingPasses.map fun pass =>
      (pass.commandBufferID, pass.outputIsSwapChain, pass.rayTracingPasses.length)) =
      [(-1, false, 1)] ∧
    offscreenRayTracingScene.record ⟨true, false⟩ driver = none ∧
    (oneRayTracingPassScene.m_sceneRayTracingPasses.map fun pass =>
      (pass.commandBufferID, pass.outputIsSwapChain, pass.rayTracingPasses.length)) =
      [(-1, true, 3)] ∧
    (oneRayTracingPassScene.record ⟨true, false⟩ driver).isSome = true := by
  refine ⟨by rfl, by rfl, by rfl, by rfl, by rfl, by rfl, by rfl⟩

/-- C30, as it is in the code, on the registration that makes `offscreenComputeScene`:
the pass has one replica and `record` is undefined after it. -/
theorem swapChain_replica_access_witness :
    ∃ s' handle pass,
      computeScene.addComputePass
        { name := "blur", commandBufferID := -1, outputIsSwapChain := false,
          extent := ⟨64, 64⟩, dispatchGroups := ⟨8, 8, 1⟩ } = some (s', handle) ∧
      s'.m_sceneComputePasses = computeScene.m_sceneComputePasses ++ [pass] ∧
      pass.computePasses.length = 1 ∧
      s'.record ⟨true, false⟩ driver = none := by
  obtain ⟨s', handle, hs'⟩ : ∃ s' handle, computeScene.addComputePass
      { name := "blur", commandBufferID := -1, outputIsSwapChain := false,
        extent := ⟨64, 64⟩, dispatchGroups := ⟨8, 8, 1⟩ } = some (s', handle) :=
    ⟨_, _, rfl⟩
  obtain ⟨pass, hpasses, -, hoff⟩ :=
    (Scene.swapChain_replica_access ⟨true, false⟩ driver computeScene).1 _ s' handle hs'
  obtain ⟨hlen, hrecord⟩ := hoff rfl
  exact ⟨s', handle, pass, hs', hpasses, hlen, hrecord rfl rfl (by decide)⟩

end Example

/-! ## The compute and ray-tracing passes across `resize` -/

namespace Scene

/-- A defined `record` leaves the compute and ray-tracing passes as they were, with
`create` called on every replica. -/
theorem record_replicas (build : Build) (driver : Driver) (s s' : Scene)
    (h : s.record build driver = some s') :
    s'.m_sceneComputePasses = s.m_sceneComputePasses.map
      (SceneComputePass.created s.m_descriptorPool.allocate.getDescriptorPool) ∧
    s'.m_sceneRayTracingPasses = s.m_sceneRayTracingPasses.map
      (SceneRayTracingPass.created s.m_descriptorPool.allocate.getDescriptorPool) ∧
    s'.m_swapChainImages = s.m_swapChainImages := by
  unfold record at h
  rw [createPipelines_eq] at h
  by_cases hrep : s.replicasPresent = true
  · rw [if_pos hrep] at h
    simp only at h
    split at h
    · exact absurd h (by simp)
    · simp only [Option.some.injEq] at h
      subst h
      exact ⟨rfl, rfl, rfl⟩
    · simp only [Option.map_eq_some'] at h
      obtain ⟨streams, -, rfl⟩ := h
      exact ⟨rfl, rfl, rfl⟩
  · rw [if_neg hrep] at h
    exact absurd h (by simp)

/-- The loop of `resize` over the render passes leaves the registries of compute and
ray-tracing passes, the presentable images and the mode as they are. -/
theorem resizeRenderPasses_replicas (build : Build) (s t : Scene)
    (h : s.resizeRenderPasses build = some t) :
    t.m_sceneComputePasses = s.m_sceneComputePasses ∧
    t.m_sceneRayTracingPasses = s.m_sceneRayTracingPasses ∧
    t.m_swapChainImages = s.m_swapChainImages ∧
    t.m_swapChainCommandType = s.m_swapChainCommandType := by
  obtain ⟨herase, -, -⟩ := resizeRenderPasses_keeps build s t h
  have h1 := congrArg Scene.m_sceneComputePasses herase
  have h2 := congrArg Scene.m_sceneRayTracingPasses herase
  have h3 := congrArg Scene.m_swapChainImages herase
  have h4 := congrArg Scene.m_swapChainCommandType herase
  exact ⟨h1, h2, h3, h4⟩

/-- C23, as it is in the code: `resize` does not regenerate the compute and ray-tracing
passes. After a defined `resize` every compute and ray-tracing pass has the replicas it
had, in order, on which the `record` run by `resize` has called `create`: their number
is the number of presentable images at registration, and the storage-image binding of
each is the one it had, to a presentable image of before the resize. In compute mode
`resize` is undefined when a compute pass with `commandBufferID = -1` has fewer replicas
than there are new images, and likewise in ray-tracing mode. -/
theorem resize_keeps_replicas (build : Build) (driver : Driver) (s : Scene)
    (swapChainImages : List Image) :
    (∀ s', s.resize build driver swapChainImages = some s' →
      s'.m_swapChainImages = swapChainImages ∧
      ∃ pool,
        s'.m_sceneComputePasses = s.m_sceneComputePasses.map (SceneComputePass.created pool) ∧
        s'.m_sceneRayTracingPasses =
          s.m_sceneRayTracingPasses.map (SceneRayTracingPass.created pool) ∧
        (∀ (j : Nat) (pass : SceneComputePass), s.m_sceneComputePasses[j]? = some pass →
          ∃ pass', s'.m_sceneComputePasses[j]? = some pass' ∧
            pass'.computePasses.length = pass.computePasses.length ∧
            ∀ (i : Nat) (replica : ComputePass),
              pass.computePasses[i]? = some (some replica) →
              ∃ replica', pass'.computePasses[i]? = some (some replica') ∧
                replica'.descriptorSetCreateInfo = replica.descriptorSetCreateInfo ∧
                lastBoundImage replica'.descriptorSetCreateInfo =
                  lastBoundImage replica.descriptorSetCreateInfo) ∧
        (∀ (j : Nat) (pass : SceneRayTracingPass),
          s.m_sceneRayTracingPasses[j]? = some pass →
          ∃ pass', s'.m_sceneRayTracingPasses[j]? = some pass' ∧
            pass'.rayTracingPasses.length = pass.rayTracingPasses.length ∧
            ∀ (i : Nat) (replica : RayTracingPass),
              pass.rayTracingPasses[i]? = some (some replica) →
              ∃ replica', pass'.rayTracingPasses[i]? = some (some replica') ∧
                replica'.rayTracingPassCreateInfo = replica.rayTracingPassCreateInfo ∧
                lastBoundImage replica'.rayTracingPassCreateInfo.descriptorSetCreateInfo =
                  lastBoundImage replica.rayTracingPassCreateInfo.descriptorSetCreateInfo) ∧
        s'.computeTargets = s.computeTargets ∧
        s'.rayTracingTargets = s.rayTracingTargets) ∧
    (s.m_swapChainCommandType = .COMPUTE →
      ∀ pass ∈ s.m_sceneComputePasses, pass.commandBufferID = -1 →
        pass.computePasses.length < swapChainImages.length →
        s.resize build driver swapChainImages = none) ∧
    (s.m_swapChainCommandType = .RAY_TRACING →
      ∀ pass ∈ s.m_sceneRayTracingPasses, pass.commandBufferID = -1 →
        pass.rayTracingPasses.length < swapChainImages.length →
        s.resize build driver swapChainImages = none) := by
  refine ⟨?_, ?_, ?_⟩
  · intro s' h
    obtain ⟨t, ht, hrecord⟩ := resize_eq_some build driver s s' swapChainImages h
    obtain ⟨hc, hr, himages, -⟩ := resizeRenderPasses_replicas build _ t ht
    obtain ⟨hc', hr', hi'⟩ := record_replicas build driver _ s' hrecord
    have himages' : s'.m_swapChainImages = swapChainImages := by
      rw [hi']
      exact himages
    refine ⟨himages', t.m_descriptorPool.allocate.getDescriptorPool, ?_, ?_, ?_, ?_, ?_, ?_⟩
    · rw [hc']
      exact congrArg (List.map _) hc
    · rw [hr']
      exact congrArg (List.map _) hr
    · intro j pass hj
      refine ⟨pass.created t.m_descriptorPool.allocate.getDescriptorPool, ?_, ?_, ?_⟩
      · rw [hc']
        show (List.map _ t.m_sceneComputePasses)[j]? = _
        rw [hc, List.getElem?_map, hj]
        rfl
      · simp [SceneComputePass.created]
      · intro i replica hi
        refine ⟨replica.create t.m_descriptorPool.allocate.getDescriptorPool, ?_, rfl, rfl⟩
        simp [SceneComputePass.created, hi]
    · intro j pass hj
      refine ⟨pass.created t.m_descriptorPool.allocate.getDescriptorPool, ?_, ?_, ?_⟩
      · rw [hr']
        show (List.map _ t.m_sceneRayTracingPasses)[j]? = _
        rw [hr, List.getElem?_map, hj]
        rfl
      · simp [SceneRayTracingPass.created]
      · intro i replica hi
        refine ⟨replica.create t.m_descriptorPool.allocate.getDescriptorPool, ?_, rfl, rfl⟩
        simp [SceneRayTracingPass.created, hi]
    · unfold computeTargets
      rw [hc']
      show List.map _ (List.map _ t.m_sceneComputePasses) = _
      rw [hc, List.map_map]
      apply List.map_congr_left
      intro pass _
      simp only [Function.comp_apply, SceneComputePass.created, List.map_map]
      apply List.map_congr_left
      intro slot _
      cases slot <;> rfl
    · unfold rayTracingTargets
      rw [hr']
      show List.map _ (List.map _ t.m_sceneRayTracingPasses) = _
      rw [hr, List.map_map]
      apply List.map_congr_left
      intro pass _
      simp only [Function.comp_apply, SceneRayTracingPass.created, List.map_map]
      apply List.map_congr_left
      intro slot _
      cases slot <;> rfl
  · intro hmode pass hpass hid hlen
    rcases Option.eq_none_or_eq_some (s.resize build driver swapChainImages) with h | ⟨s', h⟩
    · exact h
    · exfalso
      obtain ⟨t, ht, hrecord⟩ := resize_eq_some build driver s s' swapChainImages h
      obtain ⟨hc, -, himages, hmode'⟩ := resizeRenderPasses_replicas build _ t ht
      have hnone := record_computeReplica_missing build driver t.resetCommandBuffers
        (hmode'.trans hmode) pass (by rw [← hc] at hpass; exact hpass) hid
        (by
          show _ < t.m_swapChainImages.length
          rw [himages]
          exact hlen)
      rw [hnone] at hrecord
      exact absurd hrecord (by simp)
  · intro hmode pass hpass hid hlen
    rcases Option.eq_none_or_eq_some (s.resize build driver swapChainImages) with h | ⟨s', h⟩
    · exact h
    · exfalso
      obtain ⟨t, ht, hrecord⟩ := resize_eq_some build driver s s' swapChainImages h
      obtain ⟨-, hr, himages, hmode'⟩ := resizeRenderPasses_replicas build _ t ht
      have hnone := record_rayTracingReplica_missing build driver t.resetCommandBuffers
        (hmode'.trans hmode) pass (by rw [← hr] at hpass; exact hpass) hid
        (by
          show _ < t.m_swapChainImages.length
          rw [himages]
          exact hlen)
      rw [hnone] at hrecord
      exact absurd hrecord (by simp)

end Scene

namespace Example

set_option maxRecDepth 100000 in
/-- C23, as stated, fails. The two compute passes of `twoComputePassScene` are bound to
the swap chain, with three presentable images of handles 10, 11 and 12. After `resize`
to the two images of handles 13 and 14 each pass still has three replicas, which write
to the images 10, 11 and 12, and the command buffer of the new image 0 dispatches the
replica that writes to the image 10. `resize` to four images is undefined. -/
theorem resize_stale_replicas :
    twoComputePassScene.computeTargets =
      [[some 10, some 11, some 12], [some 10, some 11, some 12]] ∧
    resizedImages.map (fun image => image.image) = [13, 14] ∧
    (twoComputePassScene.resize ⟨true, false⟩ driver resizedImages).map Scene.computeTargets =
      some [[some 10, some 11, some 12], [some 10, some 11, some 12]] ∧
    twoComputePassScene.resize ⟨true, false⟩ driver
      [image 20, image 21, image 22, image 23] = none := by
  refine ⟨by rfl, by rfl, by rfl, by rfl⟩

set_option maxRecDepth 100000 in
/-- C23, as it is in the code, on the resize of `twoComputePassScene` to two images: the
replicas write to the images they wrote to before. -/
theorem resize_keeps_replicas_witness :
    ∃ s', twoComputePassScene.resize ⟨true, false⟩ driver resizedImages = some s' ∧
      s'.m_swapChainImages = resizedImages ∧
      s'.computeTargets = [[some 10, some 11, some 12], [some 10, some 11, some 12]] := by
  obtain ⟨s', hs'⟩ : ∃ s', twoComputePassScene.resize ⟨true, false⟩ driver resizedImages =
      some s' := ⟨_, rfl⟩
  obtain ⟨himages, pool, -, -, -, -, htargets, -⟩ :=
    (Scene.resize_keeps_replicas ⟨true, false⟩ driver twoComputePassScene
      resizedImages).1 s' hs'
  exact ⟨s', hs', himages, htargets.trans (by rfl)⟩

end Example

/-! ## Text meshes and presentable images without extent -/

namespace Example

set_option maxRecDepth 100000 in
/-- C14, as stated, fails on a scene built with `addText`. In `offscreenFirstScene` render
pass 0 is offscreen with one renderer and render pass 1 is bound to the swap chain;
`addText` adds a text to renderer 0 of render pass 1 and stores its mesh info with the ids
of a value-initialised `AddMeshInfo`. With the ids 0 and 0, `resize` is defined, in a
debug and in a release build, and re-adds the text to renderer 0 of the offscreen render
pass 0, which had no mesh and now has the text mesh with vertex buffer 110. With the ids
-1 and -1, `resize` indexes the render passes out of range and is not defined. -/
theorem resize_moves_text_mesh :
    (offscreenFirstScene.m_sceneRenderPasses.map fun pass =>
      (pass.outputIsSwapChain, pass.renderers.length)) = [(false, 1), (true, 2)] ∧
    offscreenFirstScene.meshInfoIDs = [[[]], [[], []]] ∧
    textSceneWith 0 0 = some textScene ∧
    textScene.meshInfosInPlace = false ∧
    textScene.meshInfoIDs = [[[]], [[(0, 0)], []]] ∧
    textScene.meshBuffers = [[[]], [[110], []]] ∧
    ((textScene.resize ⟨true, false⟩ driver resizedImages).map fun s =>
      (s.meshInfoIDs, s.meshBuffers)) = some ([[[(0, 0)]], [[], []]], [[[110]], [[], []]]) ∧
    ((textScene.resize ⟨false, true⟩ driver resizedImages).map fun s =>
      (s.meshInfoIDs, s.meshBuffers)) = some ([[[(0, 0)]], [[], []]], [[[110]], [[], []]]) ∧
    ((textSceneWith (-1) (-1)).map fun s =>
      (s.meshInfoIDs, s.resize ⟨true, false⟩ driver resizedImages,
        s.resize ⟨false, true⟩ driver resizedImages)) =
      some ([[[]], [[(-1, -1)], []]], none, none) := by
  refine ⟨by rfl, by rfl, by rfl, by rfl, by rfl, by rfl, by rfl, by rfl, by rfl⟩

/-- C19, as stated, fails when presentable image 0 has no extent: in `flatScene` the
presentable images are 0 by 0, `addRenderPass` with an offscreen target and one output
supplied without extent succeeds with handle 0, and the output is stored with the extent
0 by 0 of presentable image 0. -/
theorem offscreen_output_zero_extent :
    (flatScene.m_swapChainImages.map fun image => image.extent) = [⟨0, 0⟩, ⟨0, 0⟩] ∧
    unsizedOutput.attachment.extent = ⟨0, 0⟩ ∧
    ((flatScene.addRenderPass { outputs := [unsizedOutput] } (-1)).map fun result =>
      (result.2, result.1.m_sceneRenderPasses.map fun pass =>
        (pass.outputIsSwapChain, pass.outputs.map fun output => output.attachment.extent))) =
      some (0, [(false, [⟨0, 0⟩])]) := by
  refine ⟨by rfl, by rfl, by rfl⟩

end Example

/-! ## The allocation of the descriptor pool -/

namespace Scene

theorem silent_refl (s : Scene) : Silent s s :=
  ⟨rfl, [], by simp, fun _ h => absurd h (List.not_mem_nil _)⟩

end Scene

namespace Example

end Example

end Wolf
